import Mathlib

/-!
# Real-to-complex FFT planner (kernels/fft/rfft/rfft_host.cpp)

A shallow embedding of the host-side planner of the real FFT: the size policy
`makeRFFT1dPolicy`, the workspace address allocators, and the pipeline
executors `execRFFT1d` / `execRFFT2d`.

Conventions of the embedding.

* Element counts, extents and byte sizes are natural numbers: the plan only
  stores non-negative extents.  Signed differences (pad amounts,
  backward-growing offsets) are integers.
* The `int` products from which makeRFFT1dPolicy and
  configureRFFT1dMatmulWorkspaceAddrs derive their byte counts (`batch * n`,
  `batch * FFT_HALF(n)`) and the extent `n` of the column multiply of the 2D
  matmul strategy are reduced to the 32-bit two's-complement range (`int32`);
  the `size_t` arithmetic of these two functions on the workspace byte counts
  is taken modulo 2^64 (`sizeOfInt`, `size_t`).  The other products (of
  transform lengths, of extents handed on to a collaborator, of the reserved
  area) are taken exactly.
* A device pointer is a pair of a base buffer and a byte offset (`Addr`).
* Every call into a collaborator (backend primitive, descriptor helper, device
  kernel launch) is recorded in a trace; its returned status is supplied by a
  `Backend`, which may depend on the calls issued so far.
* Constants, helper queries and strategy selection that live outside this file
  of the repository are fields of `Env`.

Two further, separate parts: `RoiPointPool3d` covers the null-pointer checks of
`mluOpRoiPointPool3d` as exercised by its parameter tests
(test/mlu_op_gtest/api_gtest/src/gtest/roipoint_pool3d/roipoint_pool3d.cpp);
`RoiAlignRotatedForward` covers the CPU reference of roi_align_rotated_forward
(test/mlu_op_gtest/pb_gtest/src/zoo/roi_align_rotated_forward/roi_align_rotated_forward.cpp).
-/

set_option linter.unusedTactic false
set_option linter.unreachableTactic false
set_option linter.unnecessarySeqFocus false

namespace RFFT

/-! ## Basic types -/

/-- Status codes returned by every planner and executor function.  The
enumeration is declared outside this file, which names MLUOP_STATUS_SUCCESS and
MLUOP_STATUS_NOT_SUPPORTED; the other constructors stand for the remaining
codes a collaborator can report. -/
inductive mluOpStatus_t where
  | MLUOP_STATUS_SUCCESS
  | MLUOP_STATUS_NOT_INITIALIZED
  | MLUOP_STATUS_ALLOC_FAILED
  | MLUOP_STATUS_BAD_PARAM
  | MLUOP_STATUS_INTERNAL_ERROR
  | MLUOP_STATUS_ARCH_MISMATCH
  | MLUOP_STATUS_EXECUTION_FAILED
  | MLUOP_STATUS_NOT_SUPPORTED
  | MLUOP_STATUS_NUMERICAL_OVERFLOW
  deriving DecidableEq, Repr

open mluOpStatus_t

/-- Element types of the tensors the planner handles.  The enumeration is
declared outside this file, which names MLUOP_DTYPE_FLOAT; byte widths are
supplied by `Env.mluOpDataTypeBytes`. -/
inductive mluOpDataType_t where
  | MLUOP_DTYPE_INVALID
  | MLUOP_DTYPE_HALF
  | MLUOP_DTYPE_FLOAT
  | MLUOP_DTYPE_COMPLEX_HALF
  | MLUOP_DTYPE_COMPLEX_FLOAT
  deriving DecidableEq, Repr

open mluOpDataType_t

/-- Values of `fft_plan->fft_strategy`.  The enumeration is declared outside
this file, which names every constructor but CNFFT_FUNC_FOUR_STEP; that one
stands for a strategy the real-FFT code has no case for. -/
inductive FFTStrategy where
  | CNFFT_FUNC_MATMUL
  | CNFFT_FUNC_STOCKHAM
  | CNFFT_FUNC_FOUR_STEP
  | CNFFT_FUNC_COOLEY_TUKEY
  | CNFFT_FUNC_TWO_LEVEL_STOCKHAM
  | CNFFT_FUNC_MANY_DIST1_2D
  deriving DecidableEq, Repr

open FFTStrategy

/-- The buffer a device pointer points into: the caller's input, output and
workspace buffers, the plan's reserved buffer, or a scratch buffer obtained
from the device allocator during a call. -/
inductive Base where
  | null
  | input
  | output
  | workspace
  | reservespace
  | scratch
  deriving DecidableEq, Repr

/-- A device pointer: a base buffer plus a signed byte offset. -/
structure Addr where
  base : Base
  off : Int
  deriving DecidableEq, Repr

/-- The null pointer. -/
def Addr.nullptr : Addr := ⟨Base.null, 0⟩

/-- Pointer arithmetic `(uint8_t *)p + d`. -/
def Addr.add (p : Addr) (d : Int) : Addr := ⟨p.base, p.off + d⟩

/-- Pointer arithmetic `(uint8_t *)p - d`. -/
def Addr.sub (p : Addr) (d : Int) : Addr := ⟨p.base, p.off - d⟩

/-- A C `float`, represented by its IEEE-754 bit pattern. -/
structure CFloat where
  bits : Nat
  deriving DecidableEq, Repr

/-- The literal `1.0` (the only bit pattern comparing equal to one). -/
def CFloat.one : CFloat := ⟨0x3F800000⟩

/-- The literal `0.0`. -/
def CFloat.zero : CFloat := ⟨0⟩

/-- Addresses held in `fft_plan->matmul_addrs`. -/
structure MatmulAddrs where
  dft_matrix_addr : Addr
  dft_re_matrix_addr : Addr
  dft_im_matrix_addr : Addr
  input_contiguous_addr : Addr
  input_pad_addr : Addr
  input_transed_addr : Addr
  matmul_re_mul_re_addr : Addr
  matmul_re_mul_im_addr : Addr
  output_contiguous_addr : Addr
  internal_workspace_addr : Addr
  internal_workspace_size : Nat
  deriving DecidableEq, Repr

/-- Addresses held in `fft_plan->mlu_addrs`. -/
structure MluAddrs where
  input : Addr
  output : Addr
  buffer_buf : Addr
  buffer_in : Addr
  buffer_out : Addr
  input_pad_addr : Addr
  dft_matrix : Addr
  dft_matrix_2d : Addr
  deriving DecidableEq, Repr

/-- The fields of `mluOpFFTPlan_t` read or written by the real-FFT host code. -/
structure FFTPlan where
  n0 : Nat
  n1 : Nat
  batch : Nat
  inum : Nat
  onum : Nat
  inembed0 : Nat
  inembed1 : Nat
  onembed0 : Nat
  idist : Int
  istride : Int
  odist : Int
  ostride : Int
  in_stride : List Int
  out_stride : List Int
  input_dtype : mluOpDataType_t
  execution_dtype : mluOpDataType_t
  output_dtype : mluOpDataType_t
  is_input_contiguous : Bool
  is_output_contiguous : Bool
  fft_strategy : FFTStrategy
  prime : Bool
  L : Nat
  m : Nat
  L_sub : Nat
  reservespace_size : Nat
  workspace_size : Nat
  reservespace_addr : Addr
  matmul_addrs : MatmulAddrs
  mlu_addrs : MluAddrs
  deriving DecidableEq, Repr

/-- The fields of `mluOpHandle_t` the planner reads. -/
structure Handle where
  arch : Nat
  deriving DecidableEq, Repr

/-- Everything the planner takes from outside rfft_host.cpp: the byte width of
a data type, the device-tier length limits, the architecture threshold, the
strategy selector, and the three backend scratch-size queries.  Each query
returns its status together with the value it leaves in its size argument. -/
structure Env where
  mluOpDataTypeBytes : mluOpDataType_t → Nat
  FFT_L_LIMIT_MATMUL_300 : Nat
  FFT_L_LIMIT_MATMUL_500 : Nat
  MLUOP_MLU370 : Nat
  selectFFTStrategy : Handle → FFTPlan → mluOpStatus_t × FFTPlan
  fftGetMatMulWorkspaceSize :
    (m k n : Nat) → (is_trans_a is_trans_b : Bool) →
    (a_compute_type b_compute_type data_type : mluOpDataType_t) → mluOpStatus_t × Nat
  fftGetTransposeWorkspaceSize :
    (dim_num : Nat) → (ori_dims : List Nat) → (permute : List Nat) →
    (data_type : mluOpDataType_t) → mluOpStatus_t × Nat
  fftGetBatchMatMulBcastWorkspaceSize :
    (m k n batch : Nat) → (a_ptr b_ptr c_ptr : Addr) → (is_trans_a is_trans_b : Bool) →
    (a_compute_type b_compute_type data_type : mluOpDataType_t) →
    (workspace : Addr) → (workspace_size : Nat) → mluOpStatus_t × Nat

/-! ## Constants and arithmetic helpers -/

/-- Modelled from the spec: the macro `FFT_HALF` is declared outside this file;
the spec and the comments at its uses ("[(n / 2 + 1), 2, n]") give `n / 2 + 1`. -/
def FFT_HALF (n : Nat) : Nat := n / 2 + 1

/-- Modelled from the spec: the constant `COMPLEX` is declared outside this
file; a complex number has a real and an imaginary part. -/
def COMPLEX : Nat := 2

/-- Modelled from the spec: the constant `FFT_L_LIMIT` is declared outside this
file; the spec and the error message at its use give the hard limit 4096. -/
def FFT_L_LIMIT : Nat := 4096

/-- Modelled from the spec: the macro `PAD_UP` is declared outside this file;
it rounds its first argument up to the next multiple of the second. -/
def PAD_UP (x y : Nat) : Nat := (x / y + (if x % y > 0 then 1 else 0)) * y

/-- The value of an `int` expression whose exact value is `z`: the integer of
the range `-2^31 .. 2^31 - 1` that is congruent to `z` modulo 2^32 (a product
that leaves the range wraps around). -/
def int32 (z : Int) : Int := (z + 2 ^ 31) % 2 ^ 32 - 2 ^ 31

/-- The conversion of an `int` to `size_t`: the residue modulo 2^64. -/
def sizeOfInt (z : Int) : Nat := (z % 2 ^ 64).toNat

/-- The result of an addition or of a multiplication of `size_t` operands
whose exact value is `n`: the residue modulo 2^64. -/
def size_t (n : Nat) : Nat := n % 2 ^ 64

/-- The byte count of `a * b` elements of `size` bytes each as makeRFFT1dPolicy
and configureRFFT1dMatmulWorkspaceAddrs compute it: the element count is an
`int` product, the byte count a `size_t` product. -/
def countedBytes (size a b : Nat) : Nat :=
  size_t (size * sizeOfInt (int32 ((a * b : Nat) : Int)))

/-! ## Strategy selection and size planning -/

/-- The function selectRFFT1dStrategy: presets the direct-matmul strategy and
defers to the shared selector. -/
def selectRFFT1dStrategy (env : Env) (handle : Handle) (fft_plan : FFTPlan) :
    mluOpStatus_t × FFTPlan :=
  let fft_plan := { fft_plan with fft_strategy := CNFFT_FUNC_MATMUL }
  env.selectFFTStrategy handle fft_plan

/-- The `case CNFFT_FUNC_MATMUL` block of makeRFFT1dPolicy; the argument
`FFT_L_LIMIT_MATMUL` is the local variable of that name. -/
def makeRFFT1dPolicy_MATMUL (env : Env) (FFT_L_LIMIT_MATMUL : Nat) (fft_plan : FFTPlan) :
    mluOpStatus_t × FFTPlan :=
  let in_r_dtype := fft_plan.input_dtype
  let in_e_dtype := fft_plan.execution_dtype
  let in_r_dtype_size := env.mluOpDataTypeBytes in_r_dtype
  let batch := fft_plan.batch
  let n := fft_plan.n0
  if n > FFT_L_LIMIT_MATMUL then (MLUOP_STATUS_NOT_SUPPORTED, fft_plan) else
  let dim0 := FFT_HALF n
  let dim1 := COMPLEX
  let dim2 := n
  let dft_mat_num := dim0 * dim1 * dim2
  -- reservespace size allocation
  let reservespace_size := 0 + dft_mat_num * in_r_dtype_size
  -- workspace size allocation
  let internal_workspace_size := 0
  let workspace_size := 0
  -- input contiguous
  let input_size := size_t (in_r_dtype_size * fft_plan.inum)
  let workspace_size :=
    size_t (workspace_size + (if fft_plan.is_input_contiguous then 0 else input_size))
  -- input pad
  let need_pad : Bool := fft_plan.inembed0 != n
  let padded_input_num : Int := int32 ((batch * n : Nat) : Int)
  let padded_input_size := size_t (in_r_dtype_size * sizeOfInt padded_input_num)
  let workspace_size := size_t (workspace_size + (if need_pad then padded_input_size else 0))
  -- matmul workspace
  let q := env.fftGetMatMulWorkspaceSize batch dim2 (dim0 * dim1) false true
    in_e_dtype in_e_dtype in_r_dtype
  let status := q.1
  let internal_workspace_size := max internal_workspace_size q.2
  -- output contiguous
  let padded_output_num : Int := int32 ((batch * FFT_HALF n : Nat) : Int)
  let padded_output_size :=
    size_t (env.mluOpDataTypeBytes fft_plan.output_dtype * sizeOfInt padded_output_num)
  let workspace_size :=
    size_t (workspace_size + (if fft_plan.is_output_contiguous then 0 else padded_output_size))
  -- internal workspace
  let workspace_size := size_t (workspace_size + internal_workspace_size)
  (status,
    { fft_plan with
      reservespace_size := reservespace_size
      workspace_size := workspace_size
      matmul_addrs :=
        { fft_plan.matmul_addrs with internal_workspace_size := internal_workspace_size } })

/-- The `case CNFFT_FUNC_COOLEY_TUKEY: case CNFFT_FUNC_STOCKHAM:` block of
makeRFFT1dPolicy.  The status of the transpose query is overwritten by the
status of the matmul query that follows it, as in the source. -/
def makeRFFT1dPolicy_COMPOSITE (env : Env) (fft_plan : FFTPlan) : mluOpStatus_t × FFTPlan :=
  let in_r_dtype := fft_plan.input_dtype
  let in_e_dtype := fft_plan.execution_dtype
  let in_r_dtype_size := env.mluOpDataTypeBytes in_r_dtype
  let batch := fft_plan.batch
  let n := fft_plan.n0
  let L := fft_plan.L
  let m := 2 ^ fft_plan.m
  if L > FFT_L_LIMIT then (MLUOP_STATUS_NOT_SUPPORTED, fft_plan) else
  let dft_mat_times := COMPLEX
  let dim0 := L
  let dim1 := L
  let dft_mat_num := dft_mat_times * dim0 * dim1
  -- reservespace size allocation
  let reservespace_size := 0 + dft_mat_num * in_r_dtype_size
  -- workspace size allocation
  let internal_workspace_size := 0
  let workspace_size := 0
  -- input contiguous
  let input_size := size_t (in_r_dtype_size * fft_plan.inum)
  let workspace_size :=
    size_t (workspace_size + (if fft_plan.is_input_contiguous then 0 else input_size))
  -- input pad
  let need_pad : Bool := fft_plan.inembed0 != n
  let padded_input_num : Int := int32 ((batch * n : Nat) : Int)
  let padded_input_size := size_t (in_r_dtype_size * sizeOfInt padded_input_num)
  let workspace_size := size_t (workspace_size + (if need_pad then padded_input_size else 0))
  -- input trans
  let transed_input_size := padded_input_size
  let workspace_size := size_t (workspace_size + transed_input_size)
  -- input trans workspace: batch * L * 2^m --> batch * 2^m * L
  let trans_dim_num := 3
  let qt := env.fftGetTransposeWorkspaceSize trans_dim_num [batch, L, m] [0, 2, 1] in_r_dtype
  let internal_workspace_size := max internal_workspace_size qt.2
  -- matmul output
  let matmul_times := COMPLEX
  let per_matmul_output_num : Int := int32 ((batch * n : Nat) : Int)
  let matmul_output_size :=
    size_t (size_t (matmul_times * in_r_dtype_size) * sizeOfInt per_matmul_output_num)
  let workspace_size := size_t (workspace_size + matmul_output_size)
  -- matmul workspace
  let qm : mluOpStatus_t × Nat :=
    if fft_plan.fft_strategy = CNFFT_FUNC_COOLEY_TUKEY then
      let q := env.fftGetMatMulWorkspaceSize (batch * m) L L false true
        in_e_dtype in_e_dtype in_r_dtype
      (q.1, max internal_workspace_size q.2)
    else
      env.fftGetBatchMatMulBcastWorkspaceSize
        (if L ≤ fft_plan.L_sub then 2 * L else 2 * (PAD_UP (L / 2) fft_plan.L_sub + 1))
        L m batch fft_plan.matmul_addrs.dft_re_matrix_addr
        fft_plan.matmul_addrs.input_pad_addr fft_plan.matmul_addrs.matmul_re_mul_re_addr
        false false in_e_dtype in_e_dtype in_r_dtype
        fft_plan.matmul_addrs.internal_workspace_addr internal_workspace_size
  let status := qm.1
  let internal_workspace_size := qm.2
  -- output merge workspace
  let merge_workspace_size := matmul_output_size
  let internal_workspace_size := max internal_workspace_size merge_workspace_size
  -- output contiguous
  let output_size := size_t (env.mluOpDataTypeBytes fft_plan.output_dtype * fft_plan.onum)
  let workspace_size :=
    size_t (workspace_size + (if fft_plan.is_output_contiguous then 0 else output_size))
  -- internal workspace
  let workspace_size := size_t (workspace_size + internal_workspace_size)
  (status,
    { fft_plan with
      reservespace_size := reservespace_size
      workspace_size := workspace_size
      matmul_addrs :=
        { fft_plan.matmul_addrs with internal_workspace_size := internal_workspace_size } })

/-- The function makeRFFT1dPolicy: reserved size and workspace size of a 1D
plan.  The two `case` blocks of its `switch` are the two functions above. -/
def makeRFFT1dPolicy (env : Env) (handle : Handle) (fft_plan : FFTPlan) :
    mluOpStatus_t × FFTPlan :=
  let sel := selectRFFT1dStrategy env handle fft_plan
  if sel.1 ≠ MLUOP_STATUS_SUCCESS then sel else
  let fft_plan := sel.2
  let FFT_L_LIMIT_MATMUL :=
    if handle.arch > env.MLUOP_MLU370 then env.FFT_L_LIMIT_MATMUL_500
    else env.FFT_L_LIMIT_MATMUL_300
  match fft_plan.fft_strategy with
  | CNFFT_FUNC_MATMUL => makeRFFT1dPolicy_MATMUL env FFT_L_LIMIT_MATMUL fft_plan
  | CNFFT_FUNC_COOLEY_TUKEY | CNFFT_FUNC_STOCKHAM => makeRFFT1dPolicy_COMPOSITE env fft_plan
  | _ => (MLUOP_STATUS_NOT_SUPPORTED, fft_plan)

/-! ## Address allocation -/

/-- The body of configureRFFT1dMatmulWorkspaceAddrs.  Besides the plan with its
address table filled in, the final values of the two local accumulators
`workspace_cur_offset` (forward-growing) and `workspace_cur_offset_to_end`
(backward-growing) are returned. -/
def configureRFFT1dMatmulWorkspaceAddrsAux (env : Env) (fft_plan : FFTPlan)
    (input workspace output : Addr) : FFTPlan × Nat × Nat :=
  let workspace_cur_offset : Nat := 0
  let workspace_cur_offset_to_end : Nat := 0
  let workspace_total_size := fft_plan.workspace_size
  let workspace_end := workspace.add workspace_total_size
  let in_r_dtype := fft_plan.input_dtype
  let in_r_dtype_size := env.mluOpDataTypeBytes in_r_dtype
  let batch := fft_plan.batch
  let n := fft_plan.n0
  -- input contiguous
  let input_size := size_t (in_r_dtype_size * fft_plan.inum)
  let input_contiguous_addr :=
    if !fft_plan.is_input_contiguous then workspace.add workspace_cur_offset else input
  let workspace_cur_offset :=
    if !fft_plan.is_input_contiguous then size_t (workspace_cur_offset + input_size)
    else workspace_cur_offset
  -- input pad
  let need_pad : Bool := fft_plan.inembed0 != n
  let padded_input_num : Int := int32 ((batch * n : Nat) : Int)
  let padded_input_size := size_t (in_r_dtype_size * sizeOfInt padded_input_num)
  let input_pad_addr :=
    if need_pad then workspace.add workspace_cur_offset else input_contiguous_addr
  let workspace_cur_offset :=
    if need_pad then size_t (workspace_cur_offset + padded_input_size)
    else workspace_cur_offset
  -- input trans
  let composite : Bool :=
    fft_plan.fft_strategy = CNFFT_FUNC_COOLEY_TUKEY ||
      fft_plan.fft_strategy = CNFFT_FUNC_STOCKHAM
  let input_transed_addr :=
    if composite then workspace.add workspace_cur_offset else input_pad_addr
  let workspace_cur_offset :=
    if composite then size_t (workspace_cur_offset + padded_input_size)
    else workspace_cur_offset
  -- internal workspace
  let workspace_cur_offset_to_end :=
    size_t (workspace_cur_offset_to_end + fft_plan.matmul_addrs.internal_workspace_size)
  let internal_workspace_addr := workspace_end.sub workspace_cur_offset_to_end
  -- output contiguous
  let output_size := size_t (env.mluOpDataTypeBytes fft_plan.output_dtype * fft_plan.onum)
  let workspace_cur_offset_to_end :=
    if !fft_plan.is_output_contiguous then size_t (workspace_cur_offset_to_end + output_size)
    else workspace_cur_offset_to_end
  let output_contiguous_addr :=
    if !fft_plan.is_output_contiguous then workspace_end.sub workspace_cur_offset_to_end
    else output
  -- matmul output
  let per_matmul_output_num : Int := int32 ((batch * n : Nat) : Int)
  let per_matmul_output_size := size_t (in_r_dtype_size * sizeOfInt per_matmul_output_num)
  let matmul_re_mul_im_addr :=
    if composite then
      workspace_end.sub (size_t (workspace_cur_offset_to_end + per_matmul_output_size) : Nat)
    else Addr.nullptr
  let matmul_re_mul_re_addr :=
    if composite then
      workspace_end.sub
        (size_t (size_t (workspace_cur_offset_to_end + per_matmul_output_size) +
          per_matmul_output_size) : Nat)
    else Addr.nullptr
  let workspace_cur_offset_to_end :=
    if composite then
      size_t (size_t (workspace_cur_offset_to_end + per_matmul_output_size) +
        per_matmul_output_size)
    else workspace_cur_offset_to_end
  ({ fft_plan with
      matmul_addrs :=
        { fft_plan.matmul_addrs with
          input_contiguous_addr := input_contiguous_addr
          input_pad_addr := input_pad_addr
          input_transed_addr := input_transed_addr
          internal_workspace_addr := internal_workspace_addr
          output_contiguous_addr := output_contiguous_addr
          matmul_re_mul_im_addr := matmul_re_mul_im_addr
          matmul_re_mul_re_addr := matmul_re_mul_re_addr } },
    workspace_cur_offset, workspace_cur_offset_to_end)

/-- The function configureRFFT1dMatmulWorkspaceAddrs: the address table of the
1D matmul-family path. -/
def configureRFFT1dMatmulWorkspaceAddrs (env : Env) (fft_plan : FFTPlan)
    (input workspace output : Addr) : FFTPlan :=
  (configureRFFT1dMatmulWorkspaceAddrsAux env fft_plan input workspace output).1

/-- The function configureRFFT1dWorkspaceAddrs: the address table of the 1D
butterfly path. -/
def configureRFFT1dWorkspaceAddrs (env : Env) (fft_plan : FFTPlan)
    (input workspace output : Addr) : FFTPlan :=
  let out_c_dtype := fft_plan.output_dtype
  let out_c_dtype_size := env.mluOpDataTypeBytes out_c_dtype
  let batch := fft_plan.batch
  let nfft := fft_plan.n0
  let buffer_size := batch * out_c_dtype_size * nfft
  let offset : Nat := 0
  let buffer_buf := workspace.add offset
  let offset := offset + buffer_size * 2
  let keep_input : Bool :=
    fft_plan.is_input_contiguous && decide (fft_plan.inembed0 ≤ fft_plan.n0)
  let mlu_input := if keep_input then input else workspace.add offset
  let offset := if keep_input then offset else offset + buffer_size
  let mlu_output := if fft_plan.is_output_contiguous then output else workspace.add offset
  let offset := if fft_plan.is_output_contiguous then offset else offset + buffer_size
  let input_pad_addr :=
    if fft_plan.n0 > fft_plan.inembed0 then workspace.add offset
    else fft_plan.mlu_addrs.input_pad_addr
  { fft_plan with
    mlu_addrs :=
      { fft_plan.mlu_addrs with
        buffer_buf := buffer_buf
        input := mlu_input
        output := mlu_output
        input_pad_addr := input_pad_addr } }

/-- The function configureRFFT2dWorkspaceAddrs: the address table of the 2D paths. -/
def configureRFFT2dWorkspaceAddrs (env : Env) (fft_plan : FFTPlan)
    (input workspace output : Addr) : FFTPlan :=
  let out_c_dtype := fft_plan.output_dtype
  let out_c_dtype_size := env.mluOpDataTypeBytes out_c_dtype
  let batch := fft_plan.batch
  let n0_ori := fft_plan.n0
  let n1_ori := fft_plan.n1
  let offset : Nat := 0
  -- strategy CNFFT_FUNC_MANY_DIST1_2D
  let many : Bool := fft_plan.fft_strategy = CNFFT_FUNC_MANY_DIST1_2D
  let buffer_size := batch * out_c_dtype_size * n0_ori * n1_ori * 2
  let a := fft_plan.mlu_addrs
  let a :=
    if many then
      { a with
        input := input
        output := output
        buffer_in := workspace.add offset
        buffer_out := workspace.add (offset + buffer_size : Nat) }
    else a
  let offset := if many then offset + buffer_size + buffer_size else offset
  -- strategy CNFFT_FUNC_TWO_LEVEL_STOCKHAM
  let two : Bool := fft_plan.fft_strategy = CNFFT_FUNC_TWO_LEVEL_STOCKHAM
  let buffer_buf := if two then workspace.add offset else a.buffer_buf
  let offset := if two then offset + batch * out_c_dtype_size * n0_ori * n1_ori * 2 else offset
  let keep_input : Bool :=
    fft_plan.is_input_contiguous && decide (fft_plan.inembed0 ≤ fft_plan.n0) &&
      decide (fft_plan.inembed1 ≤ fft_plan.n1)
  let mlu_input :=
    if two then (if keep_input then input else workspace.add offset) else a.input
  let offset :=
    if two && !keep_input then offset + batch * out_c_dtype_size * n0_ori * n1_ori else offset
  let mlu_output :=
    if two then (if fft_plan.is_output_contiguous then output else workspace.add offset)
    else a.output
  let offset :=
    if two && !fft_plan.is_output_contiguous then
      offset + batch * out_c_dtype_size * n0_ori * n1_ori
    else offset
  let input_pad_addr :=
    if fft_plan.n0 > fft_plan.inembed0 ∨ fft_plan.n1 > fft_plan.inembed1 then
      workspace.add offset
    else a.input_pad_addr
  { fft_plan with
    mlu_addrs :=
      { a with
        buffer_buf := buffer_buf
        input := mlu_input
        output := mlu_output
        input_pad_addr := input_pad_addr } }

/-! ## Workspace regions -/

/-- A byte range: start address and length. -/
structure Region where
  addr : Addr
  size : Nat
  deriving DecidableEq, Repr

/-- Two byte ranges share no byte. -/
def Region.disjoint (a b : Region) : Prop :=
  a.addr.base ≠ b.addr.base ∨ a.addr.off + a.size ≤ b.addr.off ∨
    b.addr.off + b.size ≤ a.addr.off

instance (a b : Region) : Decidable (Region.disjoint a b) := by
  unfold Region.disjoint; infer_instance

/-- The byte range lies in the buffer of `total` bytes starting at `buf`. -/
def Region.within (r : Region) (buf : Addr) (total : Nat) : Prop :=
  r.addr.base = buf.base ∧ buf.off ≤ r.addr.off ∧ r.addr.off + r.size ≤ buf.off + total

instance (r : Region) (buf : Addr) (total : Nat) : Decidable (Region.within r buf total) := by
  unfold Region.within; infer_instance

/-- The byte ranges that configureRFFT1dMatmulWorkspaceAddrs carves out of the
workspace, each with the length the allocator advanced its accumulator by:
input_contiguous (when staged), input_pad (when padded), input_transed and the
two matmul results (composite strategies), output_contiguous (when staged) and
the internal scratch.  The argument is the plan after allocation. -/
def matmulWorkspaceRegions (env : Env) (p : FFTPlan) : List Region :=
  let in_r_dtype_size := env.mluOpDataTypeBytes p.input_dtype
  let padded_input_size := size_t (in_r_dtype_size * sizeOfInt (int32 ((p.batch * p.n0 : Nat) : Int)))
  let composite : Bool :=
    p.fft_strategy = CNFFT_FUNC_COOLEY_TUKEY || p.fft_strategy = CNFFT_FUNC_STOCKHAM
  (if !p.is_input_contiguous then
      [⟨p.matmul_addrs.input_contiguous_addr, size_t (in_r_dtype_size * p.inum)⟩]
    else []) ++
  (if p.inembed0 != p.n0 then [⟨p.matmul_addrs.input_pad_addr, padded_input_size⟩] else []) ++
  (if composite then
      [⟨p.matmul_addrs.input_transed_addr, padded_input_size⟩,
       ⟨p.matmul_addrs.matmul_re_mul_re_addr, padded_input_size⟩,
       ⟨p.matmul_addrs.matmul_re_mul_im_addr, padded_input_size⟩] else []) ++
  (if !p.is_output_contiguous then
      [⟨p.matmul_addrs.output_contiguous_addr,
        size_t (env.mluOpDataTypeBytes p.output_dtype * p.onum)⟩] else []) ++
  [⟨p.matmul_addrs.internal_workspace_addr, p.matmul_addrs.internal_workspace_size⟩]

/-! ## Calls into collaborators -/

/-- The contents of a tensor descriptor at the time it is passed to a
primitive: element type, extents, strides (absent for a dense descriptor) and
on-chip type (absent when not set). -/
structure TensorDesc where
  dtype : mluOpDataType_t
  dims : List Int
  strides : Option (List Int)
  onchip_dtype : Option mluOpDataType_t
  deriving DecidableEq, Repr

/-- The transform kind passed to the device kernels. -/
inductive FFTType where
  | RFFT
  | FFT_IFFT
  deriving DecidableEq, Repr

/-- One call from the host code into a collaborator, with the arguments that
describe what it operates on.  A device kernel receives the plan itself and is
recorded with the plan as it stands at the launch; the launch geometry
(`k_dim`, `k_type`) and the queue are not recorded. -/
inductive Call where
  | mluOpCreateTensorDescriptor
  | mluOpSetTensorDescriptor_v2 (dtype : mluOpDataType_t) (dims : List Int)
  | mluOpSetTensorDescriptorEx_v2 (dtype : mluOpDataType_t) (dims strides : List Int)
  | mluOpSetTensorDescriptorOnchipDataType (dtype : mluOpDataType_t)
  | mluOpDestroyTensorDescriptor
  | DEFINE_CREATE_AND_SET_CNNL_HANDLE
  | DEFINE_CREATE_AND_SET_CNNL_TENSOR_DESCRIPTOR (desc : TensorDesc)
  | DESTROY_CNNL_TENSOR_DESCRIPTOR
  | DESTROY_CNNL_HANDLE
  | mluOpContiguous (desc : TensorDesc) (src dst : Addr)
  | cnnlPad (input_desc : TensorDesc) (src : Addr) (paddings : List Int) (padding_value : Nat)
      (output_desc : TensorDesc) (dst : Addr)
  | cnnlCopy_v2 (src_desc : TensorDesc) (src : Addr) (dst_desc : TensorDesc) (dst : Addr)
  | cnnlTransform_v2 (alpha : List CFloat) (x_desc : TensorDesc) (x : Addr)
      (beta : List CFloat) (y_desc : TensorDesc) (y : Addr)
  | fftTranspose (dim_num : Nat) (ori_dims transed_dims permute : List Int) (src dst : Addr)
      (data_type : mluOpDataType_t) (workspace : Addr) (workspace_size : Nat)
  | fftMatMul (m k n : Nat) (a_ptr b_ptr c_ptr : Addr) (is_trans_a is_trans_b : Bool)
      (alpha beta : CFloat) (a_compute_type b_compute_type data_type : mluOpDataType_t)
      (workspace : Addr) (workspace_size : Nat)
  | fftBatchMatMulBcast (m k n batch : Nat) (a_ptr b_ptr c_ptr : Addr)
      (is_trans_a is_trans_b : Bool) (alpha beta : CFloat)
      (a_compute_type b_compute_type data_type : mluOpDataType_t)
      (workspace : Addr) (workspace_size : Nat)
  | kernelFFTCooleyTukey (fft_plan : FFTPlan) (direction : Int) (fft_type : FFTType)
  | kernelFFTStockham (fft_plan : FFTPlan) (direction : Int) (scale_factor : CFloat)
      (fft_type : FFTType)
  | kernelFFT1dButterflyR2C (fft_plan : FFTPlan) (fft_type : FFTType)
  | kernelRFFT2dButterflyRow (fft_plan : FFTPlan) (fft_type : FFTType)
  | kernelRFFT2dButterflyColumn (fft_plan : FFTPlan) (fft_type : FFTType)
  | kernelFFTBatchConjMergeR2C (output input : Addr) (len num : Nat) (dtype : mluOpDataType_t)
  | cnnlCreateMatMulDescriptor
  | cnnlCreateMatMulAlgo
  | cnnlCreateMatMulHeuristicResult
  | cnnlGetMatMulAlgoHeuristic (a_desc b_desc c_desc d_desc : TensorDesc)
  | cnnlGetMatMulHeuristicResult
  | cnnlGetBatchMatMulExAlgoHeuristic (a_desc b_desc c_desc : TensorDesc)
  | cnnlGetBatchMatMulExHeuristicResult
  | cnrtMalloc (size : Nat)
  | cnnlMatMul_v2 (alpha : CFloat) (a_desc : TensorDesc) (a : Addr) (b_desc : TensorDesc)
      (b : Addr) (beta : CFloat) (c_desc : TensorDesc) (c : Addr) (workspace : Addr)
      (workspace_size : Nat) (d_desc : TensorDesc) (d : Addr)
  | cnnlBatchMatMulEx (alpha : CFloat) (a_desc : TensorDesc) (a : Addr) (b_desc : TensorDesc)
      (b : Addr) (beta : CFloat) (c_desc : TensorDesc) (c : Addr) (workspace : Addr)
      (workspace_size : Nat)
  | cnnlDestroyMatMulDescriptor
  | cnnlDestroyMatMulAlgo
  | cnnlDestroyMatMulHeuristicResult
  deriving DecidableEq, Repr

/-- The collaborators as seen by the executor: the status each call returns,
given the calls issued before it, and the scratch size a matmul heuristic
reports for given operand descriptors. -/
structure Backend where
  status : List Call → Call → mluOpStatus_t
  heuristicWorkspaceSize : (a_desc b_desc c_desc : TensorDesc) → Nat

/-- The backend on which every call succeeds. -/
def Backend.allSucceed (heuristicWorkspaceSize : TensorDesc → TensorDesc → TensorDesc → Nat) :
    Backend :=
  ⟨fun _ _ => MLUOP_STATUS_SUCCESS, heuristicWorkspaceSize⟩

/-- The state threaded through an execution call: the plan (whose address
table the call rewrites) and the calls issued so far, oldest first. -/
structure ExecState where
  fft_plan : FFTPlan
  trace : List Call
  deriving DecidableEq, Repr

/-- Issue one call: it is appended to the trace and its status is returned. -/
def issue (be : Backend) (c : Call) (s : ExecState) : mluOpStatus_t × ExecState :=
  (be.status s.trace c, { s with trace := s.trace ++ [c] })

/-- Issue one call whose returned status the caller drops. -/
def launch (be : Backend) (c : Call) (s : ExecState) : ExecState :=
  (issue be c s).2

/-- The pattern `status = e; CHECK_RETURN(api, status); rest`: on a non-success
status the enclosing function returns it at once; otherwise `rest` runs. -/
def CHECK_RETURN (r : mluOpStatus_t × ExecState)
    (rest : ExecState → mluOpStatus_t × ExecState) : mluOpStatus_t × ExecState :=
  if r.1 = MLUOP_STATUS_SUCCESS then rest r.2 else r

/-- Modelled from the spec: the macros `CALL_CNNL`, `CNRT_CHECK` and the
`DEFINE_CREATE_AND_SET_CNNL_*` / `DESTROY_CNNL_*` helpers are declared outside
this file; following the spec's propagation policy, a failure reported by the
wrapped primitive makes the enclosing function return that failure at once. -/
def CALL_CNNL (be : Backend) (c : Call) (s : ExecState)
    (rest : ExecState → mluOpStatus_t × ExecState) : mluOpStatus_t × ExecState :=
  CHECK_RETURN (issue be c s) rest

/-- A call whose returned value the source does not assign or inspect: the
call is issued and `rest` runs whatever it returned. -/
def CALL_UNCHECKED (be : Backend) (c : Call) (s : ExecState)
    (rest : ExecState → mluOpStatus_t × ExecState) : mluOpStatus_t × ExecState :=
  rest (launch be c s)

/-! ## Pipeline stages, 1D -/

/-- The function makeRFFT1dContiguousInput: the input-normalising strided copy. -/
def makeRFFT1dContiguousInput (be : Backend) (input : Addr) (s : ExecState) :
    mluOpStatus_t × ExecState :=
  let fft_plan := s.fft_plan
  if !fft_plan.is_input_contiguous ||
      (!fft_plan.prime && decide (fft_plan.inembed0 > fft_plan.n0)) then
    CHECK_RETURN (issue be .mluOpCreateTensorDescriptor s) fun s =>
    if fft_plan.prime then
      let dims : List Int := [fft_plan.batch, fft_plan.inembed0]
      let strides : List Int := [fft_plan.idist, fft_plan.istride]
      CHECK_RETURN (issue be (.mluOpSetTensorDescriptorEx_v2 fft_plan.input_dtype dims strides) s)
        fun s =>
      CHECK_RETURN (issue be (.mluOpContiguous ⟨fft_plan.input_dtype, dims, some strides, none⟩
        input fft_plan.matmul_addrs.input_contiguous_addr) s) fun s =>
      CHECK_RETURN (issue be .mluOpDestroyTensorDescriptor s) fun s =>
      (MLUOP_STATUS_SUCCESS, s)
    else
      let dims : List Int := [fft_plan.batch, min fft_plan.inembed0 fft_plan.n0]
      let strides : List Int := [fft_plan.idist, fft_plan.istride]
      CHECK_RETURN (issue be (.mluOpSetTensorDescriptorEx_v2 fft_plan.input_dtype dims strides) s)
        fun s =>
      CHECK_RETURN (issue be (.mluOpContiguous ⟨fft_plan.input_dtype, dims, some strides, none⟩
        input fft_plan.mlu_addrs.input) s) fun s =>
      CHECK_RETURN (issue be .mluOpDestroyTensorDescriptor s) fun s =>
      (MLUOP_STATUS_SUCCESS, s)
  else (MLUOP_STATUS_SUCCESS, s)

/-- The function padRFFT1dContiguousInput: the pad primitive of the 1D paths.
The fourth entry of `paddings` is the signed difference `n - inembed[0]`. -/
def padRFFT1dContiguousInput (be : Backend) (s : ExecState) : mluOpStatus_t × ExecState :=
  let fft_plan := s.fft_plan
  let in_r_dtype := fft_plan.input_dtype
  let batch := fft_plan.batch
  let n := fft_plan.n0
  let need_pad : Bool := fft_plan.inembed0 != n
  if need_pad then
    CHECK_RETURN (issue be .mluOpCreateTensorDescriptor s) fun s =>
    CHECK_RETURN (issue be .mluOpCreateTensorDescriptor s) fun s =>
    let dims : List Int := [batch, fft_plan.inembed0]
    CHECK_RETURN (issue be (.mluOpSetTensorDescriptor_v2 in_r_dtype dims) s) fun s =>
    let padded_dims : List Int := [batch, n]
    CHECK_RETURN (issue be (.mluOpSetTensorDescriptor_v2 in_r_dtype padded_dims) s) fun s =>
    let paddings : List Int := [0, 0, 0, (n : Int) - (fft_plan.inembed0 : Int)]
    let padding_value : Nat := 0
    let input_desc : TensorDesc := ⟨in_r_dtype, dims, none, none⟩
    let padded_input_desc : TensorDesc := ⟨in_r_dtype, padded_dims, none, none⟩
    CALL_CNNL be .DEFINE_CREATE_AND_SET_CNNL_HANDLE s fun s =>
    CALL_CNNL be (.DEFINE_CREATE_AND_SET_CNNL_TENSOR_DESCRIPTOR input_desc) s fun s =>
    CALL_CNNL be (.DEFINE_CREATE_AND_SET_CNNL_TENSOR_DESCRIPTOR padded_input_desc) s fun s =>
    CALL_CNNL be (.cnnlPad input_desc
      (if fft_plan.prime then fft_plan.matmul_addrs.input_contiguous_addr
        else fft_plan.mlu_addrs.input)
      paddings padding_value padded_input_desc
      (if fft_plan.prime then fft_plan.matmul_addrs.input_pad_addr
        else fft_plan.mlu_addrs.input_pad_addr)) s fun s =>
    CHECK_RETURN (issue be .mluOpDestroyTensorDescriptor s) fun s =>
    CHECK_RETURN (issue be .mluOpDestroyTensorDescriptor s) fun s =>
    CALL_CNNL be .DESTROY_CNNL_TENSOR_DESCRIPTOR s fun s =>
    CALL_CNNL be .DESTROY_CNNL_TENSOR_DESCRIPTOR s fun s =>
    CALL_CNNL be .DESTROY_CNNL_HANDLE s fun s =>
    (MLUOP_STATUS_SUCCESS, s)
  else (MLUOP_STATUS_SUCCESS, s)

/-- The function transposeRFFT1dPaddedInput: `[batch, L, 2^m] -> [batch, 2^m, L]`,
issued under CNFFT_FUNC_COOLEY_TUKEY only. -/
def transposeRFFT1dPaddedInput (be : Backend) (s : ExecState) : mluOpStatus_t × ExecState :=
  let fft_plan := s.fft_plan
  if fft_plan.fft_strategy = CNFFT_FUNC_COOLEY_TUKEY then
    let in_r_dtype := fft_plan.input_dtype
    let batch := fft_plan.batch
    let L := fft_plan.L
    let m := 2 ^ fft_plan.m
    let trans_dim_num := 3
    let trans_input_dims : List Int := [batch, L, (m : Nat)]
    let trans_output_dims : List Int := [batch, (m : Nat), L]
    let trans_permute : List Int := [0, 2, 1]
    issue be (.fftTranspose trans_dim_num trans_input_dims trans_output_dims trans_permute
      fft_plan.matmul_addrs.input_pad_addr fft_plan.matmul_addrs.input_transed_addr in_r_dtype
      fft_plan.matmul_addrs.internal_workspace_addr
      fft_plan.matmul_addrs.internal_workspace_size) s
  else (MLUOP_STATUS_SUCCESS, s)

/-- The function computeRFFT1dMatmulResult: the spectral matrix multiplies. -/
def computeRFFT1dMatmulResult (be : Backend) (scale_factor : CFloat) (s : ExecState) :
    mluOpStatus_t × ExecState :=
  let fft_plan := s.fft_plan
  let in_r_dtype := fft_plan.input_dtype
  let in_e_dtype := fft_plan.execution_dtype
  let batch := fft_plan.batch
  let n := fft_plan.n0
  if fft_plan.fft_strategy = CNFFT_FUNC_MATMUL then
    CHECK_RETURN (issue be (.fftMatMul batch n (FFT_HALF n * COMPLEX)
      fft_plan.matmul_addrs.input_pad_addr fft_plan.matmul_addrs.dft_matrix_addr
      fft_plan.matmul_addrs.output_contiguous_addr false true scale_factor CFloat.zero
      in_e_dtype in_e_dtype in_r_dtype fft_plan.matmul_addrs.internal_workspace_addr
      fft_plan.matmul_addrs.internal_workspace_size) s) fun s =>
    (MLUOP_STATUS_SUCCESS, s)
  else if fft_plan.fft_strategy = CNFFT_FUNC_COOLEY_TUKEY then
    let L := fft_plan.L
    let m := 2 ^ fft_plan.m
    -- input real matmul dft real
    CHECK_RETURN (issue be (.fftMatMul (batch * m) L L
      fft_plan.matmul_addrs.input_transed_addr fft_plan.matmul_addrs.dft_re_matrix_addr
      fft_plan.matmul_addrs.matmul_re_mul_re_addr false true scale_factor CFloat.zero
      in_e_dtype in_e_dtype in_r_dtype fft_plan.matmul_addrs.internal_workspace_addr
      fft_plan.matmul_addrs.internal_workspace_size) s) fun s =>
    -- input real matmul dft imag
    CHECK_RETURN (issue be (.fftMatMul (batch * m) L L
      fft_plan.matmul_addrs.input_transed_addr fft_plan.matmul_addrs.dft_im_matrix_addr
      fft_plan.matmul_addrs.matmul_re_mul_im_addr false true scale_factor CFloat.zero
      in_e_dtype in_e_dtype in_r_dtype fft_plan.matmul_addrs.internal_workspace_addr
      fft_plan.matmul_addrs.internal_workspace_size) s) fun s =>
    (MLUOP_STATUS_SUCCESS, s)
  else if fft_plan.fft_strategy = CNFFT_FUNC_STOCKHAM then
    let L := fft_plan.L
    let m := 2 ^ fft_plan.m
    issue be (.fftBatchMatMulBcast
      (if L ≤ fft_plan.L_sub then 2 * L else 2 * (PAD_UP (L / 2) fft_plan.L_sub + 1))
      L m batch fft_plan.matmul_addrs.dft_re_matrix_addr fft_plan.matmul_addrs.input_pad_addr
      fft_plan.matmul_addrs.matmul_re_mul_re_addr false false scale_factor CFloat.zero
      in_e_dtype in_e_dtype in_r_dtype fft_plan.matmul_addrs.internal_workspace_addr
      fft_plan.matmul_addrs.internal_workspace_size) s
  else (MLUOP_STATUS_SUCCESS, s)

/-- The function mergeRFFT1dOutput: launches the merge kernel of the composite
strategies.  The value returned by the launch is not assigned to `status`, so
the function returns the success status it was initialised with. -/
def mergeRFFT1dOutput (be : Backend) (scale_factor : CFloat) (s : ExecState) :
    mluOpStatus_t × ExecState :=
  let fft_plan := s.fft_plan
  if fft_plan.fft_strategy = CNFFT_FUNC_COOLEY_TUKEY then
    CALL_UNCHECKED be (.kernelFFTCooleyTukey fft_plan (-1) .RFFT) s fun s =>
    (MLUOP_STATUS_SUCCESS, s)
  else if fft_plan.fft_strategy = CNFFT_FUNC_STOCKHAM then
    CALL_UNCHECKED be (.kernelFFTStockham fft_plan (-1) scale_factor .RFFT) s fun s =>
    (MLUOP_STATUS_SUCCESS, s)
  else (MLUOP_STATUS_SUCCESS, s)

/-- The function makeRFFT1dContiguousOutput: the writeback strided copy. -/
def makeRFFT1dContiguousOutput (be : Backend) (output : Addr) (s : ExecState) :
    mluOpStatus_t × ExecState :=
  let fft_plan := s.fft_plan
  if !fft_plan.is_output_contiguous then
    let out_c_dtype := fft_plan.output_dtype
    CHECK_RETURN (issue be .mluOpCreateTensorDescriptor s) fun s =>
    CHECK_RETURN (issue be .mluOpCreateTensorDescriptor s) fun s =>
    let dims : List Int :=
      [fft_plan.batch, if fft_plan.prime then (fft_plan.onembed0 : Int)
        else ((fft_plan.n0 / 2 + 1 : Nat) : Int)]
    let strides : List Int := [fft_plan.odist, fft_plan.ostride]
    CHECK_RETURN (issue be (.mluOpSetTensorDescriptor_v2 out_c_dtype dims) s) fun s =>
    CHECK_RETURN (issue be (.mluOpSetTensorDescriptorEx_v2 out_c_dtype dims strides) s) fun s =>
    let copy_src_desc : TensorDesc := ⟨out_c_dtype, dims, none, none⟩
    let copy_dst_desc : TensorDesc := ⟨out_c_dtype, dims, some strides, none⟩
    let copy_src_addr :=
      if fft_plan.prime then fft_plan.matmul_addrs.output_contiguous_addr
      else fft_plan.mlu_addrs.output
    CALL_CNNL be .DEFINE_CREATE_AND_SET_CNNL_HANDLE s fun s =>
    CALL_CNNL be (.DEFINE_CREATE_AND_SET_CNNL_TENSOR_DESCRIPTOR copy_src_desc) s fun s =>
    CALL_CNNL be (.DEFINE_CREATE_AND_SET_CNNL_TENSOR_DESCRIPTOR copy_dst_desc) s fun s =>
    CALL_CNNL be (.cnnlCopy_v2 copy_src_desc copy_src_addr copy_dst_desc output) s fun s =>
    CHECK_RETURN (issue be .mluOpDestroyTensorDescriptor s) fun s =>
    CHECK_RETURN (issue be .mluOpDestroyTensorDescriptor s) fun s =>
    CALL_CNNL be .DESTROY_CNNL_TENSOR_DESCRIPTOR s fun s =>
    CALL_CNNL be .DESTROY_CNNL_TENSOR_DESCRIPTOR s fun s =>
    CALL_CNNL be .DESTROY_CNNL_HANDLE s fun s =>
    (MLUOP_STATUS_SUCCESS, s)
  else (MLUOP_STATUS_SUCCESS, s)

/-- The function execFFTr2c1d: launches the 1D butterfly kernel.  The value
returned by the launch is not assigned to `status`. -/
def execFFTr2c1d (be : Backend) (_scale_factor : CFloat) (s : ExecState) :
    mluOpStatus_t × ExecState :=
  CALL_UNCHECKED be (.kernelFFT1dButterflyR2C s.fft_plan .RFFT) s fun s =>
  (MLUOP_STATUS_SUCCESS, s)

/-- The elementwise scale block shared by execRFFT1d (butterfly path, with
`dims = [batch, n/2+1]`) and execRFFT2d (`dims = [batch, n0, n1/2+1]`): it is
entered only when `scale_factor != 1.0`. -/
def scaleOutput (be : Backend) (scale_factor : CFloat) (dims : List Int) (s : ExecState) :
    mluOpStatus_t × ExecState :=
  let fft_plan := s.fft_plan
  if scale_factor ≠ CFloat.one then
    let alpha : List CFloat := [scale_factor, CFloat.zero]
    let beta : List CFloat := [CFloat.zero, CFloat.zero]
    CHECK_RETURN (issue be .mluOpCreateTensorDescriptor s) fun s =>
    CHECK_RETURN (issue be (.mluOpSetTensorDescriptor_v2 fft_plan.output_dtype dims) s) fun s =>
    CHECK_RETURN (issue be (.mluOpSetTensorDescriptorOnchipDataType fft_plan.execution_dtype) s)
      fun s =>
    let c_desc : TensorDesc :=
      ⟨fft_plan.output_dtype, dims, none, some fft_plan.execution_dtype⟩
    CALL_CNNL be .DEFINE_CREATE_AND_SET_CNNL_HANDLE s fun s =>
    CALL_CNNL be (.DEFINE_CREATE_AND_SET_CNNL_TENSOR_DESCRIPTOR c_desc) s fun s =>
    CALL_CNNL be (.cnnlTransform_v2 alpha c_desc fft_plan.mlu_addrs.output beta c_desc
      fft_plan.mlu_addrs.output) s fun s =>
    CHECK_RETURN (issue be .mluOpDestroyTensorDescriptor s) fun s =>
    CALL_CNNL be .DESTROY_CNNL_TENSOR_DESCRIPTOR s fun s =>
    CALL_CNNL be .DESTROY_CNNL_HANDLE s fun s =>
    (MLUOP_STATUS_SUCCESS, s)
  else (MLUOP_STATUS_SUCCESS, s)

/-- The block `if (n[0] > inembed[0]) { pad; mlu_addrs.input = input_pad_addr }`
of the butterfly path of execRFFT1d. -/
def execRFFT1d_padBlock (be : Backend) (s : ExecState) : mluOpStatus_t × ExecState :=
  if s.fft_plan.n0 > s.fft_plan.inembed0 then
    CHECK_RETURN (padRFFT1dContiguousInput be s) fun s =>
    (MLUOP_STATUS_SUCCESS,
      { s with fft_plan :=
        { s.fft_plan with mlu_addrs :=
          { s.fft_plan.mlu_addrs with input := s.fft_plan.mlu_addrs.input_pad_addr } } })
  else (MLUOP_STATUS_SUCCESS, s)

/-- The scale block of the butterfly path of execRFFT1d, over `[batch, n/2+1]`. -/
def execRFFT1d_scaleBlock (be : Backend) (scale_factor : CFloat) (s : ExecState) :
    mluOpStatus_t × ExecState :=
  scaleOutput be scale_factor [s.fft_plan.batch, ((s.fft_plan.n0 / 2 + 1 : Nat) : Int)] s

/-- The function execRFFT1d: the 1D pipeline.  The matmul-family path is taken
when `fft_plan->prime` holds, the butterfly path otherwise. -/
def execRFFT1d (env : Env) (be : Backend) (fft_plan : FFTPlan) (input : Addr)
    (scale_factor : CFloat) (workspace output : Addr) (trace : List Call) :
    mluOpStatus_t × ExecState :=
  if fft_plan.prime then
    let s : ExecState :=
      ⟨configureRFFT1dMatmulWorkspaceAddrs env fft_plan input workspace output, trace⟩
    CHECK_RETURN (makeRFFT1dContiguousInput be input s) fun s =>
    CHECK_RETURN (padRFFT1dContiguousInput be s) fun s =>
    CHECK_RETURN (transposeRFFT1dPaddedInput be s) fun s =>
    CHECK_RETURN (computeRFFT1dMatmulResult be scale_factor s) fun s =>
    CHECK_RETURN (mergeRFFT1dOutput be scale_factor s) fun s =>
    CHECK_RETURN (makeRFFT1dContiguousOutput be output s) fun s =>
    (MLUOP_STATUS_SUCCESS, s)
  else
    let s : ExecState :=
      ⟨configureRFFT1dWorkspaceAddrs env fft_plan input workspace output, trace⟩
    CHECK_RETURN (makeRFFT1dContiguousInput be input s) fun s =>
    CHECK_RETURN (execRFFT1d_padBlock be s) fun s =>
    CHECK_RETURN (execFFTr2c1d be scale_factor s) fun s =>
    CHECK_RETURN (execRFFT1d_scaleBlock be scale_factor s) fun s =>
    CHECK_RETURN (makeRFFT1dContiguousOutput be output s) fun s =>
    (MLUOP_STATUS_SUCCESS, s)

/-! ## Pipeline stages, 2D -/

/-- The function makeRFFT2dContiguousInput: the input-normalising strided copy
of the two-level Stockham path. -/
def makeRFFT2dContiguousInput (be : Backend) (input : Addr) (s : ExecState) :
    mluOpStatus_t × ExecState :=
  let fft_plan := s.fft_plan
  if (!fft_plan.is_input_contiguous ||
        (decide (fft_plan.inembed0 > fft_plan.n0) || decide (fft_plan.inembed1 > fft_plan.n1))) &&
      decide (fft_plan.fft_strategy ≠ CNFFT_FUNC_MANY_DIST1_2D) then
    CHECK_RETURN (issue be .mluOpCreateTensorDescriptor s) fun s =>
    let dims : List Int :=
      [fft_plan.batch,
       if fft_plan.n0 > fft_plan.inembed0 then (fft_plan.inembed0 : Int) else fft_plan.n0,
       if fft_plan.n1 > fft_plan.inembed1 then (fft_plan.inembed1 : Int) else fft_plan.n1]
    let strides : List Int := fft_plan.in_stride.take 3
    CHECK_RETURN (issue be (.mluOpSetTensorDescriptorEx_v2 fft_plan.input_dtype dims strides) s)
      fun s =>
    CHECK_RETURN (issue be (.mluOpContiguous ⟨fft_plan.input_dtype, dims, some strides, none⟩
      input fft_plan.mlu_addrs.input) s) fun s =>
    CHECK_RETURN (issue be .mluOpDestroyTensorDescriptor s) fun s =>
    (MLUOP_STATUS_SUCCESS, s)
  else (MLUOP_STATUS_SUCCESS, s)

/-- The function makeRFFT2dContiguousOutput: the writeback strided copy of the
two-level Stockham path. -/
def makeRFFT2dContiguousOutput (be : Backend) (output : Addr) (s : ExecState) :
    mluOpStatus_t × ExecState :=
  let fft_plan := s.fft_plan
  if !fft_plan.is_output_contiguous &&
      decide (fft_plan.fft_strategy ≠ CNFFT_FUNC_MANY_DIST1_2D) then
    let out_c_dtype := fft_plan.output_dtype
    CHECK_RETURN (issue be .mluOpCreateTensorDescriptor s) fun s =>
    CHECK_RETURN (issue be .mluOpCreateTensorDescriptor s) fun s =>
    let dims : List Int := [fft_plan.batch, fft_plan.n0, ((fft_plan.n1 / 2 + 1 : Nat) : Int)]
    let strides : List Int := fft_plan.out_stride.take 3
    CHECK_RETURN (issue be (.mluOpSetTensorDescriptor_v2 out_c_dtype dims) s) fun s =>
    CHECK_RETURN (issue be (.mluOpSetTensorDescriptorEx_v2 out_c_dtype dims strides) s) fun s =>
    let copy_src_desc : TensorDesc := ⟨out_c_dtype, dims, none, none⟩
    let copy_dst_desc : TensorDesc := ⟨out_c_dtype, dims, some strides, none⟩
    let copy_src_addr := fft_plan.mlu_addrs.output
    CALL_CNNL be .DEFINE_CREATE_AND_SET_CNNL_HANDLE s fun s =>
    CALL_CNNL be (.DEFINE_CREATE_AND_SET_CNNL_TENSOR_DESCRIPTOR copy_src_desc) s fun s =>
    CALL_CNNL be (.DEFINE_CREATE_AND_SET_CNNL_TENSOR_DESCRIPTOR copy_dst_desc) s fun s =>
    CALL_CNNL be (.cnnlCopy_v2 copy_src_desc copy_src_addr copy_dst_desc output) s fun s =>
    CHECK_RETURN (issue be .mluOpDestroyTensorDescriptor s) fun s =>
    CHECK_RETURN (issue be .mluOpDestroyTensorDescriptor s) fun s =>
    CALL_CNNL be .DESTROY_CNNL_TENSOR_DESCRIPTOR s fun s =>
    CALL_CNNL be .DESTROY_CNNL_TENSOR_DESCRIPTOR s fun s =>
    CALL_CNNL be .DESTROY_CNNL_HANDLE s fun s =>
    (MLUOP_STATUS_SUCCESS, s)
  else (MLUOP_STATUS_SUCCESS, s)

/-- The function computeFFT2dMatMulColumnR2C: the column-direction matrix
multiply of the many-distance-1 strategy, followed by the conjugate-merge
kernel, whose returned value is dropped. -/
def computeFFT2dMatMulColumnR2C (be : Backend) (_scale_factor : CFloat) (s : ExecState) :
    mluOpStatus_t × ExecState :=
  let fft_plan := s.fft_plan
  let in_e_dtype := fft_plan.execution_dtype
  let batch := fft_plan.batch
  let n0 := fft_plan.n0
  let n1 := fft_plan.n1
  let dft_matrix_addr := fft_plan.mlu_addrs.dft_matrix_2d
  let in_addr := fft_plan.mlu_addrs.buffer_in
  let out_addr := fft_plan.mlu_addrs.buffer_out
  let m := n0 * 2
  let k := n0
  let n : Int := int32 (((n1 / 2 + 1) * 2 * batch : Nat) : Int)
  CHECK_RETURN (issue be .mluOpCreateTensorDescriptor s) fun s =>
  CHECK_RETURN (issue be .mluOpCreateTensorDescriptor s) fun s =>
  CHECK_RETURN (issue be .mluOpCreateTensorDescriptor s) fun s =>
  let a_dims : List Int := [m, k]
  let b_dims : List Int := [k, n]
  let c_dims : List Int := [m, n]
  CHECK_RETURN (issue be (.mluOpSetTensorDescriptor_v2 in_e_dtype a_dims) s) fun s =>
  CHECK_RETURN (issue be (.mluOpSetTensorDescriptorOnchipDataType in_e_dtype) s) fun s =>
  CHECK_RETURN (issue be (.mluOpSetTensorDescriptor_v2 in_e_dtype b_dims) s) fun s =>
  CHECK_RETURN (issue be (.mluOpSetTensorDescriptorOnchipDataType in_e_dtype) s) fun s =>
  CHECK_RETURN (issue be (.mluOpSetTensorDescriptor_v2 in_e_dtype c_dims) s) fun s =>
  CHECK_RETURN (issue be (.mluOpSetTensorDescriptorOnchipDataType in_e_dtype) s) fun s =>
  let a_desc : TensorDesc := ⟨in_e_dtype, a_dims, none, some in_e_dtype⟩
  let b_desc : TensorDesc := ⟨in_e_dtype, b_dims, none, some in_e_dtype⟩
  let c_desc : TensorDesc := ⟨in_e_dtype, c_dims, none, some in_e_dtype⟩
  CALL_CNNL be .DEFINE_CREATE_AND_SET_CNNL_HANDLE s fun s =>
  CALL_CNNL be .cnnlCreateMatMulDescriptor s fun s =>
  CALL_CNNL be .cnnlCreateMatMulAlgo s fun s =>
  CALL_CNNL be .cnnlCreateMatMulHeuristicResult s fun s =>
  CALL_CNNL be (.DEFINE_CREATE_AND_SET_CNNL_TENSOR_DESCRIPTOR a_desc) s fun s =>
  CALL_CNNL be (.DEFINE_CREATE_AND_SET_CNNL_TENSOR_DESCRIPTOR b_desc) s fun s =>
  CALL_CNNL be (.DEFINE_CREATE_AND_SET_CNNL_TENSOR_DESCRIPTOR c_desc) s fun s =>
  CALL_CNNL be (.DEFINE_CREATE_AND_SET_CNNL_TENSOR_DESCRIPTOR c_desc) s fun s =>
  CALL_CNNL be (.cnnlGetMatMulAlgoHeuristic a_desc b_desc c_desc c_desc) s fun s =>
  CALL_CNNL be .cnnlGetMatMulHeuristicResult s fun s =>
  let workspace_size := be.heuristicWorkspaceSize a_desc b_desc c_desc
  let matmul := fun (workspace : Addr) (s : ExecState) =>
    CALL_CNNL be (.cnnlMatMul_v2 CFloat.one a_desc dft_matrix_addr b_desc in_addr CFloat.zero
      c_desc out_addr workspace workspace_size c_desc out_addr) s fun s =>
    CHECK_RETURN (issue be .mluOpDestroyTensorDescriptor s) fun s =>
    CHECK_RETURN (issue be .mluOpDestroyTensorDescriptor s) fun s =>
    CHECK_RETURN (issue be .mluOpDestroyTensorDescriptor s) fun s =>
    CALL_CNNL be .cnnlDestroyMatMulDescriptor s fun s =>
    CALL_CNNL be .cnnlDestroyMatMulAlgo s fun s =>
    CALL_CNNL be .cnnlDestroyMatMulHeuristicResult s fun s =>
    CALL_CNNL be .DESTROY_CNNL_TENSOR_DESCRIPTOR s fun s =>
    CALL_CNNL be .DESTROY_CNNL_TENSOR_DESCRIPTOR s fun s =>
    CALL_CNNL be .DESTROY_CNNL_TENSOR_DESCRIPTOR s fun s =>
    CALL_CNNL be .DESTROY_CNNL_HANDLE s fun s =>
    CALL_UNCHECKED be (.kernelFFTBatchConjMergeR2C fft_plan.mlu_addrs.output
      fft_plan.mlu_addrs.buffer_out ((n1 / 2 + 1) * batch) n0 in_e_dtype) s fun s =>
    (MLUOP_STATUS_SUCCESS, s)
  if workspace_size > 0 then
    CALL_CNNL be (.cnrtMalloc workspace_size) s fun s => matmul ⟨Base.scratch, 0⟩ s
  else matmul Addr.nullptr s

/-- The function computeFFT2dMatMulRowR2C: the row-direction broadcast matrix
multiply of the many-distance-1 strategy.  The two heuristic queries are issued
without a status check. -/
def computeFFT2dMatMulRowR2C (be : Backend) (_scale_factor : CFloat) (s : ExecState) :
    mluOpStatus_t × ExecState :=
  let fft_plan := s.fft_plan
  let in_e_dtype := fft_plan.execution_dtype
  let batch := fft_plan.batch
  let n0 := fft_plan.n0
  let n1 := fft_plan.n1
  let dft_matrix_addr := fft_plan.mlu_addrs.dft_matrix
  let in_addr := fft_plan.mlu_addrs.input
  let out_addr := fft_plan.mlu_addrs.buffer_in
  let m := (n1 / 2 + 1) * 2
  let k := n1
  let n := batch
  CHECK_RETURN (issue be .mluOpCreateTensorDescriptor s) fun s =>
  CHECK_RETURN (issue be .mluOpCreateTensorDescriptor s) fun s =>
  CHECK_RETURN (issue be .mluOpCreateTensorDescriptor s) fun s =>
  let a_dims : List Int := [m, k]
  let b_dims : List Int := [n0, k, n]
  let c_dims : List Int := [n0, m, n]
  CHECK_RETURN (issue be (.mluOpSetTensorDescriptor_v2 in_e_dtype a_dims) s) fun s =>
  CHECK_RETURN (issue be (.mluOpSetTensorDescriptorOnchipDataType in_e_dtype) s) fun s =>
  CHECK_RETURN (issue be (.mluOpSetTensorDescriptor_v2 in_e_dtype b_dims) s) fun s =>
  CHECK_RETURN (issue be (.mluOpSetTensorDescriptorOnchipDataType in_e_dtype) s) fun s =>
  CHECK_RETURN (issue be (.mluOpSetTensorDescriptor_v2 in_e_dtype c_dims) s) fun s =>
  CHECK_RETURN (issue be (.mluOpSetTensorDescriptorOnchipDataType in_e_dtype) s) fun s =>
  let a_desc : TensorDesc := ⟨in_e_dtype, a_dims, none, some in_e_dtype⟩
  let b_desc : TensorDesc := ⟨in_e_dtype, b_dims, none, some in_e_dtype⟩
  let c_desc : TensorDesc := ⟨in_e_dtype, c_dims, none, some in_e_dtype⟩
  CALL_CNNL be .DEFINE_CREATE_AND_SET_CNNL_HANDLE s fun s =>
  CALL_CNNL be (.DEFINE_CREATE_AND_SET_CNNL_TENSOR_DESCRIPTOR a_desc) s fun s =>
  CALL_CNNL be (.DEFINE_CREATE_AND_SET_CNNL_TENSOR_DESCRIPTOR b_desc) s fun s =>
  CALL_CNNL be (.DEFINE_CREATE_AND_SET_CNNL_TENSOR_DESCRIPTOR c_desc) s fun s =>
  CALL_CNNL be .cnnlCreateMatMulAlgo s fun s =>
  CALL_CNNL be .cnnlCreateMatMulDescriptor s fun s =>
  CALL_CNNL be .cnnlCreateMatMulHeuristicResult s fun s =>
  CALL_UNCHECKED be (.cnnlGetBatchMatMulExAlgoHeuristic a_desc b_desc c_desc) s fun s =>
  CALL_UNCHECKED be .cnnlGetBatchMatMulExHeuristicResult s fun s =>
  let workspace_size := be.heuristicWorkspaceSize a_desc b_desc c_desc
  CALL_CNNL be (.cnrtMalloc (if workspace_size > 0 then workspace_size else m * n * 4)) s
    fun s =>
  CALL_CNNL be (.cnnlBatchMatMulEx CFloat.one a_desc dft_matrix_addr b_desc in_addr CFloat.zero
    c_desc out_addr ⟨Base.scratch, 0⟩ workspace_size) s fun s =>
  CHECK_RETURN (issue be .mluOpDestroyTensorDescriptor s) fun s =>
  CHECK_RETURN (issue be .mluOpDestroyTensorDescriptor s) fun s =>
  CHECK_RETURN (issue be .mluOpDestroyTensorDescriptor s) fun s =>
  CALL_CNNL be .cnnlDestroyMatMulDescriptor s fun s =>
  CALL_CNNL be .cnnlDestroyMatMulAlgo s fun s =>
  CALL_CNNL be .cnnlDestroyMatMulHeuristicResult s fun s =>
  CALL_CNNL be .DESTROY_CNNL_TENSOR_DESCRIPTOR s fun s =>
  CALL_CNNL be .DESTROY_CNNL_TENSOR_DESCRIPTOR s fun s =>
  CALL_CNNL be .DESTROY_CNNL_TENSOR_DESCRIPTOR s fun s =>
  CALL_CNNL be .DESTROY_CNNL_HANDLE s fun s =>
  (MLUOP_STATUS_SUCCESS, s)

/-- The pointer bumps at the end of one batch iteration of execRFFT2d:
`mlu_addrs.input += idist; mlu_addrs.output += odist`. -/
def advanceBatch (idist odist : Nat) (s : ExecState) : ExecState :=
  { s with fft_plan :=
    { s.fft_plan with mlu_addrs :=
      { s.fft_plan.mlu_addrs with
        input := s.fft_plan.mlu_addrs.input.add idist
        output := s.fft_plan.mlu_addrs.output.add odist } } }

/-- The pointer restore after a batch loop of execRFFT2d:
`mlu_addrs.input -= batch * idist; mlu_addrs.output -= batch * odist`. -/
def rewindBatch (idist odist : Nat) (s : ExecState) : ExecState :=
  { s with fft_plan :=
    { s.fft_plan with mlu_addrs :=
      { s.fft_plan.mlu_addrs with
        input := s.fft_plan.mlu_addrs.input.sub ((s.fft_plan.batch * idist : Nat) : Int)
        output := s.fft_plan.mlu_addrs.output.sub ((s.fft_plan.batch * odist : Nat) : Int) } } }

/-- A loop `for (batch_id = 0; batch_id < count; batch_id++)` of execRFFT2d
with the given body followed by the pointer bumps; a failing body returns from
the executor at once. -/
def batchLoop (body : ExecState → mluOpStatus_t × ExecState) (idist odist : Nat) :
    Nat → ExecState → mluOpStatus_t × ExecState
  | 0, s => (MLUOP_STATUS_SUCCESS, s)
  | count + 1, s =>
    CHECK_RETURN (body s) fun s => batchLoop body idist odist count (advanceBatch idist odist s)

/-- The pad block of the degenerate shapes of execRFFT2d: a float tensor of
extents `dims` at `mlu_addrs.input` is padded into `padded_dims` at
`mlu_addrs.output`. -/
def padDegenerate2d (be : Backend) (dims padded_dims paddings : List Int) (s : ExecState) :
    mluOpStatus_t × ExecState :=
  let fft_plan := s.fft_plan
  CHECK_RETURN (issue be .mluOpCreateTensorDescriptor s) fun s =>
  CHECK_RETURN (issue be .mluOpCreateTensorDescriptor s) fun s =>
  CHECK_RETURN (issue be (.mluOpSetTensorDescriptor_v2 MLUOP_DTYPE_FLOAT dims) s) fun s =>
  CHECK_RETURN (issue be (.mluOpSetTensorDescriptor_v2 MLUOP_DTYPE_FLOAT padded_dims) s) fun s =>
  let padding_value : Nat := 0
  let input_desc : TensorDesc := ⟨MLUOP_DTYPE_FLOAT, dims, none, none⟩
  let padded_output_desc : TensorDesc := ⟨MLUOP_DTYPE_FLOAT, padded_dims, none, none⟩
  CALL_CNNL be .DEFINE_CREATE_AND_SET_CNNL_HANDLE s fun s =>
  CALL_CNNL be (.DEFINE_CREATE_AND_SET_CNNL_TENSOR_DESCRIPTOR input_desc) s fun s =>
  CALL_CNNL be (.DEFINE_CREATE_AND_SET_CNNL_TENSOR_DESCRIPTOR padded_output_desc) s fun s =>
  CALL_CNNL be (.cnnlPad input_desc fft_plan.mlu_addrs.input paddings padding_value
    padded_output_desc fft_plan.mlu_addrs.output) s fun s =>
  CHECK_RETURN (issue be .mluOpDestroyTensorDescriptor s) fun s =>
  CHECK_RETURN (issue be .mluOpDestroyTensorDescriptor s) fun s =>
  CALL_CNNL be .DESTROY_CNNL_TENSOR_DESCRIPTOR s fun s =>
  CALL_CNNL be .DESTROY_CNNL_TENSOR_DESCRIPTOR s fun s =>
  CALL_CNNL be .DESTROY_CNNL_HANDLE s fun s =>
  (MLUOP_STATUS_SUCCESS, s)

/-- The statement `status = kernelRFFT2dButterflyRow(k_dim, k_type, queue,
fft_plan, RFFT)` of execRFFT2d. -/
def launchRFFT2dButterflyRow (be : Backend) (s : ExecState) : mluOpStatus_t × ExecState :=
  issue be (.kernelRFFT2dButterflyRow s.fft_plan .RFFT) s

/-- The statement `status = kernelRFFT2dButterflyColumn(k_dim, k_type, queue,
fft_plan, FFT_IFFT)` of execRFFT2d. -/
def launchRFFT2dButterflyColumn (be : Backend) (s : ExecState) : mluOpStatus_t × ExecState :=
  issue be (.kernelRFFT2dButterflyColumn s.fft_plan .FFT_IFFT) s

/-- The `CNFFT_FUNC_TWO_LEVEL_STOCKHAM` block of execRFFT2d. -/
def execRFFT2d_TWO_LEVEL_STOCKHAM (env : Env) (be : Backend) (input : Addr) (s : ExecState) :
    mluOpStatus_t × ExecState :=
  let fft_plan := s.fft_plan
  let in_r_dtype_size := env.mluOpDataTypeBytes fft_plan.input_dtype
  let in_c_dtype_size := env.mluOpDataTypeBytes fft_plan.output_dtype
  let idist := in_r_dtype_size * fft_plan.n0 * fft_plan.n1
  let odist := in_c_dtype_size * fft_plan.n0 * (fft_plan.n1 / 2 + 1)
  CHECK_RETURN (makeRFFT2dContiguousInput be input s) fun s =>
  if fft_plan.n0 = 1 ∨ fft_plan.n1 = 1 then
    if fft_plan.n0 ≠ 1 ∧ fft_plan.n1 = 1 then
      CHECK_RETURN
        (padDegenerate2d be [fft_plan.batch, fft_plan.n0, fft_plan.n1]
          [fft_plan.batch, fft_plan.n0, ((fft_plan.n1 * 2 : Nat) : Int)] [0, 0, 0, 0, 0, 1] s)
        fun s =>
      CHECK_RETURN
        (batchLoop (launchRFFT2dButterflyColumn be) idist odist fft_plan.batch s) fun s =>
      (MLUOP_STATUS_SUCCESS, rewindBatch idist odist s)
    else if fft_plan.n0 = 1 ∧ fft_plan.n1 ≠ 1 then
      CHECK_RETURN
        (batchLoop (launchRFFT2dButterflyRow be) idist odist fft_plan.batch s) fun s =>
      (MLUOP_STATUS_SUCCESS, rewindBatch idist odist s)
    else
      padDegenerate2d be [fft_plan.batch, ((fft_plan.n0 * fft_plan.n1 : Nat) : Int)]
        [fft_plan.batch, ((fft_plan.n0 * fft_plan.n1 * 2 : Nat) : Int)] [0, 0, 0, 1] s
  else
    CHECK_RETURN
      (batchLoop
        (fun s => CHECK_RETURN (launchRFFT2dButterflyRow be s) (launchRFFT2dButterflyColumn be))
        idist odist fft_plan.batch s) fun s =>
    (MLUOP_STATUS_SUCCESS, rewindBatch idist odist s)

/-- The strategy dispatch of execRFFT2d: the two-level Stockham block, the two
matmul stages of the many-distance-1 strategy, or nothing. -/
def execRFFT2d_strategyBlock (env : Env) (be : Backend) (input : Addr) (scale_factor : CFloat)
    (s : ExecState) : mluOpStatus_t × ExecState :=
  if s.fft_plan.fft_strategy = CNFFT_FUNC_TWO_LEVEL_STOCKHAM then
    execRFFT2d_TWO_LEVEL_STOCKHAM env be input s
  else if s.fft_plan.fft_strategy = CNFFT_FUNC_MANY_DIST1_2D then
    CHECK_RETURN (computeFFT2dMatMulRowR2C be scale_factor s) fun s =>
    CHECK_RETURN (computeFFT2dMatMulColumnR2C be scale_factor s) fun s =>
    (MLUOP_STATUS_SUCCESS, s)
  else (MLUOP_STATUS_SUCCESS, s)

/-- The scale block of execRFFT2d, over `[batch, n0, n1/2+1]`. -/
def execRFFT2d_scaleBlock (be : Backend) (scale_factor : CFloat) (s : ExecState) :
    mluOpStatus_t × ExecState :=
  scaleOutput be scale_factor
    [s.fft_plan.batch, s.fft_plan.n0, ((s.fft_plan.n1 / 2 + 1 : Nat) : Int)] s

/-- The closing block of execRFFT2d: the writeback stage, entered under the
two-level Stockham strategy only. -/
def execRFFT2d_outputBlock (be : Backend) (output : Addr) (s : ExecState) :
    mluOpStatus_t × ExecState :=
  if s.fft_plan.fft_strategy = CNFFT_FUNC_TWO_LEVEL_STOCKHAM then
    makeRFFT2dContiguousOutput be output s
  else (MLUOP_STATUS_SUCCESS, s)

/-- The function execRFFT2d: the 2D pipeline. -/
def execRFFT2d (env : Env) (be : Backend) (fft_plan : FFTPlan) (input : Addr)
    (scale_factor : CFloat) (workspace output : Addr) (trace : List Call) :
    mluOpStatus_t × ExecState :=
  let s : ExecState := ⟨configureRFFT2dWorkspaceAddrs env fft_plan input workspace output, trace⟩
  CHECK_RETURN (execRFFT2d_strategyBlock env be input scale_factor s) fun s =>
  CHECK_RETURN (execRFFT2d_scaleBlock be scale_factor s) fun s =>
  CHECK_RETURN (execRFFT2d_outputBlock be output s) fun s =>
  (MLUOP_STATUS_SUCCESS, s)

/-! ## Stage sequences

The executors written as explicit lists of steps, for stating what happens when
a step fails.  A step is a stage function of the source, a kernel launch whose
status the executor inspects, or a pointer update (which cannot fail). -/

/-- One step of a pipeline: from the state it is entered in to its returned
status and the state it leaves. -/
abbrev Stage := ExecState → mluOpStatus_t × ExecState

/-- Run the steps in order, returning at the first one whose status is not
success. -/
def runStages : List Stage → Stage
  | [], s => (MLUOP_STATUS_SUCCESS, s)
  | f :: fs, s => CHECK_RETURN (f s) (runStages fs)

/-- The state in which step `i` is entered when all steps before it are run. -/
def stateBefore : List Stage → ExecState → Nat → ExecState
  | [], s, _ => s
  | _ :: _, s, 0 => s
  | f :: fs, s, i + 1 => stateBefore fs (f s).2 i

/-- A step followed, when it succeeds, by an update of the plan. -/
def thenUpdate (f : Stage) (g : ExecState → ExecState) : Stage :=
  fun s => CHECK_RETURN (f s) fun s => (MLUOP_STATUS_SUCCESS, g s)

/-- An update of the plan on its own. -/
def updateOnly (g : ExecState → ExecState) : Stage :=
  fun s => (MLUOP_STATUS_SUCCESS, g s)

/-- The steps of execRFFT1d, in order, for the matmul-family path
(`prime = true`) and the butterfly path (`prime = false`). -/
def execRFFT1dStages (be : Backend) (prime : Bool) (input output : Addr)
    (scale_factor : CFloat) : List Stage :=
  if prime then
    [makeRFFT1dContiguousInput be input, padRFFT1dContiguousInput be,
     transposeRFFT1dPaddedInput be, computeRFFT1dMatmulResult be scale_factor,
     mergeRFFT1dOutput be scale_factor, makeRFFT1dContiguousOutput be output]
  else
    [makeRFFT1dContiguousInput be input, execRFFT1d_padBlock be,
     execFFTr2c1d be scale_factor, execRFFT1d_scaleBlock be scale_factor,
     makeRFFT1dContiguousOutput be output]

/-- The steps of the two-level Stockham block of execRFFT2d for a plan of the
given shape, with every kernel launch of the batch loops a step of its own. -/
def execRFFT2d_TWO_LEVEL_STOCKHAM_Stages (env : Env) (be : Backend) (fft_plan : FFTPlan)
    (input : Addr) : List Stage :=
  let idist := env.mluOpDataTypeBytes fft_plan.input_dtype * fft_plan.n0 * fft_plan.n1
  let odist := env.mluOpDataTypeBytes fft_plan.output_dtype * fft_plan.n0 * (fft_plan.n1 / 2 + 1)
  [makeRFFT2dContiguousInput be input] ++
  (if fft_plan.n0 = 1 ∨ fft_plan.n1 = 1 then
    if fft_plan.n0 ≠ 1 ∧ fft_plan.n1 = 1 then
      [padDegenerate2d be [fft_plan.batch, fft_plan.n0, fft_plan.n1]
        [fft_plan.batch, fft_plan.n0, ((fft_plan.n1 * 2 : Nat) : Int)] [0, 0, 0, 0, 0, 1]] ++
      List.replicate fft_plan.batch
        (thenUpdate (launchRFFT2dButterflyColumn be) (advanceBatch idist odist)) ++
      [updateOnly (rewindBatch idist odist)]
    else if fft_plan.n0 = 1 ∧ fft_plan.n1 ≠ 1 then
      List.replicate fft_plan.batch
        (thenUpdate (launchRFFT2dButterflyRow be) (advanceBatch idist odist)) ++
      [updateOnly (rewindBatch idist odist)]
    else
      [padDegenerate2d be [fft_plan.batch, ((fft_plan.n0 * fft_plan.n1 : Nat) : Int)]
        [fft_plan.batch, ((fft_plan.n0 * fft_plan.n1 * 2 : Nat) : Int)] [0, 0, 0, 1]]
  else
    (List.replicate fft_plan.batch
      [launchRFFT2dButterflyRow be,
       thenUpdate (launchRFFT2dButterflyColumn be) (advanceBatch idist odist)]).flatten ++
    [updateOnly (rewindBatch idist odist)])

/-- The steps of execRFFT2d, in order, for a plan of the given strategy and
shape. -/
def execRFFT2dStages (env : Env) (be : Backend) (fft_plan : FFTPlan) (input output : Addr)
    (scale_factor : CFloat) : List Stage :=
  (if fft_plan.fft_strategy = CNFFT_FUNC_TWO_LEVEL_STOCKHAM then
    execRFFT2d_TWO_LEVEL_STOCKHAM_Stages env be fft_plan input
  else if fft_plan.fft_strategy = CNFFT_FUNC_MANY_DIST1_2D then
    [computeFFT2dMatMulRowR2C be scale_factor, computeFFT2dMatMulColumnR2C be scale_factor]
  else []) ++
  [execRFFT2d_scaleBlock be scale_factor, execRFFT2d_outputBlock be output]

/-! ## Comparing a run with the all-succeeding run -/

/-- The calls a step issues when entered with plan `p` and an empty trace. -/
def callsOf (f : Stage) (p : FFTPlan) : List Call := (f ⟨p, []⟩).2.trace

/-- Agreement of a run `r` with the run `r0` of the same step on the backend
on which every call succeeds: `r0` succeeds, a successful `r` ends in the same
state as `r0`, and in every case the trace of `r` extends the trace `t` the
step was entered with and is an initial segment of the trace of `r0`. -/
def Sim (t : List Call) (r r0 : mluOpStatus_t × ExecState) : Prop :=
  r0.1 = MLUOP_STATUS_SUCCESS ∧ (r.1 = MLUOP_STATUS_SUCCESS → r.2 = r0.2) ∧
    t <+: r.2.trace ∧ r.2.trace <+: r0.2.trace

/-! ## Classifying calls -/

/-- The call is the input-normalising strided copy `mluOpContiguous`. -/
def Call.isInputCopy : Call → Bool
  | .mluOpContiguous _ _ _ => true
  | _ => false

/-- The call is the pad primitive `cnnlPad`. -/
def Call.isPad : Call → Bool
  | .cnnlPad _ _ _ _ _ _ => true
  | _ => false

/-- The call is the writeback strided copy `cnnlCopy_v2`. -/
def Call.isOutputCopy : Call → Bool
  | .cnnlCopy_v2 _ _ _ _ => true
  | _ => false

/-- The call is the launch of a device kernel. -/
def Call.isKernelLaunch : Call → Bool
  | .kernelFFTCooleyTukey _ _ _ => true
  | .kernelFFTStockham _ _ _ _ => true
  | .kernelFFT1dButterflyR2C _ _ => true
  | .kernelRFFT2dButterflyRow _ _ => true
  | .kernelRFFT2dButterflyColumn _ _ => true
  | .kernelFFTBatchConjMergeR2C _ _ _ _ _ => true
  | _ => false

/-- The condition under which makeRFFT1dContiguousInput issues its copy. -/
def inputCopyNeeded (p : FFTPlan) : Bool :=
  !p.is_input_contiguous || (!p.prime && decide (p.inembed0 > p.n0))

/-- The condition under which execRFFT1d reaches the pad primitive: on the
matmul-family path the embedding differs from the length; on the butterfly
path the length exceeds the embedding. -/
def padIssued (p : FFTPlan) : Bool :=
  if p.prime then p.inembed0 != p.n0 else decide (p.n0 > p.inembed0)

/-- The plan as the allocator of execRFFT1d leaves it. -/
def configuredRFFT1d (env : Env) (p : FFTPlan) (input workspace output : Addr) : FFTPlan :=
  if p.prime then configureRFFT1dMatmulWorkspaceAddrs env p input workspace output
  else configureRFFT1dWorkspaceAddrs env p input workspace output

/-- The pad call of the 1D paths for a configured plan `p`: `[batch, inembed0]`
rows are padded at the end by `n0 - inembed0` into `[batch, n0]` rows. -/
def padCallRFFT1d (p : FFTPlan) : Call :=
  .cnnlPad ⟨p.input_dtype, [p.batch, p.inembed0], none, none⟩
    (if p.prime then p.matmul_addrs.input_contiguous_addr else p.mlu_addrs.input)
    [0, 0, 0, (p.n0 : Int) - (p.inembed0 : Int)] 0
    ⟨p.input_dtype, [p.batch, p.n0], none, none⟩
    (if p.prime then p.matmul_addrs.input_pad_addr else p.mlu_addrs.input_pad_addr)

/-- Byte widths of the element types, for the examples. -/
def exampleBytes : mluOpDataType_t → Nat
  | MLUOP_DTYPE_INVALID => 0
  | MLUOP_DTYPE_HALF => 2
  | MLUOP_DTYPE_FLOAT => 4
  | MLUOP_DTYPE_COMPLEX_HALF => 4
  | MLUOP_DTYPE_COMPLEX_FLOAT => 8

/-- An environment for the examples: the selector picks the given strategy and
every scratch query succeeds, the transpose asking for 64 bytes. -/
def exampleEnv (strategy : FFTStrategy) : Env where
  mluOpDataTypeBytes := exampleBytes
  FFT_L_LIMIT_MATMUL_300 := 2048
  FFT_L_LIMIT_MATMUL_500 := 4096
  MLUOP_MLU370 := 372
  selectFFTStrategy := fun _ p => (MLUOP_STATUS_SUCCESS, { p with fft_strategy := strategy })
  fftGetMatMulWorkspaceSize := fun _ _ _ _ _ _ _ _ => (MLUOP_STATUS_SUCCESS, 0)
  fftGetTransposeWorkspaceSize := fun _ _ _ _ => (MLUOP_STATUS_SUCCESS, 64)
  fftGetBatchMatMulBcastWorkspaceSize :=
    fun _ _ _ _ _ _ _ _ _ _ _ _ _ workspace_size => (MLUOP_STATUS_SUCCESS, workspace_size)

/-- A handle of the older device generation. -/
def exampleHandle : Handle := ⟨372⟩

/-- An address table with every entry null. -/
def MatmulAddrs.unset : MatmulAddrs :=
  ⟨Addr.nullptr, Addr.nullptr, Addr.nullptr, Addr.nullptr, Addr.nullptr, Addr.nullptr,
    Addr.nullptr, Addr.nullptr, Addr.nullptr, Addr.nullptr, 0⟩

/-- An address table with every entry null. -/
def MluAddrs.unset : MluAddrs :=
  ⟨Addr.nullptr, Addr.nullptr, Addr.nullptr, Addr.nullptr, Addr.nullptr, Addr.nullptr,
    Addr.nullptr, Addr.nullptr⟩

/-- A float 1D plan on the matmul-family path: `batch` transforms of length
`n`, input rows of `inembed` elements, `onum` output elements in rows of
`onum / batch`, with the given contiguity flags; `n = L * 2^m` with `L = 3`,
`m = 2` when `n = 12`. -/
def examplePlan (n batch inembed onum : Nat) (in_contiguous out_contiguous : Bool) : FFTPlan where
  n0 := n
  n1 := 1
  batch := batch
  inum := batch * inembed
  onum := onum
  inembed0 := inembed
  inembed1 := 1
  onembed0 := onum / batch
  idist := inembed
  istride := 1
  odist := onum / batch
  ostride := 1
  in_stride := [inembed, 1, 1]
  out_stride := [(onum / batch : Nat), 1, 1]
  input_dtype := MLUOP_DTYPE_FLOAT
  execution_dtype := MLUOP_DTYPE_FLOAT
  output_dtype := MLUOP_DTYPE_COMPLEX_FLOAT
  is_input_contiguous := in_contiguous
  is_output_contiguous := out_contiguous
  fft_strategy := CNFFT_FUNC_MATMUL
  prime := true
  L := 3
  m := 2
  L_sub := 1
  reservespace_size := 0
  workspace_size := 0
  reservespace_addr := ⟨Base.reservespace, 0⟩
  matmul_addrs := MatmulAddrs.unset
  mlu_addrs := MluAddrs.unset

/-- A direct-matmul plan of length 4, one batch row, strided input and strided
output whose rows are embedded in 4 elements (`onum = 4`). -/
def wideOutputPlan : FFTPlan := examplePlan 4 1 4 4 false false

/-- A contiguous direct-matmul plan of length 4 whose input rows are embedded
in 6 elements. -/
def wideInputPlan : FFTPlan := examplePlan 4 1 6 3 true true

/-- A contiguous float plan of the matmul-family path with `batch` rows of
length `n = L * 2^m`, the input rows embedded in `inembed` elements. -/
def batchedPlan (L m batch inembed : Nat) : FFTPlan :=
  { examplePlan (L * 2 ^ m) batch inembed (batch * ((L * 2 ^ m) / 2 + 1)) true true with
    L := L
    m := m }

/-- A handle of the newer device generation. -/
def newerHandle : Handle := ⟨373⟩

/-- The caller's input pointer in the examples. -/
def exampleInput : Addr := ⟨Base.input, 0⟩

/-- The caller's workspace pointer in the examples. -/
def exampleWorkspace : Addr := ⟨Base.workspace, 0⟩

/-- The caller's output pointer in the examples. -/
def exampleOutput : Addr := ⟨Base.output, 0⟩

/-- A backend on which every call succeeds and no matmul asks for scratch. -/
def exampleBackend : Backend := Backend.allSucceed fun _ _ _ => 0

/-- A backend on which every kernel launch reports a failure and every other
call succeeds. -/
def kernelFailingBackend : Backend where
  status := fun _ c =>
    if c.isKernelLaunch then MLUOP_STATUS_EXECUTION_FAILED else MLUOP_STATUS_SUCCESS
  heuristicWorkspaceSize := fun _ _ _ => 0

/-- A backend on which the pad primitive fails and every other call succeeds. -/
def padFailingBackend : Backend where
  status := fun _ c => if c.isPad then MLUOP_STATUS_INTERNAL_ERROR else MLUOP_STATUS_SUCCESS
  heuristicWorkspaceSize := fun _ _ _ => 0


/-! ## The reserved area -/

/-- The body of configureRFFT1dMatmulReserveAddrs: where the precomputed
matrices of the matmul-family strategies lie in the reserved buffer.  Besides
the plan, the final value of the local `dft_mat_size` is returned. -/
def configureRFFT1dMatmulReserveAddrsAux (env : Env) (fft_plan : FFTPlan) : FFTPlan × Nat :=
  let dft_mat_size : Nat := 0
  let in_r_dtype := fft_plan.input_dtype
  let in_r_dtype_size := env.mluOpDataTypeBytes in_r_dtype
  let n := fft_plan.n0
  match fft_plan.fft_strategy with
  | CNFFT_FUNC_MATMUL =>
    -- Matmul Matrix : [(n / 2 + 1), 2, n]
    let dim0 := FFT_HALF n
    let dim1 := COMPLEX
    let dim2 := n
    let dft_mat_size := dim0 * dim1 * dim2 * in_r_dtype_size
    ({ fft_plan with
        matmul_addrs :=
          { fft_plan.matmul_addrs with dft_matrix_addr := fft_plan.reservespace_addr } },
      dft_mat_size)
  | CNFFT_FUNC_COOLEY_TUKEY | CNFFT_FUNC_STOCKHAM =>
    -- Matmul Matrix : 2 * [L, L]
    let L := fft_plan.L
    let dft_mat_times := COMPLEX
    let per_dft_mat_size := L * L * in_r_dtype_size
    let dft_mat_size := dft_mat_times * per_dft_mat_size
    ({ fft_plan with
        matmul_addrs :=
          { fft_plan.matmul_addrs with
            dft_matrix_addr := fft_plan.reservespace_addr
            dft_re_matrix_addr := fft_plan.reservespace_addr
            dft_im_matrix_addr := fft_plan.reservespace_addr.add per_dft_mat_size } },
      dft_mat_size)
  | _ => (fft_plan, dft_mat_size)

/-- The function configureRFFT1dMatmulReserveAddrs. -/
def configureRFFT1dMatmulReserveAddrs (env : Env) (fft_plan : FFTPlan) : FFTPlan :=
  (configureRFFT1dMatmulReserveAddrsAux env fft_plan).1

/-! ## Scratch of the backend primitives -/

/-- The terms makeRFFT1dPolicy adds to the workspace size for the staging
buffers, each as it computes it, the internal scratch left out: the contiguous
input (strided input only), the padded input (embedding different from the
length), the transposed input and the two matmul results (composite
strategies), and the contiguous output (strided output only). -/
def stagingBytes (env : Env) (p : FFTPlan) : Nat :=
  let b := env.mluOpDataTypeBytes p.input_dtype
  let o := env.mluOpDataTypeBytes p.output_dtype
  (if p.is_input_contiguous then 0 else size_t (b * p.inum)) +
  (if p.inembed0 != p.n0 then countedBytes b p.batch p.n0 else 0) +
  (if p.fft_strategy = CNFFT_FUNC_MATMUL then
    (if p.is_output_contiguous then 0 else countedBytes o p.batch (FFT_HALF p.n0))
  else
    countedBytes b p.batch p.n0 +
      size_t (size_t (2 * b) * sizeOfInt (int32 ((p.batch * p.n0 : Nat) : Int))) +
      (if p.is_output_contiguous then 0 else size_t (o * p.onum)))

/-- The byte count of the staging buffers with every product and sum taken
exactly: the bytes the staged tensors take. -/
def stagingBytesExact (env : Env) (p : FFTPlan) : Nat :=
  let b := env.mluOpDataTypeBytes p.input_dtype
  let o := env.mluOpDataTypeBytes p.output_dtype
  (if p.is_input_contiguous then 0 else b * p.inum) +
  (if p.inembed0 != p.n0 then b * (p.batch * p.n0) else 0) +
  (if p.fft_strategy = CNFFT_FUNC_MATMUL then
    (if p.is_output_contiguous then 0 else o * (p.batch * FFT_HALF p.n0))
  else
    b * (p.batch * p.n0) + 2 * b * (p.batch * p.n0) +
      (if p.is_output_contiguous then 0 else o * p.onum))

/-- The call is a backend primitive that is handed the internal scratch. -/
def Call.usesScratch : Call → Bool
  | .fftTranspose _ _ _ _ _ _ _ _ _ => true
  | .fftMatMul _ _ _ _ _ _ _ _ _ _ _ _ _ _ _ => true
  | .fftBatchMatMulBcast _ _ _ _ _ _ _ _ _ _ _ _ _ _ _ _ => true
  | _ => false

/-- The scratch a matmul or transpose call needs, as the size query of the
primitive reports it for the call's shape, flags and types. -/
def scratchRequired (env : Env) : Call → Nat
  | .fftMatMul m k n _ _ _ is_trans_a is_trans_b _ _ a_compute_type b_compute_type data_type
      _ _ =>
    (env.fftGetMatMulWorkspaceSize m k n is_trans_a is_trans_b a_compute_type b_compute_type
      data_type).2
  | .fftTranspose dim_num ori_dims _ permute _ _ data_type _ _ =>
    (env.fftGetTransposeWorkspaceSize dim_num (ori_dims.map Int.toNat) (permute.map Int.toNat)
      data_type).2
  | _ => 0

/-- The scratch buffer and its size that a primitive is handed. -/
def scratchGiven : Call → Option (Addr × Nat)
  | .fftTranspose _ _ _ _ _ _ _ workspace workspace_size => some (workspace, workspace_size)
  | .fftMatMul _ _ _ _ _ _ _ _ _ _ _ _ _ workspace workspace_size =>
    some (workspace, workspace_size)
  | .fftBatchMatMulBcast _ _ _ _ _ _ _ _ _ _ _ _ _ _ workspace workspace_size =>
    some (workspace, workspace_size)
  | _ => none

/-! ## Comparing the sizes of two plans -/

/-- The scratch-size queries of the environment are non-decreasing: a shape
that is no smaller in any extent (and, for the broadcast matmul, a scratch size
handed in that is no smaller) is reported no less scratch. -/
def Env.monotoneQueries (env : Env) : Prop :=
  (∀ (m k n m' k' n' : Nat) (ta tb : Bool) (ct1 ct2 dt : mluOpDataType_t),
    m ≤ m' → k ≤ k' → n ≤ n' →
    (env.fftGetMatMulWorkspaceSize m k n ta tb ct1 ct2 dt).2 ≤
      (env.fftGetMatMulWorkspaceSize m' k' n' ta tb ct1 ct2 dt).2) ∧
  (∀ (d a b c a' b' c' : Nat) (permute : List Nat) (dt : mluOpDataType_t),
    a ≤ a' → b ≤ b' → c ≤ c' →
    (env.fftGetTransposeWorkspaceSize d [a, b, c] permute dt).2 ≤
      (env.fftGetTransposeWorkspaceSize d [a', b', c'] permute dt).2) ∧
  (∀ (m k n batch m' k' n' batch' : Nat) (a b c : Addr) (ta tb : Bool)
    (ct1 ct2 dt : mluOpDataType_t) (w : Addr) (ws ws' : Nat),
    m ≤ m' → k ≤ k' → n ≤ n' → batch ≤ batch' → ws ≤ ws' →
    (env.fftGetBatchMatMulBcastWorkspaceSize m k n batch a b c ta tb ct1 ct2 dt w ws).2 ≤
      (env.fftGetBatchMatMulBcastWorkspaceSize m' k' n' batch' a b c ta tb ct1 ct2 dt w ws').2)

/-! ## More call classes -/

/-- The call is the transpose primitive `fftTranspose`. -/
def Call.isTranspose : Call → Bool
  | .fftTranspose _ _ _ _ _ _ _ _ _ => true
  | _ => false

/-- The call is the elementwise scale primitive `cnnlTransform_v2`. -/
def Call.isScale : Call → Bool
  | .cnnlTransform_v2 _ _ _ _ _ _ => true
  | _ => false

/-- The call is a matrix multiply: `fftMatMul`, `fftBatchMatMulBcast`,
`cnnlMatMul_v2` or `cnnlBatchMatMulEx`. -/
def Call.isMatmul : Call → Bool
  | .fftMatMul _ _ _ _ _ _ _ _ _ _ _ _ _ _ _ => true
  | .fftBatchMatMulBcast _ _ _ _ _ _ _ _ _ _ _ _ _ _ _ _ => true
  | .cnnlMatMul_v2 _ _ _ _ _ _ _ _ _ _ _ _ => true
  | .cnnlBatchMatMulEx _ _ _ _ _ _ _ _ _ _ => true
  | _ => false

/-- The call releases a descriptor or a handle: what a stage still issues after
its primitive. -/
def Call.isRelease : Call → Bool
  | .mluOpDestroyTensorDescriptor => true
  | .DESTROY_CNNL_TENSOR_DESCRIPTOR => true
  | .DESTROY_CNNL_HANDLE => true
  | .cnnlDestroyMatMulDescriptor => true
  | .cnnlDestroyMatMulAlgo => true
  | .cnnlDestroyMatMulHeuristicResult => true
  | _ => false

/-! ## Data flow of the matmul-family path -/

/-- For a call of the input side that moves the signal from one buffer to
another (strided copy, pad, transpose): the address it reads and the address it
writes. -/
def Call.moves : Call → Option (Addr × Addr)
  | .mluOpContiguous _ src dst => some (src, dst)
  | .cnnlPad _ src _ _ _ dst => some (src, dst)
  | .fftTranspose _ _ _ _ src dst _ _ _ => some (src, dst)
  | _ => none

/-- Follow a sequence of moves starting from the buffer `start`: every move
has to read the buffer the one before it wrote (the first one reads `start`);
the result is the buffer written last, absent when some move reads another
buffer. -/
def followMoves (start : Addr) : List (Addr × Addr) → Option Addr
  | [] => some start
  | (src, dst) :: rest => if src = start then followMoves dst rest else none

/-- The signal operand of a spectral matrix multiply: the A operand of
`fftMatMul` (input times DFT matrix) and the B operand of `fftBatchMatMulBcast`
(DFT matrix times input). -/
def Call.spectralOperand : Call → Option Addr
  | .fftMatMul _ _ _ a_ptr _ _ _ _ _ _ _ _ _ _ _ => some a_ptr
  | .fftBatchMatMulBcast _ _ _ _ _ b_ptr _ _ _ _ _ _ _ _ _ _ => some b_ptr
  | _ => none

/-- The result operand of a spectral matrix multiply. -/
def Call.spectralResult : Call → Option Addr
  | .fftMatMul _ _ _ _ _ c_ptr _ _ _ _ _ _ _ _ _ => some c_ptr
  | .fftBatchMatMulBcast _ _ _ _ _ _ c_ptr _ _ _ _ _ _ _ _ _ => some c_ptr
  | _ => none

/-- The plan a merge kernel of the composite strategies is launched with. -/
def Call.mergePlan : Call → Option FFTPlan
  | .kernelFFTCooleyTukey fft_plan _ _ => some fft_plan
  | .kernelFFTStockham fft_plan _ _ _ => some fft_plan
  | _ => none

/-- Modelled from the spec: the buffer a merge kernel of the composite
strategies writes.  The kernels kernelFFTCooleyTukey and kernelFFTStockham are
launched with the plan and their bodies are not part of the host file; by the
comment above mergeRFFT1dOutput (`output : output complex result in
output_contiguous_addr`) they write the complex result to
`matmul_addrs.output_contiguous_addr` of the plan they are launched with. -/
def Call.mergeDestination (c : Call) : Option Addr :=
  c.mergePlan.map fun q => q.matmul_addrs.output_contiguous_addr

/-- Modelled from the spec: the two buffers a merge kernel of the composite
strategies reads.  By the comment above mergeRFFT1dOutput (`input : input real
matmul dft real result in matmul_re_mul_re_addr, input real matmul dft imag
result in matmul_re_mul_im_addr`) they are the two matmul results of the plan
the kernel is launched with. -/
def Call.mergeSources (c : Call) : Option (Addr × Addr) :=
  c.mergePlan.map fun q =>
    (q.matmul_addrs.matmul_re_mul_re_addr, q.matmul_addrs.matmul_re_mul_im_addr)

/-! ## Kinds of calls -/

/-- What a call into a collaborator does, as far as the pipeline is concerned:
descriptor and handle housekeeping (creation, setting, heuristic queries,
release), one of the data-moving primitives, a matrix multiply, a device
kernel launch, the elementwise scale, or a device allocation. -/
inductive CallKind where
  | housekeeping
  | inputCopy
  | pad
  | transpose
  | matmul
  | kernel
  | scale
  | outputCopy
  | alloc
  deriving DecidableEq, Repr

/-- The kind of a call. -/
def Call.kind : Call → CallKind
  | .mluOpContiguous _ _ _ => .inputCopy
  | .cnnlPad _ _ _ _ _ _ => .pad
  | .cnnlCopy_v2 _ _ _ _ => .outputCopy
  | .cnnlTransform_v2 _ _ _ _ _ _ => .scale
  | .fftTranspose _ _ _ _ _ _ _ _ _ => .transpose
  | .fftMatMul _ _ _ _ _ _ _ _ _ _ _ _ _ _ _ => .matmul
  | .fftBatchMatMulBcast _ _ _ _ _ _ _ _ _ _ _ _ _ _ _ _ => .matmul
  | .cnnlMatMul_v2 _ _ _ _ _ _ _ _ _ _ _ _ => .matmul
  | .cnnlBatchMatMulEx _ _ _ _ _ _ _ _ _ _ => .matmul
  | .kernelFFTCooleyTukey _ _ _ => .kernel
  | .kernelFFTStockham _ _ _ _ => .kernel
  | .kernelFFT1dButterflyR2C _ _ => .kernel
  | .kernelRFFT2dButterflyRow _ _ => .kernel
  | .kernelRFFT2dButterflyColumn _ _ => .kernel
  | .kernelFFTBatchConjMergeR2C _ _ _ _ _ => .kernel
  | .cnrtMalloc _ => .alloc
  | _ => .housekeeping

/-- The kind of the call is one of the listed kinds. -/
def Call.kindIn (kinds : List CallKind) (c : Call) : Bool := kinds.contains c.kind

/-! ## Stages on a backend that never fails -/

/-- The pointer bumps of one batch iteration, on the plan. -/
def advancePlan (idist odist : Nat) (p : FFTPlan) : FFTPlan :=
  (advanceBatch idist odist ⟨p, []⟩).fft_plan

/-- The pointer restore after a batch loop, on the plan. -/
def rewindPlan (idist odist : Nat) (p : FFTPlan) : FFTPlan :=
  (rewindBatch idist odist ⟨p, []⟩).fft_plan

/-- The step `f` cannot fail: from every state it returns success, leaves the
plan `g p` where it found `p`, and extends the trace by calls that depend on
the plan alone. -/
def Stage.runsTo (f : Stage) (g : FFTPlan → FFTPlan) : Prop :=
  ∀ s, f s = (MLUOP_STATUS_SUCCESS, ⟨g s.fft_plan, s.trace ++ callsOf f s.fft_plan⟩)


/-! ## The 2D pad stage -/

/-- The function padRFFT2dContiguousInput: the zero-pad of a `[batch, n0, n1]`
input whose embedding differs from the transform lengths.  It reads the
normalised input and writes the padded-input role. -/
def padRFFT2dContiguousInput (be : Backend) (s : ExecState) : mluOpStatus_t × ExecState :=
  let fft_plan := s.fft_plan
  let in_r_dtype := fft_plan.input_dtype
  let batch := fft_plan.batch
  let n0 := fft_plan.n0
  let n1 := fft_plan.n1
  let need_pad : Bool := fft_plan.inembed0 != n0 || fft_plan.inembed1 != n1
  if need_pad then
    CHECK_RETURN (issue be .mluOpCreateTensorDescriptor s) fun s =>
    CHECK_RETURN (issue be .mluOpCreateTensorDescriptor s) fun s =>
    let dims : List Int :=
      [batch, ((min n0 fft_plan.inembed0 : Nat) : Int), ((min n1 fft_plan.inembed1 : Nat) : Int)]
    CHECK_RETURN (issue be (.mluOpSetTensorDescriptor_v2 in_r_dtype dims) s) fun s =>
    let padded_dims : List Int := [batch, n0, n1]
    CHECK_RETURN (issue be (.mluOpSetTensorDescriptor_v2 in_r_dtype padded_dims) s) fun s =>
    let paddings : List Int :=
      [0, 0, 0, max ((n0 : Int) - (fft_plan.inembed0 : Int)) 0,
       0, max ((n1 : Int) - (fft_plan.inembed1 : Int)) 0]
    let padding_value : Nat := 0
    let input_desc : TensorDesc := ⟨in_r_dtype, dims, none, none⟩
    let padded_input_desc : TensorDesc := ⟨in_r_dtype, padded_dims, none, none⟩
    CALL_CNNL be .DEFINE_CREATE_AND_SET_CNNL_HANDLE s fun s =>
    CALL_CNNL be (.DEFINE_CREATE_AND_SET_CNNL_TENSOR_DESCRIPTOR input_desc) s fun s =>
    CALL_CNNL be (.DEFINE_CREATE_AND_SET_CNNL_TENSOR_DESCRIPTOR padded_input_desc) s fun s =>
    CALL_CNNL be (.cnnlPad input_desc
      (if fft_plan.prime then fft_plan.matmul_addrs.input_contiguous_addr
        else fft_plan.mlu_addrs.input)
      paddings padding_value padded_input_desc
      (if fft_plan.prime then fft_plan.matmul_addrs.input_pad_addr
        else fft_plan.mlu_addrs.input_pad_addr)) s fun s =>
    CHECK_RETURN (issue be .mluOpDestroyTensorDescriptor s) fun s =>
    CHECK_RETURN (issue be .mluOpDestroyTensorDescriptor s) fun s =>
    CALL_CNNL be .DESTROY_CNNL_TENSOR_DESCRIPTOR s fun s =>
    CALL_CNNL be .DESTROY_CNNL_TENSOR_DESCRIPTOR s fun s =>
    CALL_CNNL be .DESTROY_CNNL_HANDLE s fun s =>
    (MLUOP_STATUS_SUCCESS, s)
  else (MLUOP_STATUS_SUCCESS, s)

/-- The plan a 2D butterfly kernel is launched with. -/
def Call.butterfly2dPlan : Call → Option FFTPlan
  | .kernelRFFT2dButterflyRow fft_plan _ => some fft_plan
  | .kernelRFFT2dButterflyColumn fft_plan _ => some fft_plan
  | _ => none

/-- A float 2D plan: `batch` transforms of `n0 x n1` points, input embedded in
`inembed0 x inembed1` elements, dense output of `n0 x (n1/2+1)` complex
elements, with the given contiguity flags and strategy. -/
def examplePlan2d (n0 n1 batch inembed0 inembed1 : Nat) (in_contiguous out_contiguous : Bool)
    (strategy : FFTStrategy) : FFTPlan where
  n0 := n0
  n1 := n1
  batch := batch
  inum := batch * inembed0 * inembed1
  onum := batch * n0 * (n1 / 2 + 1)
  inembed0 := inembed0
  inembed1 := inembed1
  onembed0 := n0
  idist := inembed0 * inembed1
  istride := 1
  odist := n0 * (n1 / 2 + 1)
  ostride := 1
  in_stride := [((inembed0 * inembed1 : Nat) : Int), inembed1, 1]
  out_stride := [((n0 * (n1 / 2 + 1) : Nat) : Int), ((n1 / 2 + 1 : Nat) : Int), 1]
  input_dtype := MLUOP_DTYPE_FLOAT
  execution_dtype := MLUOP_DTYPE_FLOAT
  output_dtype := MLUOP_DTYPE_COMPLEX_FLOAT
  is_input_contiguous := in_contiguous
  is_output_contiguous := out_contiguous
  fft_strategy := strategy
  prime := false
  L := 0
  m := 0
  L_sub := 0
  reservespace_size := 0
  workspace_size := 0
  reservespace_addr := ⟨Base.reservespace, 0⟩
  matmul_addrs := MatmulAddrs.unset
  mlu_addrs := MluAddrs.unset

/-! ## The output role, the writeback copy and the scale call -/

/-- The output role of a 1D plan: `matmul_addrs.output_contiguous_addr` on the
matmul-family path, `mlu_addrs.output` on the butterfly path. -/
def outputRoleRFFT1d (p : FFTPlan) : Addr :=
  if p.prime then p.matmul_addrs.output_contiguous_addr else p.mlu_addrs.output

/-- The copy makeRFFT1dContiguousOutput issues for plan `p`: from the output
role, read as a dense `[batch, onembed0]` (matmul family) or `[batch, n/2+1]`
(butterfly) tensor, into the caller's output with strides `[odist, ostride]`. -/
def writebackCallRFFT1d (p : FFTPlan) (output : Addr) : Call :=
  .cnnlCopy_v2
    ⟨p.output_dtype,
      [p.batch, if p.prime then (p.onembed0 : Int) else ((p.n0 / 2 + 1 : Nat) : Int)],
      none, none⟩
    (outputRoleRFFT1d p)
    ⟨p.output_dtype,
      [p.batch, if p.prime then (p.onembed0 : Int) else ((p.n0 / 2 + 1 : Nat) : Int)],
      some [p.odist, p.ostride], none⟩
    output

/-- The copy makeRFFT2dContiguousOutput issues for plan `p`: from
`mlu_addrs.output`, read as a dense `[batch, n0, n1/2+1]` tensor, into the
caller's output with the first three output strides. -/
def writebackCallRFFT2d (p : FFTPlan) (output : Addr) : Call :=
  .cnnlCopy_v2
    ⟨p.output_dtype, [p.batch, p.n0, ((p.n1 / 2 + 1 : Nat) : Int)], none, none⟩
    p.mlu_addrs.output
    ⟨p.output_dtype, [p.batch, p.n0, ((p.n1 / 2 + 1 : Nat) : Int)],
      some (p.out_stride.take 3), none⟩
    output

/-- The transform call of the scale block for plan `p`: in place on
`mlu_addrs.output`, over a tensor of extents `dims`, with
`alpha = (scale_factor, 0)` and `beta = (0, 0)`. -/
def scaleCall (scale_factor : CFloat) (dims : List Int) (p : FFTPlan) : Call :=
  .cnnlTransform_v2 [scale_factor, CFloat.zero]
    ⟨p.output_dtype, dims, none, some p.execution_dtype⟩ p.mlu_addrs.output
    [CFloat.zero, CFloat.zero]
    ⟨p.output_dtype, dims, none, some p.execution_dtype⟩ p.mlu_addrs.output

/-- The `alpha` factor of a matrix multiply. -/
def Call.matmulAlpha : Call → Option CFloat
  | .fftMatMul _ _ _ _ _ _ _ _ alpha _ _ _ _ _ _ => some alpha
  | .fftBatchMatMulBcast _ _ _ _ _ _ _ _ _ alpha _ _ _ _ _ _ => some alpha
  | .cnnlMatMul_v2 alpha _ _ _ _ _ _ _ _ _ _ _ => some alpha
  | .cnnlBatchMatMulEx alpha _ _ _ _ _ _ _ _ _ => some alpha
  | _ => none

/-! ## The roles an allocator assigns -/

/-- The plan with every role that the allocator of execRFFT1d assigns set to
null: on the matmul-family path the seven workspace roles of `matmul_addrs`
written by configureRFFT1dMatmulWorkspaceAddrs; on the butterfly path
`mlu_addrs.buffer_buf`, `.input`, `.output` and, when `n[0] > inembed[0]`,
`.input_pad_addr`, as written by configureRFFT1dWorkspaceAddrs.  Every other
field is kept. -/
def eraseAssignedRFFT1d (p : FFTPlan) : FFTPlan :=
  if p.prime then
    { p with
      matmul_addrs :=
        { p.matmul_addrs with
          input_contiguous_addr := Addr.nullptr
          input_pad_addr := Addr.nullptr
          input_transed_addr := Addr.nullptr
          internal_workspace_addr := Addr.nullptr
          output_contiguous_addr := Addr.nullptr
          matmul_re_mul_im_addr := Addr.nullptr
          matmul_re_mul_re_addr := Addr.nullptr } }
  else
    { p with
      mlu_addrs :=
        { p.mlu_addrs with
          buffer_buf := Addr.nullptr
          input := Addr.nullptr
          output := Addr.nullptr
          input_pad_addr :=
            if p.n0 > p.inembed0 then Addr.nullptr else p.mlu_addrs.input_pad_addr } }

/-- The plan with every role that configureRFFT2dWorkspaceAddrs assigns set to
null: `input`, `output`, `buffer_in`, `buffer_out` under
CNFFT_FUNC_MANY_DIST1_2D; `buffer_buf`, `input`, `output` under
CNFFT_FUNC_TWO_LEVEL_STOCKHAM; `input_pad_addr` when a length exceeds its
embedding.  Every other field is kept. -/
def eraseAssignedRFFT2d (p : FFTPlan) : FFTPlan :=
  let many : Bool := p.fft_strategy = CNFFT_FUNC_MANY_DIST1_2D
  let two : Bool := p.fft_strategy = CNFFT_FUNC_TWO_LEVEL_STOCKHAM
  { p with
    mlu_addrs :=
      { p.mlu_addrs with
        input := if many || two then Addr.nullptr else p.mlu_addrs.input
        output := if many || two then Addr.nullptr else p.mlu_addrs.output
        buffer_in := if many then Addr.nullptr else p.mlu_addrs.buffer_in
        buffer_out := if many then Addr.nullptr else p.mlu_addrs.buffer_out
        buffer_buf := if two then Addr.nullptr else p.mlu_addrs.buffer_buf
        input_pad_addr :=
          if p.n0 > p.inembed0 ∨ p.n1 > p.inembed1 then Addr.nullptr
          else p.mlu_addrs.input_pad_addr } }

/-! ## The scratch-size queries of the planner -/

/-- The statuses of the backend scratch-size queries issued by the
`case CNFFT_FUNC_MATMUL` block of makeRFFT1dPolicy, in program order: the
matmul query, unless the length check returned before it. -/
def makeRFFT1dPolicy_MATMUL_queries (env : Env) (FFT_L_LIMIT_MATMUL : Nat)
    (fft_plan : FFTPlan) : List mluOpStatus_t :=
  let in_r_dtype := fft_plan.input_dtype
  let in_e_dtype := fft_plan.execution_dtype
  let batch := fft_plan.batch
  let n := fft_plan.n0
  if n > FFT_L_LIMIT_MATMUL then [] else
  let dim0 := FFT_HALF n
  let dim1 := COMPLEX
  let dim2 := n
  [(env.fftGetMatMulWorkspaceSize batch dim2 (dim0 * dim1) false true
    in_e_dtype in_e_dtype in_r_dtype).1]

/-- The statuses of the backend scratch-size queries issued by the
`case CNFFT_FUNC_COOLEY_TUKEY: case CNFFT_FUNC_STOCKHAM:` block of
makeRFFT1dPolicy, in program order: the transpose query, then the matmul query
(Cooley-Tukey) or the broadcast-matmul query (Stockham). -/
def makeRFFT1dPolicy_COMPOSITE_queries (env : Env) (fft_plan : FFTPlan) : List mluOpStatus_t :=
  let in_r_dtype := fft_plan.input_dtype
  let in_e_dtype := fft_plan.execution_dtype
  let batch := fft_plan.batch
  let L := fft_plan.L
  let m := 2 ^ fft_plan.m
  if L > FFT_L_LIMIT then [] else
  let internal_workspace_size := 0
  let trans_dim_num := 3
  let qt := env.fftGetTransposeWorkspaceSize trans_dim_num [batch, L, m] [0, 2, 1] in_r_dtype
  let internal_workspace_size := max internal_workspace_size qt.2
  [qt.1,
    if fft_plan.fft_strategy = CNFFT_FUNC_COOLEY_TUKEY then
      (env.fftGetMatMulWorkspaceSize (batch * m) L L false true
        in_e_dtype in_e_dtype in_r_dtype).1
    else
      (env.fftGetBatchMatMulBcastWorkspaceSize
        (if L ≤ fft_plan.L_sub then 2 * L else 2 * (PAD_UP (L / 2) fft_plan.L_sub + 1))
        L m batch fft_plan.matmul_addrs.dft_re_matrix_addr
        fft_plan.matmul_addrs.input_pad_addr fft_plan.matmul_addrs.matmul_re_mul_re_addr
        false false in_e_dtype in_e_dtype in_r_dtype
        fft_plan.matmul_addrs.internal_workspace_addr internal_workspace_size).1]

/-- The statuses of the backend scratch-size queries issued by a call of
makeRFFT1dPolicy, in program order. -/
def makeRFFT1dPolicy_queries (env : Env) (handle : Handle) (fft_plan : FFTPlan) :
    List mluOpStatus_t :=
  let sel := selectRFFT1dStrategy env handle fft_plan
  if sel.1 ≠ MLUOP_STATUS_SUCCESS then [] else
  let fft_plan := sel.2
  let FFT_L_LIMIT_MATMUL :=
    if handle.arch > env.MLUOP_MLU370 then env.FFT_L_LIMIT_MATMUL_500
    else env.FFT_L_LIMIT_MATMUL_300
  match fft_plan.fft_strategy with
  | CNFFT_FUNC_MATMUL => makeRFFT1dPolicy_MATMUL_queries env FFT_L_LIMIT_MATMUL fft_plan
  | CNFFT_FUNC_COOLEY_TUKEY | CNFFT_FUNC_STOCKHAM => makeRFFT1dPolicy_COMPOSITE_queries env fft_plan
  | _ => []

/-- An environment on which the transpose scratch-size query reports a failure
and every other query succeeds. -/
def transposeFailingEnv (strategy : FFTStrategy) : Env :=
  { exampleEnv strategy with
    fftGetTransposeWorkspaceSize := fun _ _ _ _ => (MLUOP_STATUS_INTERNAL_ERROR, 0) }

/-! ## Where the scale factor goes on the matmul-family path -/

/-- The float argument through which a stage of the 1D matmul-family path can
scale the signal: `alpha` of a spectral matrix multiply and the `scale_factor`
argument of kernelFFTStockham.  The kernel kernelFFTCooleyTukey has no such
argument. -/
def Call.scaleArgument : Call → Option CFloat
  | .fftMatMul _ _ _ _ _ _ _ _ alpha _ _ _ _ _ _ => some alpha
  | .fftBatchMatMulBcast _ _ _ _ _ _ _ _ _ alpha _ _ _ _ _ _ => some alpha
  | .kernelFFTStockham _ _ scale_factor _ => some scale_factor
  | _ => none

/-- The stages of a trace that take a scale argument, oldest first: the kind of
each such call and the value it is given. -/
def scaledStages (trace : List Call) : List (CallKind × CFloat) :=
  trace.filterMap fun c => c.scaleArgument.map fun a => (c.kind, a)

/-- The scale factor 2.0, as its IEEE-754 bit pattern. -/
def CFloat.two : CFloat := ⟨0x40000000⟩

/-! ## The matrix multiplies of the many-distance-1 strategy -/

/-- The operands of a matrix multiply of the many-distance-1 strategy
(`cnnlBatchMatMulEx` of the row stage, `cnnlMatMul_v2` of the column stage):
descriptor and address of A, of B and of the result C. -/
def Call.matmulOperands :
    Call → Option ((TensorDesc × Addr) × (TensorDesc × Addr) × (TensorDesc × Addr))
  | .cnnlMatMul_v2 _ a_desc a b_desc b _ c_desc c _ _ _ _ =>
    some ((a_desc, a), (b_desc, b), (c_desc, c))
  | .cnnlBatchMatMulEx _ a_desc a b_desc b _ c_desc c _ _ =>
    some ((a_desc, a), (b_desc, b), (c_desc, c))
  | _ => none

/-- The number of elements of a dense tensor: the product of its extents. -/
def TensorDesc.elements (d : TensorDesc) : Int := d.dims.prod

/-- The bytes a matrix multiply of the many-distance-1 strategy writes: the
result tensor C, dense, at its address. -/
def Call.matmulResultRegion (env : Env) (c : Call) : Option Region :=
  c.matmulOperands.map fun x =>
    ⟨x.2.2.2, env.mluOpDataTypeBytes x.2.2.1.dtype * x.2.2.1.elements.toNat⟩

/-! ## Device allocations outside the workspace -/

/-- The call obtains a buffer from the device allocator (`cnrtMalloc`). -/
def Call.isDeviceAlloc : Call → Bool
  | .cnrtMalloc _ => true
  | _ => false

/-- The call hands a buffer back to the device allocator.  The file contains
no such call (`cnrtFree` does not occur in it, nor does any other release of
device memory), so no constructor of `Call` stands for one. -/
def Call.isDeviceFree : Call → Bool
  | _ => false

/-- A backend on which the batched matrix multiply of the row stage fails and
every other call succeeds; no matmul asks for scratch. -/
def batchMatMulFailingBackend : Backend where
  status := fun _ c =>
    match c with
    | .cnnlBatchMatMulEx _ _ _ _ _ _ _ _ _ _ => MLUOP_STATUS_INTERNAL_ERROR
    | _ => MLUOP_STATUS_SUCCESS
  heuristicWorkspaceSize := fun _ _ _ => 0

/-! ## The batch loop of the two-level Stockham strategy -/

/-- The local `idist` of execRFFT2d: the bytes of one batch element of the
input. -/
def idistRFFT2d (env : Env) (fft_plan : FFTPlan) : Nat :=
  env.mluOpDataTypeBytes fft_plan.input_dtype * fft_plan.n0 * fft_plan.n1

/-- The local `odist` of execRFFT2d: the bytes of one batch element of the
output. -/
def odistRFFT2d (env : Env) (fft_plan : FFTPlan) : Nat :=
  env.mluOpDataTypeBytes fft_plan.output_dtype * fft_plan.n0 * (fft_plan.n1 / 2 + 1)

/-- The plan with the batch pointers `k` elements further: `mlu_addrs.input`
moved by `k * idist` bytes and `mlu_addrs.output` by `k * odist` bytes. -/
def batchPlan (idist odist : Nat) (p : FFTPlan) (k : Nat) : FFTPlan :=
  { p with mlu_addrs :=
    { p.mlu_addrs with
      input := p.mlu_addrs.input.add ((k * idist : Nat) : Int)
      output := p.mlu_addrs.output.add ((k * odist : Nat) : Int) } }

/-- The call launches the row butterfly kernel of the 2D path. -/
def Call.isRowLaunch : Call → Bool
  | .kernelRFFT2dButterflyRow _ _ => true
  | _ => false

/-- The call launches the column butterfly kernel of the 2D path. -/
def Call.isColumnLaunch : Call → Bool
  | .kernelRFFT2dButterflyColumn _ _ => true
  | _ => false

/-- The kernel launches of a two-level Stockham plan `p`, iteration by
iteration, each on the plan with the batch pointers `k` elements further than
in `p`: the column kernel alone for the shape `N x 1`, the row kernel alone for
`1 x N`, no kernel for `1 x 1`, and the row kernel followed by the column
kernel otherwise. -/
def launchesRFFT2d (env : Env) (p : FFTPlan) : List Call :=
  let plan := batchPlan (idistRFFT2d env p) (odistRFFT2d env p) p
  if p.n0 = 1 ∨ p.n1 = 1 then
    if p.n0 ≠ 1 ∧ p.n1 = 1 then
      (List.range p.batch).map fun k => .kernelRFFT2dButterflyColumn (plan k) .FFT_IFFT
    else if p.n0 = 1 ∧ p.n1 ≠ 1 then
      (List.range p.batch).map fun k => .kernelRFFT2dButterflyRow (plan k) .RFFT
    else []
  else
    ((List.range p.batch).map fun k =>
      [Call.kernelRFFT2dButterflyRow (plan k) .RFFT,
        Call.kernelRFFT2dButterflyColumn (plan k) .FFT_IFFT]).flatten

/-- The 64-bit value of a device pointer, given where each buffer starts:
start of the buffer plus offset, reduced modulo 2^64. -/
def Addr.value (start : Base → Nat) (p : Addr) : Nat :=
  (((start p.base : Int) + p.off) % (2 ^ 64 : Int)).toNat

/-- The statement `p = (void *)((uint64_t)p + d)` on the 64-bit value of the
pointer. -/
def bumpU64 (p d : Nat) : Nat := (p + d) % 2 ^ 64

/-- The statement `p = (void *)((uint64_t)p - batch * d)` on the 64-bit value
of the pointer: the product and the difference are taken in `uint64_t`. -/
def restoreU64 (p batch d : Nat) : Nat := (p + (2 ^ 64 - batch * d % 2 ^ 64)) % 2 ^ 64

/-! ## Filling the reserved area -/

/-- A launch of one of the kernels that write a DFT matrix into the reserved
area, with the arguments that give the extents of the matrix; the launch
geometry and the queue are not recorded. -/
inductive GenerateCall where
  | kernelGenerateRFFTHalfDFTMatrix (fft_plan : FFTPlan) (in_r_dtype : mluOpDataType_t) (n : Nat)
  | kernelGenerateRFFTFullDFTMatrix (fft_plan : FFTPlan) (in_r_dtype : mluOpDataType_t)
      (row L : Nat)
  deriving DecidableEq, Repr

/-- The matmul-family branch (`if (fft_plan->prime)`) of setRFFT1dReserveArea:
the reserved addresses are assigned and the generation kernel of the strategy
is launched; returned are the status, the plan and the launches. -/
def setRFFT1dReserveArea_prime (env : Env) (fft_plan : FFTPlan) :
    mluOpStatus_t × FFTPlan × List GenerateCall :=
  let status := MLUOP_STATUS_SUCCESS
  let fft_plan := configureRFFT1dMatmulReserveAddrs env fft_plan
  let in_r_dtype := fft_plan.input_dtype
  let n := fft_plan.n0
  match fft_plan.fft_strategy with
  | CNFFT_FUNC_MATMUL =>
    -- Matmul Matrix : [(n / 2 + 1), 2, n]
    (status, fft_plan, [.kernelGenerateRFFTHalfDFTMatrix fft_plan in_r_dtype n])
  | CNFFT_FUNC_COOLEY_TUKEY =>
    -- Matmul Matrix : 2 * [L, L]
    let L := fft_plan.L
    (status, fft_plan, [.kernelGenerateRFFTFullDFTMatrix fft_plan in_r_dtype L L])
  | CNFFT_FUNC_STOCKHAM =>
    -- Matmul Matrix : 2 * [L, L]
    let L := fft_plan.L
    let row := if L ≤ fft_plan.L_sub then L else PAD_UP (L / 2) fft_plan.L_sub + 1
    (status, fft_plan, [.kernelGenerateRFFTFullDFTMatrix fft_plan in_r_dtype row L])
  | _ => (MLUOP_STATUS_NOT_SUPPORTED, fft_plan, [])

/-- The extents `(m, k, n, batch)` and the result address of a broadcast
matrix multiply: A is `[m, k]`, B is `[batch, k, n]`, the result is
`[batch, m, n]`. -/
def Call.bcastShape : Call → Option (Nat × Nat × Nat × Nat × Addr)
  | .fftBatchMatMulBcast m k n batch _ _ c_ptr _ _ _ _ _ _ _ _ _ => some (m, k, n, batch, c_ptr)
  | _ => none

/-- A Stockham plan of the matmul-family path: `batch` transforms of length
`L * 2^m` with the given sub-length, contiguous input and output. -/
def stockhamPlan (L m L_sub batch : Nat) : FFTPlan :=
  { examplePlan (L * 2 ^ m) batch (L * 2 ^ m) (batch * ((L * 2 ^ m) / 2 + 1)) true true with
    L := L
    m := m
    L_sub := L_sub
    fft_strategy := CNFFT_FUNC_STOCKHAM }

end RFFT

/-! # The parameter tests of mluOpRoiPointPool3d -/

namespace RoiPointPool3d

open RFFT RFFT.mluOpStatus_t

/-- A pointer argument as a null check sees it. -/
inductive Ptr where
  | nullptr
  | valid
  deriving DecidableEq, Repr

/-- Modelled from the spec: mluOpRoiPointPool3d is declared in mlu_op.h and
defined outside the files at hand, which only call it from the parameter tests.
The checks the tests describe are modelled: MLUOP_STATUS_BAD_PARAM when the
handle, one of the five tensor descriptors or one of the five data pointers is
null, or when the workspace pointer is null while `workspace_size` is not
zero.  What the function returns once these checks pass is the parameter
`otherwise`. -/
def mluOpRoiPointPool3d (otherwise : mluOpStatus_t) (handle : Ptr)
    (_batch_size _pts_num _boxes_num _feature_in_len _sampled_pts_num : Int)
    (points_desc points point_features_desc point_features boxes3d_desc boxes3d : Ptr)
    (workspace : Ptr) (workspace_size : Nat)
    (pooled_features_desc pooled_features pooled_empty_flag_desc pooled_empty_flag : Ptr) :
    mluOpStatus_t :=
  if handle = Ptr.nullptr then MLUOP_STATUS_BAD_PARAM
  else if points_desc = Ptr.nullptr ∨ point_features_desc = Ptr.nullptr ∨
      boxes3d_desc = Ptr.nullptr ∨ pooled_features_desc = Ptr.nullptr ∨
      pooled_empty_flag_desc = Ptr.nullptr then MLUOP_STATUS_BAD_PARAM
  else if workspace_size > 0 ∧ workspace = Ptr.nullptr then MLUOP_STATUS_BAD_PARAM
  else if points = Ptr.nullptr ∨ point_features = Ptr.nullptr ∨ boxes3d = Ptr.nullptr ∨
      pooled_features = Ptr.nullptr ∨ pooled_empty_flag = Ptr.nullptr then
    MLUOP_STATUS_BAD_PARAM
  else otherwise

/-- The members of the test fixture `roipoint_pool3d` with their initial
values: every pointer null, every count 1, `workspace_size_ = 64`. -/
structure Fixture where
  handle_ : Ptr := Ptr.nullptr
  batch_size_ : Int := 1
  pts_num_ : Int := 1
  boxes_num_ : Int := 1
  feature_in_len_ : Int := 1
  sampled_pts_num_ : Int := 1
  points_desc_ : Ptr := Ptr.nullptr
  points_ : Ptr := Ptr.nullptr
  point_features_desc_ : Ptr := Ptr.nullptr
  point_features_ : Ptr := Ptr.nullptr
  boxes3d_desc_ : Ptr := Ptr.nullptr
  boxes3d_ : Ptr := Ptr.nullptr
  pooled_features_desc_ : Ptr := Ptr.nullptr
  pooled_features_ : Ptr := Ptr.nullptr
  workspace_ : Ptr := Ptr.nullptr
  workspace_size_ : Nat := 64
  pooled_empty_flag_desc_ : Ptr := Ptr.nullptr
  pooled_empty_flag_ : Ptr := Ptr.nullptr
  deriving DecidableEq, Repr

/-- The method `setParam` of the fixture: each object whose flag is set is
created (a handle, a descriptor) or allocated (a buffer), which the fixture
checks to have succeeded; the others stay null.  Extents and sizes of the
created objects are not tracked. -/
def setParam (handle points_desc points point_features_desc point_features boxes3d_desc
    boxes3d pooled_features_desc pooled_features pooled_empty_flag_desc pooled_empty_flag
    workspace : Bool) : Fixture :=
  let created : Bool → Ptr := fun flag => if flag then Ptr.valid else Ptr.nullptr
  { handle_ := created handle
    points_desc_ := created points_desc
    points_ := created points
    point_features_desc_ := created point_features_desc
    point_features_ := created point_features
    boxes3d_desc_ := created boxes3d_desc
    boxes3d_ := created boxes3d
    pooled_features_desc_ := created pooled_features_desc
    pooled_features_ := created pooled_features
    pooled_empty_flag_desc_ := created pooled_empty_flag_desc
    pooled_empty_flag_ := created pooled_empty_flag
    workspace_ := created workspace }

/-- The method `compute` of the fixture: the call of mluOpRoiPointPool3d on the
members, whose status it returns. -/
def compute (otherwise : mluOpStatus_t) (f : Fixture) : mluOpStatus_t :=
  mluOpRoiPointPool3d otherwise f.handle_ f.batch_size_ f.pts_num_ f.boxes_num_
    f.feature_in_len_ f.sampled_pts_num_ f.points_desc_ f.points_ f.point_features_desc_
    f.point_features_ f.boxes3d_desc_ f.boxes3d_ f.workspace_ f.workspace_size_
    f.pooled_features_desc_ f.pooled_features_ f.pooled_empty_flag_desc_ f.pooled_empty_flag_

end RoiPointPool3d

/-! # The CPU reference of roi_align_rotated_forward

The functions `preCalcForBilinearInterpolate` and `cpuCompute` of
test/mlu_op_gtest/pb_gtest/src/zoo/roi_align_rotated_forward/roi_align_rotated_forward.cpp.

Conventions of this part.

* A C `int` is an integer; sums and products of `int`s are taken without
  wraparound, except the two `int` products from which cpuCompute derives the
  size of `pre_calc`, which are reduced to the 32-bit two's-complement range
  (`RFFT.int32`).
* A finite `float` is the rational number it stands for.  Comparisons and the
  conversion `(int)` are exact on floats and are modelled exactly; the
  conversion of an integer to `float` rounds to 24 significant bits and is
  modelled with that rounding (`intToFloat`).
* The sample coordinates `y` and `x` are computed in `float` from the
  arguments `roi_start_x`, ..., `sin_theta` and the four loop counters; the
  embedding takes their values as a function of the loop counters (`sample`),
  so that every statement holds for whatever finite values they have.
* The interpolation weights are kept as exact rationals: the rounding of the
  float operations that produce them is not modelled; the weights take no part
  in the computation of an index.
-/

namespace RoiAlignRotatedForward

/-- One element of `pre_calc`: four offsets into the feature map and four
interpolation weights. -/
structure PreCalc where
  pos1 : Int
  pos2 : Int
  pos3 : Int
  pos4 : Int
  w1 : ℚ
  w2 : ℚ
  w3 : ℚ
  w4 : ℚ
  deriving DecidableEq

/-- The number of low bits a natural number loses when it is rounded to the
24-bit significand of a `float` (for numbers below 2^88). -/
def significandShift : Nat → Nat → Nat
  | 0, _ => 0
  | fuel + 1, n => if n < 2 ^ 24 then 0 else significandShift fuel (n / 2) + 1

/-- The conversion of a non-negative integer to `float`: the nearest number
with a 24-bit significand, ties going to the even significand. -/
def natToFloat (n : Nat) : Nat :=
  let e := significandShift 64 n
  let q := n / 2 ^ e
  let r := n % 2 ^ e
  if 2 * r > 2 ^ e ∨ (2 * r = 2 ^ e ∧ q % 2 = 1) then (q + 1) * 2 ^ e else q * 2 ^ e

/-- The conversion of an `int` to `float`; the result is an integer. -/
def intToFloat (z : Int) : Int :=
  if 0 ≤ z then (natToFloat z.toNat : Int) else -(natToFloat (-z).toNat : Int)

/-- The conversion `(int)` of a `float`: truncation towards zero. -/
def floatToInt (q : ℚ) : Int :=
  if 0 ≤ q then ⌊q⌋ else -⌊-q⌋

/-- The all-zero element `PreCalc pc{0, 0, 0, 0, 0, 0, 0, 0}`. -/
def PreCalc.zero : PreCalc := ⟨0, 0, 0, 0, 0, 0, 0, 0⟩

/-- The test `y < -1.0 || y > height || x < -1.0 || x > width` of the innermost
loop: the sample point lies outside the feature map. -/
def outOfMap (height width : Int) (y x : ℚ) : Bool :=
  decide (y < -1 ∨ y > (intToFloat height : ℚ) ∨ x < -1 ∨ x > (intToFloat width : ℚ))

/-- The locals of the innermost loop of preCalcForBilinearInterpolate for a
sample point inside the feature map, after the two clamping blocks. -/
structure Corners where
  y_low : Int
  y_high : Int
  x_low : Int
  x_high : Int
  y : ℚ
  x : ℚ

/-- The statements of the innermost loop from `if (y < 0) y = 0;` to the end of
the two clamping blocks. -/
def corners (height width : Int) (y x : ℚ) : Corners :=
  let y : ℚ := if y < 0 then 0 else y
  let x : ℚ := if x < 0 then 0 else x
  let y_low : Int := floatToInt y
  let x_low : Int := floatToInt x
  let clamp_y : Bool := decide (y_low ≥ height - 1)
  let y_high : Int := if clamp_y then height - 1 else y_low + 1
  let y_low : Int := if clamp_y then height - 1 else y_low
  let y : ℚ := if clamp_y then (intToFloat y_low : ℚ) else y
  let clamp_x : Bool := decide (x_low ≥ width - 1)
  let x_high : Int := if clamp_x then width - 1 else x_low + 1
  let x_low : Int := if clamp_x then width - 1 else x_low
  let x : ℚ := if clamp_x then (intToFloat x_low : ℚ) else x
  { y_low := y_low, y_high := y_high, x_low := x_low, x_high := x_high, y := y, x := x }

/-- The body of the innermost loop of preCalcForBilinearInterpolate from the
test on the sample point on: the element that is stored for the sample point
`(y, x)`. -/
def preCalcEntry (height width channel : Int) (y x : ℚ) : PreCalc :=
  if outOfMap height width y x then PreCalc.zero
  else
    let c := corners height width y x
    let ly : ℚ := c.y - c.y_low
    let lx : ℚ := c.x - c.x_low
    let hy : ℚ := 1 - ly
    let hx : ℚ := 1 - lx
    { pos1 := (c.y_low * width + c.x_low) * channel
      pos2 := (c.y_low * width + c.x_high) * channel
      pos3 := (c.y_high * width + c.x_low) * channel
      pos4 := (c.y_high * width + c.x_high) * channel
      w1 := hy * hx
      w2 := hy * lx
      w3 := ly * hx
      w4 := ly * lx }

/-- The state of the loop nest of preCalcForBilinearInterpolate: the local
`pre_calc_idx` and the assignments `pre_calc[i] = pc` made so far, oldest
first, each with the index `i` it went to. -/
structure PreCalcState where
  pre_calc_idx : Nat
  writes : List (Nat × PreCalc)

/-- A loop `for (int i = 0; i < bound; ++i) body`: no iteration when the bound
is not positive. -/
def forLoop {σ : Type} (bound : Int) (body : Nat → σ → σ) (s : σ) : σ :=
  (List.range bound.toNat).foldl (fun s i => body i s) s

/-- The function preCalcForBilinearInterpolate.  The argument `sample` gives
the values of the locals `y` and `x` in the iteration `(ph, pw, iy, ix)`. -/
def preCalcForBilinearInterpolate (height width channel pooled_height pooled_width
    roi_bin_grid_h roi_bin_grid_w : Int) (sample : Nat → Nat → Nat → Nat → ℚ × ℚ) :
    PreCalcState :=
  forLoop pooled_height (fun ph s =>
    forLoop pooled_width (fun pw s =>
      forLoop roi_bin_grid_h (fun iy s =>
        forLoop roi_bin_grid_w (fun ix s =>
          let pc := preCalcEntry height width channel (sample ph pw iy ix).1
            (sample ph pw iy ix).2
          { pre_calc_idx := s.pre_calc_idx + 1
            writes := s.writes ++ [(s.pre_calc_idx, pc)] }) s) s) s)
    { pre_calc_idx := 0, writes := [] }

/-- The statements
`const float count = std::max(roi_bin_grid_h * roi_bin_grid_w, 1);
std::vector<PreCalc> pre_calc(pooled_height * pooled_width * count);` of
cpuCompute: the number of elements of `pre_calc`.  The product
`roi_bin_grid_h * roi_bin_grid_w` is taken in 32-bit `int` and the maximum is
converted to `float`; the product `pooled_height * pooled_width` is taken in
32-bit `int`, converted to `float` and multiplied by `count` in `float`; the
result is converted to the size of the vector. -/
def cpuCompute_pre_calc_size (pooled_height pooled_width roi_bin_grid_h roi_bin_grid_w : Int) :
    Nat :=
  let count : Int := intToFloat (max (RFFT.int32 (roi_bin_grid_h * roi_bin_grid_w)) 1)
  (intToFloat (intToFloat (RFFT.int32 (pooled_height * pooled_width)) * count)).toNat

/-- The offsets at which the accumulation loop of cpuCompute reads
`offset_features` for one element of `pre_calc` and one channel. -/
def featureOffsets (pc : PreCalc) (c_idx : Int) : List Int :=
  [pc.pos1 + c_idx, pc.pos2 + c_idx, pc.pos3 + c_idx, pc.pos4 + c_idx]

end RoiAlignRotatedForward

namespace RFFT

open mluOpStatus_t mluOpDataType_t FFTStrategy
/-! # Theorems -/

/-! ## Lemmas: the size policy -/

/-- A successful policy call had a successful strategy selection. -/
theorem policy_success_sel (env : Env) (handle : Handle) (plan : FFTPlan)
    (hok : (makeRFFT1dPolicy env handle plan).1 = MLUOP_STATUS_SUCCESS) :
    (selectRFFT1dStrategy env handle plan).1 = MLUOP_STATUS_SUCCESS := by
  by_contra h
  simp [makeRFFT1dPolicy, h] at hok

/-- The composite block leaves the strategy field alone. -/
theorem composite_strategy (env : Env) (p : FFTPlan) :
    (makeRFFT1dPolicy_COMPOSITE env p).2.fft_strategy = p.fft_strategy := by
  unfold makeRFFT1dPolicy_COMPOSITE
  simp only []
  split_ifs <;> rfl

/-- The direct-matmul block leaves the strategy field alone. -/
theorem matmul_strategy (env : Env) (lim : Nat) (p : FFTPlan) :
    (makeRFFT1dPolicy_MATMUL env lim p).2.fft_strategy = p.fft_strategy := by
  unfold makeRFFT1dPolicy_MATMUL
  simp only []
  split_ifs <;> rfl

/-- The policy returns the plan with the strategy the selector chose. -/
theorem policy_strategy (env : Env) (handle : Handle) (plan : FFTPlan) :
    (makeRFFT1dPolicy env handle plan).2.fft_strategy =
      (selectRFFT1dStrategy env handle plan).2.fft_strategy := by
  unfold makeRFFT1dPolicy
  simp only []
  by_cases h : (selectRFFT1dStrategy env handle plan).1 = MLUOP_STATUS_SUCCESS
  · simp only [h, ne_eq, not_true_eq_false, ↓reduceIte]
    split
    · rw [matmul_strategy]
    · rw [composite_strategy]
    · rw [composite_strategy]
    · rfl
  · simp [h]

/-- Under a composite strategy the policy is its composite block. -/
theorem policy_eq_composite (env : Env) (handle : Handle) (plan : FFTPlan)
    (hsel : (selectRFFT1dStrategy env handle plan).1 = MLUOP_STATUS_SUCCESS)
    (hs : (selectRFFT1dStrategy env handle plan).2.fft_strategy = CNFFT_FUNC_COOLEY_TUKEY ∨
          (selectRFFT1dStrategy env handle plan).2.fft_strategy = CNFFT_FUNC_STOCKHAM) :
    makeRFFT1dPolicy env handle plan =
      makeRFFT1dPolicy_COMPOSITE env (selectRFFT1dStrategy env handle plan).2 := by
  unfold makeRFFT1dPolicy
  rcases hs with hs | hs <;> simp [hsel, hs]

/-- Under the direct-matmul strategy the policy is its direct-matmul block. -/
theorem policy_eq_matmul (env : Env) (handle : Handle) (plan : FFTPlan)
    (hsel : (selectRFFT1dStrategy env handle plan).1 = MLUOP_STATUS_SUCCESS)
    (hs : (selectRFFT1dStrategy env handle plan).2.fft_strategy = CNFFT_FUNC_MATMUL) :
    makeRFFT1dPolicy env handle plan =
      makeRFFT1dPolicy_MATMUL env
        (if handle.arch > env.MLUOP_MLU370 then env.FFT_L_LIMIT_MATMUL_500
          else env.FFT_L_LIMIT_MATMUL_300)
        (selectRFFT1dStrategy env handle plan).2 := by
  unfold makeRFFT1dPolicy
  simp [hsel, hs]

/-! ## Lemmas: machine arithmetic -/

/-- An `int` product that stays below 2^31 is exact. -/
theorem int32_of_lt (n : Nat) (h : n < 2 ^ 31) : int32 (n : Int) = n := by
  unfold int32
  omega

/-- A non-negative `int` keeps its value as a `size_t`. -/
theorem sizeOfInt_natCast (n : Nat) (h : n < 2 ^ 64) : sizeOfInt (n : Int) = n := by
  unfold sizeOfInt
  omega

/-- A `size_t` result below 2^64 is exact. -/
theorem size_t_of_lt (n : Nat) (h : n < 2 ^ 64) : size_t n = n := by
  unfold size_t
  omega

/-- The element count of a byte count that stays below 2^31 is exact. -/
theorem sizeOfInt_int32 (n : Nat) (h : n < 2 ^ 31) : sizeOfInt (int32 (n : Int)) = n := by
  rw [int32_of_lt n h, sizeOfInt_natCast n (by omega)]

/-- The byte count of the two matmul results, when it stays below 2^64, is
exact. -/
theorem doubledBytes_of_lt (b N : Nat) (h : 2 * (b * N) < 2 ^ 64) :
    size_t (size_t (2 * b) * N) = 2 * (b * N) := by
  rcases Nat.eq_zero_or_pos N with h0 | hpos
  · subst h0
    simp [size_t]
  · have h1 : b * 1 ≤ b * N := Nat.mul_le_mul_left b hpos
    have h2 : size_t (2 * b) = 2 * b := size_t_of_lt _ (by omega)
    rw [h2, size_t_of_lt]
    · ring
    · have : 2 * b * N = 2 * (b * N) := by ring
      omega

/-! ## Lemmas: the regions of a composite plan -/

/-- Regions of a sized composite plan whose element count `batch * n` stays
below 2^31 and whose exact byte count stays below 2^64. -/
theorem composite_regions (env : Env) (p : FFTPlan) (input workspace output : Addr)
    (hs : p.fft_strategy = CNFFT_FUNC_COOLEY_TUKEY ∨ p.fft_strategy = CNFFT_FUNC_STOCKHAM)
    (hL : p.L ≤ FFT_L_LIMIT)
    (hint : p.batch * p.n0 < 2 ^ 31)
    (hfit : stagingBytesExact env p +
      (makeRFFT1dPolicy_COMPOSITE env p).2.matmul_addrs.internal_workspace_size < 2 ^ 64) :
    let planned := (makeRFFT1dPolicy_COMPOSITE env p).2
    let r := configureRFFT1dMatmulWorkspaceAddrsAux env planned input workspace output
    (matmulWorkspaceRegions env r.1).Pairwise Region.disjoint ∧
    (∀ reg ∈ matmulWorkspaceRegions env r.1, reg.within workspace planned.workspace_size) ∧
    r.2.1 + r.2.2 = planned.workspace_size := by
  intro planned r
  have hcomp : (decide (p.fft_strategy = CNFFT_FUNC_COOLEY_TUKEY) ||
      decide (p.fft_strategy = CNFFT_FUNC_STOCKHAM)) = true := by
    rcases hs with h | h <;> simp [h]
  have hne : p.fft_strategy ≠ CNFFT_FUNC_MATMUL := by
    rcases hs with h | h <;> simp [h]
  have hL' : ¬ p.L > FFT_L_LIMIT := by omega
  have hcount := sizeOfInt_int32 _ hint
  simp only [makeRFFT1dPolicy_COMPOSITE, hL', ↓reduceIte, stagingBytesExact, hne, COMPLEX,
    hcount] at hfit
  simp only [planned, r, makeRFFT1dPolicy_COMPOSITE, hL', ↓reduceIte,
    configureRFFT1dMatmulWorkspaceAddrsAux, matmulWorkspaceRegions, hcomp, COMPLEX,
    Addr.add, Addr.sub, Region.disjoint, Region.within, hcount]
  generalize (if p.fft_strategy = CNFFT_FUNC_COOLEY_TUKEY then _ else _ : mluOpStatus_t × Nat).2
    = Q at hfit ⊢
  have e2 : 2 * env.mluOpDataTypeBytes p.input_dtype * (p.batch * p.n0) =
      2 * (env.mluOpDataTypeBytes p.input_dtype * (p.batch * p.n0)) := by ring
  rw [e2] at hfit
  have hd := doubledBytes_of_lt (env.mluOpDataTypeBytes p.input_dtype) (p.batch * p.n0)
    (by revert hfit; split_ifs <;> intro hfit <;> omega)
  rw [hd] at hfit
  simp only [hd]
  generalize env.mluOpDataTypeBytes p.input_dtype * (p.batch * p.n0) = P at hfit ⊢
  generalize env.mluOpDataTypeBytes p.input_dtype * p.inum = I at hfit ⊢
  generalize env.mluOpDataTypeBytes p.output_dtype * p.onum = O at hfit ⊢
  revert hfit
  cases p.is_input_contiguous <;> cases p.is_output_contiguous <;>
    cases (p.inembed0 != p.n0) <;> intro hfit <;>
    simp only [Bool.not_true, Bool.not_false, ↓reduceIte, Bool.false_eq_true, List.nil_append,
      List.cons_append, List.pairwise_cons, List.mem_cons, List.mem_singleton, forall_eq_or_imp,
      forall_eq, List.Pairwise.nil, List.not_mem_nil, false_implies, implies_true, and_true,
      true_and, ne_eq, not_true_eq_false, false_or, List.append_nil, Region.disjoint,
      Region.within, Nat.zero_add, Nat.add_zero] at hfit ⊢ <;>
    simp (disch := omega) only [size_t_of_lt] <;>
    omega

/-! ## Lemmas: running a stage sequence -/

/-- A stage sequence returns what its first failing stage returned. -/
theorem runStages_fail (stages : List Stage) (s : ExecState) (i : Nat) (hi : i < stages.length)
    (hprev : ∀ j (hj : j < stages.length), j < i →
      (stages[j] (stateBefore stages s j)).1 = MLUOP_STATUS_SUCCESS)
    (hfail : (stages[i] (stateBefore stages s i)).1 ≠ MLUOP_STATUS_SUCCESS) :
    runStages stages s = stages[i] (stateBefore stages s i) := by
  induction stages generalizing s i with
  | nil => simp at hi
  | cons f fs ih =>
    cases i with
    | zero =>
      simp only [List.getElem_cons_zero, stateBefore] at hfail ⊢
      simp [runStages, CHECK_RETURN, hfail]
    | succ i =>
      have h0 := hprev 0 (by simp) (by omega)
      simp only [List.getElem_cons_zero, stateBefore] at h0
      simp only [runStages, CHECK_RETURN, h0, ↓reduceIte, List.getElem_cons_succ, stateBefore]
      apply ih
      · intro j hj hji
        have := hprev (j + 1) (by simp; omega) (by omega)
        simpa [stateBefore] using this
      · simpa [stateBefore] using hfail

/-- A stage sequence whose stages all succeed returns success. -/
theorem runStages_ok (stages : List Stage) (s : ExecState)
    (hall : ∀ j (hj : j < stages.length),
      (stages[j] (stateBefore stages s j)).1 = MLUOP_STATUS_SUCCESS) :
    runStages stages s = (MLUOP_STATUS_SUCCESS, stateBefore stages s stages.length) := by
  induction stages generalizing s with
  | nil => simp [runStages, stateBefore]
  | cons f fs ih =>
    have h0 := hall 0 (by simp)
    simp only [List.getElem_cons_zero, stateBefore] at h0
    simp only [runStages, CHECK_RETURN, h0, ↓reduceIte, List.length_cons, stateBefore]
    apply ih
    intro j hj
    have := hall (j + 1) (by simp; omega)
    simpa [stateBefore] using this

/-- Running two sequences one after the other. -/
theorem runStages_append (a b : List Stage) (s : ExecState) :
    runStages (a ++ b) s = CHECK_RETURN (runStages a s) (runStages b) := by
  induction a generalizing s with
  | nil => simp [runStages, CHECK_RETURN]
  | cons f fs ih =>
    simp only [List.cons_append, runStages]
    by_cases h : (f s).1 = MLUOP_STATUS_SUCCESS
    · have := ih (f s).2
      simp only [CHECK_RETURN, h, ↓reduceIte] at this ⊢
      exact this
    · simp [CHECK_RETURN, h]

/-- A batch loop is the sequence of its iterations. -/
theorem batchLoop_eq_runStages (body : Stage) (idist odist : Nat) (count : Nat) (s : ExecState) :
    batchLoop body idist odist count s =
      runStages (List.replicate count (thenUpdate body (advanceBatch idist odist))) s := by
  induction count generalizing s with
  | zero => rfl
  | succ k ih =>
    simp only [batchLoop, List.replicate_succ, runStages, thenUpdate]
    by_cases h : (body s).1 = MLUOP_STATUS_SUCCESS
    · simp only [CHECK_RETURN, h, ↓reduceIte]
      exact ih _
    · simp [CHECK_RETURN, h]

/-- A batch loop with a two-launch body is the sequence of its launches. -/
theorem batchLoop_pair_eq_runStages (f g : Stage) (idist odist : Nat) (count : Nat)
    (s : ExecState) :
    batchLoop (fun s => CHECK_RETURN (f s) g) idist odist count s =
      runStages (List.replicate count
        [f, thenUpdate g (advanceBatch idist odist)]).flatten s := by
  induction count generalizing s with
  | zero => rfl
  | succ k ih =>
    simp only [batchLoop, List.replicate_succ, List.flatten_cons, List.cons_append,
      List.nil_append, runStages, thenUpdate]
    by_cases h : (f s).1 = MLUOP_STATUS_SUCCESS
    · by_cases h2 : (g (f s).2).1 = MLUOP_STATUS_SUCCESS
      · simp only [CHECK_RETURN, h, h2, ↓reduceIte]
        exact ih _
      · simp [CHECK_RETURN, h, h2]
    · simp [CHECK_RETURN, h]

/-- A successful status lets the rest run. -/
theorem CHECK_RETURN_success (s : ExecState) (k : Stage) :
    CHECK_RETURN (MLUOP_STATUS_SUCCESS, s) k = k s := by
  simp [CHECK_RETURN]

theorem runStages_nil_fun : runStages [] = fun s => (MLUOP_STATUS_SUCCESS, s) := rfl

theorem runStages_cons_fun (f : Stage) (fs : List Stage) :
    runStages (f :: fs) = fun s => CHECK_RETURN (f s) (runStages fs) := rfl

/-- Nested status checks can be re-associated. -/
theorem CHECK_RETURN_assoc (r : mluOpStatus_t × ExecState) (k1 k2 : Stage) :
    CHECK_RETURN (CHECK_RETURN r k1) k2 = CHECK_RETURN r (fun s => CHECK_RETURN (k1 s) k2) := by
  by_cases h : r.1 = MLUOP_STATUS_SUCCESS <;> simp [CHECK_RETURN, h]

theorem runStages_singleton (f : Stage) (s : ExecState) :
    runStages [f] s = f s := by
  simp only [runStages, CHECK_RETURN]
  split_ifs with h
  · exact Prod.ext h.symm rfl
  · rfl

theorem runStages_append_fun (a b : List Stage) :
    runStages (a ++ b) = fun s => CHECK_RETURN (runStages a s) (runStages b) :=
  funext (runStages_append a b)

theorem runStages_singleton_fun (f : Stage) : runStages [f] = f :=
  funext (runStages_singleton f)

/-! ## Lemmas: the executors as stage sequences -/

/-- The 1D executor is the run of its stage list. -/
theorem execRFFT1d_eq_runStages (env : Env) (be : Backend) (fft_plan : FFTPlan) (input : Addr)
    (scale_factor : CFloat) (workspace output : Addr) (trace : List Call) :
    execRFFT1d env be fft_plan input scale_factor workspace output trace =
      runStages (execRFFT1dStages be fft_plan.prime input output scale_factor)
        ⟨if fft_plan.prime then
            configureRFFT1dMatmulWorkspaceAddrs env fft_plan input workspace output
          else configureRFFT1dWorkspaceAddrs env fft_plan input workspace output, trace⟩ := by
  unfold execRFFT1d execRFFT1dStages
  cases fft_plan.prime <;> rfl

/-- The two-level Stockham block is the run of its stage list. -/
theorem execRFFT2d_TWO_LEVEL_STOCKHAM_eq_runStages (env : Env) (be : Backend) (input : Addr)
    (s : ExecState) :
    execRFFT2d_TWO_LEVEL_STOCKHAM env be input s =
      runStages (execRFFT2d_TWO_LEVEL_STOCKHAM_Stages env be s.fft_plan input) s := by
  unfold execRFFT2d_TWO_LEVEL_STOCKHAM execRFFT2d_TWO_LEVEL_STOCKHAM_Stages
  simp only [batchLoop_pair_eq_runStages]
  simp only [batchLoop_eq_runStages]
  split_ifs <;>
    simp only [runStages_append, runStages_singleton, runStages_append_fun,
      runStages_singleton_fun, CHECK_RETURN_assoc] <;> rfl

/-- The 2D executor is the run of its stage list. -/
theorem execRFFT2d_eq_runStages (env : Env) (be : Backend) (fft_plan : FFTPlan) (input : Addr)
    (scale_factor : CFloat) (workspace output : Addr) (trace : List Call) :
    execRFFT2d env be fft_plan input scale_factor workspace output trace =
      runStages
        (execRFFT2dStages env be
          (configureRFFT2dWorkspaceAddrs env fft_plan input workspace output)
          input output scale_factor)
        ⟨configureRFFT2dWorkspaceAddrs env fft_plan input workspace output, trace⟩ := by
  unfold execRFFT2d execRFFT2dStages execRFFT2d_strategyBlock
  generalize configureRFFT2dWorkspaceAddrs env fft_plan input workspace output = cfg
  simp only [execRFFT2d_TWO_LEVEL_STOCKHAM_eq_runStages]
  split_ifs
  · simp only [runStages_append, runStages_append_fun, CHECK_RETURN_assoc]
    rfl
  · simp only [runStages_append, runStages_cons_fun, runStages_nil_fun, CHECK_RETURN_assoc,
      CHECK_RETURN_success]
  · simp only [List.nil_append, runStages_cons_fun, runStages_nil_fun, CHECK_RETURN_success]

/-! ## Lemmas: a run against the all-succeeding run -/

theorem allSucceed_heuristicWorkspaceSize (h : TensorDesc → TensorDesc → TensorDesc → Nat) :
    (Backend.allSucceed h).heuristicWorkspaceSize = h := rfl

theorem allSucceed_status (h : TensorDesc → TensorDesc → TensorDesc → Nat) (t : List Call)
    (c : Call) : (Backend.allSucceed h).status t c = MLUOP_STATUS_SUCCESS := rfl

/-- One call agrees with the same call on the all-succeeding backend. -/
theorem sim_issue (be : Backend) (c : Call) (s : ExecState) :
    Sim s.trace (issue be c s) (issue (Backend.allSucceed be.heuristicWorkspaceSize) c s) := by
  refine ⟨rfl, fun _ => rfl, ?_, ?_⟩
  · exact List.prefix_append _ _
  · exact List.prefix_refl _

theorem sim_done (s : ExecState) : Sim s.trace (MLUOP_STATUS_SUCCESS, s) (MLUOP_STATUS_SUCCESS, s) :=
  ⟨rfl, fun _ => rfl, List.prefix_refl _, List.prefix_refl _⟩

theorem sim_weaken {t t' : List Call} {r r0 : mluOpStatus_t × ExecState} (ht : t' <+: t)
    (h : Sim t r r0) : Sim t' r r0 :=
  ⟨h.1, h.2.1, List.IsPrefix.trans ht h.2.2.1, h.2.2.2⟩

theorem sim_call_unchecked (be : Backend) (c : Call) (s : ExecState) {k k0 : Stage}
    (hk : ∀ s, Sim s.trace (k s) (k0 s)) :
    Sim s.trace (CALL_UNCHECKED be c s k)
      (CALL_UNCHECKED (Backend.allSucceed be.heuristicWorkspaceSize) c s k0) := by
  have h := hk (launch be c s)
  exact sim_weaken (List.prefix_append _ _) h

theorem sim_update (s s' : ExecState) (h : s'.trace = s.trace) :
    Sim s.trace (MLUOP_STATUS_SUCCESS, s') (MLUOP_STATUS_SUCCESS, s') := by
  refine ⟨rfl, fun _ => rfl, ?_, List.prefix_refl _⟩
  rw [h]

/-- Agreement is kept by a status check followed by agreeing continuations. -/
theorem sim_check {t : List Call} {r r0 : mluOpStatus_t × ExecState} {k k0 : Stage}
    (h : Sim t r r0) (hk : ∀ s, Sim s.trace (k s) (k0 s)) :
    Sim t (CHECK_RETURN r k) (CHECK_RETURN r0 k0) := by
  obtain ⟨h0, heq, hpre, hsuf⟩ := h
  have hk0 := hk r0.2
  obtain ⟨k0ok, keq, kpre, ksuf⟩ := hk0
  by_cases hr : r.1 = MLUOP_STATUS_SUCCESS
  · have e := heq hr
    simp only [CHECK_RETURN, hr, h0, ↓reduceIte, e]
    refine ⟨k0ok, keq, ?_, ksuf⟩
    exact List.IsPrefix.trans (e ▸ hpre) kpre
  · simp only [CHECK_RETURN, hr, h0, ↓reduceIte]
    refine ⟨k0ok, fun h => absurd h hr, hpre, ?_⟩
    exact List.IsPrefix.trans hsuf (List.IsPrefix.trans kpre ksuf)

theorem sim_call_cnnl (be : Backend) (c : Call) (s : ExecState) {k k0 : Stage}
    (hk : ∀ s, Sim s.trace (k s) (k0 s)) :
    Sim s.trace (CALL_CNNL be c s k)
      (CALL_CNNL (Backend.allSucceed be.heuristicWorkspaceSize) c s k0) :=
  sim_check (sim_issue be c s) hk

theorem makeRFFT1dContiguousInput_sim (be : Backend) (input : Addr) (s : ExecState) :
    Sim s.trace (makeRFFT1dContiguousInput be input s)
      (makeRFFT1dContiguousInput (Backend.allSucceed be.heuristicWorkspaceSize) input s) := by
  unfold makeRFFT1dContiguousInput
  (try simp only [allSucceed_heuristicWorkspaceSize])
  (try split_ifs) <;>
    repeat' first
      | with_reducible exact sim_done _
      | with_reducible exact sim_issue _ _ _
      | with_reducible refine sim_call_unchecked _ _ _ (fun _ => ?_)
      | with_reducible refine sim_call_cnnl _ _ _ (fun _ => ?_)
      | with_reducible refine sim_check ?_ (fun _ => ?_)

theorem padRFFT1dContiguousInput_sim (be : Backend) (s : ExecState) :
    Sim s.trace (padRFFT1dContiguousInput be s)
      (padRFFT1dContiguousInput (Backend.allSucceed be.heuristicWorkspaceSize) s) := by
  unfold padRFFT1dContiguousInput
  (try simp only [allSucceed_heuristicWorkspaceSize])
  (try split_ifs) <;>
    repeat' first
      | with_reducible exact sim_done _
      | with_reducible exact sim_issue _ _ _
      | with_reducible refine sim_call_unchecked _ _ _ (fun _ => ?_)
      | with_reducible refine sim_call_cnnl _ _ _ (fun _ => ?_)
      | with_reducible refine sim_check ?_ (fun _ => ?_)

theorem transposeRFFT1dPaddedInput_sim (be : Backend) (s : ExecState) :
    Sim s.trace (transposeRFFT1dPaddedInput be s)
      (transposeRFFT1dPaddedInput (Backend.allSucceed be.heuristicWorkspaceSize) s) := by
  unfold transposeRFFT1dPaddedInput
  (try simp only [allSucceed_heuristicWorkspaceSize])
  (try split_ifs) <;>
    repeat' first
      | with_reducible exact sim_done _
      | with_reducible exact sim_issue _ _ _
      | with_reducible refine sim_call_unchecked _ _ _ (fun _ => ?_)
      | with_reducible refine sim_call_cnnl _ _ _ (fun _ => ?_)
      | with_reducible refine sim_check ?_ (fun _ => ?_)

theorem computeRFFT1dMatmulResult_sim (be : Backend) (scale_factor : CFloat) (s : ExecState) :
    Sim s.trace (computeRFFT1dMatmulResult be scale_factor s)
      (computeRFFT1dMatmulResult (Backend.allSucceed be.heuristicWorkspaceSize) scale_factor s) := by
  unfold computeRFFT1dMatmulResult
  (try simp only [allSucceed_heuristicWorkspaceSize])
  (try split_ifs) <;>
    repeat' first
      | with_reducible exact sim_done _
      | with_reducible exact sim_issue _ _ _
      | with_reducible refine sim_call_unchecked _ _ _ (fun _ => ?_)
      | with_reducible refine sim_call_cnnl _ _ _ (fun _ => ?_)
      | with_reducible refine sim_check ?_ (fun _ => ?_)

theorem mergeRFFT1dOutput_sim (be : Backend) (scale_factor : CFloat) (s : ExecState) :
    Sim s.trace (mergeRFFT1dOutput be scale_factor s)
      (mergeRFFT1dOutput (Backend.allSucceed be.heuristicWorkspaceSize) scale_factor s) := by
  unfold mergeRFFT1dOutput
  (try simp only [allSucceed_heuristicWorkspaceSize])
  (try split_ifs) <;>
    repeat' first
      | with_reducible exact sim_done _
      | with_reducible exact sim_issue _ _ _
      | with_reducible refine sim_call_unchecked _ _ _ (fun _ => ?_)
      | with_reducible refine sim_call_cnnl _ _ _ (fun _ => ?_)
      | with_reducible refine sim_check ?_ (fun _ => ?_)

theorem makeRFFT1dContiguousOutput_sim (be : Backend) (output : Addr) (s : ExecState) :
    Sim s.trace (makeRFFT1dContiguousOutput be output s)
      (makeRFFT1dContiguousOutput (Backend.allSucceed be.heuristicWorkspaceSize) output s) := by
  unfold makeRFFT1dContiguousOutput
  (try simp only [allSucceed_heuristicWorkspaceSize])
  (try split_ifs) <;>
    repeat' first
      | with_reducible exact sim_done _
      | with_reducible exact sim_issue _ _ _
      | with_reducible refine sim_call_unchecked _ _ _ (fun _ => ?_)
      | with_reducible refine sim_call_cnnl _ _ _ (fun _ => ?_)
      | with_reducible refine sim_check ?_ (fun _ => ?_)

theorem execFFTr2c1d_sim (be : Backend) (scale_factor : CFloat) (s : ExecState) :
    Sim s.trace (execFFTr2c1d be scale_factor s)
      (execFFTr2c1d (Backend.allSucceed be.heuristicWorkspaceSize) scale_factor s) := by
  unfold execFFTr2c1d
  (try simp only [allSucceed_heuristicWorkspaceSize])
  (try split_ifs) <;>
    repeat' first
      | with_reducible exact sim_done _
      | with_reducible exact sim_issue _ _ _
      | with_reducible refine sim_call_unchecked _ _ _ (fun _ => ?_)
      | with_reducible refine sim_call_cnnl _ _ _ (fun _ => ?_)
      | with_reducible refine sim_check ?_ (fun _ => ?_)

theorem scaleOutput_sim (be : Backend) (scale_factor : CFloat) (dims : List Int) (s : ExecState) :
    Sim s.trace (scaleOutput be scale_factor dims s)
      (scaleOutput (Backend.allSucceed be.heuristicWorkspaceSize) scale_factor dims s) := by
  unfold scaleOutput
  (try simp only [allSucceed_heuristicWorkspaceSize])
  (try split_ifs) <;>
    repeat' first
      | with_reducible exact sim_done _
      | with_reducible exact sim_issue _ _ _
      | with_reducible refine sim_call_unchecked _ _ _ (fun _ => ?_)
      | with_reducible refine sim_call_cnnl _ _ _ (fun _ => ?_)
      | with_reducible refine sim_check ?_ (fun _ => ?_)

theorem makeRFFT2dContiguousInput_sim (be : Backend) (input : Addr) (s : ExecState) :
    Sim s.trace (makeRFFT2dContiguousInput be input s)
      (makeRFFT2dContiguousInput (Backend.allSucceed be.heuristicWorkspaceSize) input s) := by
  unfold makeRFFT2dContiguousInput
  (try simp only [allSucceed_heuristicWorkspaceSize])
  (try split_ifs) <;>
    repeat' first
      | with_reducible exact sim_done _
      | with_reducible exact sim_issue _ _ _
      | with_reducible refine sim_call_unchecked _ _ _ (fun _ => ?_)
      | with_reducible refine sim_call_cnnl _ _ _ (fun _ => ?_)
      | with_reducible refine sim_check ?_ (fun _ => ?_)

theorem makeRFFT2dContiguousOutput_sim (be : Backend) (output : Addr) (s : ExecState) :
    Sim s.trace (makeRFFT2dContiguousOutput be output s)
      (makeRFFT2dContiguousOutput (Backend.allSucceed be.heuristicWorkspaceSize) output s) := by
  unfold makeRFFT2dContiguousOutput
  (try simp only [allSucceed_heuristicWorkspaceSize])
  (try split_ifs) <;>
    repeat' first
      | with_reducible exact sim_done _
      | with_reducible exact sim_issue _ _ _
      | with_reducible refine sim_call_unchecked _ _ _ (fun _ => ?_)
      | with_reducible refine sim_call_cnnl _ _ _ (fun _ => ?_)
      | with_reducible refine sim_check ?_ (fun _ => ?_)

theorem computeFFT2dMatMulColumnR2C_sim (be : Backend) (scale_factor : CFloat) (s : ExecState) :
    Sim s.trace (computeFFT2dMatMulColumnR2C be scale_factor s)
      (computeFFT2dMatMulColumnR2C (Backend.allSucceed be.heuristicWorkspaceSize) scale_factor s) := by
  unfold computeFFT2dMatMulColumnR2C
  (try simp only [allSucceed_heuristicWorkspaceSize])
  (try split_ifs) <;>
    repeat' first
      | with_reducible exact sim_done _
      | with_reducible exact sim_issue _ _ _
      | with_reducible refine sim_call_unchecked _ _ _ (fun _ => ?_)
      | with_reducible refine sim_call_cnnl _ _ _ (fun _ => ?_)
      | with_reducible refine sim_check ?_ (fun _ => ?_)

theorem computeFFT2dMatMulRowR2C_sim (be : Backend) (scale_factor : CFloat) (s : ExecState) :
    Sim s.trace (computeFFT2dMatMulRowR2C be scale_factor s)
      (computeFFT2dMatMulRowR2C (Backend.allSucceed be.heuristicWorkspaceSize) scale_factor s) := by
  unfold computeFFT2dMatMulRowR2C
  (try simp only [allSucceed_heuristicWorkspaceSize])
  (try split_ifs) <;>
    repeat' first
      | with_reducible exact sim_done _
      | with_reducible exact sim_issue _ _ _
      | with_reducible refine sim_call_unchecked _ _ _ (fun _ => ?_)
      | with_reducible refine sim_call_cnnl _ _ _ (fun _ => ?_)
      | with_reducible refine sim_check ?_ (fun _ => ?_)

theorem padDegenerate2d_sim (be : Backend) (dims padded_dims paddings : List Int) (s : ExecState) :
    Sim s.trace (padDegenerate2d be dims padded_dims paddings s)
      (padDegenerate2d (Backend.allSucceed be.heuristicWorkspaceSize) dims padded_dims paddings s) := by
  unfold padDegenerate2d
  (try simp only [allSucceed_heuristicWorkspaceSize])
  (try split_ifs) <;>
    repeat' first
      | with_reducible exact sim_done _
      | with_reducible exact sim_issue _ _ _
      | with_reducible refine sim_call_unchecked _ _ _ (fun _ => ?_)
      | with_reducible refine sim_call_cnnl _ _ _ (fun _ => ?_)
      | with_reducible refine sim_check ?_ (fun _ => ?_)

theorem launchRFFT2dButterflyRow_sim (be : Backend) (s : ExecState) :
    Sim s.trace (launchRFFT2dButterflyRow be s)
      (launchRFFT2dButterflyRow (Backend.allSucceed be.heuristicWorkspaceSize) s) :=
  sim_issue _ _ _

theorem launchRFFT2dButterflyColumn_sim (be : Backend) (s : ExecState) :
    Sim s.trace (launchRFFT2dButterflyColumn be s)
      (launchRFFT2dButterflyColumn (Backend.allSucceed be.heuristicWorkspaceSize) s) :=
  sim_issue _ _ _

theorem batchLoop_sim {body body0 : Stage} (hbody : ∀ s, Sim s.trace (body s) (body0 s))
    (idist odist count : Nat) (s : ExecState) :
    Sim s.trace (batchLoop body idist odist count s) (batchLoop body0 idist odist count s) := by
  induction count generalizing s with
  | zero => exact sim_done s
  | succ k ih =>
    simp only [batchLoop]
    exact sim_check (hbody s) (fun s => ih (advanceBatch idist odist s))

theorem execRFFT1d_padBlock_sim (be : Backend) (s : ExecState) :
    Sim s.trace (execRFFT1d_padBlock be s)
      (execRFFT1d_padBlock (Backend.allSucceed be.heuristicWorkspaceSize) s) := by
  unfold execRFFT1d_padBlock
  split_ifs
  · exact sim_check (padRFFT1dContiguousInput_sim be s) (fun s => sim_update s _ rfl)
  · exact sim_done s

theorem execRFFT1d_scaleBlock_sim (be : Backend) (scale_factor : CFloat) (s : ExecState) :
    Sim s.trace (execRFFT1d_scaleBlock be scale_factor s)
      (execRFFT1d_scaleBlock (Backend.allSucceed be.heuristicWorkspaceSize) scale_factor s) :=
  scaleOutput_sim _ _ _ _

theorem execRFFT2d_scaleBlock_sim (be : Backend) (scale_factor : CFloat) (s : ExecState) :
    Sim s.trace (execRFFT2d_scaleBlock be scale_factor s)
      (execRFFT2d_scaleBlock (Backend.allSucceed be.heuristicWorkspaceSize) scale_factor s) :=
  scaleOutput_sim _ _ _ _

theorem execRFFT2d_outputBlock_sim (be : Backend) (output : Addr) (s : ExecState) :
    Sim s.trace (execRFFT2d_outputBlock be output s)
      (execRFFT2d_outputBlock (Backend.allSucceed be.heuristicWorkspaceSize) output s) := by
  unfold execRFFT2d_outputBlock
  split_ifs
  · exact makeRFFT2dContiguousOutput_sim _ _ _
  · exact sim_done s

theorem execRFFT2d_TWO_LEVEL_STOCKHAM_sim (env : Env) (be : Backend) (input : Addr)
    (s : ExecState) :
    Sim s.trace (execRFFT2d_TWO_LEVEL_STOCKHAM env be input s)
      (execRFFT2d_TWO_LEVEL_STOCKHAM env (Backend.allSucceed be.heuristicWorkspaceSize)
        input s) := by
  unfold execRFFT2d_TWO_LEVEL_STOCKHAM
  simp only []
  refine sim_check (makeRFFT2dContiguousInput_sim be input s) (fun s1 => ?_)
  split_ifs
  · refine sim_check (padDegenerate2d_sim be _ _ _ s1) (fun s2 => ?_)
    refine sim_check (batchLoop_sim (launchRFFT2dButterflyColumn_sim be) _ _ _ s2) (fun s3 => ?_)
    exact sim_update s3 _ rfl
  · refine sim_check (batchLoop_sim (launchRFFT2dButterflyRow_sim be) _ _ _ s1) (fun s3 => ?_)
    exact sim_update s3 _ rfl
  · exact padDegenerate2d_sim be _ _ _ s1
  · refine sim_check (batchLoop_sim ?_ _ _ _ s1) (fun s3 => ?_)
    · intro s
      exact sim_check (launchRFFT2dButterflyRow_sim be s) (launchRFFT2dButterflyColumn_sim be)
    · exact sim_update s3 _ rfl

theorem execRFFT2d_strategyBlock_sim (env : Env) (be : Backend) (input : Addr)
    (scale_factor : CFloat) (s : ExecState) :
    Sim s.trace (execRFFT2d_strategyBlock env be input scale_factor s)
      (execRFFT2d_strategyBlock env (Backend.allSucceed be.heuristicWorkspaceSize) input
        scale_factor s) := by
  unfold execRFFT2d_strategyBlock
  split_ifs
  · exact execRFFT2d_TWO_LEVEL_STOCKHAM_sim env be input s
  · refine sim_check (computeFFT2dMatMulRowR2C_sim be _ s) (fun s1 => ?_)
    refine sim_check (computeFFT2dMatMulColumnR2C_sim be _ s1) (fun s2 => ?_)
    exact sim_done s2
  · exact sim_done s

/-- Every run of execRFFT1d agrees with its all-succeeding run. -/
theorem execRFFT1d_sim (env : Env) (be : Backend) (fft_plan : FFTPlan) (input : Addr)
    (scale_factor : CFloat) (workspace output : Addr) (trace : List Call) :
    Sim trace (execRFFT1d env be fft_plan input scale_factor workspace output trace)
      (execRFFT1d env (Backend.allSucceed be.heuristicWorkspaceSize) fft_plan input scale_factor
        workspace output trace) := by
  unfold execRFFT1d
  split_ifs
  · refine sim_check (makeRFFT1dContiguousInput_sim be input _) (fun s1 => ?_)
    refine sim_check (padRFFT1dContiguousInput_sim be s1) (fun s2 => ?_)
    refine sim_check (transposeRFFT1dPaddedInput_sim be s2) (fun s3 => ?_)
    refine sim_check (computeRFFT1dMatmulResult_sim be _ s3) (fun s4 => ?_)
    refine sim_check (mergeRFFT1dOutput_sim be _ s4) (fun s5 => ?_)
    refine sim_check (makeRFFT1dContiguousOutput_sim be _ s5) (fun s6 => ?_)
    exact sim_done s6
  · refine sim_check (makeRFFT1dContiguousInput_sim be input _) (fun s1 => ?_)
    refine sim_check (execRFFT1d_padBlock_sim be s1) (fun s2 => ?_)
    refine sim_check (execFFTr2c1d_sim be _ s2) (fun s3 => ?_)
    refine sim_check (execRFFT1d_scaleBlock_sim be _ s3) (fun s4 => ?_)
    refine sim_check (makeRFFT1dContiguousOutput_sim be _ s4) (fun s5 => ?_)
    exact sim_done s5

/-- Every run of execRFFT2d agrees with its all-succeeding run. -/
theorem execRFFT2d_sim (env : Env) (be : Backend) (fft_plan : FFTPlan) (input : Addr)
    (scale_factor : CFloat) (workspace output : Addr) (trace : List Call) :
    Sim trace (execRFFT2d env be fft_plan input scale_factor workspace output trace)
      (execRFFT2d env (Backend.allSucceed be.heuristicWorkspaceSize) fft_plan input scale_factor
        workspace output trace) := by
  unfold execRFFT2d
  refine sim_check (execRFFT2d_strategyBlock_sim env be input _ _) (fun s1 => ?_)
  refine sim_check (execRFFT2d_scaleBlock_sim be _ s1) (fun s2 => ?_)
  refine sim_check (execRFFT2d_outputBlock_sim be _ s2) (fun s3 => ?_)
  exact sim_done s3

/-! ## Lemmas: the all-succeeding run of each stage -/

theorem issue_allSucceed (h : TensorDesc → TensorDesc → TensorDesc → Nat) (c : Call)
    (s : ExecState) :
    issue (Backend.allSucceed h) c s = (MLUOP_STATUS_SUCCESS, ⟨s.fft_plan, s.trace ++ [c]⟩) := rfl

theorem CALL_CNNL_allSucceed (h : TensorDesc → TensorDesc → TensorDesc → Nat) (c : Call)
    (s : ExecState) (k : Stage) :
    CALL_CNNL (Backend.allSucceed h) c s k = k ⟨s.fft_plan, s.trace ++ [c]⟩ := by
  simp [CALL_CNNL, issue_allSucceed, CHECK_RETURN_success]

theorem CALL_UNCHECKED_allSucceed (h : TensorDesc → TensorDesc → TensorDesc → Nat) (c : Call)
    (s : ExecState) (k : Stage) :
    CALL_UNCHECKED (Backend.allSucceed h) c s k = k ⟨s.fft_plan, s.trace ++ [c]⟩ := rfl

theorem makeRFFT1dContiguousInput_ok (h : TensorDesc → TensorDesc → TensorDesc → Nat) (input : Addr)
    (s : ExecState) :
    makeRFFT1dContiguousInput (Backend.allSucceed h) input s =
      (MLUOP_STATUS_SUCCESS, ⟨s.fft_plan, s.trace ++
        callsOf (makeRFFT1dContiguousInput (Backend.allSucceed h) input) s.fft_plan⟩) := by
  unfold callsOf makeRFFT1dContiguousInput
  simp only [issue_allSucceed, CHECK_RETURN_success, CALL_CNNL_allSucceed,
    CALL_UNCHECKED_allSucceed, allSucceed_heuristicWorkspaceSize]
  (try split_ifs) <;> simp

theorem padRFFT1dContiguousInput_ok (h : TensorDesc → TensorDesc → TensorDesc → Nat)
    (s : ExecState) :
    padRFFT1dContiguousInput (Backend.allSucceed h) s =
      (MLUOP_STATUS_SUCCESS, ⟨s.fft_plan, s.trace ++
        callsOf (padRFFT1dContiguousInput (Backend.allSucceed h)) s.fft_plan⟩) := by
  unfold callsOf padRFFT1dContiguousInput
  simp only [issue_allSucceed, CHECK_RETURN_success, CALL_CNNL_allSucceed,
    CALL_UNCHECKED_allSucceed, allSucceed_heuristicWorkspaceSize]
  (try split_ifs) <;> simp

theorem transposeRFFT1dPaddedInput_ok (h : TensorDesc → TensorDesc → TensorDesc → Nat)
    (s : ExecState) :
    transposeRFFT1dPaddedInput (Backend.allSucceed h) s =
      (MLUOP_STATUS_SUCCESS, ⟨s.fft_plan, s.trace ++
        callsOf (transposeRFFT1dPaddedInput (Backend.allSucceed h)) s.fft_plan⟩) := by
  unfold callsOf transposeRFFT1dPaddedInput
  simp only [issue_allSucceed, CHECK_RETURN_success, CALL_CNNL_allSucceed,
    CALL_UNCHECKED_allSucceed, allSucceed_heuristicWorkspaceSize]
  (try split_ifs) <;> simp

theorem computeRFFT1dMatmulResult_ok (h : TensorDesc → TensorDesc → TensorDesc → Nat) (scale_factor : CFloat)
    (s : ExecState) :
    computeRFFT1dMatmulResult (Backend.allSucceed h) scale_factor s =
      (MLUOP_STATUS_SUCCESS, ⟨s.fft_plan, s.trace ++
        callsOf (computeRFFT1dMatmulResult (Backend.allSucceed h) scale_factor) s.fft_plan⟩) := by
  unfold callsOf computeRFFT1dMatmulResult
  simp only [issue_allSucceed, CHECK_RETURN_success, CALL_CNNL_allSucceed,
    CALL_UNCHECKED_allSucceed, allSucceed_heuristicWorkspaceSize]
  (try split_ifs) <;> simp

theorem mergeRFFT1dOutput_ok (h : TensorDesc → TensorDesc → TensorDesc → Nat) (scale_factor : CFloat)
    (s : ExecState) :
    mergeRFFT1dOutput (Backend.allSucceed h) scale_factor s =
      (MLUOP_STATUS_SUCCESS, ⟨s.fft_plan, s.trace ++
        callsOf (mergeRFFT1dOutput (Backend.allSucceed h) scale_factor) s.fft_plan⟩) := by
  unfold callsOf mergeRFFT1dOutput
  simp only [issue_allSucceed, CHECK_RETURN_success, CALL_CNNL_allSucceed,
    CALL_UNCHECKED_allSucceed, allSucceed_heuristicWorkspaceSize]
  (try split_ifs) <;> simp

theorem makeRFFT1dContiguousOutput_ok (h : TensorDesc → TensorDesc → TensorDesc → Nat) (output : Addr)
    (s : ExecState) :
    makeRFFT1dContiguousOutput (Backend.allSucceed h) output s =
      (MLUOP_STATUS_SUCCESS, ⟨s.fft_plan, s.trace ++
        callsOf (makeRFFT1dContiguousOutput (Backend.allSucceed h) output) s.fft_plan⟩) := by
  unfold callsOf makeRFFT1dContiguousOutput
  simp only [issue_allSucceed, CHECK_RETURN_success, CALL_CNNL_allSucceed,
    CALL_UNCHECKED_allSucceed, allSucceed_heuristicWorkspaceSize]
  (try split_ifs) <;> simp

theorem execFFTr2c1d_ok (h : TensorDesc → TensorDesc → TensorDesc → Nat) (scale_factor : CFloat)
    (s : ExecState) :
    execFFTr2c1d (Backend.allSucceed h) scale_factor s =
      (MLUOP_STATUS_SUCCESS, ⟨s.fft_plan, s.trace ++
        callsOf (execFFTr2c1d (Backend.allSucceed h) scale_factor) s.fft_plan⟩) := by
  unfold callsOf execFFTr2c1d
  simp only [issue_allSucceed, CHECK_RETURN_success, CALL_CNNL_allSucceed,
    CALL_UNCHECKED_allSucceed, allSucceed_heuristicWorkspaceSize]
  (try split_ifs) <;> simp

theorem scaleOutput_ok (h : TensorDesc → TensorDesc → TensorDesc → Nat) (scale_factor : CFloat) (dims : List Int)
    (s : ExecState) :
    scaleOutput (Backend.allSucceed h) scale_factor dims s =
      (MLUOP_STATUS_SUCCESS, ⟨s.fft_plan, s.trace ++
        callsOf (scaleOutput (Backend.allSucceed h) scale_factor dims) s.fft_plan⟩) := by
  unfold callsOf scaleOutput
  simp only [issue_allSucceed, CHECK_RETURN_success, CALL_CNNL_allSucceed,
    CALL_UNCHECKED_allSucceed, allSucceed_heuristicWorkspaceSize]
  (try split_ifs) <;> simp

/-- A successful composite block passed the `L <= FFT_L_LIMIT` check. -/
theorem composite_success_L (env : Env) (p : FFTPlan)
    (hok : (makeRFFT1dPolicy_COMPOSITE env p).1 = MLUOP_STATUS_SUCCESS) : p.L ≤ FFT_L_LIMIT := by
  by_contra h
  have h' : p.L > FFT_L_LIMIT := by omega
  simp [makeRFFT1dPolicy_COMPOSITE, h'] at hok

/-- The direct-matmul block leaves the length and the input type alone. -/
theorem matmul_fields (env : Env) (lim : Nat) (p : FFTPlan) :
    (makeRFFT1dPolicy_MATMUL env lim p).2.n0 = p.n0 ∧
    (makeRFFT1dPolicy_MATMUL env lim p).2.input_dtype = p.input_dtype := by
  unfold makeRFFT1dPolicy_MATMUL
  simp only []
  split_ifs <;> exact ⟨rfl, rfl⟩

/-- The composite block leaves `L` and the input type alone. -/
theorem composite_fields (env : Env) (p : FFTPlan) :
    (makeRFFT1dPolicy_COMPOSITE env p).2.L = p.L ∧
    (makeRFFT1dPolicy_COMPOSITE env p).2.input_dtype = p.input_dtype := by
  unfold makeRFFT1dPolicy_COMPOSITE
  simp only []
  split_ifs <;> exact ⟨rfl, rfl⟩

theorem execRFFT1d_padBlock_ok (h : TensorDesc → TensorDesc → TensorDesc → Nat) (s : ExecState) :
    execRFFT1d_padBlock (Backend.allSucceed h) s =
      (MLUOP_STATUS_SUCCESS,
        if s.fft_plan.n0 > s.fft_plan.inembed0 then
          ⟨{ s.fft_plan with mlu_addrs :=
              { s.fft_plan.mlu_addrs with input := s.fft_plan.mlu_addrs.input_pad_addr } },
            s.trace ++ callsOf (padRFFT1dContiguousInput (Backend.allSucceed h)) s.fft_plan⟩
        else s) := by
  unfold execRFFT1d_padBlock
  split_ifs
  · rw [padRFFT1dContiguousInput_ok, CHECK_RETURN_success]
  · rfl

theorem execRFFT1d_scaleBlock_ok (h : TensorDesc → TensorDesc → TensorDesc → Nat)
    (scale_factor : CFloat) (s : ExecState) :
    execRFFT1d_scaleBlock (Backend.allSucceed h) scale_factor s =
      (MLUOP_STATUS_SUCCESS, ⟨s.fft_plan, s.trace ++
        callsOf (execRFFT1d_scaleBlock (Backend.allSucceed h) scale_factor) s.fft_plan⟩) := by
  unfold callsOf execRFFT1d_scaleBlock
  rw [scaleOutput_ok, scaleOutput_ok h scale_factor _ ⟨s.fft_plan, []⟩]
  simp

/-- The all-succeeding run of the matmul-family path: the calls of its six
stages in order. -/
theorem execRFFT1d_ok_prime (env : Env) (h : TensorDesc → TensorDesc → TensorDesc → Nat)
    (plan : FFTPlan) (input : Addr) (scale_factor : CFloat) (workspace output : Addr)
    (hp : plan.prime = true) :
    execRFFT1d env (Backend.allSucceed h) plan input scale_factor workspace output [] =
      (MLUOP_STATUS_SUCCESS,
        ⟨configuredRFFT1d env plan input workspace output,
          callsOf (makeRFFT1dContiguousInput (Backend.allSucceed h) input)
              (configuredRFFT1d env plan input workspace output) ++
            (callsOf (padRFFT1dContiguousInput (Backend.allSucceed h))
              (configuredRFFT1d env plan input workspace output) ++
            (callsOf (transposeRFFT1dPaddedInput (Backend.allSucceed h))
              (configuredRFFT1d env plan input workspace output) ++
            (callsOf (computeRFFT1dMatmulResult (Backend.allSucceed h) scale_factor)
              (configuredRFFT1d env plan input workspace output) ++
            (callsOf (mergeRFFT1dOutput (Backend.allSucceed h) scale_factor)
              (configuredRFFT1d env plan input workspace output) ++
            callsOf (makeRFFT1dContiguousOutput (Backend.allSucceed h) output)
              (configuredRFFT1d env plan input workspace output)))))⟩) := by
  unfold execRFFT1d configuredRFFT1d
  simp only [hp, ↓reduceIte]
  simp only [makeRFFT1dContiguousInput_ok, padRFFT1dContiguousInput_ok,
    transposeRFFT1dPaddedInput_ok, computeRFFT1dMatmulResult_ok, mergeRFFT1dOutput_ok,
    makeRFFT1dContiguousOutput_ok, CHECK_RETURN_success, List.nil_append, List.append_assoc]

/-- The all-succeeding run of the butterfly path: the calls of its stages in order. -/
theorem execRFFT1d_ok_butterfly (env : Env) (h : TensorDesc → TensorDesc → TensorDesc → Nat)
    (plan : FFTPlan) (input : Addr) (scale_factor : CFloat) (workspace output : Addr)
    (hp : plan.prime = false) :
    ∃ cfg' : FFTPlan,
      cfg' = (if (configuredRFFT1d env plan input workspace output).n0 >
            (configuredRFFT1d env plan input workspace output).inembed0 then
          { configuredRFFT1d env plan input workspace output with mlu_addrs :=
            { (configuredRFFT1d env plan input workspace output).mlu_addrs with
              input := (configuredRFFT1d env plan input workspace output).mlu_addrs.input_pad_addr } }
        else configuredRFFT1d env plan input workspace output) ∧
      execRFFT1d env (Backend.allSucceed h) plan input scale_factor workspace output [] =
        (MLUOP_STATUS_SUCCESS,
          ⟨cfg',
            callsOf (makeRFFT1dContiguousInput (Backend.allSucceed h) input)
                (configuredRFFT1d env plan input workspace output) ++
              ((if (configuredRFFT1d env plan input workspace output).n0 >
                    (configuredRFFT1d env plan input workspace output).inembed0 then
                  callsOf (padRFFT1dContiguousInput (Backend.allSucceed h))
                    (configuredRFFT1d env plan input workspace output)
                else []) ++
              (callsOf (execFFTr2c1d (Backend.allSucceed h) scale_factor) cfg' ++
              (callsOf (execRFFT1d_scaleBlock (Backend.allSucceed h) scale_factor) cfg' ++
              callsOf (makeRFFT1dContiguousOutput (Backend.allSucceed h) output) cfg')))⟩) := by
  refine ⟨_, rfl, ?_⟩
  unfold execRFFT1d configuredRFFT1d
  simp only [hp, Bool.false_eq_true, ↓reduceIte]
  simp only [makeRFFT1dContiguousInput_ok, execRFFT1d_padBlock_ok, CHECK_RETURN_success,
    List.nil_append]
  split_ifs <;>
    simp only [execFFTr2c1d_ok, execRFFT1d_scaleBlock_ok, makeRFFT1dContiguousOutput_ok,
      CHECK_RETURN_success, List.append_assoc, List.append_nil, List.nil_append]

/-! ## Lemmas: which stage issues the pad and the input copy -/

theorem makeRFFT1dContiguousInput_no_pad (h : TensorDesc → TensorDesc → TensorDesc → Nat) (input : Addr)
    (p : FFTPlan) :
    (callsOf (makeRFFT1dContiguousInput (Backend.allSucceed h) input) p).all (fun c => !c.isPad) = true := by
  unfold callsOf makeRFFT1dContiguousInput
  simp only [issue_allSucceed, CHECK_RETURN_success, CALL_CNNL_allSucceed,
    CALL_UNCHECKED_allSucceed, allSucceed_heuristicWorkspaceSize]
  (try split_ifs) <;> rfl

theorem padRFFT1dContiguousInput_no_input_copy (h : TensorDesc → TensorDesc → TensorDesc → Nat)
    (p : FFTPlan) :
    (callsOf (padRFFT1dContiguousInput (Backend.allSucceed h)) p).all (fun c => !c.isInputCopy) = true := by
  unfold callsOf padRFFT1dContiguousInput
  simp only [issue_allSucceed, CHECK_RETURN_success, CALL_CNNL_allSucceed,
    CALL_UNCHECKED_allSucceed, allSucceed_heuristicWorkspaceSize]
  (try split_ifs) <;> rfl

theorem transposeRFFT1dPaddedInput_no_pad (h : TensorDesc → TensorDesc → TensorDesc → Nat)
    (p : FFTPlan) :
    (callsOf (transposeRFFT1dPaddedInput (Backend.allSucceed h)) p).all (fun c => !c.isPad) = true := by
  unfold callsOf transposeRFFT1dPaddedInput
  simp only [issue_allSucceed, CHECK_RETURN_success, CALL_CNNL_allSucceed,
    CALL_UNCHECKED_allSucceed, allSucceed_heuristicWorkspaceSize]
  (try split_ifs) <;> rfl

theorem transposeRFFT1dPaddedInput_no_input_copy (h : TensorDesc → TensorDesc → TensorDesc → Nat)
    (p : FFTPlan) :
    (callsOf (transposeRFFT1dPaddedInput (Backend.allSucceed h)) p).all (fun c => !c.isInputCopy) = true := by
  unfold callsOf transposeRFFT1dPaddedInput
  simp only [issue_allSucceed, CHECK_RETURN_success, CALL_CNNL_allSucceed,
    CALL_UNCHECKED_allSucceed, allSucceed_heuristicWorkspaceSize]
  (try split_ifs) <;> rfl

theorem computeRFFT1dMatmulResult_no_pad (h : TensorDesc → TensorDesc → TensorDesc → Nat) (scale_factor : CFloat)
    (p : FFTPlan) :
    (callsOf (computeRFFT1dMatmulResult (Backend.allSucceed h) scale_factor) p).all (fun c => !c.isPad) = true := by
  unfold callsOf computeRFFT1dMatmulResult
  simp only [issue_allSucceed, CHECK_RETURN_success, CALL_CNNL_allSucceed,
    CALL_UNCHECKED_allSucceed, allSucceed_heuristicWorkspaceSize]
  (try split_ifs) <;> rfl

theorem computeRFFT1dMatmulResult_no_input_copy (h : TensorDesc → TensorDesc → TensorDesc → Nat) (scale_factor : CFloat)
    (p : FFTPlan) :
    (callsOf (computeRFFT1dMatmulResult (Backend.allSucceed h) scale_factor) p).all (fun c => !c.isInputCopy) = true := by
  unfold callsOf computeRFFT1dMatmulResult
  simp only [issue_allSucceed, CHECK_RETURN_success, CALL_CNNL_allSucceed,
    CALL_UNCHECKED_allSucceed, allSucceed_heuristicWorkspaceSize]
  (try split_ifs) <;> rfl

theorem mergeRFFT1dOutput_no_pad (h : TensorDesc → TensorDesc → TensorDesc → Nat) (scale_factor : CFloat)
    (p : FFTPlan) :
    (callsOf (mergeRFFT1dOutput (Backend.allSucceed h) scale_factor) p).all (fun c => !c.isPad) = true := by
  unfold callsOf mergeRFFT1dOutput
  simp only [issue_allSucceed, CHECK_RETURN_success, CALL_CNNL_allSucceed,
    CALL_UNCHECKED_allSucceed, allSucceed_heuristicWorkspaceSize]
  (try split_ifs) <;> rfl

theorem mergeRFFT1dOutput_no_input_copy (h : TensorDesc → TensorDesc → TensorDesc → Nat) (scale_factor : CFloat)
    (p : FFTPlan) :
    (callsOf (mergeRFFT1dOutput (Backend.allSucceed h) scale_factor) p).all (fun c => !c.isInputCopy) = true := by
  unfold callsOf mergeRFFT1dOutput
  simp only [issue_allSucceed, CHECK_RETURN_success, CALL_CNNL_allSucceed,
    CALL_UNCHECKED_allSucceed, allSucceed_heuristicWorkspaceSize]
  (try split_ifs) <;> rfl

theorem makeRFFT1dContiguousOutput_no_pad (h : TensorDesc → TensorDesc → TensorDesc → Nat) (output : Addr)
    (p : FFTPlan) :
    (callsOf (makeRFFT1dContiguousOutput (Backend.allSucceed h) output) p).all (fun c => !c.isPad) = true := by
  unfold callsOf makeRFFT1dContiguousOutput
  simp only [issue_allSucceed, CHECK_RETURN_success, CALL_CNNL_allSucceed,
    CALL_UNCHECKED_allSucceed, allSucceed_heuristicWorkspaceSize]
  (try split_ifs) <;> rfl

theorem makeRFFT1dContiguousOutput_no_input_copy (h : TensorDesc → TensorDesc → TensorDesc → Nat) (output : Addr)
    (p : FFTPlan) :
    (callsOf (makeRFFT1dContiguousOutput (Backend.allSucceed h) output) p).all (fun c => !c.isInputCopy) = true := by
  unfold callsOf makeRFFT1dContiguousOutput
  simp only [issue_allSucceed, CHECK_RETURN_success, CALL_CNNL_allSucceed,
    CALL_UNCHECKED_allSucceed, allSucceed_heuristicWorkspaceSize]
  (try split_ifs) <;> rfl

theorem execFFTr2c1d_no_pad (h : TensorDesc → TensorDesc → TensorDesc → Nat) (scale_factor : CFloat)
    (p : FFTPlan) :
    (callsOf (execFFTr2c1d (Backend.allSucceed h) scale_factor) p).all (fun c => !c.isPad) = true := by
  unfold callsOf execFFTr2c1d
  simp only [issue_allSucceed, CHECK_RETURN_success, CALL_CNNL_allSucceed,
    CALL_UNCHECKED_allSucceed, allSucceed_heuristicWorkspaceSize]
  (try split_ifs) <;> rfl

theorem execFFTr2c1d_no_input_copy (h : TensorDesc → TensorDesc → TensorDesc → Nat) (scale_factor : CFloat)
    (p : FFTPlan) :
    (callsOf (execFFTr2c1d (Backend.allSucceed h) scale_factor) p).all (fun c => !c.isInputCopy) = true := by
  unfold callsOf execFFTr2c1d
  simp only [issue_allSucceed, CHECK_RETURN_success, CALL_CNNL_allSucceed,
    CALL_UNCHECKED_allSucceed, allSucceed_heuristicWorkspaceSize]
  (try split_ifs) <;> rfl

theorem execRFFT1d_scaleBlock_no_pad (h : TensorDesc → TensorDesc → TensorDesc → Nat) (scale_factor : CFloat)
    (p : FFTPlan) :
    (callsOf (execRFFT1d_scaleBlock (Backend.allSucceed h) scale_factor) p).all (fun c => !c.isPad) = true := by
  unfold callsOf execRFFT1d_scaleBlock scaleOutput
  simp only [issue_allSucceed, CHECK_RETURN_success, CALL_CNNL_allSucceed,
    CALL_UNCHECKED_allSucceed, allSucceed_heuristicWorkspaceSize]
  (try split_ifs) <;> rfl

theorem execRFFT1d_scaleBlock_no_input_copy (h : TensorDesc → TensorDesc → TensorDesc → Nat) (scale_factor : CFloat)
    (p : FFTPlan) :
    (callsOf (execRFFT1d_scaleBlock (Backend.allSucceed h) scale_factor) p).all (fun c => !c.isInputCopy) = true := by
  unfold callsOf execRFFT1d_scaleBlock scaleOutput
  simp only [issue_allSucceed, CHECK_RETURN_success, CALL_CNNL_allSucceed,
    CALL_UNCHECKED_allSucceed, allSucceed_heuristicWorkspaceSize]
  (try split_ifs) <;> rfl

/-- The pad stage issues exactly one pad call when the embedding differs from the length, none otherwise. -/
theorem padRFFT1dContiguousInput_pad_filter (h : TensorDesc → TensorDesc → TensorDesc → Nat)
    (p : FFTPlan) :
    (callsOf (padRFFT1dContiguousInput (Backend.allSucceed h)) p).filter Call.isPad =
      if (p.inembed0 != p.n0) = true then [padCallRFFT1d p] else [] := by
  unfold callsOf padRFFT1dContiguousInput padCallRFFT1d
  simp only [issue_allSucceed, CHECK_RETURN_success, CALL_CNNL_allSucceed]
  split_ifs <;> simp [List.filter, Call.isPad]

theorem padRFFT1dContiguousInput_pad_calls (h : TensorDesc → TensorDesc → TensorDesc → Nat)
    (p : FFTPlan) (c : Call)
    (hc : c ∈ callsOf (padRFFT1dContiguousInput (Backend.allSucceed h)) p)
    (hpad : c.isPad = true) : (p.inembed0 != p.n0) = true ∧ c = padCallRFFT1d p := by
  have hm : c ∈ (callsOf (padRFFT1dContiguousInput (Backend.allSucceed h)) p).filter
      Call.isPad := List.mem_filter.mpr ⟨hc, hpad⟩
  rw [padRFFT1dContiguousInput_pad_filter] at hm
  by_cases hn : (p.inembed0 != p.n0) = true
  · rw [if_pos hn] at hm
    exact ⟨hn, List.mem_singleton.mp hm⟩
  · rw [if_neg hn] at hm
    simp at hm

/-- The input stage issues exactly one copy when its guard holds, none otherwise. -/
theorem makeRFFT1dContiguousInput_copy_filter (h : TensorDesc → TensorDesc → TensorDesc → Nat)
    (input : Addr) (p : FFTPlan) :
    (callsOf (makeRFFT1dContiguousInput (Backend.allSucceed h) input) p).filter
        Call.isInputCopy =
      if inputCopyNeeded p = true then
        [Call.mluOpContiguous
          ⟨p.input_dtype,
            [p.batch, if p.prime then (p.inembed0 : Int) else min (p.inembed0 : Int) p.n0],
            some [p.idist, p.istride], none⟩
          input (if p.prime then p.matmul_addrs.input_contiguous_addr else p.mlu_addrs.input)]
      else [] := by
  unfold callsOf makeRFFT1dContiguousInput inputCopyNeeded
  simp only [issue_allSucceed, CHECK_RETURN_success]
  split_ifs <;> simp [List.filter, Call.isInputCopy]

theorem makeRFFT1dContiguousInput_copy_calls (h : TensorDesc → TensorDesc → TensorDesc → Nat)
    (input : Addr) (p : FFTPlan) (c : Call)
    (hc : c ∈ callsOf (makeRFFT1dContiguousInput (Backend.allSucceed h) input) p)
    (hcopy : c.isInputCopy = true) :
    inputCopyNeeded p = true ∧
      c = Call.mluOpContiguous
          ⟨p.input_dtype,
            [p.batch, if p.prime then (p.inembed0 : Int) else min (p.inembed0 : Int) p.n0],
            some [p.idist, p.istride], none⟩
          input (if p.prime then p.matmul_addrs.input_contiguous_addr else p.mlu_addrs.input) := by
  have hm : c ∈ (callsOf (makeRFFT1dContiguousInput (Backend.allSucceed h) input) p).filter
      Call.isInputCopy := List.mem_filter.mpr ⟨hc, hcopy⟩
  rw [makeRFFT1dContiguousInput_copy_filter] at hm
  by_cases hn : inputCopyNeeded p = true
  · rw [if_pos hn] at hm
    exact ⟨hn, List.mem_singleton.mp hm⟩
  · rw [if_neg hn] at hm
    simp at hm

theorem makeRFFT1dContiguousInput_copy_mem (h : TensorDesc → TensorDesc → TensorDesc → Nat)
    (input : Addr) (p : FFTPlan) (hn : inputCopyNeeded p = true) :
    Call.mluOpContiguous
        ⟨p.input_dtype,
          [p.batch, if p.prime then (p.inembed0 : Int) else min (p.inembed0 : Int) p.n0],
          some [p.idist, p.istride], none⟩
        input (if p.prime then p.matmul_addrs.input_contiguous_addr else p.mlu_addrs.input) ∈
      callsOf (makeRFFT1dContiguousInput (Backend.allSucceed h) input) p := by
  have hm := makeRFFT1dContiguousInput_copy_filter h input p
  rw [if_pos hn] at hm
  have : Call.mluOpContiguous
        ⟨p.input_dtype,
          [p.batch, if p.prime then (p.inembed0 : Int) else min (p.inembed0 : Int) p.n0],
          some [p.idist, p.istride], none⟩
        input (if p.prime then p.matmul_addrs.input_contiguous_addr else p.mlu_addrs.input) ∈
      (callsOf (makeRFFT1dContiguousInput (Backend.allSucceed h) input) p).filter
        Call.isInputCopy := by
    rw [hm]; exact List.mem_singleton.mpr rfl
  exact (List.mem_filter.mp this).1

/-! ## Lemmas: pad and input copy in the all-succeeding run of execRFFT1d -/

/-- A list on which a test fails everywhere has no member passing it. -/
theorem not_mem_of_all_not {l : List Call} {P : Call → Bool}
    (h : l.all (fun c => !P c) = true) {c : Call} (hc : c ∈ l) (hp : P c = true) : False := by
  have := List.all_eq_true.mp h c hc
  simp [hp] at this

/-- The allocators change addresses only. -/
theorem configuredRFFT1d_fields (env : Env) (plan : FFTPlan) (input workspace output : Addr) :
    (configuredRFFT1d env plan input workspace output).prime = plan.prime ∧
    (configuredRFFT1d env plan input workspace output).n0 = plan.n0 ∧
    (configuredRFFT1d env plan input workspace output).inembed0 = plan.inembed0 ∧
    (configuredRFFT1d env plan input workspace output).is_input_contiguous =
      plan.is_input_contiguous := by
  unfold configuredRFFT1d
  split_ifs <;> exact ⟨rfl, rfl, rfl, rfl⟩

theorem inputCopyNeeded_configured (env : Env) (plan : FFTPlan) (input workspace output : Addr) :
    inputCopyNeeded (configuredRFFT1d env plan input workspace output) = inputCopyNeeded plan := by
  obtain ⟨h1, h2, h3, h4⟩ := configuredRFFT1d_fields env plan input workspace output
  unfold inputCopyNeeded
  rw [h1, h2, h3, h4]

/-- Every pad call of the all-succeeding run is the pad call of the pad stage. -/
theorem execRFFT1d_ok_pad_calls (env : Env) (h : TensorDesc → TensorDesc → TensorDesc → Nat)
    (plan : FFTPlan) (input : Addr) (scale_factor : CFloat) (workspace output : Addr)
    (c : Call)
    (hc : c ∈ (execRFFT1d env (Backend.allSucceed h) plan input scale_factor workspace
      output []).2.trace)
    (hpad : c.isPad = true) :
    padIssued plan = true ∧ c = padCallRFFT1d (configuredRFFT1d env plan input workspace output) := by
  obtain ⟨f1, f2, f3, _⟩ := configuredRFFT1d_fields env plan input workspace output
  cases hp : plan.prime
  · obtain ⟨cfg', _, he⟩ := execRFFT1d_ok_butterfly env h plan input scale_factor workspace
      output hp
    rw [he] at hc
    simp only [List.mem_append] at hc
    rcases hc with hc | hc | hc | hc | hc
    · exact (not_mem_of_all_not (makeRFFT1dContiguousInput_no_pad h input _) hc hpad).elim
    · split_ifs at hc with hn
      · obtain ⟨_, e⟩ := padRFFT1dContiguousInput_pad_calls h _ c hc hpad
        refine ⟨?_, e⟩
        rw [f2, f3] at hn
        simp [padIssued, hp, hn]
      · simp at hc
    · exact (not_mem_of_all_not (execFFTr2c1d_no_pad h scale_factor _) hc hpad).elim
    · exact (not_mem_of_all_not (execRFFT1d_scaleBlock_no_pad h scale_factor _) hc hpad).elim
    · exact (not_mem_of_all_not (makeRFFT1dContiguousOutput_no_pad h output _) hc hpad).elim
  · rw [execRFFT1d_ok_prime env h plan input scale_factor workspace output hp] at hc
    simp only [List.mem_append] at hc
    rcases hc with hc | hc | hc | hc | hc | hc
    · exact (not_mem_of_all_not (makeRFFT1dContiguousInput_no_pad h input _) hc hpad).elim
    · obtain ⟨hn, e⟩ := padRFFT1dContiguousInput_pad_calls h _ c hc hpad
      refine ⟨?_, e⟩
      rw [f2, f3] at hn
      simp only [padIssued, hp, ↓reduceIte]
      exact hn
    · exact (not_mem_of_all_not (transposeRFFT1dPaddedInput_no_pad h _) hc hpad).elim
    · exact (not_mem_of_all_not (computeRFFT1dMatmulResult_no_pad h scale_factor _) hc hpad).elim
    · exact (not_mem_of_all_not (mergeRFFT1dOutput_no_pad h scale_factor _) hc hpad).elim
    · exact (not_mem_of_all_not (makeRFFT1dContiguousOutput_no_pad h output _) hc hpad).elim

/-- Every input copy of the all-succeeding run comes from the input stage. -/
theorem execRFFT1d_ok_copy_calls (env : Env) (h : TensorDesc → TensorDesc → TensorDesc → Nat)
    (plan : FFTPlan) (input : Addr) (scale_factor : CFloat) (workspace output : Addr)
    (c : Call)
    (hc : c ∈ (execRFFT1d env (Backend.allSucceed h) plan input scale_factor workspace
      output []).2.trace)
    (hcopy : c.isInputCopy = true) :
    c ∈ callsOf (makeRFFT1dContiguousInput (Backend.allSucceed h) input)
      (configuredRFFT1d env plan input workspace output) := by
  cases hp : plan.prime
  · obtain ⟨cfg', _, he⟩ := execRFFT1d_ok_butterfly env h plan input scale_factor workspace
      output hp
    rw [he] at hc
    simp only [List.mem_append] at hc
    rcases hc with hc | hc | hc | hc | hc
    · exact hc
    · split_ifs at hc with hn
      · exact (not_mem_of_all_not (padRFFT1dContiguousInput_no_input_copy h _) hc hcopy).elim
      · simp at hc
    · exact (not_mem_of_all_not (execFFTr2c1d_no_input_copy h scale_factor _) hc hcopy).elim
    · exact (not_mem_of_all_not (execRFFT1d_scaleBlock_no_input_copy h scale_factor _) hc
        hcopy).elim
    · exact (not_mem_of_all_not (makeRFFT1dContiguousOutput_no_input_copy h output _) hc
        hcopy).elim
  · rw [execRFFT1d_ok_prime env h plan input scale_factor workspace output hp] at hc
    simp only [List.mem_append] at hc
    rcases hc with hc | hc | hc | hc | hc | hc
    · exact hc
    · exact (not_mem_of_all_not (padRFFT1dContiguousInput_no_input_copy h _) hc hcopy).elim
    · exact (not_mem_of_all_not (transposeRFFT1dPaddedInput_no_input_copy h _) hc hcopy).elim
    · exact (not_mem_of_all_not (computeRFFT1dMatmulResult_no_input_copy h scale_factor _) hc
        hcopy).elim
    · exact (not_mem_of_all_not (mergeRFFT1dOutput_no_input_copy h scale_factor _) hc hcopy).elim
    · exact (not_mem_of_all_not (makeRFFT1dContiguousOutput_no_input_copy h output _) hc
        hcopy).elim

theorem execRFFT1d_ok_makeInput_subset (env : Env)
    (h : TensorDesc → TensorDesc → TensorDesc → Nat) (plan : FFTPlan) (input : Addr)
    (scale_factor : CFloat) (workspace output : Addr) (c : Call)
    (hc : c ∈ callsOf (makeRFFT1dContiguousInput (Backend.allSucceed h) input)
      (configuredRFFT1d env plan input workspace output)) :
    c ∈ (execRFFT1d env (Backend.allSucceed h) plan input scale_factor workspace
      output []).2.trace := by
  cases hp : plan.prime
  · obtain ⟨cfg', _, he⟩ := execRFFT1d_ok_butterfly env h plan input scale_factor workspace
      output hp
    rw [he]
    exact List.mem_append_left _ hc
  · rw [execRFFT1d_ok_prime env h plan input scale_factor workspace output hp]
    exact List.mem_append_left _ hc

/-- A successful policy call ran under one of the three matmul-family strategies. -/
theorem policy_success_strategy (env : Env) (handle : Handle) (plan : FFTPlan)
    (hok : (makeRFFT1dPolicy env handle plan).1 = MLUOP_STATUS_SUCCESS) :
    (selectRFFT1dStrategy env handle plan).2.fft_strategy = CNFFT_FUNC_MATMUL ∨
    (selectRFFT1dStrategy env handle plan).2.fft_strategy = CNFFT_FUNC_COOLEY_TUKEY ∨
    (selectRFFT1dStrategy env handle plan).2.fft_strategy = CNFFT_FUNC_STOCKHAM := by
  have hsel := policy_success_sel env handle plan hok
  unfold makeRFFT1dPolicy at hok
  simp only [hsel, ne_eq, not_true_eq_false, ↓reduceIte] at hok
  cases hst : (selectRFFT1dStrategy env handle plan).2.fft_strategy <;>
    simp only [hst] at hok <;> simp at hok ⊢

/-- Reducing the left summand modulo 2^64 does not change a `size_t` sum. -/
theorem size_t_add_left (a b : Nat) : size_t (size_t a + b) = size_t (a + b) := by
  unfold size_t
  omega

/-- The composite block leaves the fields alone that the byte counts are
computed from. -/
theorem composite_counts (env : Env) (p : FFTPlan) :
    (makeRFFT1dPolicy_COMPOSITE env p).2.batch = p.batch ∧
    (makeRFFT1dPolicy_COMPOSITE env p).2.n0 = p.n0 ∧
    stagingBytesExact env (makeRFFT1dPolicy_COMPOSITE env p).2 = stagingBytesExact env p := by
  unfold makeRFFT1dPolicy_COMPOSITE
  simp only []
  split_ifs <;> exact ⟨rfl, rfl, rfl⟩

/-- The workspace size of the composite block when the element count
`batch * n` stays below 2^31 and the exact byte count stays below 2^64: the
exact byte count. -/
theorem composite_workspace_exact (env : Env) (p : FFTPlan)
    (hs : p.fft_strategy = CNFFT_FUNC_COOLEY_TUKEY ∨ p.fft_strategy = CNFFT_FUNC_STOCKHAM)
    (hL : p.L ≤ FFT_L_LIMIT) (hint : p.batch * p.n0 < 2 ^ 31)
    (hfit : stagingBytesExact env p +
      (makeRFFT1dPolicy_COMPOSITE env p).2.matmul_addrs.internal_workspace_size < 2 ^ 64) :
    (makeRFFT1dPolicy_COMPOSITE env p).2.workspace_size =
      stagingBytesExact env p +
        (makeRFFT1dPolicy_COMPOSITE env p).2.matmul_addrs.internal_workspace_size := by
  have hL' : ¬ p.L > FFT_L_LIMIT := by omega
  have hcount := sizeOfInt_int32 _ hint
  have hne : p.fft_strategy ≠ CNFFT_FUNC_MATMUL := by
    rcases hs with h | h <;> simp [h]
  simp only [makeRFFT1dPolicy_COMPOSITE, hL', ↓reduceIte, stagingBytesExact, hne, COMPLEX,
    hcount] at hfit ⊢
  generalize (if p.fft_strategy = CNFFT_FUNC_COOLEY_TUKEY then _ else _ :
    mluOpStatus_t × Nat).2 = Q at hfit ⊢
  have e2 : 2 * env.mluOpDataTypeBytes p.input_dtype * (p.batch * p.n0) =
      2 * (env.mluOpDataTypeBytes p.input_dtype * (p.batch * p.n0)) := by ring
  rw [e2] at hfit ⊢
  have hd := doubledBytes_of_lt (env.mluOpDataTypeBytes p.input_dtype) (p.batch * p.n0)
    (by revert hfit; split_ifs <;> intro hfit <;> omega)
  rw [hd] at hfit
  simp only [hd]
  generalize env.mluOpDataTypeBytes p.input_dtype * (p.batch * p.n0) = P at hfit ⊢
  generalize env.mluOpDataTypeBytes p.input_dtype * p.inum = I at hfit ⊢
  generalize env.mluOpDataTypeBytes p.output_dtype * p.onum = O at hfit ⊢
  revert hfit
  cases p.is_input_contiguous <;> cases p.is_output_contiguous <;>
    cases (p.inembed0 != p.n0) <;> intro hfit <;>
    simp only [Bool.not_true, Bool.not_false, ↓reduceIte, Bool.false_eq_true, Nat.zero_add,
      Nat.add_zero] at hfit ⊢ <;>
    simp (disch := omega) only [size_t_of_lt] <;>
    omega

/-! ## Claims -/

/-- C1: the regions of a composite plan.  For a plan that makeRFFT1dPolicy
sizes successfully under the Cooley-Tukey or Stockham strategy, with the
element count `batch * n` below 2^31 and the exact byte count below 2^64:
`workspace_size` is the exact byte count, the regions that
configureRFFT1dMatmulWorkspaceAddrs carves out of the workspace are pairwise
disjoint, each lies inside the `workspace_size` bytes starting at the workspace
pointer, and the forward-growing total plus the backward-growing total equals
`workspace_size`.  For the contiguous Cooley-Tukey plan of length 2048 with
2^20 batch rows the `int` product `batch * n = 2^31` wraps around:
`workspace_size` is `2^64 - 42949672960`, and `matmul_re_mul_re_addr`,
`matmul_re_mul_im_addr` and `internal_workspace_addr` lie 2^33, 2^34 and
`3 * 2^33` bytes before the workspace pointer. -/
theorem C1_composite_regions_disjoint_and_exact (env : Env) (handle : Handle) (plan : FFTPlan)
    (input workspace output : Addr) :
    let planned := (makeRFFT1dPolicy env handle plan).2
    let allocated := configureRFFT1dMatmulWorkspaceAddrs env planned input workspace output
    let totals := (configureRFFT1dMatmulWorkspaceAddrsAux env planned input workspace output).2
    let big :=
      (makeRFFT1dPolicy (exampleEnv CNFFT_FUNC_COOLEY_TUKEY) exampleHandle
        (batchedPlan 1 11 (2 ^ 20) 2048)).2
    let bigAllocated :=
      configureRFFT1dMatmulWorkspaceAddrs (exampleEnv CNFFT_FUNC_COOLEY_TUKEY) big exampleInput
        exampleWorkspace exampleOutput
    ((makeRFFT1dPolicy env handle plan).1 = MLUOP_STATUS_SUCCESS →
      (planned.fft_strategy = CNFFT_FUNC_COOLEY_TUKEY ∨
        planned.fft_strategy = CNFFT_FUNC_STOCKHAM) →
      planned.batch * planned.n0 < 2 ^ 31 →
      stagingBytesExact env planned + planned.matmul_addrs.internal_workspace_size < 2 ^ 64 →
      planned.workspace_size =
        stagingBytesExact env planned + planned.matmul_addrs.internal_workspace_size ∧
      (matmulWorkspaceRegions env allocated).Pairwise Region.disjoint ∧
      (∀ reg ∈ matmulWorkspaceRegions env allocated,
        reg.within workspace planned.workspace_size) ∧
      totals.1 + totals.2 = planned.workspace_size) ∧
    ((makeRFFT1dPolicy (exampleEnv CNFFT_FUNC_COOLEY_TUKEY) exampleHandle
        (batchedPlan 1 11 (2 ^ 20) 2048)).1 = MLUOP_STATUS_SUCCESS ∧
      big.batch * big.n0 = 2 ^ 31 ∧
      big.workspace_size = 2 ^ 64 - 42949672960 ∧
      bigAllocated.matmul_addrs.matmul_re_mul_re_addr = ⟨Base.workspace, -8589934592⟩ ∧
      bigAllocated.matmul_addrs.matmul_re_mul_im_addr = ⟨Base.workspace, -17179869184⟩ ∧
      bigAllocated.matmul_addrs.internal_workspace_addr = ⟨Base.workspace, -25769803776⟩) := by
  intro planned allocated totals big bigAllocated
  refine ⟨fun hok hs hint hfit => ?_, by decide⟩
  have hsel := policy_success_sel env handle plan hok
  simp only [planned] at hs hint hfit
  rw [policy_strategy] at hs
  have heq := policy_eq_composite env handle plan hsel hs
  simp only [planned, allocated, totals]
  rw [heq] at hok hint hfit ⊢
  obtain ⟨c1, c2, c3⟩ := composite_counts env (selectRFFT1dStrategy env handle plan).2
  rw [c1, c2] at hint
  rw [c3] at hfit ⊢
  have hL := composite_success_L env _ hok
  exact ⟨composite_workspace_exact env _ hs hL hint hfit,
    composite_regions env _ input workspace output hs hL hint hfit⟩

/-- Witness for C1: a non-contiguous, padded Cooley-Tukey plan of length 12. -/
theorem C1_composite_regions_disjoint_and_exact_witness :
    let planned :=
      (makeRFFT1dPolicy (exampleEnv CNFFT_FUNC_COOLEY_TUKEY) exampleHandle
        (examplePlan 12 2 10 14 false false)).2
    let allocated :=
      configureRFFT1dMatmulWorkspaceAddrs (exampleEnv CNFFT_FUNC_COOLEY_TUKEY) planned
        exampleInput exampleWorkspace exampleOutput
    planned.workspace_size = 768 ∧
    (matmulWorkspaceRegions (exampleEnv CNFFT_FUNC_COOLEY_TUKEY) allocated).Pairwise
      Region.disjoint ∧
    (∀ reg ∈ matmulWorkspaceRegions (exampleEnv CNFFT_FUNC_COOLEY_TUKEY) allocated,
      reg.within exampleWorkspace planned.workspace_size) :=
  ⟨by decide,
    ((C1_composite_regions_disjoint_and_exact (exampleEnv CNFFT_FUNC_COOLEY_TUKEY) exampleHandle
      (examplePlan 12 2 10 14 false false) exampleInput exampleWorkspace exampleOutput).1
      (by decide) (by decide) (by decide) (by decide)).2.1,
    ((C1_composite_regions_disjoint_and_exact (exampleEnv CNFFT_FUNC_COOLEY_TUKEY) exampleHandle
      (examplePlan 12 2 10 14 false false) exampleInput exampleWorkspace exampleOutput).1
      (by decide) (by decide) (by decide) (by decide)).2.2.1⟩

/-- C2 (evaluation at the failing input): a direct-matmul plan of length 4 with
one batch row, strided input and strided output whose rows are embedded in 4
elements (`onum = 4`).  makeRFFT1dPolicy counts `8 * 1 * (4/2+1) = 24` bytes for
the staged output and 40 bytes in total; configureRFFT1dMatmulWorkspaceAddrs
carves `8 * onum = 32` bytes for it, at offset 8, so the staged output region
overlaps the staged input region `[0, 16)`: the regions are not pairwise
disjoint. -/
theorem C2_direct_output_region_overlaps :
    (makeRFFT1dPolicy (exampleEnv CNFFT_FUNC_MATMUL) exampleHandle wideOutputPlan).1 =
        MLUOP_STATUS_SUCCESS ∧
      (makeRFFT1dPolicy (exampleEnv CNFFT_FUNC_MATMUL) exampleHandle
        wideOutputPlan).2.workspace_size = 40 ∧
      exampleBytes wideOutputPlan.output_dtype *
        (wideOutputPlan.batch * (wideOutputPlan.n0 / 2 + 1)) = 24 ∧
      exampleBytes wideOutputPlan.output_dtype * wideOutputPlan.onum = 32 ∧
      (configureRFFT1dMatmulWorkspaceAddrs (exampleEnv CNFFT_FUNC_MATMUL)
        (makeRFFT1dPolicy (exampleEnv CNFFT_FUNC_MATMUL) exampleHandle wideOutputPlan).2
        exampleInput exampleWorkspace exampleOutput).matmul_addrs.input_contiguous_addr =
          ⟨Base.workspace, 0⟩ ∧
      (configureRFFT1dMatmulWorkspaceAddrs (exampleEnv CNFFT_FUNC_MATMUL)
        (makeRFFT1dPolicy (exampleEnv CNFFT_FUNC_MATMUL) exampleHandle wideOutputPlan).2
        exampleInput exampleWorkspace exampleOutput).matmul_addrs.output_contiguous_addr =
          ⟨Base.workspace, 8⟩ ∧
      ¬ (matmulWorkspaceRegions (exampleEnv CNFFT_FUNC_MATMUL)
        (configureRFFT1dMatmulWorkspaceAddrs (exampleEnv CNFFT_FUNC_MATMUL)
          (makeRFFT1dPolicy (exampleEnv CNFFT_FUNC_MATMUL) exampleHandle wideOutputPlan).2
          exampleInput exampleWorkspace exampleOutput)).Pairwise Region.disjoint := by
  decide

/-- C3: with the strategy resolved to direct matmul and the matmul scratch-size
query succeeding, makeRFFT1dPolicy returns success when the length is at most
the limit and NOT_SUPPORTED when it exceeds the limit, the limit being
FFT_L_LIMIT_MATMUL_300 for `arch <= MLUOP_MLU370` and FFT_L_LIMIT_MATMUL_500
otherwise. -/
theorem C3_direct_matmul_length_limit (env : Env) (handle : Handle) (plan : FFTPlan)
    (hsel : (selectRFFT1dStrategy env handle plan).1 = MLUOP_STATUS_SUCCESS)
    (hs : (selectRFFT1dStrategy env handle plan).2.fft_strategy = CNFFT_FUNC_MATMUL)
    (hq : ∀ m k n ta tb a b c,
      (env.fftGetMatMulWorkspaceSize m k n ta tb a b c).1 = MLUOP_STATUS_SUCCESS) :
    let n := (selectRFFT1dStrategy env handle plan).2.n0
    let limit :=
      if handle.arch ≤ env.MLUOP_MLU370 then env.FFT_L_LIMIT_MATMUL_300
      else env.FFT_L_LIMIT_MATMUL_500
    (n ≤ limit → (makeRFFT1dPolicy env handle plan).1 = MLUOP_STATUS_SUCCESS) ∧
    (n > limit → (makeRFFT1dPolicy env handle plan).1 = MLUOP_STATUS_NOT_SUPPORTED) := by
  intro n limit
  rw [policy_eq_matmul env handle plan hsel hs]
  have hlim : (if handle.arch > env.MLUOP_MLU370 then env.FFT_L_LIMIT_MATMUL_500
      else env.FFT_L_LIMIT_MATMUL_300) = limit := by
    simp only [limit]
    split_ifs <;> first | rfl | omega
  rw [hlim]
  constructor
  · intro h
    have h' : ¬ (selectRFFT1dStrategy env handle plan).2.n0 > limit := by
      simp only [n] at h; omega
    simp [makeRFFT1dPolicy_MATMUL, h', hq]
  · intro h
    have h' : (selectRFFT1dStrategy env handle plan).2.n0 > limit := h
    simp [makeRFFT1dPolicy_MATMUL, h']

/-- Witness for C3: on the older generation (limit 2048) length 2048 is planned
and length 2049 is rejected. -/
theorem C3_direct_matmul_length_limit_witness :
    (makeRFFT1dPolicy (exampleEnv CNFFT_FUNC_MATMUL) exampleHandle
        (examplePlan 2048 1 2048 1025 true true)).1 = MLUOP_STATUS_SUCCESS ∧
    (makeRFFT1dPolicy (exampleEnv CNFFT_FUNC_MATMUL) exampleHandle
        (examplePlan 2049 1 2049 1025 true true)).1 = MLUOP_STATUS_NOT_SUPPORTED :=
  ⟨(C3_direct_matmul_length_limit (exampleEnv CNFFT_FUNC_MATMUL) exampleHandle
      (examplePlan 2048 1 2048 1025 true true) rfl rfl (fun _ _ _ _ _ _ _ _ => rfl)).1
      (by decide),
   (C3_direct_matmul_length_limit (exampleEnv CNFFT_FUNC_MATMUL) exampleHandle
      (examplePlan 2049 1 2049 1025 true true) rfl rfl (fun _ _ _ _ _ _ _ _ => rfl)).2
      (by decide)⟩

/-- C4: with the strategy resolved to Cooley-Tukey or Stockham and the backend
size queries succeeding, makeRFFT1dPolicy returns NOT_SUPPORTED exactly when
`L > 4096`; and whenever the policy stops at the `L > 4096` check or at the
direct-matmul length check, `reservespace_size` and `workspace_size` are the
values the plan held before the call (strategy selection leaving them alone). -/
theorem C4_composite_limit_and_frame (env : Env) (handle : Handle) (plan : FFTPlan)
    (hsel : (selectRFFT1dStrategy env handle plan).1 = MLUOP_STATUS_SUCCESS)
    (hframe : (selectRFFT1dStrategy env handle plan).2.reservespace_size =
        plan.reservespace_size ∧
      (selectRFFT1dStrategy env handle plan).2.workspace_size = plan.workspace_size)
    (hq : ∀ m k n ta tb a b c,
      (env.fftGetMatMulWorkspaceSize m k n ta tb a b c).1 = MLUOP_STATUS_SUCCESS)
    (hqb : ∀ m k n batch a b c ta tb ct1 ct2 dt w ws,
      (env.fftGetBatchMatMulBcastWorkspaceSize m k n batch a b c ta tb ct1 ct2 dt w ws).1 =
        MLUOP_STATUS_SUCCESS) :
    let sel := (selectRFFT1dStrategy env handle plan).2
    let limit :=
      if handle.arch ≤ env.MLUOP_MLU370 then env.FFT_L_LIMIT_MATMUL_300
      else env.FFT_L_LIMIT_MATMUL_500
    let r := makeRFFT1dPolicy env handle plan
    ((sel.fft_strategy = CNFFT_FUNC_COOLEY_TUKEY ∨ sel.fft_strategy = CNFFT_FUNC_STOCKHAM) →
      (r.1 = MLUOP_STATUS_NOT_SUPPORTED ↔ sel.L > 4096)) ∧
    ((sel.fft_strategy = CNFFT_FUNC_COOLEY_TUKEY ∨ sel.fft_strategy = CNFFT_FUNC_STOCKHAM) →
      sel.L > 4096 →
      r.2.reservespace_size = plan.reservespace_size ∧
        r.2.workspace_size = plan.workspace_size) ∧
    (sel.fft_strategy = CNFFT_FUNC_MATMUL → sel.n0 > limit →
      r.1 = MLUOP_STATUS_NOT_SUPPORTED ∧
        r.2.reservespace_size = plan.reservespace_size ∧
        r.2.workspace_size = plan.workspace_size) := by
  intro sel limit r
  refine ⟨fun hs => ?_, fun hs hL => ?_, fun hs hn => ?_⟩
  · simp only [r, policy_eq_composite env handle plan hsel hs]
    by_cases hL : sel.L > 4096
    · have hL' : (selectRFFT1dStrategy env handle plan).2.L > FFT_L_LIMIT := hL
      simp [makeRFFT1dPolicy_COMPOSITE, hL', hL]
    · have hL' : ¬ (selectRFFT1dStrategy env handle plan).2.L > FFT_L_LIMIT := hL
      simp only [makeRFFT1dPolicy_COMPOSITE, hL', ↓reduceIte, hL, iff_false]
      split_ifs <;> simp [hq, hqb]
  · have hL' : (selectRFFT1dStrategy env handle plan).2.L > FFT_L_LIMIT := hL
    simp only [r, policy_eq_composite env handle plan hsel hs]
    simp [makeRFFT1dPolicy_COMPOSITE, hL', hframe]
  · have hlim : (if handle.arch > env.MLUOP_MLU370 then env.FFT_L_LIMIT_MATMUL_500
        else env.FFT_L_LIMIT_MATMUL_300) = limit := by
      simp only [limit]
      split_ifs <;> first | rfl | omega
    have hn' : (selectRFFT1dStrategy env handle plan).2.n0 > limit := hn
    simp only [r, policy_eq_matmul env handle plan hsel hs, hlim]
    simp [makeRFFT1dPolicy_MATMUL, hn', hframe]

/-- Witness for C4: a Cooley-Tukey plan with `L = 4097` is rejected and keeps
the sizes it came with. -/
theorem C4_composite_limit_and_frame_witness :
    let plan := { examplePlan 12 2 12 14 true true with
      L := 4097, reservespace_size := 11, workspace_size := 22 }
    let r := makeRFFT1dPolicy (exampleEnv CNFFT_FUNC_COOLEY_TUKEY) exampleHandle plan
    r.1 = MLUOP_STATUS_NOT_SUPPORTED ∧ r.2.reservespace_size = 11 ∧ r.2.workspace_size = 22 :=
  ⟨((C4_composite_limit_and_frame (exampleEnv CNFFT_FUNC_COOLEY_TUKEY) exampleHandle
      { examplePlan 12 2 12 14 true true with
        L := 4097, reservespace_size := 11, workspace_size := 22 }
      rfl ⟨rfl, rfl⟩ (fun _ _ _ _ _ _ _ _ => rfl)
      (fun _ _ _ _ _ _ _ _ _ _ _ _ _ _ => rfl)).1 (Or.inl rfl)).mpr (by decide),
   (C4_composite_limit_and_frame (exampleEnv CNFFT_FUNC_COOLEY_TUKEY) exampleHandle
      { examplePlan 12 2 12 14 true true with
        L := 4097, reservespace_size := 11, workspace_size := 22 }
      rfl ⟨rfl, rfl⟩ (fun _ _ _ _ _ _ _ _ => rfl)
      (fun _ _ _ _ _ _ _ _ _ _ _ _ _ _ => rfl)).2.1 (Or.inl rfl) (by decide)⟩

/-- C5: on every successful makeRFFT1dPolicy the reserved size is
`(n/2 + 1) * 2 * n * bytes(input_dtype)` under direct matmul and
`2 * L * L * bytes(input_dtype)` under Cooley-Tukey or Stockham, whatever the
plan held before. -/
theorem C5_reserved_size (env : Env) (handle : Handle) (plan : FFTPlan)
    (hok : (makeRFFT1dPolicy env handle plan).1 = MLUOP_STATUS_SUCCESS) :
    let p := (makeRFFT1dPolicy env handle plan).2
    (p.fft_strategy = CNFFT_FUNC_MATMUL →
      p.reservespace_size = (p.n0 / 2 + 1) * 2 * p.n0 * env.mluOpDataTypeBytes p.input_dtype) ∧
    (p.fft_strategy = CNFFT_FUNC_COOLEY_TUKEY ∨ p.fft_strategy = CNFFT_FUNC_STOCKHAM →
      p.reservespace_size = 2 * p.L * p.L * env.mluOpDataTypeBytes p.input_dtype) := by
  intro p
  have hsel := policy_success_sel env handle plan hok
  constructor
  · intro hs
    simp only [p, policy_strategy] at hs
    have heq := policy_eq_matmul env handle plan hsel hs
    simp only [p]
    rw [heq] at hok ⊢
    obtain ⟨h1, h2⟩ := matmul_fields env
      (if handle.arch > env.MLUOP_MLU370 then env.FFT_L_LIMIT_MATMUL_500
        else env.FFT_L_LIMIT_MATMUL_300) (selectRFFT1dStrategy env handle plan).2
    rw [h1, h2]
    generalize (if handle.arch > env.MLUOP_MLU370 then env.FFT_L_LIMIT_MATMUL_500
        else env.FFT_L_LIMIT_MATMUL_300) = lim at hok ⊢
    by_cases hn : (selectRFFT1dStrategy env handle plan).2.n0 > lim
    · simp [makeRFFT1dPolicy_MATMUL, hn] at hok
    · simp [makeRFFT1dPolicy_MATMUL, hn, FFT_HALF, COMPLEX]
  · intro hs
    simp only [p, policy_strategy] at hs
    have heq := policy_eq_composite env handle plan hsel hs
    simp only [p]
    rw [heq] at hok ⊢
    obtain ⟨h1, h2⟩ := composite_fields env (selectRFFT1dStrategy env handle plan).2
    rw [h1, h2]
    have hL := composite_success_L env _ hok
    have hL' : ¬ (selectRFFT1dStrategy env handle plan).2.L > FFT_L_LIMIT := by omega
    simp [makeRFFT1dPolicy_COMPOSITE, hL', COMPLEX]

/-- Witness for C5: a direct plan of length 4 reserves `3 * 2 * 4 * 4 = 96`
bytes and a Cooley-Tukey plan with `L = 3` reserves `2 * 3 * 3 * 4 = 72` bytes,
each starting from a stale size. -/
theorem C5_reserved_size_witness :
    (makeRFFT1dPolicy (exampleEnv CNFFT_FUNC_MATMUL) exampleHandle
      { examplePlan 4 1 4 3 true true with reservespace_size := 999 }).2.reservespace_size = 96 ∧
    (makeRFFT1dPolicy (exampleEnv CNFFT_FUNC_COOLEY_TUKEY) exampleHandle
      { examplePlan 12 1 12 7 true true with reservespace_size := 999 }).2.reservespace_size
        = 72 :=
  ⟨(C5_reserved_size (exampleEnv CNFFT_FUNC_MATMUL) exampleHandle
      { examplePlan 4 1 4 3 true true with reservespace_size := 999 } (by decide)).1 rfl,
   (C5_reserved_size (exampleEnv CNFFT_FUNC_COOLEY_TUKEY) exampleHandle
      { examplePlan 12 1 12 7 true true with reservespace_size := 999 } (by decide)).2
      (Or.inl rfl)⟩

/-- C6: execRFFT1d (matmul-family and butterfly paths) and execRFFT2d run their
stages in order and stop at the first stage whose status is not success: the
executor then returns exactly what that stage returned (its status, and its
state, so that no later stage has issued a call); when every stage returns
success the executor returns success. -/
theorem C6_executor_stops_at_first_failing_stage (env : Env) (be : Backend) (plan : FFTPlan)
    (input : Addr) (scale_factor : CFloat) (workspace output : Addr) (trace : List Call) :
    let s1 : ExecState := ⟨configuredRFFT1d env plan input workspace output, trace⟩
    let stages1 := execRFFT1dStages be plan.prime input output scale_factor
    let s2 : ExecState := ⟨configureRFFT2dWorkspaceAddrs env plan input workspace output, trace⟩
    let stages2 := execRFFT2dStages env be s2.fft_plan input output scale_factor
    (∀ i (hi : i < stages1.length),
      (∀ j (hj : j < stages1.length), j < i →
        (stages1[j] (stateBefore stages1 s1 j)).1 = MLUOP_STATUS_SUCCESS) →
      (stages1[i] (stateBefore stages1 s1 i)).1 ≠ MLUOP_STATUS_SUCCESS →
      execRFFT1d env be plan input scale_factor workspace output trace =
        stages1[i] (stateBefore stages1 s1 i)) ∧
    ((∀ j (hj : j < stages1.length),
        (stages1[j] (stateBefore stages1 s1 j)).1 = MLUOP_STATUS_SUCCESS) →
      (execRFFT1d env be plan input scale_factor workspace output trace).1 =
        MLUOP_STATUS_SUCCESS) ∧
    (∀ i (hi : i < stages2.length),
      (∀ j (hj : j < stages2.length), j < i →
        (stages2[j] (stateBefore stages2 s2 j)).1 = MLUOP_STATUS_SUCCESS) →
      (stages2[i] (stateBefore stages2 s2 i)).1 ≠ MLUOP_STATUS_SUCCESS →
      execRFFT2d env be plan input scale_factor workspace output trace =
        stages2[i] (stateBefore stages2 s2 i)) ∧
    ((∀ j (hj : j < stages2.length),
        (stages2[j] (stateBefore stages2 s2 j)).1 = MLUOP_STATUS_SUCCESS) →
      (execRFFT2d env be plan input scale_factor workspace output trace).1 =
        MLUOP_STATUS_SUCCESS) := by
  intro s1 stages1 s2 stages2
  have e1 : execRFFT1d env be plan input scale_factor workspace output trace =
      runStages stages1 s1 := execRFFT1d_eq_runStages env be plan input scale_factor workspace output trace
  have e2 : execRFFT2d env be plan input scale_factor workspace output trace =
      runStages stages2 s2 := execRFFT2d_eq_runStages env be plan input scale_factor workspace output trace
  rw [e1, e2]
  refine ⟨fun i hi hprev hfail => runStages_fail stages1 s1 i hi hprev hfail,
    fun hall => ?_,
    fun i hi hprev hfail => runStages_fail stages2 s2 i hi hprev hfail,
    fun hall => ?_⟩
  · rw [runStages_ok stages1 s1 hall]
  · rw [runStages_ok stages2 s2 hall]

/-- Witness for C6: a direct-matmul plan that needs padding, on a backend whose
pad primitive fails.  The first stage succeeds, the pad stage returns
INTERNAL_ERROR, and execRFFT1d returns exactly what the pad stage returned,
eight calls into the pipeline. -/
theorem C6_executor_stops_at_first_failing_stage_witness :
    execRFFT1d (exampleEnv CNFFT_FUNC_MATMUL) padFailingBackend
        (examplePlan 4 1 3 3 true true) exampleInput CFloat.one exampleWorkspace exampleOutput []
      = padRFFT1dContiguousInput padFailingBackend
        ⟨configuredRFFT1d (exampleEnv CNFFT_FUNC_MATMUL) (examplePlan 4 1 3 3 true true)
          exampleInput exampleWorkspace exampleOutput, []⟩ ∧
    (padRFFT1dContiguousInput padFailingBackend
        ⟨configuredRFFT1d (exampleEnv CNFFT_FUNC_MATMUL) (examplePlan 4 1 3 3 true true)
          exampleInput exampleWorkspace exampleOutput, []⟩).1 = MLUOP_STATUS_INTERNAL_ERROR ∧
    (padRFFT1dContiguousInput padFailingBackend
        ⟨configuredRFFT1d (exampleEnv CNFFT_FUNC_MATMUL) (examplePlan 4 1 3 3 true true)
          exampleInput exampleWorkspace exampleOutput, []⟩).2.trace.length = 8 :=
  ⟨(C6_executor_stops_at_first_failing_stage (exampleEnv CNFFT_FUNC_MATMUL) padFailingBackend
      (examplePlan 4 1 3 3 true true) exampleInput CFloat.one exampleWorkspace exampleOutput
      []).1 1 (by decide) (by decide) (by decide),
    by decide, by decide⟩

/-- C7 (evaluation at the failing input): mergeRFFT1dOutput and execFFTr2c1d
return success whatever their kernel launch reports.  On a backend whose kernel
launches all report EXECUTION_FAILED, execRFFT1d still returns success on a
Cooley-Tukey plan, on a Stockham plan and on a butterfly plan, and the stages
after the launch run: the writeback copy is issued after the failed launch. -/
theorem C7_kernel_failure_not_propagated :
    (∀ (be : Backend) (scale_factor : CFloat) (s : ExecState),
      (mergeRFFT1dOutput be scale_factor s).1 = MLUOP_STATUS_SUCCESS ∧
      (execFFTr2c1d be scale_factor s).1 = MLUOP_STATUS_SUCCESS) ∧
    (∀ t c, c.isKernelLaunch = true →
      kernelFailingBackend.status t c = MLUOP_STATUS_EXECUTION_FAILED) ∧
    (let r := execRFFT1d (exampleEnv CNFFT_FUNC_COOLEY_TUKEY) kernelFailingBackend
        { examplePlan 12 2 12 14 true false with fft_strategy := CNFFT_FUNC_COOLEY_TUKEY }
        exampleInput CFloat.one exampleWorkspace exampleOutput [];
      r.1 = MLUOP_STATUS_SUCCESS ∧
        ((r.2.trace.dropWhile fun c => !c.isKernelLaunch).any Call.isOutputCopy) = true) ∧
    (let r := execRFFT1d (exampleEnv CNFFT_FUNC_STOCKHAM) kernelFailingBackend
        { examplePlan 12 2 12 14 true false with fft_strategy := CNFFT_FUNC_STOCKHAM }
        exampleInput CFloat.one exampleWorkspace exampleOutput [];
      r.1 = MLUOP_STATUS_SUCCESS ∧
        ((r.2.trace.dropWhile fun c => !c.isKernelLaunch).any Call.isOutputCopy) = true) ∧
    (let r := execRFFT1d (exampleEnv CNFFT_FUNC_MATMUL) kernelFailingBackend
        { examplePlan 12 2 12 14 true false with prime := false }
        exampleInput CFloat.one exampleWorkspace exampleOutput [];
      r.1 = MLUOP_STATUS_SUCCESS ∧
        ((r.2.trace.dropWhile fun c => !c.isKernelLaunch).any Call.isOutputCopy) = true) := by
  refine ⟨fun be scale_factor s => ⟨?_, rfl⟩, ?_, by decide, by decide, by decide⟩
  · unfold mergeRFFT1dOutput
    simp only []
    split_ifs <;> rfl
  · intro t c hc
    simp [kernelFailingBackend, hc]

/-- C9 (counterexample): with a contiguous input whose rows are embedded in 6
elements for a transform of length 4, execRFFT1d on the matmul-family path
(`prime`) issues no input copy, and on the butterfly path it issues one. -/
theorem C9_counterexample :
    (wideInputPlan.is_input_contiguous = true ∧ wideInputPlan.prime = true ∧
      wideInputPlan.inembed0 > wideInputPlan.n0) ∧
    ((execRFFT1d (exampleEnv CNFFT_FUNC_MATMUL) exampleBackend wideInputPlan exampleInput
        CFloat.one exampleWorkspace exampleOutput []).2.trace.any Call.isInputCopy) = false ∧
    ((execRFFT1d (exampleEnv CNFFT_FUNC_MATMUL) exampleBackend
        { wideInputPlan with prime := false } exampleInput CFloat.one
        exampleWorkspace exampleOutput []).2.trace.any Call.isInputCopy) = true := by
  decide

/-- C9 (amended): in execRFFT1d the input-normalising strided copy is issued
only if the input is non-contiguous, or the plan is on the butterfly path (not
`prime`) and `inembed[0] > n[0]`; it then copies from the caller's input into
the input role the allocator assigned; in a successful call it is issued
whenever that condition holds; and when the condition fails the input role is
the caller's input. -/
theorem C9_input_copy_condition (env : Env) (be : Backend) (plan : FFTPlan) (input : Addr)
    (scale_factor : CFloat) (workspace output : Addr) :
    let cfg := configuredRFFT1d env plan input workspace output
    let role := if plan.prime then cfg.matmul_addrs.input_contiguous_addr else cfg.mlu_addrs.input
    let r := execRFFT1d env be plan input scale_factor workspace output []
    (∀ c ∈ r.2.trace, c.isInputCopy = true →
      (plan.is_input_contiguous = false ∨ (plan.prime = false ∧ plan.inembed0 > plan.n0)) ∧
      ∃ desc, c = Call.mluOpContiguous desc input role) ∧
    (r.1 = MLUOP_STATUS_SUCCESS →
      (plan.is_input_contiguous = false ∨ (plan.prime = false ∧ plan.inembed0 > plan.n0)) →
      ∃ c ∈ r.2.trace, c.isInputCopy = true) ∧
    (¬ (plan.is_input_contiguous = false ∨ (plan.prime = false ∧ plan.inembed0 > plan.n0)) →
      role = input) := by
  intro cfg role r
  have hsim := execRFFT1d_sim env be plan input scale_factor workspace output []
  obtain ⟨_, heq, _, hpre⟩ := hsim
  obtain ⟨f1, f2, f3, f4⟩ := configuredRFFT1d_fields env plan input workspace output
  have hcond : inputCopyNeeded plan = true ↔
      (plan.is_input_contiguous = false ∨ (plan.prime = false ∧ plan.inembed0 > plan.n0)) := by
    unfold inputCopyNeeded
    cases plan.is_input_contiguous <;> cases plan.prime <;> simp
  refine ⟨fun c hc hcopy => ?_, fun hr hn => ?_, fun hn => ?_⟩
  · have hm := execRFFT1d_ok_copy_calls env be.heuristicWorkspaceSize plan input scale_factor
      workspace output c (hpre.subset hc) hcopy
    obtain ⟨hneed, e⟩ := makeRFFT1dContiguousInput_copy_calls _ input _ c hm hcopy
    rw [inputCopyNeeded_configured] at hneed
    rw [f1] at e
    exact ⟨hcond.mp hneed, _, e⟩
  · have e : r.2 = _ := heq hr
    rw [e]
    have hneed : inputCopyNeeded (configuredRFFT1d env plan input workspace output) = true := by
      rw [inputCopyNeeded_configured]; exact hcond.mpr hn
    exact ⟨_, execRFFT1d_ok_makeInput_subset env be.heuristicWorkspaceSize plan input
      scale_factor workspace output _
      (makeRFFT1dContiguousInput_copy_mem be.heuristicWorkspaceSize input _ hneed), rfl⟩
  · simp only [role, cfg, configuredRFFT1d]
    have hcn : plan.is_input_contiguous = true := by
      cases hc : plan.is_input_contiguous
      · exact absurd (Or.inl hc) hn
      · rfl
    cases hp : plan.prime
    · have hle : plan.inembed0 ≤ plan.n0 := by
        by_contra hlt
        exact hn (Or.inr ⟨hp, by omega⟩)
      simp [configureRFFT1dWorkspaceAddrs, hcn, hle]
    · simp [configureRFFT1dMatmulWorkspaceAddrs, configureRFFT1dMatmulWorkspaceAddrsAux, hcn]

/-- Witness for C9: with a strided input, a successful call of execRFFT1d on
the example backend issues the input copy. -/
theorem C9_input_copy_condition_witness :
    ∃ c ∈ (execRFFT1d (exampleEnv CNFFT_FUNC_MATMUL) exampleBackend
        (examplePlan 4 1 4 3 false true) exampleInput CFloat.one exampleWorkspace
        exampleOutput []).2.trace, c.isInputCopy = true :=
  (C9_input_copy_condition (exampleEnv CNFFT_FUNC_MATMUL) exampleBackend
    (examplePlan 4 1 4 3 false true) exampleInput CFloat.one exampleWorkspace
    exampleOutput).2.1 (by decide) (Or.inl rfl)

/-- C10 (counterexample): for a contiguous input whose rows are embedded in 6
elements for a transform of length 4, configureRFFT1dMatmulWorkspaceAddrs makes
input_contiguous_addr the caller's input pointer although `inembed[0] <= n[0]`
fails. -/
theorem C10_counterexample :
    (configureRFFT1dMatmulWorkspaceAddrs (exampleEnv CNFFT_FUNC_MATMUL) wideInputPlan
        exampleInput exampleWorkspace exampleOutput).matmul_addrs.input_contiguous_addr =
      exampleInput ∧
    ¬ (wideInputPlan.is_input_contiguous = true ∧ wideInputPlan.inembed0 ≤ wideInputPlan.n0) := by
  decide

/-- C10 (amended): when the caller's input does not lie in the workspace
buffer, configureRFFT1dMatmulWorkspaceAddrs makes input_contiguous_addr the
caller's input pointer exactly when the input is contiguous (whatever
`inembed[0]` is) and the start of the workspace otherwise;
configureRFFT1dWorkspaceAddrs makes mlu_addrs.input the caller's input pointer
exactly when the input is contiguous and `inembed[0] <= n[0]`, and the
workspace address after the two scratch buffers otherwise. -/
theorem C10_input_role_aliasing (env : Env) (plan : FFTPlan) (input workspace output : Addr)
    (hdistinct : input.base ≠ workspace.base) :
    let m := configureRFFT1dMatmulWorkspaceAddrs env plan input workspace output
    let b := configureRFFT1dWorkspaceAddrs env plan input workspace output
    let buffer_size := plan.batch * env.mluOpDataTypeBytes plan.output_dtype * plan.n0
    (m.matmul_addrs.input_contiguous_addr = input ↔ plan.is_input_contiguous = true) ∧
    (plan.is_input_contiguous = false →
      m.matmul_addrs.input_contiguous_addr = workspace.add 0) ∧
    (b.mlu_addrs.input = input ↔
      (plan.is_input_contiguous = true ∧ plan.inembed0 ≤ plan.n0)) ∧
    (¬ (plan.is_input_contiguous = true ∧ plan.inembed0 ≤ plan.n0) →
      b.mlu_addrs.input = workspace.add ((buffer_size * 2 : Nat) : Int)) := by
  intro m b buffer_size
  have hne : ∀ d : Int, workspace.add d ≠ input := by
    intro d h
    apply hdistinct
    rw [← h]
    rfl
  refine ⟨?_, ?_, ?_, ?_⟩
  · simp only [m, configureRFFT1dMatmulWorkspaceAddrs, configureRFFT1dMatmulWorkspaceAddrsAux]
    cases hc : plan.is_input_contiguous
    · simp only [Bool.not_false, ↓reduceIte, Bool.false_eq_true, iff_false]
      exact hne _
    · simp
  · intro hc
    simp [m, configureRFFT1dMatmulWorkspaceAddrs, configureRFFT1dMatmulWorkspaceAddrsAux, hc]
  · simp only [b, configureRFFT1dWorkspaceAddrs]
    by_cases hk : (plan.is_input_contiguous && decide (plan.inembed0 ≤ plan.n0)) = true
    · simp only [hk, ↓reduceIte, true_iff]
      simpa using hk
    · simp only [hk, Bool.false_eq_true, ↓reduceIte]
      constructor
      · intro h
        exact absurd h (hne _)
      · intro h
        exact absurd (by simpa using h) hk
  · intro hk
    have hk' : ¬ (plan.is_input_contiguous && decide (plan.inembed0 ≤ plan.n0)) = true := by
      simpa using hk
    simp only [b, configureRFFT1dWorkspaceAddrs, hk', Bool.false_eq_true, ↓reduceIte,
      buffer_size]
    simp

/-- Witness for C10: the example pointers are distinct buffers, and the
contiguous example plan aliases the caller's input on the matmul-family
path. -/
theorem C10_input_role_aliasing_witness :
    exampleInput.base ≠ exampleWorkspace.base ∧
    (configureRFFT1dMatmulWorkspaceAddrs (exampleEnv CNFFT_FUNC_MATMUL)
        (examplePlan 4 1 4 3 true true) exampleInput exampleWorkspace
        exampleOutput).matmul_addrs.input_contiguous_addr = exampleInput :=
  ⟨by decide,
    (C10_input_role_aliasing (exampleEnv CNFFT_FUNC_MATMUL) (examplePlan 4 1 4 3 true true)
      exampleInput exampleWorkspace exampleOutput (by decide)).1.mpr rfl⟩

/-! ## Lemmas: the calls of the transform stages -/

/-- The transpose stage issues one transpose under Cooley-Tukey and nothing otherwise. -/
theorem transposeRFFT1dPaddedInput_calls (h : TensorDesc → TensorDesc → TensorDesc → Nat)
    (p : FFTPlan) :
    callsOf (transposeRFFT1dPaddedInput (Backend.allSucceed h)) p =
      if p.fft_strategy = CNFFT_FUNC_COOLEY_TUKEY then
        [Call.fftTranspose 3 [p.batch, p.L, ((2 ^ p.m : Nat) : Int)]
          [p.batch, ((2 ^ p.m : Nat) : Int), p.L] [0, 2, 1]
          p.matmul_addrs.input_pad_addr p.matmul_addrs.input_transed_addr p.input_dtype
          p.matmul_addrs.internal_workspace_addr p.matmul_addrs.internal_workspace_size]
      else [] := by
  unfold callsOf transposeRFFT1dPaddedInput
  simp only [issue_allSucceed]
  split_ifs <;> simp

/-- The spectral stage issues one matmul under direct matmul, two under
Cooley-Tukey, one broadcast matmul under Stockham. -/
theorem computeRFFT1dMatmulResult_calls (h : TensorDesc → TensorDesc → TensorDesc → Nat)
    (scale_factor : CFloat) (p : FFTPlan) :
    callsOf (computeRFFT1dMatmulResult (Backend.allSucceed h) scale_factor) p =
      if p.fft_strategy = CNFFT_FUNC_MATMUL then
        [Call.fftMatMul p.batch p.n0 (FFT_HALF p.n0 * COMPLEX) p.matmul_addrs.input_pad_addr
          p.matmul_addrs.dft_matrix_addr p.matmul_addrs.output_contiguous_addr false true
          scale_factor CFloat.zero p.execution_dtype p.execution_dtype p.input_dtype
          p.matmul_addrs.internal_workspace_addr p.matmul_addrs.internal_workspace_size]
      else if p.fft_strategy = CNFFT_FUNC_COOLEY_TUKEY then
        [Call.fftMatMul (p.batch * 2 ^ p.m) p.L p.L p.matmul_addrs.input_transed_addr
          p.matmul_addrs.dft_re_matrix_addr p.matmul_addrs.matmul_re_mul_re_addr false true
          scale_factor CFloat.zero p.execution_dtype p.execution_dtype p.input_dtype
          p.matmul_addrs.internal_workspace_addr p.matmul_addrs.internal_workspace_size,
         Call.fftMatMul (p.batch * 2 ^ p.m) p.L p.L p.matmul_addrs.input_transed_addr
          p.matmul_addrs.dft_im_matrix_addr p.matmul_addrs.matmul_re_mul_im_addr false true
          scale_factor CFloat.zero p.execution_dtype p.execution_dtype p.input_dtype
          p.matmul_addrs.internal_workspace_addr p.matmul_addrs.internal_workspace_size]
      else if p.fft_strategy = CNFFT_FUNC_STOCKHAM then
        [Call.fftBatchMatMulBcast
          (if p.L ≤ p.L_sub then 2 * p.L else 2 * (PAD_UP (p.L / 2) p.L_sub + 1))
          p.L (2 ^ p.m) p.batch p.matmul_addrs.dft_re_matrix_addr p.matmul_addrs.input_pad_addr
          p.matmul_addrs.matmul_re_mul_re_addr false false scale_factor CFloat.zero
          p.execution_dtype p.execution_dtype p.input_dtype
          p.matmul_addrs.internal_workspace_addr p.matmul_addrs.internal_workspace_size]
      else [] := by
  unfold callsOf computeRFFT1dMatmulResult
  simp only [issue_allSucceed, CHECK_RETURN_success]
  split_ifs <;> simp

/-- The merge stage launches one kernel under each composite strategy. -/
theorem mergeRFFT1dOutput_calls (h : TensorDesc → TensorDesc → TensorDesc → Nat)
    (scale_factor : CFloat) (p : FFTPlan) :
    callsOf (mergeRFFT1dOutput (Backend.allSucceed h) scale_factor) p =
      if p.fft_strategy = CNFFT_FUNC_COOLEY_TUKEY then
        [Call.kernelFFTCooleyTukey p (-1) FFTType.RFFT]
      else if p.fft_strategy = CNFFT_FUNC_STOCKHAM then
        [Call.kernelFFTStockham p (-1) scale_factor FFTType.RFFT]
      else [] := by
  unfold callsOf mergeRFFT1dOutput
  simp only [CALL_UNCHECKED_allSucceed]
  split_ifs <;> simp

theorem makeRFFT1dContiguousInput_no_scratch (h : TensorDesc → TensorDesc → TensorDesc → Nat)
    (input : Addr) (p : FFTPlan) :
    (callsOf (makeRFFT1dContiguousInput (Backend.allSucceed h) input) p).all
      (fun c => !c.usesScratch) = true := by
  unfold callsOf makeRFFT1dContiguousInput
  simp only [issue_allSucceed, CHECK_RETURN_success, CALL_CNNL_allSucceed,
    CALL_UNCHECKED_allSucceed, allSucceed_heuristicWorkspaceSize]
  (try split_ifs) <;> rfl

theorem padRFFT1dContiguousInput_no_scratch (h : TensorDesc → TensorDesc → TensorDesc → Nat)
    (p : FFTPlan) :
    (callsOf (padRFFT1dContiguousInput (Backend.allSucceed h)) p).all
      (fun c => !c.usesScratch) = true := by
  unfold callsOf padRFFT1dContiguousInput
  simp only [issue_allSucceed, CHECK_RETURN_success, CALL_CNNL_allSucceed,
    CALL_UNCHECKED_allSucceed, allSucceed_heuristicWorkspaceSize]
  (try split_ifs) <;> rfl

theorem mergeRFFT1dOutput_no_scratch (h : TensorDesc → TensorDesc → TensorDesc → Nat)
    (scale_factor : CFloat) (p : FFTPlan) :
    (callsOf (mergeRFFT1dOutput (Backend.allSucceed h) scale_factor) p).all
      (fun c => !c.usesScratch) = true := by
  rw [mergeRFFT1dOutput_calls]
  split_ifs <;> rfl

theorem makeRFFT1dContiguousOutput_no_scratch (h : TensorDesc → TensorDesc → TensorDesc → Nat)
    (output : Addr) (p : FFTPlan) :
    (callsOf (makeRFFT1dContiguousOutput (Backend.allSucceed h) output) p).all
      (fun c => !c.usesScratch) = true := by
  unfold callsOf makeRFFT1dContiguousOutput
  simp only [issue_allSucceed, CHECK_RETURN_success, CALL_CNNL_allSucceed,
    CALL_UNCHECKED_allSucceed, allSucceed_heuristicWorkspaceSize]
  (try split_ifs) <;> rfl

/-- Every scratch-using call of the matmul-family path comes from the transpose
stage or the spectral stage. -/
theorem execRFFT1d_ok_scratch_calls (env : Env) (h : TensorDesc → TensorDesc → TensorDesc → Nat)
    (plan : FFTPlan) (input : Addr) (scale_factor : CFloat) (workspace output : Addr)
    (hp : plan.prime = true) (c : Call)
    (hc : c ∈ (execRFFT1d env (Backend.allSucceed h) plan input scale_factor workspace
      output []).2.trace)
    (hs : c.usesScratch = true) :
    c ∈ callsOf (transposeRFFT1dPaddedInput (Backend.allSucceed h))
        (configuredRFFT1d env plan input workspace output) ∨
    c ∈ callsOf (computeRFFT1dMatmulResult (Backend.allSucceed h) scale_factor)
        (configuredRFFT1d env plan input workspace output) := by
  rw [execRFFT1d_ok_prime env h plan input scale_factor workspace output hp] at hc
  simp only [List.mem_append] at hc
  rcases hc with hc | hc | hc | hc | hc | hc
  · exact (not_mem_of_all_not (makeRFFT1dContiguousInput_no_scratch h input _) hc hs).elim
  · exact (not_mem_of_all_not (padRFFT1dContiguousInput_no_scratch h _) hc hs).elim
  · exact Or.inl hc
  · exact Or.inr hc
  · exact (not_mem_of_all_not (mergeRFFT1dOutput_no_scratch h scale_factor _) hc hs).elim
  · exact (not_mem_of_all_not (makeRFFT1dContiguousOutput_no_scratch h output _) hc hs).elim

/-! ## Lemmas: sizing fields under the policy and the allocators -/

/-- The policy blocks write the two sizes and the internal scratch size only. -/
theorem matmul_frame (env : Env) (lim : Nat) (p : FFTPlan) :
    ∃ r w i, (makeRFFT1dPolicy_MATMUL env lim p).2 =
      { p with reservespace_size := r, workspace_size := w,
               matmul_addrs := { p.matmul_addrs with internal_workspace_size := i } } := by
  by_cases hn : p.n0 > lim
  · simp only [makeRFFT1dPolicy_MATMUL, hn, ↓reduceIte]
    exact ⟨p.reservespace_size, p.workspace_size, p.matmul_addrs.internal_workspace_size, rfl⟩
  · simp only [makeRFFT1dPolicy_MATMUL, hn, ↓reduceIte]
    exact ⟨_, _, _, rfl⟩

theorem composite_frame (env : Env) (p : FFTPlan) :
    ∃ r w i, (makeRFFT1dPolicy_COMPOSITE env p).2 =
      { p with reservespace_size := r, workspace_size := w,
               matmul_addrs := { p.matmul_addrs with internal_workspace_size := i } } := by
  by_cases hn : p.L > FFT_L_LIMIT
  · simp only [makeRFFT1dPolicy_COMPOSITE, hn, ↓reduceIte]
    exact ⟨p.reservespace_size, p.workspace_size, p.matmul_addrs.internal_workspace_size, rfl⟩
  · simp only [makeRFFT1dPolicy_COMPOSITE, hn, ↓reduceIte]
    exact ⟨_, _, _, rfl⟩

/-- The allocators of execRFFT1d leave the sizing fields alone. -/
theorem configuredRFFT1d_sizing (env : Env) (plan : FFTPlan) (input workspace output : Addr) :
    ∃ ma mu, configuredRFFT1d env plan input workspace output =
        { plan with matmul_addrs := ma, mlu_addrs := mu } ∧
      ma.internal_workspace_size = plan.matmul_addrs.internal_workspace_size ∧
      ma.dft_matrix_addr = plan.matmul_addrs.dft_matrix_addr ∧
      ma.dft_re_matrix_addr = plan.matmul_addrs.dft_re_matrix_addr ∧
      ma.dft_im_matrix_addr = plan.matmul_addrs.dft_im_matrix_addr := by
  cases hp : plan.prime
  · simp only [configuredRFFT1d, hp, Bool.false_eq_true, ↓reduceIte, configureRFFT1dWorkspaceAddrs]
    exact ⟨_, _, rfl, rfl, rfl, rfl, rfl⟩
  · simp only [configuredRFFT1d, hp, ↓reduceIte, configureRFFT1dMatmulWorkspaceAddrs,
      configureRFFT1dMatmulWorkspaceAddrsAux]
    exact ⟨_, _, rfl, rfl, rfl, rfl, rfl⟩

/-- The reserved size of a composite plan. -/
theorem composite_reserved_size (env : Env) (handle : Handle) (plan : FFTPlan)
    (hok : (makeRFFT1dPolicy env handle plan).1 = MLUOP_STATUS_SUCCESS)
    (hs : (makeRFFT1dPolicy env handle plan).2.fft_strategy = CNFFT_FUNC_COOLEY_TUKEY ∨
          (makeRFFT1dPolicy env handle plan).2.fft_strategy = CNFFT_FUNC_STOCKHAM) :
    (makeRFFT1dPolicy env handle plan).2.reservespace_size =
      2 * (makeRFFT1dPolicy env handle plan).2.L * (makeRFFT1dPolicy env handle plan).2.L *
        env.mluOpDataTypeBytes (makeRFFT1dPolicy env handle plan).2.input_dtype := by
  have hsel := policy_success_sel env handle plan hok
  rw [policy_strategy] at hs
  have heq := policy_eq_composite env handle plan hsel hs
  rw [heq] at hok ⊢
  obtain ⟨h1, h2⟩ := composite_fields env (selectRFFT1dStrategy env handle plan).2
  rw [h1, h2]
  have hL := composite_success_L env _ hok
  have hL' : ¬ (selectRFFT1dStrategy env handle plan).2.L > FFT_L_LIMIT := by omega
  simp [makeRFFT1dPolicy_COMPOSITE, hL', COMPLEX]

/-- The reserved-area addresses of a composite plan. -/
theorem configureRFFT1dMatmulReserveAddrs_composite (env : Env) (q : FFTPlan)
    (h : q.fft_strategy = CNFFT_FUNC_COOLEY_TUKEY ∨ q.fft_strategy = CNFFT_FUNC_STOCKHAM) :
    (configureRFFT1dMatmulReserveAddrs env q).matmul_addrs.dft_re_matrix_addr =
        q.reservespace_addr ∧
      (configureRFFT1dMatmulReserveAddrs env q).matmul_addrs.dft_im_matrix_addr =
        q.reservespace_addr.add ((q.L * q.L * env.mluOpDataTypeBytes q.input_dtype : Nat) : Int) ∧
      (configureRFFT1dMatmulReserveAddrsAux env q).2 =
        2 * (q.L * q.L * env.mluOpDataTypeBytes q.input_dtype) := by
  unfold configureRFFT1dMatmulReserveAddrs configureRFFT1dMatmulReserveAddrsAux
  rcases h with h | h <;> simp [h, COMPLEX]

/-- The two matrices of a composite plan tile the reserved buffer. -/
theorem reserved_regions_composite (env : Env) (q : FFTPlan)
    (h : q.fft_strategy = CNFFT_FUNC_COOLEY_TUKEY ∨ q.fft_strategy = CNFFT_FUNC_STOCKHAM)
    (hr : q.reservespace_size = 2 * q.L * q.L * env.mluOpDataTypeBytes q.input_dtype) :
    let built := configureRFFT1dMatmulReserveAddrs env q
    let size := q.L * q.L * env.mluOpDataTypeBytes q.input_dtype
    let re : Region := ⟨built.matmul_addrs.dft_re_matrix_addr, size⟩
    let im : Region := ⟨built.matmul_addrs.dft_im_matrix_addr, size⟩
    re.addr = q.reservespace_addr ∧
    im.addr = q.reservespace_addr.add size ∧
    re.disjoint im ∧
    re.within q.reservespace_addr q.reservespace_size ∧
    im.within q.reservespace_addr q.reservespace_size ∧
    re.size + im.size = q.reservespace_size ∧
    (configureRFFT1dMatmulReserveAddrsAux env q).2 = q.reservespace_size := by
  intro built size re im
  obtain ⟨hre, him, haux⟩ := configureRFFT1dMatmulReserveAddrs_composite env q h
  have hr2 : q.reservespace_size = size + size := by
    rw [hr]; simp only [size]; ring
  have haux2 : (configureRFFT1dMatmulReserveAddrsAux env q).2 = size + size := by
    rw [haux]; simp only [size]; ring
  simp only [re, im, built, hre, him, Region.disjoint, Region.within, Addr.add, hr2, haux2]
  refine ⟨trivial, trivial, ?_, ?_, ?_, trivial, trivial⟩
  · right; left; exact le_refl _
  · exact ⟨trivial, le_refl _, by omega⟩
  · exact ⟨trivial, by omega, by omega⟩

/-! ## Lemmas: monotonicity of the size policy -/

/-- Rounding up to a multiple is non-decreasing. -/
theorem PAD_UP_mono (x x' y : Nat) (h : x ≤ x') : PAD_UP x y ≤ PAD_UP x' y := by
  unfold PAD_UP
  apply Nat.mul_le_mul_right
  have hq : x / y ≤ x' / y := Nat.div_le_div_right h
  rcases Nat.eq_or_lt_of_le hq with e | l
  · have h1 := Nat.div_add_mod x y
    have h2 := Nat.div_add_mod x' y
    rw [e] at h1
    have hr : x % y ≤ x' % y := by omega
    rw [e]
    split_ifs <;> omega
  · split_ifs <;> omega

/-- Rounding a positive number up to a multiple of `y` gives at least `y`. -/
theorem le_PAD_UP (x y : Nat) (hx : 0 < x) : y ≤ PAD_UP x y := by
  unfold PAD_UP
  have h1 := Nat.div_add_mod x y
  by_cases hr : x % y > 0
  · simp only [hr, ↓reduceIte]
    calc y = 1 * y := (Nat.one_mul y).symm
      _ ≤ (x / y + 1) * y := Nat.mul_le_mul_right y (Nat.le_add_left 1 (x / y))
  · simp only [hr, ↓reduceIte, Nat.add_zero]
    have hr0 : x % y = 0 := by omega
    have hq : 0 < x / y := by
      apply Nat.pos_of_ne_zero
      intro h0
      rw [h0, hr0] at h1
      simp only [Nat.mul_zero, Nat.add_zero] at h1
      omega
    calc y = 1 * y := (Nat.one_mul y).symm
      _ ≤ (x / y) * y := Nat.mul_le_mul_right y hq

/-- The row count handed to the broadcast matmul query is non-decreasing in `L`. -/
theorem bcast_rows_mono (L L' S : Nat) (h : L ≤ L') :
    (if L ≤ S then 2 * L else 2 * (PAD_UP (L / 2) S + 1)) ≤
      (if L' ≤ S then 2 * L' else 2 * (PAD_UP (L' / 2) S + 1)) := by
  by_cases h1 : L ≤ S <;> by_cases h2 : L' ≤ S
  · simp only [h1, h2, ↓reduceIte]; omega
  · simp only [h1, h2, ↓reduceIte]
    rcases Nat.eq_zero_or_pos S with hS | hS
    · omega
    · have hx : 0 < L' / 2 := by
        have : 2 ≤ L' := by omega
        exact Nat.div_pos this (by omega)
      have := le_PAD_UP (L' / 2) S hx
      omega
  · omega
  · simp only [h1, h2, ↓reduceIte]
    have := PAD_UP_mono (L / 2) (L' / 2) S (Nat.div_le_div_right h)
    omega

/-- The workspace size of the direct-matmul block when the element counts
`batch * n` and `batch * FFT_HALF(n)` stay below 2^31 and the exact byte count
stays below 2^64: the exact byte count. -/
theorem matmul_workspace_exact (env : Env) (lim : Nat) (p : FFTPlan)
    (hs : p.fft_strategy = CNFFT_FUNC_MATMUL) (hn : p.n0 ≤ lim)
    (hint : p.batch * p.n0 < 2 ^ 31) (hhalf : p.batch * FFT_HALF p.n0 < 2 ^ 31)
    (hfit : stagingBytesExact env p +
      (makeRFFT1dPolicy_MATMUL env lim p).2.matmul_addrs.internal_workspace_size < 2 ^ 64) :
    (makeRFFT1dPolicy_MATMUL env lim p).2.workspace_size =
      stagingBytesExact env p +
        (makeRFFT1dPolicy_MATMUL env lim p).2.matmul_addrs.internal_workspace_size := by
  have hn' : ¬ p.n0 > lim := by omega
  have hc1 := sizeOfInt_int32 _ hint
  have hc2 := sizeOfInt_int32 _ hhalf
  simp only [makeRFFT1dPolicy_MATMUL, hn', ↓reduceIte, stagingBytesExact, hs, hc1, hc2,
    Nat.zero_max] at hfit ⊢
  generalize (env.fftGetMatMulWorkspaceSize p.batch p.n0 (FFT_HALF p.n0 * COMPLEX) false true
    p.execution_dtype p.execution_dtype p.input_dtype).2 = Q at hfit ⊢
  generalize env.mluOpDataTypeBytes p.input_dtype * (p.batch * p.n0) = P at hfit ⊢
  generalize env.mluOpDataTypeBytes p.input_dtype * p.inum = I at hfit ⊢
  generalize env.mluOpDataTypeBytes p.output_dtype * (p.batch * FFT_HALF p.n0) = O at hfit ⊢
  revert hfit
  cases p.is_input_contiguous <;> cases p.is_output_contiguous <;>
    cases (p.inembed0 != p.n0) <;> intro hfit <;>
    simp only [Bool.not_true, Bool.not_false, ↓reduceIte, Bool.false_eq_true, Nat.zero_add,
      Nat.add_zero] at hfit ⊢ <;>
    simp (disch := omega) only [size_t_of_lt] <;>
    omega

/-- The direct-matmul block leaves the counts of the plan as they are. -/
theorem matmul_counts (env : Env) (lim : Nat) (p : FFTPlan) :
    (makeRFFT1dPolicy_MATMUL env lim p).2.batch = p.batch ∧
    (makeRFFT1dPolicy_MATMUL env lim p).2.n0 = p.n0 ∧
    stagingBytesExact env (makeRFFT1dPolicy_MATMUL env lim p).2 = stagingBytesExact env p := by
  unfold makeRFFT1dPolicy_MATMUL
  simp only []
  split_ifs <;> exact ⟨rfl, rfl, rfl⟩

/-- The sizes of the direct-matmul block grow with the length and the batch,
the workspace size as long as the element counts of the larger plan stay below
2^31 and its exact byte count below 2^64. -/
theorem matmul_sizes_mono (env : Env) (lim : Nat) (p : FFTPlan)
    (n' batch' L' m' inum' onum' : Nat) (hmono : env.monotoneQueries)
    (hs : p.fft_strategy = CNFFT_FUNC_MATMUL)
    (hn : p.n0 ≤ n') (hb : p.batch ≤ batch') (hi : p.inum ≤ inum')
    (hlim : n' ≤ lim) :
    (makeRFFT1dPolicy_MATMUL env lim p).2.reservespace_size ≤
      (makeRFFT1dPolicy_MATMUL env lim
        { p with n0 := n', batch := batch', L := L', m := m', inum := inum',
                 onum := onum' }).2.reservespace_size ∧
    ((p.inembed0 = n' → p.inembed0 = p.n0) →
      batch' * n' < 2 ^ 31 → batch' * FFT_HALF n' < 2 ^ 31 →
      stagingBytesExact env
          { p with n0 := n', batch := batch', L := L', m := m', inum := inum',
                   onum := onum' } +
        (makeRFFT1dPolicy_MATMUL env lim
          { p with n0 := n', batch := batch', L := L', m := m', inum := inum',
                   onum := onum' }).2.matmul_addrs.internal_workspace_size < 2 ^ 64 →
      (makeRFFT1dPolicy_MATMUL env lim p).2.workspace_size ≤
        (makeRFFT1dPolicy_MATMUL env lim
          { p with n0 := n', batch := batch', L := L', m := m', inum := inum',
                   onum := onum' }).2.workspace_size) := by
  have h1 : ¬ p.n0 > lim := by omega
  have h2 : ¬ n' > lim := by omega
  have hh : FFT_HALF p.n0 ≤ FFT_HALF n' := by
    unfold FFT_HALF
    have := Nat.div_le_div_right (c := 2) hn
    omega
  have hbn : p.batch * p.n0 ≤ batch' * n' := Nat.mul_le_mul hb hn
  have hbh : p.batch * FFT_HALF p.n0 ≤ batch' * FFT_HALF n' := Nat.mul_le_mul hb hh
  have hA : env.mluOpDataTypeBytes p.input_dtype * p.inum ≤
      env.mluOpDataTypeBytes p.input_dtype * inum' := Nat.mul_le_mul_left _ hi
  have hP : env.mluOpDataTypeBytes p.input_dtype * (p.batch * p.n0) ≤
      env.mluOpDataTypeBytes p.input_dtype * (batch' * n') := Nat.mul_le_mul_left _ hbn
  have hO : env.mluOpDataTypeBytes p.output_dtype * (p.batch * FFT_HALF p.n0) ≤
      env.mluOpDataTypeBytes p.output_dtype * (batch' * FFT_HALF n') :=
    Nat.mul_le_mul_left _ hbh
  have hQ := hmono.1 p.batch p.n0 (FFT_HALF p.n0 * COMPLEX) batch' n' (FFT_HALF n' * COMPLEX)
    false true p.execution_dtype p.execution_dtype p.input_dtype hb hn
    (Nat.mul_le_mul_right _ hh)
  have hR : FFT_HALF p.n0 * COMPLEX * p.n0 * env.mluOpDataTypeBytes p.input_dtype ≤
      FFT_HALF n' * COMPLEX * n' * env.mluOpDataTypeBytes p.input_dtype :=
    Nat.mul_le_mul_right _ (Nat.mul_le_mul (Nat.mul_le_mul_right _ hh) hn)
  refine ⟨by simp only [makeRFFT1dPolicy_MATMUL, h1, h2, ↓reduceIte]; omega,
    fun hflip hint hhalf hfit => ?_⟩
  have hle : stagingBytesExact env p +
        (makeRFFT1dPolicy_MATMUL env lim p).2.matmul_addrs.internal_workspace_size ≤
      stagingBytesExact env
          { p with n0 := n', batch := batch', L := L', m := m', inum := inum',
                   onum := onum' } +
        (makeRFFT1dPolicy_MATMUL env lim
          { p with n0 := n', batch := batch', L := L', m := m', inum := inum',
                   onum := onum' }).2.matmul_addrs.internal_workspace_size := by
    simp only [makeRFFT1dPolicy_MATMUL, h1, h2, ↓reduceIte, stagingBytesExact, hs, Nat.zero_max]
    generalize env.mluOpDataTypeBytes p.input_dtype * p.inum = A at hA ⊢
    generalize env.mluOpDataTypeBytes p.input_dtype * inum' = A' at hA ⊢
    generalize env.mluOpDataTypeBytes p.input_dtype * (p.batch * p.n0) = P at hP ⊢
    generalize env.mluOpDataTypeBytes p.input_dtype * (batch' * n') = P' at hP ⊢
    generalize env.mluOpDataTypeBytes p.output_dtype * (p.batch * FFT_HALF p.n0) = O at hO ⊢
    generalize env.mluOpDataTypeBytes p.output_dtype * (batch' * FFT_HALF n') = O' at hO ⊢
    generalize (env.fftGetMatMulWorkspaceSize p.batch p.n0 (FFT_HALF p.n0 * COMPLEX) false true
      p.execution_dtype p.execution_dtype p.input_dtype).2 = Q at hQ ⊢
    generalize (env.fftGetMatMulWorkspaceSize batch' n' (FFT_HALF n' * COMPLEX) false true
      p.execution_dtype p.execution_dtype p.input_dtype).2 = Q' at hQ ⊢
    by_cases hpad' : p.inembed0 = n'
    · have hpad := hflip hpad'
      have e1 : (p.inembed0 != p.n0) = false := by simp [hpad]
      have e2 : (p.inembed0 != n') = false := by simp [hpad']
      simp only [e1, e2, Bool.false_eq_true, ↓reduceIte]
      split_ifs <;> omega
    · have e2 : (p.inembed0 != n') = true := by simp [hpad']
      simp only [e2, ↓reduceIte]
      split_ifs <;> omega
  rw [matmul_workspace_exact env lim p hs (by omega) (by omega) (by omega) (by omega),
    matmul_workspace_exact env lim
      { p with n0 := n', batch := batch', L := L', m := m', inum := inum', onum := onum' }
      hs hlim hint hhalf hfit]
  exact hle

/-- The sizes of the composite block grow with `L`, `m`, the length and the
batch, the workspace size as long as the element count of the larger plan
stays below 2^31 and its exact byte count below 2^64. -/
theorem composite_sizes_mono (env : Env) (p : FFTPlan)
    (n' batch' L' m' inum' onum' : Nat) (hmono : env.monotoneQueries)
    (hs : p.fft_strategy = CNFFT_FUNC_COOLEY_TUKEY ∨ p.fft_strategy = CNFFT_FUNC_STOCKHAM)
    (hn : p.n0 ≤ n') (hb : p.batch ≤ batch') (hL : p.L ≤ L') (hm : p.m ≤ m')
    (hi : p.inum ≤ inum') (ho : p.onum ≤ onum')
    (hlim : L' ≤ FFT_L_LIMIT) :
    (makeRFFT1dPolicy_COMPOSITE env p).2.reservespace_size ≤
      (makeRFFT1dPolicy_COMPOSITE env
        { p with n0 := n', batch := batch', L := L', m := m', inum := inum',
                 onum := onum' }).2.reservespace_size ∧
    ((p.inembed0 = n' → p.inembed0 = p.n0) →
      batch' * n' < 2 ^ 31 →
      stagingBytesExact env
          { p with n0 := n', batch := batch', L := L', m := m', inum := inum',
                   onum := onum' } +
        (makeRFFT1dPolicy_COMPOSITE env
          { p with n0 := n', batch := batch', L := L', m := m', inum := inum',
                   onum := onum' }).2.matmul_addrs.internal_workspace_size < 2 ^ 64 →
      (makeRFFT1dPolicy_COMPOSITE env p).2.workspace_size ≤
        (makeRFFT1dPolicy_COMPOSITE env
          { p with n0 := n', batch := batch', L := L', m := m', inum := inum',
                   onum := onum' }).2.workspace_size) := by
  have h1 : ¬ p.L > FFT_L_LIMIT := by omega
  have h2 : ¬ L' > FFT_L_LIMIT := by omega
  have hne : p.fft_strategy ≠ CNFFT_FUNC_MATMUL := by
    rcases hs with h | h <;> simp [h]
  have hpow : 2 ^ p.m ≤ 2 ^ m' := Nat.pow_le_pow_right (by omega) hm
  have hbn : p.batch * p.n0 ≤ batch' * n' := Nat.mul_le_mul hb hn
  have hA : env.mluOpDataTypeBytes p.input_dtype * p.inum ≤
      env.mluOpDataTypeBytes p.input_dtype * inum' := Nat.mul_le_mul_left _ hi
  have hP : env.mluOpDataTypeBytes p.input_dtype * (p.batch * p.n0) ≤
      env.mluOpDataTypeBytes p.input_dtype * (batch' * n') := Nat.mul_le_mul_left _ hbn
  have hO : env.mluOpDataTypeBytes p.output_dtype * p.onum ≤
      env.mluOpDataTypeBytes p.output_dtype * onum' := Nat.mul_le_mul_left _ ho
  have hT := hmono.2.1 3 p.batch p.L (2 ^ p.m) batch' L' (2 ^ m') [0, 2, 1] p.input_dtype
    hb hL hpow
  have hM := hmono.1 (p.batch * 2 ^ p.m) p.L p.L (batch' * 2 ^ m') L' L' false true
    p.execution_dtype p.execution_dtype p.input_dtype (Nat.mul_le_mul hb hpow) hL hL
  have hR : COMPLEX * p.L * p.L * env.mluOpDataTypeBytes p.input_dtype ≤
      COMPLEX * L' * L' * env.mluOpDataTypeBytes p.input_dtype :=
    Nat.mul_le_mul_right _ (Nat.mul_le_mul (Nat.mul_le_mul_left _ hL) hL)
  refine ⟨by simp only [makeRFFT1dPolicy_COMPOSITE, h1, h2, ↓reduceIte]; omega,
    fun hflip hint hfit => ?_⟩
  have hle : stagingBytesExact env p +
        (makeRFFT1dPolicy_COMPOSITE env p).2.matmul_addrs.internal_workspace_size ≤
      stagingBytesExact env
          { p with n0 := n', batch := batch', L := L', m := m', inum := inum',
                   onum := onum' } +
        (makeRFFT1dPolicy_COMPOSITE env
          { p with n0 := n', batch := batch', L := L', m := m', inum := inum',
                   onum := onum' }).2.matmul_addrs.internal_workspace_size := by
    have hc := sizeOfInt_int32 _ hint
    have hc0 := sizeOfInt_int32 _ (lt_of_le_of_lt hbn hint)
    simp only [makeRFFT1dPolicy_COMPOSITE, h1, h2, ↓reduceIte, stagingBytesExact, hne, hc, hc0,
      COMPLEX] at hfit ⊢
    have hI : (if p.fft_strategy = CNFFT_FUNC_COOLEY_TUKEY then
          ((env.fftGetMatMulWorkspaceSize (p.batch * 2 ^ p.m) p.L p.L false true
              p.execution_dtype p.execution_dtype p.input_dtype).1,
            max (max 0 (env.fftGetTransposeWorkspaceSize 3 [p.batch, p.L, 2 ^ p.m] [0, 2, 1]
                p.input_dtype).2)
              (env.fftGetMatMulWorkspaceSize (p.batch * 2 ^ p.m) p.L p.L false true
                p.execution_dtype p.execution_dtype p.input_dtype).2)
        else
          env.fftGetBatchMatMulBcastWorkspaceSize
            (if p.L ≤ p.L_sub then 2 * p.L else 2 * (PAD_UP (p.L / 2) p.L_sub + 1))
            p.L (2 ^ p.m) p.batch p.matmul_addrs.dft_re_matrix_addr
            p.matmul_addrs.input_pad_addr p.matmul_addrs.matmul_re_mul_re_addr
            false false p.execution_dtype p.execution_dtype p.input_dtype
            p.matmul_addrs.internal_workspace_addr
            (max 0 (env.fftGetTransposeWorkspaceSize 3 [p.batch, p.L, 2 ^ p.m] [0, 2, 1]
              p.input_dtype).2)).2 ≤
        (if p.fft_strategy = CNFFT_FUNC_COOLEY_TUKEY then
          ((env.fftGetMatMulWorkspaceSize (batch' * 2 ^ m') L' L' false true p.execution_dtype
              p.execution_dtype p.input_dtype).1,
            max (max 0 (env.fftGetTransposeWorkspaceSize 3 [batch', L', 2 ^ m'] [0, 2, 1]
                p.input_dtype).2)
              (env.fftGetMatMulWorkspaceSize (batch' * 2 ^ m') L' L' false true
                p.execution_dtype p.execution_dtype p.input_dtype).2)
        else
          env.fftGetBatchMatMulBcastWorkspaceSize
            (if L' ≤ p.L_sub then 2 * L' else 2 * (PAD_UP (L' / 2) p.L_sub + 1))
            L' (2 ^ m') batch' p.matmul_addrs.dft_re_matrix_addr
            p.matmul_addrs.input_pad_addr p.matmul_addrs.matmul_re_mul_re_addr
            false false p.execution_dtype p.execution_dtype p.input_dtype
            p.matmul_addrs.internal_workspace_addr
            (max 0 (env.fftGetTransposeWorkspaceSize 3 [batch', L', 2 ^ m'] [0, 2, 1]
              p.input_dtype).2)).2 := by
      by_cases hs : p.fft_strategy = CNFFT_FUNC_COOLEY_TUKEY
      · rw [if_pos hs, if_pos hs]
        simp only []
        omega
      · rw [if_neg hs, if_neg hs]
        exact hmono.2.2 _ _ _ _ _ _ _ _ _ _ _ _ _ _ _ _ _ _ _
          (bcast_rows_mono p.L L' p.L_sub hL) hL hpow hb (by omega)
    generalize (if p.fft_strategy = CNFFT_FUNC_COOLEY_TUKEY then
        ((env.fftGetMatMulWorkspaceSize (p.batch * 2 ^ p.m) p.L p.L false true
            p.execution_dtype p.execution_dtype p.input_dtype).1, _) else _ :
          mluOpStatus_t × Nat).2 = Q at hI ⊢
    generalize (if p.fft_strategy = CNFFT_FUNC_COOLEY_TUKEY then _ else _ :
      mluOpStatus_t × Nat).2 = Q' at hI hfit ⊢
    have e2 : ∀ N, 2 * env.mluOpDataTypeBytes p.input_dtype * N =
        2 * (env.mluOpDataTypeBytes p.input_dtype * N) := fun N => by ring
    simp only [e2] at hfit ⊢
    have hd' := doubledBytes_of_lt (env.mluOpDataTypeBytes p.input_dtype) (batch' * n')
      (by revert hfit; split_ifs <;> intro hfit <;> omega)
    have hd := doubledBytes_of_lt (env.mluOpDataTypeBytes p.input_dtype) (p.batch * p.n0)
      (by omega)
    simp only [hd, hd']
    generalize env.mluOpDataTypeBytes p.input_dtype * p.inum = A at hA ⊢
    generalize env.mluOpDataTypeBytes p.input_dtype * inum' = A' at hA ⊢
    generalize env.mluOpDataTypeBytes p.input_dtype * (p.batch * p.n0) = P at hP ⊢
    generalize env.mluOpDataTypeBytes p.input_dtype * (batch' * n') = P' at hP ⊢
    generalize env.mluOpDataTypeBytes p.output_dtype * p.onum = O at hO ⊢
    generalize env.mluOpDataTypeBytes p.output_dtype * onum' = O' at hO ⊢
    by_cases hpad' : p.inembed0 = n'
    · have hpad := hflip hpad'
      have e1 : (p.inembed0 != p.n0) = false := by simp [hpad]
      have e3 : (p.inembed0 != n') = false := by simp [hpad']
      simp only [e1, e3, Bool.false_eq_true, ↓reduceIte]
      split_ifs <;> omega
    · have e3 : (p.inembed0 != n') = true := by simp [hpad']
      simp only [e3, ↓reduceIte]
      split_ifs <;> omega
  rw [composite_workspace_exact env p hs (by omega) (by omega) (by omega),
    composite_workspace_exact env
      { p with n0 := n', batch := batch', L := L', m := m', inum := inum', onum := onum' }
      hs hlim hint hfit]
  exact hle

/-- A successful direct-matmul block passed its length check. -/
theorem matmul_success_n (env : Env) (lim : Nat) (p : FFTPlan)
    (hok : (makeRFFT1dPolicy_MATMUL env lim p).1 = MLUOP_STATUS_SUCCESS) : p.n0 ≤ lim := by
  by_contra h
  have h' : p.n0 > lim := by omega
  simp [makeRFFT1dPolicy_MATMUL, h'] at hok

/-! ## Lemmas: the transpose in the matmul-family path -/

/-- A list none of whose members passes a test has no member passing a stronger test. -/
theorem filter_nil_of_all_not {l : List Call} {P Q : Call → Bool}
    (h : l.all (fun c => !P c) = true) (hPQ : ∀ c, Q c = true → P c = true) :
    l.filter Q = [] := by
  rw [List.filter_eq_nil_iff]
  intro c hc hq
  exact not_mem_of_all_not h hc (hPQ c hq)

theorem isTranspose_usesScratch (c : Call) (h : c.isTranspose = true) : c.usesScratch = true := by
  cases c <;> simp_all [Call.isTranspose, Call.usesScratch]

/-- The spectral stage issues no transpose. -/
theorem computeRFFT1dMatmulResult_no_transpose (h : TensorDesc → TensorDesc → TensorDesc → Nat)
    (scale_factor : CFloat) (p : FFTPlan) :
    (callsOf (computeRFFT1dMatmulResult (Backend.allSucceed h) scale_factor) p).filter
      Call.isTranspose = [] := by
  rw [computeRFFT1dMatmulResult_calls]
  split_ifs <;> rfl

/-- The transposes of the all-succeeding run of the matmul-family path are those
of the transpose stage. -/
theorem execRFFT1d_ok_transposes (env : Env) (h : TensorDesc → TensorDesc → TensorDesc → Nat)
    (plan : FFTPlan) (input : Addr) (scale_factor : CFloat) (workspace output : Addr)
    (hp : plan.prime = true) :
    (execRFFT1d env (Backend.allSucceed h) plan input scale_factor workspace
        output []).2.trace.filter Call.isTranspose =
      callsOf (transposeRFFT1dPaddedInput (Backend.allSucceed h))
        (configuredRFFT1d env plan input workspace output) := by
  rw [execRFFT1d_ok_prime env h plan input scale_factor workspace output hp]
  simp only [List.filter_append,
    filter_nil_of_all_not (makeRFFT1dContiguousInput_no_scratch h input _) isTranspose_usesScratch,
    filter_nil_of_all_not (padRFFT1dContiguousInput_no_scratch h _) isTranspose_usesScratch,
    filter_nil_of_all_not (mergeRFFT1dOutput_no_scratch h scale_factor _) isTranspose_usesScratch,
    filter_nil_of_all_not (makeRFFT1dContiguousOutput_no_scratch h output _)
      isTranspose_usesScratch,
    computeRFFT1dMatmulResult_no_transpose, List.nil_append, List.append_nil]
  rw [transposeRFFT1dPaddedInput_calls]
  split_ifs <;> rfl

/-! ## Lemmas: data flow of the matmul-family path -/

theorem makeRFFT1dContiguousInput_moves (h : TensorDesc → TensorDesc → TensorDesc → Nat)
    (input : Addr) (p : FFTPlan) :
    (callsOf (makeRFFT1dContiguousInput (Backend.allSucceed h) input) p).filterMap Call.moves =
      if inputCopyNeeded p = true then
        [(input, if p.prime then p.matmul_addrs.input_contiguous_addr else p.mlu_addrs.input)]
      else [] := by
  unfold callsOf makeRFFT1dContiguousInput inputCopyNeeded
  simp only [issue_allSucceed, CHECK_RETURN_success]
  split_ifs <;> simp [List.filterMap, Call.moves]

theorem padRFFT1dContiguousInput_moves (h : TensorDesc → TensorDesc → TensorDesc → Nat)
    (p : FFTPlan) :
    (callsOf (padRFFT1dContiguousInput (Backend.allSucceed h)) p).filterMap Call.moves =
      if (p.inembed0 != p.n0) = true then
        [(if p.prime then p.matmul_addrs.input_contiguous_addr else p.mlu_addrs.input,
          if p.prime then p.matmul_addrs.input_pad_addr else p.mlu_addrs.input_pad_addr)]
      else [] := by
  unfold callsOf padRFFT1dContiguousInput
  simp only [issue_allSucceed, CHECK_RETURN_success, CALL_CNNL_allSucceed]
  split_ifs <;> simp [List.filterMap, Call.moves]

theorem transposeRFFT1dPaddedInput_moves (h : TensorDesc → TensorDesc → TensorDesc → Nat)
    (p : FFTPlan) :
    (callsOf (transposeRFFT1dPaddedInput (Backend.allSucceed h)) p).filterMap Call.moves =
      if p.fft_strategy = CNFFT_FUNC_COOLEY_TUKEY then
        [(p.matmul_addrs.input_pad_addr, p.matmul_addrs.input_transed_addr)]
      else [] := by
  rw [transposeRFFT1dPaddedInput_calls]
  split_ifs <;> rfl

theorem computeRFFT1dMatmulResult_moves (h : TensorDesc → TensorDesc → TensorDesc → Nat)
    (scale_factor : CFloat) (p : FFTPlan) :
    (callsOf (computeRFFT1dMatmulResult (Backend.allSucceed h) scale_factor) p).filterMap
      Call.moves = [] := by
  rw [computeRFFT1dMatmulResult_calls]
  split_ifs <;> rfl

theorem mergeRFFT1dOutput_moves (h : TensorDesc → TensorDesc → TensorDesc → Nat)
    (scale_factor : CFloat) (p : FFTPlan) :
    (callsOf (mergeRFFT1dOutput (Backend.allSucceed h) scale_factor) p).filterMap
      Call.moves = [] := by
  rw [mergeRFFT1dOutput_calls]
  split_ifs <;> rfl

theorem makeRFFT1dContiguousOutput_moves (h : TensorDesc → TensorDesc → TensorDesc → Nat)
    (output : Addr) (p : FFTPlan) :
    (callsOf (makeRFFT1dContiguousOutput (Backend.allSucceed h) output) p).filterMap
      Call.moves = [] := by
  unfold callsOf makeRFFT1dContiguousOutput
  simp only [issue_allSucceed, CHECK_RETURN_success, CALL_CNNL_allSucceed]
  split_ifs <;> simp [List.filterMap, Call.moves]

/-- The writeback stage issues one copy from the output role for a strided
output and nothing otherwise; the copy is followed by releases only. -/
theorem makeRFFT1dContiguousOutput_calls (h : TensorDesc → TensorDesc → TensorDesc → Nat)
    (output : Addr) (p : FFTPlan) :
    callsOf (makeRFFT1dContiguousOutput (Backend.allSucceed h) output) p =
      if p.is_output_contiguous = true then []
      else
        [Call.mluOpCreateTensorDescriptor, Call.mluOpCreateTensorDescriptor,
          Call.mluOpSetTensorDescriptor_v2 p.output_dtype
            [p.batch, if p.prime then (p.onembed0 : Int) else ((p.n0 / 2 + 1 : Nat) : Int)],
          Call.mluOpSetTensorDescriptorEx_v2 p.output_dtype
            [p.batch, if p.prime then (p.onembed0 : Int) else ((p.n0 / 2 + 1 : Nat) : Int)]
            [p.odist, p.ostride],
          Call.DEFINE_CREATE_AND_SET_CNNL_HANDLE,
          Call.DEFINE_CREATE_AND_SET_CNNL_TENSOR_DESCRIPTOR
            ⟨p.output_dtype,
              [p.batch, if p.prime then (p.onembed0 : Int) else ((p.n0 / 2 + 1 : Nat) : Int)],
              none, none⟩,
          Call.DEFINE_CREATE_AND_SET_CNNL_TENSOR_DESCRIPTOR
            ⟨p.output_dtype,
              [p.batch, if p.prime then (p.onembed0 : Int) else ((p.n0 / 2 + 1 : Nat) : Int)],
              some [p.odist, p.ostride], none⟩,
          Call.cnnlCopy_v2
            ⟨p.output_dtype,
              [p.batch, if p.prime then (p.onembed0 : Int) else ((p.n0 / 2 + 1 : Nat) : Int)],
              none, none⟩
            (if p.prime then p.matmul_addrs.output_contiguous_addr else p.mlu_addrs.output)
            ⟨p.output_dtype,
              [p.batch, if p.prime then (p.onembed0 : Int) else ((p.n0 / 2 + 1 : Nat) : Int)],
              some [p.odist, p.ostride], none⟩
            output,
          Call.mluOpDestroyTensorDescriptor, Call.mluOpDestroyTensorDescriptor,
          Call.DESTROY_CNNL_TENSOR_DESCRIPTOR, Call.DESTROY_CNNL_TENSOR_DESCRIPTOR,
          Call.DESTROY_CNNL_HANDLE] := by
  unfold callsOf makeRFFT1dContiguousOutput
  simp only [issue_allSucceed, CHECK_RETURN_success, CALL_CNNL_allSucceed]
  split_ifs <;> simp_all

/-! ## Lemmas: the kinds of calls each stage issues -/

theorem isInputCopy_iff_kind (c : Call) : c.isInputCopy = true ↔ c.kind = CallKind.inputCopy := by
  cases c <;> simp [Call.isInputCopy, Call.kind]

theorem isPad_iff_kind (c : Call) : c.isPad = true ↔ c.kind = CallKind.pad := by
  cases c <;> simp [Call.isPad, Call.kind]

theorem isOutputCopy_iff_kind (c : Call) :
    c.isOutputCopy = true ↔ c.kind = CallKind.outputCopy := by
  cases c <;> simp [Call.isOutputCopy, Call.kind]

theorem isKernelLaunch_iff_kind (c : Call) :
    c.isKernelLaunch = true ↔ c.kind = CallKind.kernel := by
  cases c <;> simp [Call.isKernelLaunch, Call.kind]

theorem isTranspose_iff_kind (c : Call) : c.isTranspose = true ↔ c.kind = CallKind.transpose := by
  cases c <;> simp [Call.isTranspose, Call.kind]

theorem isScale_iff_kind (c : Call) : c.isScale = true ↔ c.kind = CallKind.scale := by
  cases c <;> simp [Call.isScale, Call.kind]

theorem isMatmul_iff_kind (c : Call) : c.isMatmul = true ↔ c.kind = CallKind.matmul := by
  cases c <;> simp [Call.isMatmul, Call.kind]

theorem isRelease_kind (c : Call) (h : c.isRelease = true) : c.kind = CallKind.housekeeping := by
  cases c <;> simp_all [Call.isRelease, Call.kind]

theorem spectralOperand_kind (c : Call) (x : Addr) (h : c.spectralOperand = some x) :
    c.kind = CallKind.matmul := by
  cases c <;> simp_all [Call.spectralOperand, Call.kind]

theorem spectralResult_kind (c : Call) (x : Addr) (h : c.spectralResult = some x) :
    c.kind = CallKind.matmul := by
  cases c <;> simp_all [Call.spectralResult, Call.kind]

theorem mergePlan_kind (c : Call) (q : FFTPlan) (h : c.mergePlan = some q) :
    c.kind = CallKind.kernel := by
  cases c <;> simp_all [Call.mergePlan, Call.kind]

theorem moves_kind (c : Call) (x : Addr × Addr) (h : c.moves = some x) :
    c.kind = CallKind.inputCopy ∨ c.kind = CallKind.pad ∨ c.kind = CallKind.transpose := by
  cases c <;> simp_all [Call.moves, Call.kind]

/-- A call of a list whose kinds are among `kinds` has one of these kinds. -/
theorem kind_mem_of_all {l : List Call} {kinds : List CallKind}
    (h : l.all (Call.kindIn kinds) = true) {c : Call} (hc : c ∈ l) : c.kind ∈ kinds := by
  have := List.all_eq_true.mp h c hc
  simpa [Call.kindIn] using this

/-- A list whose kinds are among `kinds` has no call of another kind. -/
theorem filter_kind_nil {l : List Call} {kinds : List CallKind}
    (h : l.all (Call.kindIn kinds) = true) (P : Call → Bool)
    (hP : ∀ c, P c = true → c.kind ∉ kinds) : l.filter P = [] := by
  rw [List.filter_eq_nil_iff]
  intro c hc hp
  exact hP c hp (kind_mem_of_all h hc)

theorem makeRFFT1dContiguousInput_kinds (h : TensorDesc → TensorDesc → TensorDesc → Nat)
    (input : Addr) (p : FFTPlan) :
    (callsOf (makeRFFT1dContiguousInput (Backend.allSucceed h) input) p).all
      (Call.kindIn [CallKind.housekeeping, CallKind.inputCopy]) = true := by
  unfold callsOf makeRFFT1dContiguousInput
  simp only [issue_allSucceed, CHECK_RETURN_success, CALL_CNNL_allSucceed,
    CALL_UNCHECKED_allSucceed, allSucceed_heuristicWorkspaceSize]
  (try split_ifs) <;> rfl

theorem padRFFT1dContiguousInput_kinds (h : TensorDesc → TensorDesc → TensorDesc → Nat)
    (p : FFTPlan) :
    (callsOf (padRFFT1dContiguousInput (Backend.allSucceed h)) p).all
      (Call.kindIn [CallKind.housekeeping, CallKind.pad]) = true := by
  unfold callsOf padRFFT1dContiguousInput
  simp only [issue_allSucceed, CHECK_RETURN_success, CALL_CNNL_allSucceed,
    CALL_UNCHECKED_allSucceed, allSucceed_heuristicWorkspaceSize]
  (try split_ifs) <;> rfl

theorem transposeRFFT1dPaddedInput_kinds (h : TensorDesc → TensorDesc → TensorDesc → Nat)
    (p : FFTPlan) :
    (callsOf (transposeRFFT1dPaddedInput (Backend.allSucceed h)) p).all
      (Call.kindIn [CallKind.transpose]) = true := by
  rw [transposeRFFT1dPaddedInput_calls]
  split_ifs <;> rfl

theorem computeRFFT1dMatmulResult_kinds (h : TensorDesc → TensorDesc → TensorDesc → Nat)
    (scale_factor : CFloat) (p : FFTPlan) :
    (callsOf (computeRFFT1dMatmulResult (Backend.allSucceed h) scale_factor) p).all
      (Call.kindIn [CallKind.matmul]) = true := by
  rw [computeRFFT1dMatmulResult_calls]
  split_ifs <;> rfl

theorem mergeRFFT1dOutput_kinds (h : TensorDesc → TensorDesc → TensorDesc → Nat)
    (scale_factor : CFloat) (p : FFTPlan) :
    (callsOf (mergeRFFT1dOutput (Backend.allSucceed h) scale_factor) p).all
      (Call.kindIn [CallKind.kernel]) = true := by
  rw [mergeRFFT1dOutput_calls]
  split_ifs <;> rfl

theorem makeRFFT1dContiguousOutput_kinds (h : TensorDesc → TensorDesc → TensorDesc → Nat)
    (output : Addr) (p : FFTPlan) :
    (callsOf (makeRFFT1dContiguousOutput (Backend.allSucceed h) output) p).all
      (Call.kindIn [CallKind.housekeeping, CallKind.outputCopy]) = true := by
  rw [makeRFFT1dContiguousOutput_calls]
  split_ifs <;> rfl

theorem execFFTr2c1d_kinds (h : TensorDesc → TensorDesc → TensorDesc → Nat)
    (scale_factor : CFloat) (p : FFTPlan) :
    (callsOf (execFFTr2c1d (Backend.allSucceed h) scale_factor) p).all
      (Call.kindIn [CallKind.kernel]) = true := by
  unfold callsOf execFFTr2c1d
  simp only [CALL_UNCHECKED_allSucceed]
  rfl

theorem scaleOutput_kinds (h : TensorDesc → TensorDesc → TensorDesc → Nat)
    (scale_factor : CFloat) (dims : List Int) (p : FFTPlan) :
    (callsOf (scaleOutput (Backend.allSucceed h) scale_factor dims) p).all
      (Call.kindIn [CallKind.housekeeping, CallKind.scale]) = true := by
  unfold callsOf scaleOutput
  simp only [issue_allSucceed, CHECK_RETURN_success, CALL_CNNL_allSucceed,
    CALL_UNCHECKED_allSucceed, allSucceed_heuristicWorkspaceSize]
  (try split_ifs) <;> rfl

/-- In the all-succeeding run of the matmul-family path a call of a given kind
comes from the stage that issues that kind. -/
theorem execRFFT1d_ok_prime_mem (env : Env) (h : TensorDesc → TensorDesc → TensorDesc → Nat)
    (plan : FFTPlan) (input : Addr) (scale_factor : CFloat) (workspace output : Addr)
    (hp : plan.prime = true) (c : Call)
    (hc : c ∈ (execRFFT1d env (Backend.allSucceed h) plan input scale_factor workspace
      output []).2.trace) :
    (c.kind = CallKind.inputCopy →
      c ∈ callsOf (makeRFFT1dContiguousInput (Backend.allSucceed h) input)
        (configuredRFFT1d env plan input workspace output)) ∧
    (c.kind = CallKind.pad →
      c ∈ callsOf (padRFFT1dContiguousInput (Backend.allSucceed h))
        (configuredRFFT1d env plan input workspace output)) ∧
    (c.kind = CallKind.transpose →
      c ∈ callsOf (transposeRFFT1dPaddedInput (Backend.allSucceed h))
        (configuredRFFT1d env plan input workspace output)) ∧
    (c.kind = CallKind.matmul →
      c ∈ callsOf (computeRFFT1dMatmulResult (Backend.allSucceed h) scale_factor)
        (configuredRFFT1d env plan input workspace output)) ∧
    (c.kind = CallKind.kernel →
      c ∈ callsOf (mergeRFFT1dOutput (Backend.allSucceed h) scale_factor)
        (configuredRFFT1d env plan input workspace output)) ∧
    (c.kind = CallKind.outputCopy →
      c ∈ callsOf (makeRFFT1dContiguousOutput (Backend.allSucceed h) output)
        (configuredRFFT1d env plan input workspace output)) ∧
    c.kind ≠ CallKind.scale ∧ c.kind ≠ CallKind.alloc := by
  rw [execRFFT1d_ok_prime env h plan input scale_factor workspace output hp] at hc
  simp only [List.mem_append] at hc
  rcases hc with hc | hc | hc | hc | hc | hc
  · have hk := kind_mem_of_all (makeRFFT1dContiguousInput_kinds h input _) hc
    refine ⟨fun e => ?_, fun e => ?_, fun e => ?_, fun e => ?_, fun e => ?_, fun e => ?_,
      fun e => ?_, fun e => ?_⟩ <;>
      first | exact hc | (rw [e] at hk; exact absurd hk (by decide))
  · have hk := kind_mem_of_all (padRFFT1dContiguousInput_kinds h _) hc
    refine ⟨fun e => ?_, fun e => ?_, fun e => ?_, fun e => ?_, fun e => ?_, fun e => ?_,
      fun e => ?_, fun e => ?_⟩ <;>
      first | exact hc | (rw [e] at hk; exact absurd hk (by decide))
  · have hk := kind_mem_of_all (transposeRFFT1dPaddedInput_kinds h _) hc
    refine ⟨fun e => ?_, fun e => ?_, fun e => ?_, fun e => ?_, fun e => ?_, fun e => ?_,
      fun e => ?_, fun e => ?_⟩ <;>
      first | exact hc | (rw [e] at hk; exact absurd hk (by decide))
  · have hk := kind_mem_of_all (computeRFFT1dMatmulResult_kinds h scale_factor _) hc
    refine ⟨fun e => ?_, fun e => ?_, fun e => ?_, fun e => ?_, fun e => ?_, fun e => ?_,
      fun e => ?_, fun e => ?_⟩ <;>
      first | exact hc | (rw [e] at hk; exact absurd hk (by decide))
  · have hk := kind_mem_of_all (mergeRFFT1dOutput_kinds h scale_factor _) hc
    refine ⟨fun e => ?_, fun e => ?_, fun e => ?_, fun e => ?_, fun e => ?_, fun e => ?_,
      fun e => ?_, fun e => ?_⟩ <;>
      first | exact hc | (rw [e] at hk; exact absurd hk (by decide))
  · have hk := kind_mem_of_all (makeRFFT1dContiguousOutput_kinds h output _) hc
    refine ⟨fun e => ?_, fun e => ?_, fun e => ?_, fun e => ?_, fun e => ?_, fun e => ?_,
      fun e => ?_, fun e => ?_⟩ <;>
      first | exact hc | (rw [e] at hk; exact absurd hk (by decide))

/-- The moves of the all-succeeding run of the matmul-family path, in order:
the copy (strided input), the pad (embedding different from the length) and the
transpose (Cooley-Tukey). -/
theorem execRFFT1d_ok_prime_moves (env : Env) (h : TensorDesc → TensorDesc → TensorDesc → Nat)
    (plan : FFTPlan) (input : Addr) (scale_factor : CFloat) (workspace output : Addr)
    (hp : plan.prime = true) :
    (execRFFT1d env (Backend.allSucceed h) plan input scale_factor workspace
        output []).2.trace.filterMap Call.moves =
      (if plan.is_input_contiguous = true then []
        else [(input, (configuredRFFT1d env plan input workspace
          output).matmul_addrs.input_contiguous_addr)]) ++
      ((if plan.inembed0 = plan.n0 then []
        else [((configuredRFFT1d env plan input workspace
            output).matmul_addrs.input_contiguous_addr,
          (configuredRFFT1d env plan input workspace output).matmul_addrs.input_pad_addr)]) ++
      (if plan.fft_strategy = CNFFT_FUNC_COOLEY_TUKEY then
        [((configuredRFFT1d env plan input workspace output).matmul_addrs.input_pad_addr,
          (configuredRFFT1d env plan input workspace output).matmul_addrs.input_transed_addr)]
        else [])) := by
  rw [execRFFT1d_ok_prime env h plan input scale_factor workspace output hp]
  simp only [List.filterMap_append, makeRFFT1dContiguousInput_moves,
    padRFFT1dContiguousInput_moves, transposeRFFT1dPaddedInput_moves,
    computeRFFT1dMatmulResult_moves, mergeRFFT1dOutput_moves, makeRFFT1dContiguousOutput_moves,
    List.append_nil]
  obtain ⟨ma, mu, hcfg, _⟩ := configuredRFFT1d_sizing env plan input workspace output
  rw [hcfg]
  simp only [inputCopyNeeded, hp, Bool.not_true, Bool.false_and, Bool.or_false, ↓reduceIte]
  cases plan.is_input_contiguous <;> by_cases hn : plan.inembed0 = plan.n0 <;> simp [hn]

/-- The pass-through aliases of configureRFFT1dMatmulWorkspaceAddrs. -/
theorem configuredRFFT1d_prime_aliases (env : Env) (plan : FFTPlan)
    (input workspace output : Addr) (hp : plan.prime = true) :
    (plan.is_input_contiguous = true →
      (configuredRFFT1d env plan input workspace output).matmul_addrs.input_contiguous_addr =
        input) ∧
    (plan.inembed0 = plan.n0 →
      (configuredRFFT1d env plan input workspace output).matmul_addrs.input_pad_addr =
        (configuredRFFT1d env plan input workspace output).matmul_addrs.input_contiguous_addr) ∧
    (plan.is_output_contiguous = true →
      (configuredRFFT1d env plan input workspace output).matmul_addrs.output_contiguous_addr =
        output) ∧
    (plan.is_output_contiguous = false →
      (configuredRFFT1d env plan input workspace output).matmul_addrs.output_contiguous_addr =
        (workspace.add plan.workspace_size).sub
          (size_t (size_t plan.matmul_addrs.internal_workspace_size +
            size_t (env.mluOpDataTypeBytes plan.output_dtype * plan.onum)) : Nat)) := by
  simp only [configuredRFFT1d, hp, ↓reduceIte, configureRFFT1dMatmulWorkspaceAddrs,
    configureRFFT1dMatmulWorkspaceAddrsAux]
  refine ⟨fun h => ?_, fun h => ?_, fun h => ?_, fun h => ?_⟩ <;> simp [h]

/-! ## Lemmas: composing stages that cannot fail -/

/-- A step that cannot fail, followed by another one. -/
theorem runsTo_check {f k : Stage} {g g' : FFTPlan → FFTPlan}
    (hf : Stage.runsTo f g) (hk : Stage.runsTo k g') :
    Stage.runsTo (fun s => CHECK_RETURN (f s) k) (fun p => g' (g p)) ∧
    ∀ p, callsOf (fun s => CHECK_RETURN (f s) k) p = callsOf f p ++ callsOf k (g p) := by
  have hcalls : ∀ p, callsOf (fun s => CHECK_RETURN (f s) k) p =
      callsOf f p ++ callsOf k (g p) := by
    intro p
    simp only [callsOf]
    rw [hf ⟨p, []⟩, CHECK_RETURN_success, hk]
    simp [callsOf]
  refine ⟨fun s => ?_, hcalls⟩
  rw [hcalls]
  simp only []
  rw [hf s, CHECK_RETURN_success, hk]
  simp

/-- A step that does nothing but update the plan. -/
theorem runsTo_update (g : FFTPlan → FFTPlan) (u : ExecState → ExecState)
    (hu : ∀ s, u s = ⟨g s.fft_plan, s.trace⟩) :
    Stage.runsTo (fun s => (MLUOP_STATUS_SUCCESS, u s)) g ∧
    ∀ p, callsOf (fun s => (MLUOP_STATUS_SUCCESS, u s)) p = [] := by
  have hcalls : ∀ p, callsOf (fun s => (MLUOP_STATUS_SUCCESS, u s)) p = [] := by
    intro p
    simp [callsOf, hu]
  refine ⟨fun s => ?_, hcalls⟩
  rw [hcalls]
  simp [hu]

theorem advanceBatch_eq (idist odist : Nat) (s : ExecState) :
    advanceBatch idist odist s = ⟨advancePlan idist odist s.fft_plan, s.trace⟩ := rfl

theorem rewindBatch_eq (idist odist : Nat) (s : ExecState) :
    rewindBatch idist odist s = ⟨rewindPlan idist odist s.fft_plan, s.trace⟩ := rfl

/-- A batch loop whose body cannot fail and leaves the plan alone. -/
theorem runsTo_batchLoop {body : Stage} (hb : Stage.runsTo body id) (idist odist : Nat)
    (count : Nat) :
    Stage.runsTo (batchLoop body idist odist count) ((advancePlan idist odist)^[count]) ∧
    ∀ p, callsOf (batchLoop body idist odist (count + 1)) p =
      callsOf body p ++ callsOf (batchLoop body idist odist count) (advancePlan idist odist p) := by
  induction count with
  | zero =>
    have h0 : Stage.runsTo (batchLoop body idist odist 0) ((advancePlan idist odist)^[0]) := by
      intro s
      simp [batchLoop, callsOf]
    refine ⟨h0, fun p => ?_⟩
    simp only [callsOf, batchLoop]
    rw [hb ⟨p, []⟩, CHECK_RETURN_success]
    simp [advanceBatch_eq, callsOf]
  | succ k ih =>
    have hstep : ∀ s, batchLoop body idist odist (k + 1) s =
        (MLUOP_STATUS_SUCCESS,
          ⟨(advancePlan idist odist)^[k + 1] s.fft_plan,
            s.trace ++ (callsOf body s.fft_plan ++
              callsOf (batchLoop body idist odist k) (advancePlan idist odist s.fft_plan))⟩) := by
      intro s
      simp only [batchLoop]
      rw [hb s, CHECK_RETURN_success, advanceBatch_eq, ih.1]
      simp [Function.iterate_succ_apply]
    have hcalls : ∀ p, callsOf (batchLoop body idist odist (k + 1)) p =
        callsOf body p ++
          callsOf (batchLoop body idist odist k) (advancePlan idist odist p) := ih.2
    have hrun : Stage.runsTo (batchLoop body idist odist (k + 1))
        ((advancePlan idist odist)^[k + 1]) := by
      intro s
      rw [hstep s, hcalls]
    refine ⟨hrun, fun p => ?_⟩
    simp only [callsOf]
    rw [batchLoop, hb ⟨p, []⟩, CHECK_RETURN_success, advanceBatch_eq, hrun]
    simp [callsOf]

/-- Advancing `count` times adds `count` strides. -/
theorem advancePlan_iterate (idist odist count : Nat) (p : FFTPlan) :
    (advancePlan idist odist)^[count] p =
      { p with mlu_addrs :=
        { p.mlu_addrs with
          input := p.mlu_addrs.input.add ((count * idist : Nat) : Int)
          output := p.mlu_addrs.output.add ((count * odist : Nat) : Int) } } := by
  induction count generalizing p with
  | zero => simp [Addr.add]
  | succ k ih =>
    rw [Function.iterate_succ_apply, ih]
    simp only [advancePlan, advanceBatch, Addr.add]
    congr 2
    · congr 1
      push_cast
      ring
    · congr 1
      push_cast
      ring

/-- Rewinding after `batch` iterations restores the plan. -/
theorem rewindPlan_advancePlan (idist odist : Nat) (p : FFTPlan) :
    rewindPlan idist odist ((advancePlan idist odist)^[p.batch] p) = p := by
  rw [advancePlan_iterate]
  simp only [rewindPlan, rewindBatch, Addr.add, Addr.sub]
  have e1 : (⟨p.mlu_addrs.input.base,
      p.mlu_addrs.input.off + ((p.batch * idist : Nat) : Int) - ((p.batch * idist : Nat) : Int)⟩
      : Addr) = p.mlu_addrs.input := by
    cases hq : p.mlu_addrs.input
    simp
  have e2 : (⟨p.mlu_addrs.output.base,
      p.mlu_addrs.output.off + ((p.batch * odist : Nat) : Int) - ((p.batch * odist : Nat) : Int)⟩
      : Addr) = p.mlu_addrs.output := by
    cases hq : p.mlu_addrs.output
    simp
  rw [e1, e2]

/-! ## Lemmas: the stages of execRFFT2d when no call fails -/

theorem makeRFFT2dContiguousInput_runsTo (h : TensorDesc → TensorDesc → TensorDesc → Nat)
    (input : Addr) : Stage.runsTo (makeRFFT2dContiguousInput (Backend.allSucceed h) input) id := by
  intro s
  unfold callsOf makeRFFT2dContiguousInput
  simp only [issue_allSucceed, CHECK_RETURN_success, CALL_CNNL_allSucceed,
    CALL_UNCHECKED_allSucceed, allSucceed_heuristicWorkspaceSize]
  (try split_ifs) <;> simp

theorem makeRFFT2dContiguousOutput_runsTo (h : TensorDesc → TensorDesc → TensorDesc → Nat)
    (output : Addr) :
    Stage.runsTo (makeRFFT2dContiguousOutput (Backend.allSucceed h) output) id := by
  intro s
  unfold callsOf makeRFFT2dContiguousOutput
  simp only [issue_allSucceed, CHECK_RETURN_success, CALL_CNNL_allSucceed,
    CALL_UNCHECKED_allSucceed, allSucceed_heuristicWorkspaceSize]
  (try split_ifs) <;> simp

theorem padDegenerate2d_runsTo (h : TensorDesc → TensorDesc → TensorDesc → Nat)
    (dims padded_dims paddings : List Int) :
    Stage.runsTo (padDegenerate2d (Backend.allSucceed h) dims padded_dims paddings) id := by
  intro s
  unfold callsOf padDegenerate2d
  simp only [issue_allSucceed, CHECK_RETURN_success, CALL_CNNL_allSucceed,
    CALL_UNCHECKED_allSucceed, allSucceed_heuristicWorkspaceSize]
  (try split_ifs) <;> simp

theorem launchRFFT2dButterflyRow_runsTo (h : TensorDesc → TensorDesc → TensorDesc → Nat) :
    Stage.runsTo (launchRFFT2dButterflyRow (Backend.allSucceed h)) id := by
  intro s
  simp [callsOf, launchRFFT2dButterflyRow, issue_allSucceed]

theorem launchRFFT2dButterflyColumn_runsTo (h : TensorDesc → TensorDesc → TensorDesc → Nat) :
    Stage.runsTo (launchRFFT2dButterflyColumn (Backend.allSucceed h)) id := by
  intro s
  simp [callsOf, launchRFFT2dButterflyColumn, issue_allSucceed]

theorem computeFFT2dMatMulRowR2C_runsTo (h : TensorDesc → TensorDesc → TensorDesc → Nat)
    (scale_factor : CFloat) :
    Stage.runsTo (computeFFT2dMatMulRowR2C (Backend.allSucceed h) scale_factor) id := by
  intro s
  unfold callsOf computeFFT2dMatMulRowR2C
  simp only [issue_allSucceed, CHECK_RETURN_success, CALL_CNNL_allSucceed,
    CALL_UNCHECKED_allSucceed, allSucceed_heuristicWorkspaceSize]
  (try split_ifs) <;> simp

theorem computeFFT2dMatMulColumnR2C_runsTo (h : TensorDesc → TensorDesc → TensorDesc → Nat)
    (scale_factor : CFloat) :
    Stage.runsTo (computeFFT2dMatMulColumnR2C (Backend.allSucceed h) scale_factor) id := by
  intro s
  unfold callsOf computeFFT2dMatMulColumnR2C
  simp only [issue_allSucceed, CHECK_RETURN_success, CALL_CNNL_allSucceed,
    CALL_UNCHECKED_allSucceed, allSucceed_heuristicWorkspaceSize]
  (try split_ifs) <;> simp

theorem scaleOutput_runsTo (h : TensorDesc → TensorDesc → TensorDesc → Nat)
    (scale_factor : CFloat) (dims : List Int) :
    Stage.runsTo (scaleOutput (Backend.allSucceed h) scale_factor dims) id :=
  fun s => scaleOutput_ok h scale_factor dims s

theorem makeRFFT2dContiguousInput_kinds (h : TensorDesc → TensorDesc → TensorDesc → Nat)
    (input : Addr) (p : FFTPlan) :
    (callsOf (makeRFFT2dContiguousInput (Backend.allSucceed h) input) p).all
      (Call.kindIn [CallKind.housekeeping, CallKind.inputCopy]) = true := by
  unfold callsOf makeRFFT2dContiguousInput
  simp only [issue_allSucceed, CHECK_RETURN_success, CALL_CNNL_allSucceed,
    CALL_UNCHECKED_allSucceed, allSucceed_heuristicWorkspaceSize]
  (try split_ifs) <;> rfl

theorem makeRFFT2dContiguousOutput_kinds (h : TensorDesc → TensorDesc → TensorDesc → Nat)
    (output : Addr) (p : FFTPlan) :
    (callsOf (makeRFFT2dContiguousOutput (Backend.allSucceed h) output) p).all
      (Call.kindIn [CallKind.housekeeping, CallKind.outputCopy]) = true := by
  unfold callsOf makeRFFT2dContiguousOutput
  simp only [issue_allSucceed, CHECK_RETURN_success, CALL_CNNL_allSucceed,
    CALL_UNCHECKED_allSucceed, allSucceed_heuristicWorkspaceSize]
  (try split_ifs) <;> rfl

theorem padDegenerate2d_kinds (h : TensorDesc → TensorDesc → TensorDesc → Nat)
    (dims padded_dims paddings : List Int) (p : FFTPlan) :
    (callsOf (padDegenerate2d (Backend.allSucceed h) dims padded_dims paddings) p).all
      (Call.kindIn [CallKind.housekeeping, CallKind.pad]) = true := by
  unfold callsOf padDegenerate2d
  simp only [issue_allSucceed, CHECK_RETURN_success, CALL_CNNL_allSucceed,
    CALL_UNCHECKED_allSucceed, allSucceed_heuristicWorkspaceSize]
  (try split_ifs) <;> rfl

theorem launchRFFT2dButterflyRow_kinds (h : TensorDesc → TensorDesc → TensorDesc → Nat)
    (p : FFTPlan) :
    (callsOf (launchRFFT2dButterflyRow (Backend.allSucceed h)) p).all
      (Call.kindIn [CallKind.kernel]) = true := rfl

theorem launchRFFT2dButterflyColumn_kinds (h : TensorDesc → TensorDesc → TensorDesc → Nat)
    (p : FFTPlan) :
    (callsOf (launchRFFT2dButterflyColumn (Backend.allSucceed h)) p).all
      (Call.kindIn [CallKind.kernel]) = true := rfl

theorem computeFFT2dMatMulRowR2C_kinds (h : TensorDesc → TensorDesc → TensorDesc → Nat)
    (scale_factor : CFloat) (p : FFTPlan) :
    (callsOf (computeFFT2dMatMulRowR2C (Backend.allSucceed h) scale_factor) p).all
      (Call.kindIn [CallKind.housekeeping, CallKind.matmul, CallKind.alloc]) = true := by
  unfold callsOf computeFFT2dMatMulRowR2C
  simp only [issue_allSucceed, CHECK_RETURN_success, CALL_CNNL_allSucceed,
    CALL_UNCHECKED_allSucceed, allSucceed_heuristicWorkspaceSize]
  simp [Call.kindIn, Call.kind]

theorem computeFFT2dMatMulColumnR2C_kinds (h : TensorDesc → TensorDesc → TensorDesc → Nat)
    (scale_factor : CFloat) (p : FFTPlan) :
    (callsOf (computeFFT2dMatMulColumnR2C (Backend.allSucceed h) scale_factor) p).all
      (Call.kindIn [CallKind.housekeeping, CallKind.matmul, CallKind.alloc, CallKind.kernel])
        = true := by
  unfold callsOf computeFFT2dMatMulColumnR2C
  simp only [issue_allSucceed, CHECK_RETURN_success, CALL_CNNL_allSucceed,
    CALL_UNCHECKED_allSucceed, allSucceed_heuristicWorkspaceSize]
  split_ifs <;> simp [Call.kindIn, Call.kind]

/-- Widening the list of kinds. -/
theorem kinds_mono {l : List Call} {ks ks' : List CallKind}
    (h : l.all (Call.kindIn ks) = true) (hsub : ∀ k ∈ ks, k ∈ ks') :
    l.all (Call.kindIn ks') = true := by
  rw [List.all_eq_true]
  intro c hc
  have hk := hsub _ (kind_mem_of_all h hc)
  simpa [Call.kindIn] using hk

/-- The calls of a batch loop have the kinds of the calls of its body. -/
theorem batchLoop_kinds {body : Stage} (hb : Stage.runsTo body id) (kinds : List CallKind)
    (hk : ∀ p, (callsOf body p).all (Call.kindIn kinds) = true) (idist odist count : Nat)
    (p : FFTPlan) :
    (callsOf (batchLoop body idist odist count) p).all (Call.kindIn kinds) = true := by
  induction count generalizing p with
  | zero => rfl
  | succ k ih =>
    rw [(runsTo_batchLoop hb idist odist k).2 p, List.all_append, hk, ih]
    rfl

/-- The two-launch body of the batch loop of execRFFT2d. -/
theorem rowColumn_runsTo (h : TensorDesc → TensorDesc → TensorDesc → Nat) :
    Stage.runsTo (fun s => CHECK_RETURN (launchRFFT2dButterflyRow (Backend.allSucceed h) s)
      (launchRFFT2dButterflyColumn (Backend.allSucceed h))) id :=
  (runsTo_check (launchRFFT2dButterflyRow_runsTo h) (launchRFFT2dButterflyColumn_runsTo h)).1

theorem rowColumn_kinds (h : TensorDesc → TensorDesc → TensorDesc → Nat) (p : FFTPlan) :
    (callsOf (fun s => CHECK_RETURN (launchRFFT2dButterflyRow (Backend.allSucceed h) s)
      (launchRFFT2dButterflyColumn (Backend.allSucceed h))) p).all
        (Call.kindIn [CallKind.kernel]) = true := by
  rw [(runsTo_check (launchRFFT2dButterflyRow_runsTo h)
    (launchRFFT2dButterflyColumn_runsTo h)).2 p]
  rfl

/-- The two-level Stockham block when no call fails: the plan is left as it
was found (the batch pointers are restored), and the calls are those of the
input stage followed by those of the branch taken. -/
theorem execRFFT2d_TWO_LEVEL_STOCKHAM_ok (env : Env)
    (h : TensorDesc → TensorDesc → TensorDesc → Nat) (input : Addr) (s : ExecState) :
    execRFFT2d_TWO_LEVEL_STOCKHAM env (Backend.allSucceed h) input s =
      (MLUOP_STATUS_SUCCESS,
        ⟨s.fft_plan,
          s.trace ++
            (callsOf (makeRFFT2dContiguousInput (Backend.allSucceed h) input) s.fft_plan ++
            (if s.fft_plan.n0 = 1 ∨ s.fft_plan.n1 = 1 then
              if s.fft_plan.n0 ≠ 1 ∧ s.fft_plan.n1 = 1 then
                callsOf (padDegenerate2d (Backend.allSucceed h)
                  [s.fft_plan.batch, s.fft_plan.n0, s.fft_plan.n1]
                  [s.fft_plan.batch, s.fft_plan.n0, ((s.fft_plan.n1 * 2 : Nat) : Int)]
                  [0, 0, 0, 0, 0, 1]) s.fft_plan ++
                callsOf (batchLoop (launchRFFT2dButterflyColumn (Backend.allSucceed h))
                  (env.mluOpDataTypeBytes s.fft_plan.input_dtype * s.fft_plan.n0 * s.fft_plan.n1)
                  (env.mluOpDataTypeBytes s.fft_plan.output_dtype * s.fft_plan.n0 *
                    (s.fft_plan.n1 / 2 + 1))
                  s.fft_plan.batch) s.fft_plan
              else if s.fft_plan.n0 = 1 ∧ s.fft_plan.n1 ≠ 1 then
                callsOf (batchLoop (launchRFFT2dButterflyRow (Backend.allSucceed h))
                  (env.mluOpDataTypeBytes s.fft_plan.input_dtype * s.fft_plan.n0 * s.fft_plan.n1)
                  (env.mluOpDataTypeBytes s.fft_plan.output_dtype * s.fft_plan.n0 *
                    (s.fft_plan.n1 / 2 + 1))
                  s.fft_plan.batch) s.fft_plan
              else
                callsOf (padDegenerate2d (Backend.allSucceed h)
                  [s.fft_plan.batch, ((s.fft_plan.n0 * s.fft_plan.n1 : Nat) : Int)]
                  [s.fft_plan.batch, ((s.fft_plan.n0 * s.fft_plan.n1 * 2 : Nat) : Int)]
                  [0, 0, 0, 1]) s.fft_plan
            else
              callsOf (batchLoop
                (fun s => CHECK_RETURN (launchRFFT2dButterflyRow (Backend.allSucceed h) s)
                  (launchRFFT2dButterflyColumn (Backend.allSucceed h)))
                (env.mluOpDataTypeBytes s.fft_plan.input_dtype * s.fft_plan.n0 * s.fft_plan.n1)
                (env.mluOpDataTypeBytes s.fft_plan.output_dtype * s.fft_plan.n0 *
                  (s.fft_plan.n1 / 2 + 1))
                s.fft_plan.batch) s.fft_plan))⟩) := by
  unfold execRFFT2d_TWO_LEVEL_STOCKHAM
  simp only []
  rw [makeRFFT2dContiguousInput_runsTo h input s, CHECK_RETURN_success]
  simp only [id]
  split_ifs
  · rw [padDegenerate2d_runsTo h _ _ _ _, CHECK_RETURN_success,
      (runsTo_batchLoop (launchRFFT2dButterflyColumn_runsTo h) _ _ _).1 _, CHECK_RETURN_success,
      rewindBatch_eq]
    simp only [id, rewindPlan_advancePlan, List.append_assoc]
  · rw [(runsTo_batchLoop (launchRFFT2dButterflyRow_runsTo h) _ _ _).1 _, CHECK_RETURN_success,
      rewindBatch_eq]
    simp only [id, rewindPlan_advancePlan, List.append_assoc]
  · rw [padDegenerate2d_runsTo h _ _ _ _]
    simp only [id, List.append_assoc]
  · rw [(runsTo_batchLoop (rowColumn_runsTo h) _ _ _).1 _, CHECK_RETURN_success,
      rewindBatch_eq]
    simp only [id, rewindPlan_advancePlan, List.append_assoc]

theorem execRFFT2d_TWO_LEVEL_STOCKHAM_runsTo (env : Env)
    (h : TensorDesc → TensorDesc → TensorDesc → Nat) (input : Addr) :
    Stage.runsTo (execRFFT2d_TWO_LEVEL_STOCKHAM env (Backend.allSucceed h) input) id := by
  intro s
  rw [execRFFT2d_TWO_LEVEL_STOCKHAM_ok env h input s]
  simp only [callsOf, id]
  rw [execRFFT2d_TWO_LEVEL_STOCKHAM_ok env h input ⟨s.fft_plan, []⟩]
  simp only [List.nil_append, callsOf]

/-- The calls of the two-level Stockham block: housekeeping, the input copy,
kernel launches, and a pad for the degenerate shapes only. -/
theorem execRFFT2d_TWO_LEVEL_STOCKHAM_kinds (env : Env)
    (h : TensorDesc → TensorDesc → TensorDesc → Nat) (input : Addr) (p : FFTPlan) :
    (callsOf (execRFFT2d_TWO_LEVEL_STOCKHAM env (Backend.allSucceed h) input) p).all
      (Call.kindIn
        (if p.n0 = 1 ∨ p.n1 = 1 then
          [CallKind.housekeeping, CallKind.inputCopy, CallKind.pad, CallKind.kernel]
        else [CallKind.housekeeping, CallKind.inputCopy, CallKind.kernel])) = true := by
  simp only [callsOf]
  rw [execRFFT2d_TWO_LEVEL_STOCKHAM_ok env h input ⟨p, []⟩]
  simp only [List.nil_append, List.all_append, Bool.and_eq_true]
  have hI := makeRFFT2dContiguousInput_kinds h input p
  have hrow := fun i o c q => batchLoop_kinds (launchRFFT2dButterflyRow_runsTo h)
    [CallKind.kernel] (launchRFFT2dButterflyRow_kinds h) i o c q
  have hcol := fun i o c q => batchLoop_kinds (launchRFFT2dButterflyColumn_runsTo h)
    [CallKind.kernel] (launchRFFT2dButterflyColumn_kinds h) i o c q
  have hrc := fun i o c q => batchLoop_kinds (rowColumn_runsTo h)
    [CallKind.kernel] (rowColumn_kinds h) i o c q
  have hpad := fun d pd pp q => padDegenerate2d_kinds h d pd pp q
  by_cases hdeg : p.n0 = 1 ∨ p.n1 = 1
  · simp only [hdeg, ↓reduceIte]
    refine ⟨kinds_mono hI (by decide), ?_⟩
    split_ifs
    · rw [List.all_append, Bool.and_eq_true]
      exact ⟨kinds_mono (hpad _ _ _ _) (by decide), kinds_mono (hcol _ _ _ _) (by decide)⟩
    · exact kinds_mono (hrow _ _ _ _) (by decide)
    · exact kinds_mono (hpad _ _ _ _) (by decide)
  · simp only [hdeg, ↓reduceIte]
    exact ⟨kinds_mono hI (by decide), kinds_mono (hrc _ _ _ _) (by decide)⟩

/-- The strategy block of execRFFT2d when no call fails. -/
theorem execRFFT2d_strategyBlock_runsTo (env : Env)
    (h : TensorDesc → TensorDesc → TensorDesc → Nat) (input : Addr) (scale_factor : CFloat) :
    Stage.runsTo (execRFFT2d_strategyBlock env (Backend.allSucceed h) input scale_factor) id := by
  intro s
  have hmm := runsTo_check (computeFFT2dMatMulRowR2C_runsTo h scale_factor)
    (runsTo_check (computeFFT2dMatMulColumnR2C_runsTo h scale_factor)
      (runsTo_update id (fun s => s) (fun _ => rfl)).1).1
  simp only [callsOf, execRFFT2d_strategyBlock, id]
  split_ifs
  · exact execRFFT2d_TWO_LEVEL_STOCKHAM_runsTo env h input s
  · exact hmm.1 s
  · simp

/-- The kinds of the calls of the strategy block. -/
theorem execRFFT2d_strategyBlock_kinds (env : Env)
    (h : TensorDesc → TensorDesc → TensorDesc → Nat) (input : Addr) (scale_factor : CFloat)
    (p : FFTPlan) :
    (callsOf (execRFFT2d_strategyBlock env (Backend.allSucceed h) input scale_factor) p).all
      (Call.kindIn
        (if p.fft_strategy = CNFFT_FUNC_TWO_LEVEL_STOCKHAM then
          (if p.n0 = 1 ∨ p.n1 = 1 then
            [CallKind.housekeeping, CallKind.inputCopy, CallKind.pad, CallKind.kernel]
          else [CallKind.housekeeping, CallKind.inputCopy, CallKind.kernel])
        else [CallKind.housekeeping, CallKind.matmul, CallKind.alloc, CallKind.kernel]))
      = true := by
  have hmm := runsTo_check (computeFFT2dMatMulRowR2C_runsTo h scale_factor)
    (runsTo_check (computeFFT2dMatMulColumnR2C_runsTo h scale_factor)
      (runsTo_update id (fun s => s) (fun _ => rfl)).1).1
  have hmm2 := (runsTo_check (computeFFT2dMatMulColumnR2C_runsTo h scale_factor)
      (runsTo_update id (fun s => s) (fun _ => rfl)).1)
  by_cases hs : p.fft_strategy = CNFFT_FUNC_TWO_LEVEL_STOCKHAM
  · have e : callsOf (execRFFT2d_strategyBlock env (Backend.allSucceed h) input scale_factor) p =
        callsOf (execRFFT2d_TWO_LEVEL_STOCKHAM env (Backend.allSucceed h) input) p := by
      simp [callsOf, execRFFT2d_strategyBlock, hs]
    rw [e, if_pos hs]
    exact execRFFT2d_TWO_LEVEL_STOCKHAM_kinds env h input p
  · rw [if_neg hs]
    by_cases hm : p.fft_strategy = CNFFT_FUNC_MANY_DIST1_2D
    · have e : callsOf (execRFFT2d_strategyBlock env (Backend.allSucceed h) input scale_factor)
          p =
          callsOf (fun s => CHECK_RETURN
            (computeFFT2dMatMulRowR2C (Backend.allSucceed h) scale_factor s)
            (fun s => CHECK_RETURN
              (computeFFT2dMatMulColumnR2C (Backend.allSucceed h) scale_factor s)
              (fun s => (MLUOP_STATUS_SUCCESS, s)))) p := by
        simp [callsOf, execRFFT2d_strategyBlock, hs, hm]
      rw [e, hmm.2, hmm2.2, (runsTo_update id (fun s => s) (fun _ => rfl)).2]
      simp only [id, List.append_nil, List.all_append, Bool.and_eq_true]
      exact ⟨kinds_mono (computeFFT2dMatMulRowR2C_kinds h scale_factor p) (by decide),
        computeFFT2dMatMulColumnR2C_kinds h scale_factor p⟩
    · have e : callsOf (execRFFT2d_strategyBlock env (Backend.allSucceed h) input scale_factor)
          p = [] := by
        simp [callsOf, execRFFT2d_strategyBlock, hs, hm]
      rw [e]
      rfl

theorem execRFFT2d_scaleBlock_runsTo (h : TensorDesc → TensorDesc → TensorDesc → Nat)
    (scale_factor : CFloat) :
    Stage.runsTo (execRFFT2d_scaleBlock (Backend.allSucceed h) scale_factor) id := by
  intro s
  simp only [execRFFT2d_scaleBlock, callsOf, id]
  rw [scaleOutput_ok, scaleOutput_ok h scale_factor _ ⟨s.fft_plan, []⟩]
  simp

theorem execRFFT2d_outputBlock_runsTo (h : TensorDesc → TensorDesc → TensorDesc → Nat)
    (output : Addr) :
    Stage.runsTo (execRFFT2d_outputBlock (Backend.allSucceed h) output) id := by
  intro s
  simp only [execRFFT2d_outputBlock, callsOf, id]
  split_ifs
  · exact makeRFFT2dContiguousOutput_runsTo h output s
  · simp

/-- The all-succeeding run of execRFFT2d: the calls of the strategy block, of
the scale block and of the writeback block, each on the plan as the allocator
left it. -/
theorem execRFFT2d_ok (env : Env) (h : TensorDesc → TensorDesc → TensorDesc → Nat)
    (plan : FFTPlan) (input : Addr) (scale_factor : CFloat) (workspace output : Addr) :
    execRFFT2d env (Backend.allSucceed h) plan input scale_factor workspace output [] =
      (MLUOP_STATUS_SUCCESS,
        ⟨configureRFFT2dWorkspaceAddrs env plan input workspace output,
          callsOf (execRFFT2d_strategyBlock env (Backend.allSucceed h) input scale_factor)
              (configureRFFT2dWorkspaceAddrs env plan input workspace output) ++
            (callsOf (execRFFT2d_scaleBlock (Backend.allSucceed h) scale_factor)
              (configureRFFT2dWorkspaceAddrs env plan input workspace output) ++
            callsOf (execRFFT2d_outputBlock (Backend.allSucceed h) output)
              (configureRFFT2dWorkspaceAddrs env plan input workspace output))⟩) := by
  unfold execRFFT2d
  simp only []
  rw [execRFFT2d_strategyBlock_runsTo env h input scale_factor _, CHECK_RETURN_success,
    execRFFT2d_scaleBlock_runsTo h scale_factor _, CHECK_RETURN_success,
    execRFFT2d_outputBlock_runsTo h output _, CHECK_RETURN_success]
  simp only [id, List.nil_append, List.append_assoc]

/-- A call of a batch loop is a call of its body in some iteration. -/
theorem batchLoop_mem {body : Stage} (hb : Stage.runsTo body id) (idist odist count : Nat)
    (p : FFTPlan) (c : Call) (hc : c ∈ callsOf (batchLoop body idist odist count) p) :
    ∃ i, i < count ∧ c ∈ callsOf body ((advancePlan idist odist)^[i] p) := by
  induction count generalizing p with
  | zero => simp [callsOf, batchLoop] at hc
  | succ k ih =>
    rw [(runsTo_batchLoop hb idist odist k).2 p, List.mem_append] at hc
    rcases hc with hc | hc
    · exact ⟨0, Nat.succ_pos k, by simpa using hc⟩
    · obtain ⟨i, hi, hm⟩ := ih _ hc
      exact ⟨i + 1, Nat.succ_lt_succ hi, by simpa [Function.iterate_succ_apply] using hm⟩

/-- The allocator of execRFFT2d rewrites the address table only. -/
theorem configureRFFT2dWorkspaceAddrs_fields (env : Env) (plan : FFTPlan)
    (input workspace output : Addr) :
    (configureRFFT2dWorkspaceAddrs env plan input workspace output).fft_strategy =
        plan.fft_strategy ∧
      (configureRFFT2dWorkspaceAddrs env plan input workspace output).n0 = plan.n0 ∧
      (configureRFFT2dWorkspaceAddrs env plan input workspace output).n1 = plan.n1 ∧
      (configureRFFT2dWorkspaceAddrs env plan input workspace output).batch = plan.batch ∧
      (configureRFFT2dWorkspaceAddrs env plan input workspace output).is_output_contiguous =
        plan.is_output_contiguous ∧
      (configureRFFT2dWorkspaceAddrs env plan input workspace output).input_dtype =
        plan.input_dtype ∧
      (configureRFFT2dWorkspaceAddrs env plan input workspace output).output_dtype =
        plan.output_dtype ∧
      (configureRFFT2dWorkspaceAddrs env plan input workspace output).execution_dtype =
        plan.execution_dtype :=
  ⟨rfl, rfl, rfl, rfl, rfl, rfl, rfl, rfl⟩

/-- The calls of the all-succeeding run of execRFFT2d on a two-level Stockham
plan with both lengths different from 1: the input stage, the batch loop, the
scale block, the writeback stage. -/
theorem execRFFT2d_ok_stockham_calls (env : Env) (h : TensorDesc → TensorDesc → TensorDesc → Nat)
    (plan : FFTPlan) (input : Addr) (scale_factor : CFloat) (workspace output : Addr)
    (hs : plan.fft_strategy = CNFFT_FUNC_TWO_LEVEL_STOCKHAM)
    (hn0 : plan.n0 ≠ 1) (hn1 : plan.n1 ≠ 1) :
    (execRFFT2d env (Backend.allSucceed h) plan input scale_factor workspace output []).2.trace =
      callsOf (makeRFFT2dContiguousInput (Backend.allSucceed h) input)
          (configureRFFT2dWorkspaceAddrs env plan input workspace output) ++
        (callsOf (batchLoop
            (fun s => CHECK_RETURN (launchRFFT2dButterflyRow (Backend.allSucceed h) s)
              (launchRFFT2dButterflyColumn (Backend.allSucceed h)))
            (env.mluOpDataTypeBytes plan.input_dtype * plan.n0 * plan.n1)
            (env.mluOpDataTypeBytes plan.output_dtype * plan.n0 * (plan.n1 / 2 + 1))
            plan.batch)
          (configureRFFT2dWorkspaceAddrs env plan input workspace output) ++
        (callsOf (execRFFT2d_scaleBlock (Backend.allSucceed h) scale_factor)
          (configureRFFT2dWorkspaceAddrs env plan input workspace output) ++
        callsOf (makeRFFT2dContiguousOutput (Backend.allSucceed h) output)
          (configureRFFT2dWorkspaceAddrs env plan input workspace output))) := by
  rw [execRFFT2d_ok]
  obtain ⟨f1, f2, f3, f4, -, f6, f7, -⟩ :=
    configureRFFT2dWorkspaceAddrs_fields env plan input workspace output
  have e1 : callsOf (execRFFT2d_strategyBlock env (Backend.allSucceed h) input scale_factor)
      (configureRFFT2dWorkspaceAddrs env plan input workspace output) =
      callsOf (execRFFT2d_TWO_LEVEL_STOCKHAM env (Backend.allSucceed h) input)
        (configureRFFT2dWorkspaceAddrs env plan input workspace output) := by
    simp [callsOf, execRFFT2d_strategyBlock, f1, hs]
  have e2 : callsOf (execRFFT2d_outputBlock (Backend.allSucceed h) output)
      (configureRFFT2dWorkspaceAddrs env plan input workspace output) =
      callsOf (makeRFFT2dContiguousOutput (Backend.allSucceed h) output)
        (configureRFFT2dWorkspaceAddrs env plan input workspace output) := by
    simp [callsOf, execRFFT2d_outputBlock, f1, hs]
  have e3 : callsOf (execRFFT2d_TWO_LEVEL_STOCKHAM env (Backend.allSucceed h) input)
      (configureRFFT2dWorkspaceAddrs env plan input workspace output) =
      callsOf (makeRFFT2dContiguousInput (Backend.allSucceed h) input)
          (configureRFFT2dWorkspaceAddrs env plan input workspace output) ++
        callsOf (batchLoop
            (fun s => CHECK_RETURN (launchRFFT2dButterflyRow (Backend.allSucceed h) s)
              (launchRFFT2dButterflyColumn (Backend.allSucceed h)))
            (env.mluOpDataTypeBytes plan.input_dtype * plan.n0 * plan.n1)
            (env.mluOpDataTypeBytes plan.output_dtype * plan.n0 * (plan.n1 / 2 + 1))
            plan.batch)
          (configureRFFT2dWorkspaceAddrs env plan input workspace output) := by
    simp only [callsOf]
    rw [execRFFT2d_TWO_LEVEL_STOCKHAM_ok]
    simp only [f2, f3, f4, f6, f7, hn0, hn1, or_self, ↓reduceIte, List.nil_append, callsOf]
  rw [e1, e2, e3]
  simp only [List.append_assoc]

theorem butterfly2dPlan_kind (c : Call) (q : FFTPlan) (h : c.butterfly2dPlan = some q) :
    c.kind = CallKind.kernel := by
  cases c <;> simp [Call.butterfly2dPlan] at h <;> rfl

/-- A call whose kind is among kinds other than `k` is not of kind `k`. -/
theorem kind_ne_of_all {l : List Call} {kinds : List CallKind} {k : CallKind}
    (h : l.all (Call.kindIn kinds) = true) (hk : k ∉ kinds) {c : Call} (hc : c ∈ l) :
    c.kind ≠ k := by
  intro e
  exact hk (e ▸ kind_mem_of_all h hc)

theorem rowColumn_calls (h : TensorDesc → TensorDesc → TensorDesc → Nat) (p : FFTPlan) :
    callsOf (fun s => CHECK_RETURN (launchRFFT2dButterflyRow (Backend.allSucceed h) s)
      (launchRFFT2dButterflyColumn (Backend.allSucceed h))) p =
      [Call.kernelRFFT2dButterflyRow p FFTType.RFFT,
        Call.kernelRFFT2dButterflyColumn p FFTType.FFT_IFFT] := by
  rw [(runsTo_check (launchRFFT2dButterflyRow_runsTo h)
    (launchRFFT2dButterflyColumn_runsTo h)).2 p]
  rfl

/-! ## Lemmas: the writeback stage -/

/-- The writeback stage of the 1D paths: nothing for a contiguous output;
otherwise housekeeping, the copy, releases. -/
theorem makeRFFT1dContiguousOutput_shape (h : TensorDesc → TensorDesc → TensorDesc → Nat)
    (output : Addr) (p : FFTPlan) :
    (p.is_output_contiguous = true →
      callsOf (makeRFFT1dContiguousOutput (Backend.allSucceed h) output) p = []) ∧
    (p.is_output_contiguous = false →
      ∃ pre post, callsOf (makeRFFT1dContiguousOutput (Backend.allSucceed h) output) p =
          pre ++ [writebackCallRFFT1d p output] ++ post ∧
        pre.all (Call.kindIn [CallKind.housekeeping]) = true ∧
        post.all Call.isRelease = true) := by
  rw [makeRFFT1dContiguousOutput_calls]
  refine ⟨fun hc => by simp [hc], fun hc => ?_⟩
  simp only [hc, Bool.false_eq_true, ↓reduceIte]
  exact ⟨_ :: _ :: _ :: _ :: _ :: _ :: [_], _, rfl, rfl, rfl⟩

/-- The writeback stage of the two-level Stockham path. -/
theorem makeRFFT2dContiguousOutput_shape (h : TensorDesc → TensorDesc → TensorDesc → Nat)
    (output : Addr) (p : FFTPlan) :
    (p.is_output_contiguous = true ∨ p.fft_strategy = CNFFT_FUNC_MANY_DIST1_2D →
      callsOf (makeRFFT2dContiguousOutput (Backend.allSucceed h) output) p = []) ∧
    (p.is_output_contiguous = false → p.fft_strategy ≠ CNFFT_FUNC_MANY_DIST1_2D →
      ∃ pre post, callsOf (makeRFFT2dContiguousOutput (Backend.allSucceed h) output) p =
          pre ++ [writebackCallRFFT2d p output] ++ post ∧
        pre.all (Call.kindIn [CallKind.housekeeping]) = true ∧
        post.all Call.isRelease = true) := by
  unfold callsOf makeRFFT2dContiguousOutput
  simp only [issue_allSucceed, CHECK_RETURN_success, CALL_CNNL_allSucceed]
  refine ⟨fun hc => ?_, fun hc hs => ?_⟩
  · rcases hc with hc | hc <;> simp [hc]
  · simp only [hc, hs, Bool.not_false, ne_eq, not_false_eq_true, decide_True, Bool.and_self,
      ↓reduceIte, List.nil_append]
    exact ⟨_ :: _ :: _ :: _ :: _ :: _ :: [_], _, rfl, rfl, rfl⟩

/-- A trace that ends with a writeback stage: before it there are calls of
other kinds only. -/
theorem writeback_last {A O pre post : List Call} {kinds : List CallKind} {copy : Call}
    (hA : A.all (Call.kindIn kinds) = true) (hk : CallKind.outputCopy ∉ kinds)
    (hO : O = pre ++ [copy] ++ post)
    (hpre : pre.all (Call.kindIn [CallKind.housekeeping]) = true)
    (hpost : post.all Call.isRelease = true) :
    (∃ pre0 post0, A ++ O = pre0 ++ [copy] ++ post0 ∧
      (∀ c ∈ pre0, c.isOutputCopy = false) ∧ post0.all Call.isRelease = true) ∧
    (copy.isOutputCopy = true → (A ++ O).filter Call.isOutputCopy = [copy]) := by
  have hApre : ∀ c ∈ A ++ pre, c.isOutputCopy = false := by
    intro c hc
    rw [List.mem_append] at hc
    rcases hc with hc | hc
    · exact Bool.eq_false_iff.2 fun hp =>
        kind_ne_of_all hA hk hc ((isOutputCopy_iff_kind c).1 hp)
    · exact Bool.eq_false_iff.2 fun hp =>
        kind_ne_of_all hpre (by decide) hc ((isOutputCopy_iff_kind c).1 hp)
  have hpost0 : ∀ c ∈ post, c.isOutputCopy = false := by
    intro c hc
    have hr := List.all_eq_true.mp hpost c hc
    exact Bool.eq_false_iff.2 fun hp => by
      have h1 := isRelease_kind c hr
      have h2 := (isOutputCopy_iff_kind c).1 hp
      rw [h1] at h2
      exact absurd h2 (by decide)
  refine ⟨⟨A ++ pre, post, by rw [hO]; simp, hApre, hpost⟩, fun hcopy => ?_⟩
  rw [hO]
  have e1 : (A ++ pre).filter Call.isOutputCopy = [] := by
    rw [List.filter_eq_nil_iff]
    intro c hc hp
    rw [hApre c hc] at hp
    exact absurd hp (by decide)
  have e2 : post.filter Call.isOutputCopy = [] := by
    rw [List.filter_eq_nil_iff]
    intro c hc hp
    rw [hpost0 c hc] at hp
    exact absurd hp (by decide)
  have e3 : A ++ (pre ++ [copy] ++ post) = (A ++ pre) ++ ([copy] ++ post) := by simp
  rw [e3, List.filter_append, e1, List.filter_append, e2]
  simp [List.filter, hcopy]

/-- A trace without a writeback stage has no writeback copy. -/
theorem no_output_copy_of_kinds {A : List Call} {kinds : List CallKind}
    (hA : A.all (Call.kindIn kinds) = true) (hk : CallKind.outputCopy ∉ kinds) :
    ∀ c ∈ A, c.isOutputCopy = false := fun c hc =>
  Bool.eq_false_iff.2 fun hp => kind_ne_of_all hA hk hc ((isOutputCopy_iff_kind c).1 hp)

theorem all_kinds_append {A B : List Call} {a b k : List CallKind}
    (hA : A.all (Call.kindIn a) = true) (hB : B.all (Call.kindIn b) = true)
    (ha : ∀ x ∈ a, x ∈ k) (hb : ∀ x ∈ b, x ∈ k) :
    (A ++ B).all (Call.kindIn k) = true := by
  rw [List.all_append, kinds_mono hA ha, kinds_mono hB hb]
  rfl

/-- The calls before the writeback stage in the all-succeeding run of
execRFFT1d: none of them is a writeback copy or, on the butterfly path, follows
the scale block. -/
theorem execRFFT1d_ok_split (env : Env) (h : TensorDesc → TensorDesc → TensorDesc → Nat)
    (plan : FFTPlan) (input : Addr) (scale_factor : CFloat) (workspace output : Addr) :
    ∃ A Sc : List Call, ∃ cfg0 : FFTPlan,
      (execRFFT1d env (Backend.allSucceed h) plan input scale_factor workspace output
        []).2.trace =
          A ++ (Sc ++ callsOf (makeRFFT1dContiguousOutput (Backend.allSucceed h) output) cfg0) ∧
      A.all (Call.kindIn [CallKind.housekeeping, CallKind.inputCopy, CallKind.pad,
        CallKind.transpose, CallKind.matmul, CallKind.kernel]) = true ∧
      Sc = (if plan.prime = true then []
        else callsOf (execRFFT1d_scaleBlock (Backend.allSucceed h) scale_factor) cfg0) ∧
      cfg0.prime = plan.prime ∧ cfg0.is_output_contiguous = plan.is_output_contiguous ∧
      cfg0.batch = plan.batch ∧ cfg0.n0 = plan.n0 ∧ cfg0.onembed0 = plan.onembed0 ∧
      cfg0.output_dtype = plan.output_dtype ∧ cfg0.execution_dtype = plan.execution_dtype ∧
      cfg0.odist = plan.odist ∧ cfg0.ostride = plan.ostride ∧
      cfg0.matmul_addrs.output_contiguous_addr =
        (configuredRFFT1d env plan input workspace output).matmul_addrs.output_contiguous_addr ∧
      cfg0.mlu_addrs.output = (configuredRFFT1d env plan input workspace output).mlu_addrs.output
      := by
  cases hp : plan.prime
  · obtain ⟨cfg1, hcfg1, hrun⟩ :=
      execRFFT1d_ok_butterfly env h plan input scale_factor workspace output hp
    have hI := makeRFFT1dContiguousInput_kinds h input
      (configuredRFFT1d env plan input workspace output)
    have hP := padRFFT1dContiguousInput_kinds h
      (configuredRFFT1d env plan input workspace output)
    have hK := execFFTr2c1d_kinds h scale_factor cfg1
    refine ⟨callsOf (makeRFFT1dContiguousInput (Backend.allSucceed h) input)
          (configuredRFFT1d env plan input workspace output) ++
        ((if (configuredRFFT1d env plan input workspace output).n0 >
              (configuredRFFT1d env plan input workspace output).inembed0 then
            callsOf (padRFFT1dContiguousInput (Backend.allSucceed h))
              (configuredRFFT1d env plan input workspace output)
          else []) ++
        callsOf (execFFTr2c1d (Backend.allSucceed h) scale_factor) cfg1),
      callsOf (execRFFT1d_scaleBlock (Backend.allSucceed h) scale_factor) cfg1, cfg1,
      ?_, ?_, ?_, ?_⟩
    · rw [hrun]
      simp only [List.append_assoc]
    · refine all_kinds_append hI (all_kinds_append (a := [CallKind.housekeeping,
        CallKind.pad]) (k := [CallKind.housekeeping, CallKind.pad, CallKind.kernel]) ?_ hK
        (by decide) (by decide)) (by decide) (by decide)
      split_ifs
      · exact hP
      · rfl
    · simp
    · have hf := configuredRFFT1d_fields env plan input workspace output
      rw [hcfg1]
      unfold configuredRFFT1d
      simp only [hp, Bool.false_eq_true, ↓reduceIte]
      split_ifs <;> simp [configureRFFT1dWorkspaceAddrs, hp]
  · have hrun := execRFFT1d_ok_prime env h plan input scale_factor workspace output hp
    refine ⟨callsOf (makeRFFT1dContiguousInput (Backend.allSucceed h) input)
          (configuredRFFT1d env plan input workspace output) ++
        (callsOf (padRFFT1dContiguousInput (Backend.allSucceed h))
          (configuredRFFT1d env plan input workspace output) ++
        (callsOf (transposeRFFT1dPaddedInput (Backend.allSucceed h))
          (configuredRFFT1d env plan input workspace output) ++
        (callsOf (computeRFFT1dMatmulResult (Backend.allSucceed h) scale_factor)
          (configuredRFFT1d env plan input workspace output) ++
        callsOf (mergeRFFT1dOutput (Backend.allSucceed h) scale_factor)
          (configuredRFFT1d env plan input workspace output)))),
      [], configuredRFFT1d env plan input workspace output, ?_, ?_, ?_, ?_⟩
    · rw [hrun]
      simp only [List.append_assoc, List.nil_append]
    · refine all_kinds_append (makeRFFT1dContiguousInput_kinds h input _)
        (all_kinds_append (padRFFT1dContiguousInput_kinds h _)
          (all_kinds_append (transposeRFFT1dPaddedInput_kinds h _)
            (all_kinds_append (computeRFFT1dMatmulResult_kinds h scale_factor _)
              (mergeRFFT1dOutput_kinds h scale_factor _)
              (k := [CallKind.matmul, CallKind.kernel]) (by decide) (by decide))
            (k := [CallKind.transpose, CallKind.matmul, CallKind.kernel])
            (by decide) (by decide))
          (k := [CallKind.housekeeping, CallKind.pad, CallKind.transpose, CallKind.matmul,
            CallKind.kernel]) (by decide) (by decide))
        (by decide) (by decide)
    · simp
    · unfold configuredRFFT1d
      simp only [hp, ↓reduceIte]
      simp [configureRFFT1dMatmulWorkspaceAddrs, configureRFFT1dMatmulWorkspaceAddrsAux, hp]

/-- The calls before the writeback block in the all-succeeding run of
execRFFT2d. -/
theorem execRFFT2d_ok_split (env : Env) (h : TensorDesc → TensorDesc → TensorDesc → Nat)
    (plan : FFTPlan) (input : Addr) (scale_factor : CFloat) (workspace output : Addr) :
    ∃ S : List Call,
      (execRFFT2d env (Backend.allSucceed h) plan input scale_factor workspace output
        []).2.trace =
          S ++ (callsOf (execRFFT2d_scaleBlock (Backend.allSucceed h) scale_factor)
              (configureRFFT2dWorkspaceAddrs env plan input workspace output) ++
            (if plan.fft_strategy = CNFFT_FUNC_TWO_LEVEL_STOCKHAM then
              callsOf (makeRFFT2dContiguousOutput (Backend.allSucceed h) output)
                (configureRFFT2dWorkspaceAddrs env plan input workspace output)
            else [])) ∧
      S.all (Call.kindIn [CallKind.housekeeping, CallKind.inputCopy, CallKind.pad,
        CallKind.matmul, CallKind.alloc, CallKind.kernel]) = true ∧
      (plan.fft_strategy = CNFFT_FUNC_MANY_DIST1_2D →
        S = callsOf (computeFFT2dMatMulRowR2C (Backend.allSucceed h) scale_factor)
            (configureRFFT2dWorkspaceAddrs env plan input workspace output) ++
          callsOf (computeFFT2dMatMulColumnR2C (Backend.allSucceed h) scale_factor)
            (configureRFFT2dWorkspaceAddrs env plan input workspace output)) := by
  refine ⟨callsOf (execRFFT2d_strategyBlock env (Backend.allSucceed h) input scale_factor)
    (configureRFFT2dWorkspaceAddrs env plan input workspace output), ?_, ?_, ?_⟩
  · rw [execRFFT2d_ok]
    have e : callsOf (execRFFT2d_outputBlock (Backend.allSucceed h) output)
        (configureRFFT2dWorkspaceAddrs env plan input workspace output) =
        (if plan.fft_strategy = CNFFT_FUNC_TWO_LEVEL_STOCKHAM then
          callsOf (makeRFFT2dContiguousOutput (Backend.allSucceed h) output)
            (configureRFFT2dWorkspaceAddrs env plan input workspace output)
        else []) := by
      have f1 := (configureRFFT2dWorkspaceAddrs_fields env plan input workspace output).1
      simp only [callsOf, execRFFT2d_outputBlock, f1]
      split_ifs <;> rfl
    rw [e]
  · have hk := execRFFT2d_strategyBlock_kinds env h input scale_factor
      (configureRFFT2dWorkspaceAddrs env plan input workspace output)
    refine kinds_mono hk ?_
    split_ifs <;> decide
  · intro hs
    have f1 := (configureRFFT2dWorkspaceAddrs_fields env plan input workspace output).1
    have hmm := runsTo_check (computeFFT2dMatMulRowR2C_runsTo h scale_factor)
      (runsTo_check (computeFFT2dMatMulColumnR2C_runsTo h scale_factor)
        (runsTo_update id (fun s => s) (fun _ => rfl)).1).1
    have hmm2 := (runsTo_check (computeFFT2dMatMulColumnR2C_runsTo h scale_factor)
      (runsTo_update id (fun s => s) (fun _ => rfl)).1)
    have e : callsOf (execRFFT2d_strategyBlock env (Backend.allSucceed h) input scale_factor)
        (configureRFFT2dWorkspaceAddrs env plan input workspace output) =
        callsOf (fun s => CHECK_RETURN
          (computeFFT2dMatMulRowR2C (Backend.allSucceed h) scale_factor s)
          (fun s => CHECK_RETURN
            (computeFFT2dMatMulColumnR2C (Backend.allSucceed h) scale_factor s)
            (fun s => (MLUOP_STATUS_SUCCESS, s))))
          (configureRFFT2dWorkspaceAddrs env plan input workspace output) := by
      simp [callsOf, execRFFT2d_strategyBlock, f1, hs]
    rw [e, hmm.2, hmm2.2, (runsTo_update id (fun s => s) (fun _ => rfl)).2]
    simp only [id, List.append_nil]

/-- The filter of an initial segment is an initial segment of the filter. -/
theorem filter_prefix_singleton {t t0 : List Call} {P : Call → Bool} {c : Call}
    (hpre : t <+: t0) (h0 : t0.filter P = [c]) : t.filter P <+: [c] :=
  h0 ▸ hpre.filter P

theorem writebackCallRFFT1d_congr {p q : FFTPlan} (output : Addr)
    (h1 : q.prime = p.prime) (h2 : q.batch = p.batch) (h3 : q.n0 = p.n0)
    (h4 : q.onembed0 = p.onembed0) (h5 : q.output_dtype = p.output_dtype)
    (h6 : q.odist = p.odist) (h7 : q.ostride = p.ostride)
    (h8 : q.matmul_addrs.output_contiguous_addr = p.matmul_addrs.output_contiguous_addr)
    (h9 : q.mlu_addrs.output = p.mlu_addrs.output) :
    writebackCallRFFT1d q output = writebackCallRFFT1d p output := by
  simp only [writebackCallRFFT1d, outputRoleRFFT1d, h1, h2, h3, h4, h5, h6, h7, h8, h9]

/-- The kinds of the calls of the scale blocks. -/
theorem execRFFT1d_scaleBlock_kinds (h : TensorDesc → TensorDesc → TensorDesc → Nat)
    (scale_factor : CFloat) (p : FFTPlan) :
    (callsOf (execRFFT1d_scaleBlock (Backend.allSucceed h) scale_factor) p).all
      (Call.kindIn [CallKind.housekeeping, CallKind.scale]) = true := by
  have hk := scaleOutput_kinds h scale_factor [p.batch, ((p.n0 / 2 + 1 : Nat) : Int)] p
  simp only [callsOf] at hk
  simp only [callsOf, execRFFT1d_scaleBlock]
  exact hk

theorem execRFFT2d_scaleBlock_kinds (h : TensorDesc → TensorDesc → TensorDesc → Nat)
    (scale_factor : CFloat) (p : FFTPlan) :
    (callsOf (execRFFT2d_scaleBlock (Backend.allSucceed h) scale_factor) p).all
      (Call.kindIn [CallKind.housekeeping, CallKind.scale]) = true := by
  have hk := scaleOutput_kinds h scale_factor [p.batch, p.n0, ((p.n1 / 2 + 1 : Nat) : Int)] p
  simp only [callsOf] at hk
  simp only [callsOf, execRFFT2d_scaleBlock]
  exact hk

/-! ## Lemmas: the scale block -/

/-- The calls of the scale block: nothing for a factor of one; otherwise
housekeeping, the transform call, releases. -/
theorem scaleOutput_shape (h : TensorDesc → TensorDesc → TensorDesc → Nat)
    (scale_factor : CFloat) (dims : List Int) (p : FFTPlan) :
    (scale_factor = CFloat.one →
      callsOf (scaleOutput (Backend.allSucceed h) scale_factor dims) p = []) ∧
    (scale_factor ≠ CFloat.one →
      ∃ pre post, callsOf (scaleOutput (Backend.allSucceed h) scale_factor dims) p =
          pre ++ [scaleCall scale_factor dims p] ++ post ∧
        pre.all (Call.kindIn [CallKind.housekeeping]) = true ∧
        post.all (Call.kindIn [CallKind.housekeeping]) = true) := by
  unfold callsOf scaleOutput
  simp only [issue_allSucceed, CHECK_RETURN_success, CALL_CNNL_allSucceed]
  refine ⟨fun hc => by simp [hc], fun hc => ?_⟩
  simp only [hc, ne_eq, not_false_eq_true, ↓reduceIte, List.nil_append]
  exact ⟨_ :: _ :: _ :: _ :: [_], _, rfl, rfl, rfl⟩

/-- The scale block with a factor of one is the identity step. -/
theorem scaleOutput_one (be : Backend) (dims : List Int) (s : ExecState) :
    scaleOutput be CFloat.one dims s = (MLUOP_STATUS_SUCCESS, s) := by
  simp [scaleOutput]

/-- A trace with a scale block between the transform stages and the writeback
stage. -/
theorem scale_between {A Sc O pre post : List Call} {ka : List CallKind} {call : Call}
    (hA : A.all (Call.kindIn ka) = true)
    (hka : ∀ k ∈ ka, k ∈ [CallKind.housekeeping, CallKind.inputCopy, CallKind.pad,
      CallKind.transpose, CallKind.matmul, CallKind.alloc, CallKind.kernel])
    (hO : O.all (Call.kindIn [CallKind.housekeeping, CallKind.outputCopy]) = true)
    (hSc : Sc = pre ++ [call] ++ post)
    (hpre : pre.all (Call.kindIn [CallKind.housekeeping]) = true)
    (hpost : post.all (Call.kindIn [CallKind.housekeeping]) = true) :
    ∃ pre0 post0, A ++ (Sc ++ O) = pre0 ++ [call] ++ post0 ∧
      pre0.all (Call.kindIn [CallKind.housekeeping, CallKind.inputCopy, CallKind.pad,
        CallKind.transpose, CallKind.matmul, CallKind.alloc, CallKind.kernel]) = true ∧
      post0.all (Call.kindIn [CallKind.housekeeping, CallKind.outputCopy]) = true :=
  ⟨A ++ pre, post ++ O, by rw [hSc]; simp,
    all_kinds_append hA hpre hka (by decide),
    all_kinds_append hpost hO (by decide) (by decide)⟩

/-- A scale call of a trace made of transform stages, a scale block and a
writeback stage lies in the scale block. -/
theorem scale_mem_block {A Sc O : List Call} {ka : List CallKind} {c : Call}
    (hA : A.all (Call.kindIn ka) = true)
    (hka : ∀ k ∈ ka, k ∈ [CallKind.housekeeping, CallKind.inputCopy, CallKind.pad,
      CallKind.transpose, CallKind.matmul, CallKind.alloc, CallKind.kernel])
    (hO : O.all (Call.kindIn [CallKind.housekeeping, CallKind.outputCopy]) = true)
    (hc : c ∈ A ++ (Sc ++ O)) (hs : c.isScale = true) : c ∈ Sc := by
  have hk := (isScale_iff_kind c).1 hs
  simp only [List.mem_append] at hc
  rcases hc with hc | hc | hc
  · exact absurd hk (kind_ne_of_all (kinds_mono hA hka) (by decide) hc)
  · exact hc
  · exact absurd hk (kind_ne_of_all hO (by decide) hc)

/-- The one scale call of a scale block. -/
theorem scale_of_block (h : TensorDesc → TensorDesc → TensorDesc → Nat)
    (scale_factor : CFloat) (dims : List Int) (p : FFTPlan) (c : Call)
    (hc : c ∈ callsOf (scaleOutput (Backend.allSucceed h) scale_factor dims) p)
    (hs : c.isScale = true) :
    scale_factor ≠ CFloat.one ∧ c = scaleCall scale_factor dims p := by
  by_cases h1 : scale_factor = CFloat.one
  · rw [(scaleOutput_shape h scale_factor dims p).1 h1] at hc
    simp at hc
  · refine ⟨h1, ?_⟩
    obtain ⟨pre, post, he, hpre, hpost⟩ := (scaleOutput_shape h scale_factor dims p).2 h1
    rw [he] at hc
    have hk := (isScale_iff_kind c).1 hs
    simp only [List.mem_append, List.mem_singleton] at hc
    rcases hc with (hc | hc) | hc
    · exact absurd hk (kind_ne_of_all hpre (by decide) hc)
    · exact hc
    · exact absurd hk (kind_ne_of_all hpost (by decide) hc)

/-- Dropping a step that does nothing from the end of a pipeline. -/
theorem runStages_erase_identity (X : List Stage) (f o : Stage)
    (hf : ∀ s, f s = (MLUOP_STATUS_SUCCESS, s)) :
    runStages (X ++ [f, o]) = runStages ((X ++ [f, o]).eraseIdx ((X ++ [f, o]).length - 2)) := by
  have e : (X ++ [f, o]).eraseIdx ((X ++ [f, o]).length - 2) = X ++ [o] := by
    rw [List.length_append]
    simp only [List.length_cons, List.length_nil, Nat.add_sub_cancel]
    rw [List.eraseIdx_append_of_length_le (Nat.le_refl _)]
    simp
  rw [e, runStages_append_fun, runStages_append_fun]
  funext s
  simp only [runStages_cons_fun, runStages_nil_fun, hf, CHECK_RETURN_success]

/-- The matrix multiplies of the row stage of the many-distance-1 strategy:
one, with alpha one. -/
theorem computeFFT2dMatMulRowR2C_alpha (h : TensorDesc → TensorDesc → TensorDesc → Nat)
    (scale_factor : CFloat) (p : FFTPlan) :
    ((callsOf (computeFFT2dMatMulRowR2C (Backend.allSucceed h) scale_factor) p).filter
      Call.isMatmul).map Call.matmulAlpha = [some CFloat.one] := by
  unfold callsOf computeFFT2dMatMulRowR2C
  simp only [issue_allSucceed, CHECK_RETURN_success, CALL_CNNL_allSucceed,
    CALL_UNCHECKED_allSucceed, allSucceed_heuristicWorkspaceSize]
  simp only [List.nil_append, List.cons_append, List.filter_cons, Call.isMatmul,
    Bool.false_eq_true, ↓reduceIte, List.filter_nil, List.map_cons, List.map_nil,
    Call.matmulAlpha]

/-- The matrix multiplies of the column stage of the many-distance-1 strategy:
one, with alpha one. -/
theorem computeFFT2dMatMulColumnR2C_alpha (h : TensorDesc → TensorDesc → TensorDesc → Nat)
    (scale_factor : CFloat) (p : FFTPlan) :
    ((callsOf (computeFFT2dMatMulColumnR2C (Backend.allSucceed h) scale_factor) p).filter
      Call.isMatmul).map Call.matmulAlpha = [some CFloat.one] := by
  unfold callsOf computeFFT2dMatMulColumnR2C
  simp only [issue_allSucceed, CHECK_RETURN_success, CALL_CNNL_allSucceed,
    CALL_UNCHECKED_allSucceed, allSucceed_heuristicWorkspaceSize]
  split_ifs <;>
  simp only [List.nil_append, List.cons_append, List.filter_cons, Call.isMatmul,
    Bool.false_eq_true, ↓reduceIte, List.filter_nil, List.map_cons, List.map_nil,
    Call.matmulAlpha]

theorem matmulAlpha_isMatmul (c : Call) (a : CFloat) (h : c.matmulAlpha = some a) :
    c.isMatmul = true := by
  cases c <;> simp [Call.matmulAlpha] at h <;> rfl

/-- A matrix multiply of a list whose multiplies all have alpha one. -/
theorem alpha_of_filter {l : List Call} {n : Nat}
    (h : (l.filter Call.isMatmul).map Call.matmulAlpha = List.replicate n (some CFloat.one))
    {c : Call} (hc : c ∈ l) (a : CFloat) (ha : c.matmulAlpha = some a) : a = CFloat.one := by
  have hm : c ∈ l.filter Call.isMatmul := List.mem_filter.2 ⟨hc, matmulAlpha_isMatmul c a ha⟩
  have hm2 : c.matmulAlpha ∈ (l.filter Call.isMatmul).map Call.matmulAlpha :=
    List.mem_map_of_mem _ hm
  rw [h, ha] at hm2
  have := (List.mem_replicate.1 hm2).2
  exact Option.some.inj this

theorem execRFFT1d_scaleBlock_calls (be : Backend) (scale_factor : CFloat) (p : FFTPlan) :
    callsOf (execRFFT1d_scaleBlock be scale_factor) p =
      callsOf (scaleOutput be scale_factor [p.batch, ((p.n0 / 2 + 1 : Nat) : Int)]) p := by
  simp only [callsOf, execRFFT1d_scaleBlock]

theorem execRFFT2d_scaleBlock_calls (be : Backend) (scale_factor : CFloat) (p : FFTPlan) :
    callsOf (execRFFT2d_scaleBlock be scale_factor) p =
      callsOf (scaleOutput be scale_factor
        [p.batch, p.n0, ((p.n1 / 2 + 1 : Nat) : Int)]) p := by
  simp only [callsOf, execRFFT2d_scaleBlock]

theorem scaleCall_congr {p q : FFTPlan} (scale_factor : CFloat) {dims dims0 : List Int}
    (hd : dims0 = dims) (h1 : q.output_dtype = p.output_dtype)
    (h2 : q.execution_dtype = p.execution_dtype) (h3 : q.mlu_addrs.output = p.mlu_addrs.output) :
    scaleCall scale_factor dims0 q = scaleCall scale_factor dims p := by
  simp only [scaleCall, hd, h1, h2, h3]

/-- With a factor of one the butterfly path of execRFFT1d is its pipeline
without the scale block. -/
theorem execRFFT1d_unscaled (env : Env) (be : Backend) (plan : FFTPlan) (input : Addr)
    (workspace output : Addr) (trace : List Call) (hp : plan.prime = false) :
    execRFFT1d env be plan input CFloat.one workspace output trace =
      runStages ((execRFFT1dStages be false input output CFloat.one).eraseIdx 3)
        ⟨configuredRFFT1d env plan input workspace output, trace⟩ := by
  rw [execRFFT1d_eq_runStages]
  unfold configuredRFFT1d
  simp only [hp, Bool.false_eq_true, ↓reduceIte, execRFFT1dStages]
  exact congrFun (runStages_erase_identity
    [makeRFFT1dContiguousInput be input, execRFFT1d_padBlock be,
      execFFTr2c1d be CFloat.one]
    (execRFFT1d_scaleBlock be CFloat.one) (makeRFFT1dContiguousOutput be output)
    (fun s => scaleOutput_one be _ s)) _

/-- With a factor of one execRFFT2d is its pipeline without the scale block. -/
theorem execRFFT2d_unscaled (env : Env) (be : Backend) (plan : FFTPlan) (input : Addr)
    (workspace output : Addr) (trace : List Call) :
    execRFFT2d env be plan input CFloat.one workspace output trace =
      runStages
        ((execRFFT2dStages env be (configureRFFT2dWorkspaceAddrs env plan input workspace output)
            input output CFloat.one).eraseIdx
          ((execRFFT2dStages env be
            (configureRFFT2dWorkspaceAddrs env plan input workspace output)
            input output CFloat.one).length - 2))
        ⟨configureRFFT2dWorkspaceAddrs env plan input workspace output, trace⟩ := by
  rw [execRFFT2d_eq_runStages]
  unfold execRFFT2dStages
  exact congrFun (runStages_erase_identity _
    (execRFFT2d_scaleBlock be CFloat.one) (execRFFT2d_outputBlock be output)
    (fun s => scaleOutput_one be _ s)) _

/-! ## Lemmas: what a run leaves in the plan -/

theorem inv_issue (e : FFTPlan → FFTPlan) (be : Backend) (c : Call) (s : ExecState)
    (x : FFTPlan) (hs : e s.fft_plan = x) : e (issue be c s).2.fft_plan = x := hs

theorem inv_done (e : FFTPlan → FFTPlan) (s : ExecState) (x : FFTPlan)
    (hs : e s.fft_plan = x) : e (MLUOP_STATUS_SUCCESS, s).2.fft_plan = x := hs

/-- A property of the plan kept by a step and by what follows it is kept by
the checked sequence of the two. -/
theorem inv_check (e : FFTPlan → FFTPlan) {r : mluOpStatus_t × ExecState} {k : Stage}
    {x : FFTPlan} (hr : e r.2.fft_plan = x)
    (hk : ∀ s, e s.fft_plan = x → e (k s).2.fft_plan = x) :
    e (CHECK_RETURN r k).2.fft_plan = x := by
  unfold CHECK_RETURN
  split_ifs
  · exact hk _ hr
  · exact hr

theorem inv_call_cnnl (e : FFTPlan → FFTPlan) (be : Backend) (c : Call) (s : ExecState)
    {k : Stage} {x : FFTPlan} (hs : e s.fft_plan = x)
    (hk : ∀ s, e s.fft_plan = x → e (k s).2.fft_plan = x) :
    e (CALL_CNNL be c s k).2.fft_plan = x :=
  inv_check e (inv_issue e be c s x hs) hk

theorem inv_call_unchecked (e : FFTPlan → FFTPlan) (be : Backend) (c : Call) (s : ExecState)
    {k : Stage} {x : FFTPlan} (hs : e s.fft_plan = x)
    (hk : ∀ s, e s.fft_plan = x → e (k s).2.fft_plan = x) :
    e (CALL_UNCHECKED be c s k).2.fft_plan = x :=
  hk _ hs

theorem makeRFFT1dContiguousInput_inv (e : FFTPlan → FFTPlan) (be : Backend) (input : Addr)
    (s : ExecState) (x : FFTPlan) (hs : e s.fft_plan = x) :
    e (makeRFFT1dContiguousInput be input s).2.fft_plan = x := by
  unfold makeRFFT1dContiguousInput
  (try simp only [])
  repeat' first
    | with_reducible exact inv_done e _ _ (by assumption)
    | with_reducible exact inv_issue e _ _ _ _ (by assumption)
    | with_reducible refine inv_call_unchecked e _ _ _ (by assumption) (fun _ _ => ?_)
    | with_reducible refine inv_call_cnnl e _ _ _ (by assumption) (fun _ _ => ?_)
    | with_reducible refine inv_check e ?_ (fun _ _ => ?_)
    | split_ifs

theorem padRFFT1dContiguousInput_inv (e : FFTPlan → FFTPlan) (be : Backend)
    (s : ExecState) (x : FFTPlan) (hs : e s.fft_plan = x) :
    e (padRFFT1dContiguousInput be s).2.fft_plan = x := by
  unfold padRFFT1dContiguousInput
  (try simp only [])
  repeat' first
    | with_reducible exact inv_done e _ _ (by assumption)
    | with_reducible exact inv_issue e _ _ _ _ (by assumption)
    | with_reducible refine inv_call_unchecked e _ _ _ (by assumption) (fun _ _ => ?_)
    | with_reducible refine inv_call_cnnl e _ _ _ (by assumption) (fun _ _ => ?_)
    | with_reducible refine inv_check e ?_ (fun _ _ => ?_)
    | split_ifs

theorem transposeRFFT1dPaddedInput_inv (e : FFTPlan → FFTPlan) (be : Backend)
    (s : ExecState) (x : FFTPlan) (hs : e s.fft_plan = x) :
    e (transposeRFFT1dPaddedInput be s).2.fft_plan = x := by
  unfold transposeRFFT1dPaddedInput
  (try simp only [])
  repeat' first
    | with_reducible exact inv_done e _ _ (by assumption)
    | with_reducible exact inv_issue e _ _ _ _ (by assumption)
    | with_reducible refine inv_call_unchecked e _ _ _ (by assumption) (fun _ _ => ?_)
    | with_reducible refine inv_call_cnnl e _ _ _ (by assumption) (fun _ _ => ?_)
    | with_reducible refine inv_check e ?_ (fun _ _ => ?_)
    | split_ifs

theorem computeRFFT1dMatmulResult_inv (e : FFTPlan → FFTPlan) (be : Backend) (scale_factor : CFloat)
    (s : ExecState) (x : FFTPlan) (hs : e s.fft_plan = x) :
    e (computeRFFT1dMatmulResult be scale_factor s).2.fft_plan = x := by
  unfold computeRFFT1dMatmulResult
  (try simp only [])
  repeat' first
    | with_reducible exact inv_done e _ _ (by assumption)
    | with_reducible exact inv_issue e _ _ _ _ (by assumption)
    | with_reducible refine inv_call_unchecked e _ _ _ (by assumption) (fun _ _ => ?_)
    | with_reducible refine inv_call_cnnl e _ _ _ (by assumption) (fun _ _ => ?_)
    | with_reducible refine inv_check e ?_ (fun _ _ => ?_)
    | split_ifs

theorem mergeRFFT1dOutput_inv (e : FFTPlan → FFTPlan) (be : Backend) (scale_factor : CFloat)
    (s : ExecState) (x : FFTPlan) (hs : e s.fft_plan = x) :
    e (mergeRFFT1dOutput be scale_factor s).2.fft_plan = x := by
  unfold mergeRFFT1dOutput
  (try simp only [])
  repeat' first
    | with_reducible exact inv_done e _ _ (by assumption)
    | with_reducible exact inv_issue e _ _ _ _ (by assumption)
    | with_reducible refine inv_call_unchecked e _ _ _ (by assumption) (fun _ _ => ?_)
    | with_reducible refine inv_call_cnnl e _ _ _ (by assumption) (fun _ _ => ?_)
    | with_reducible refine inv_check e ?_ (fun _ _ => ?_)
    | split_ifs

theorem makeRFFT1dContiguousOutput_inv (e : FFTPlan → FFTPlan) (be : Backend) (output : Addr)
    (s : ExecState) (x : FFTPlan) (hs : e s.fft_plan = x) :
    e (makeRFFT1dContiguousOutput be output s).2.fft_plan = x := by
  unfold makeRFFT1dContiguousOutput
  (try simp only [])
  repeat' first
    | with_reducible exact inv_done e _ _ (by assumption)
    | with_reducible exact inv_issue e _ _ _ _ (by assumption)
    | with_reducible refine inv_call_unchecked e _ _ _ (by assumption) (fun _ _ => ?_)
    | with_reducible refine inv_call_cnnl e _ _ _ (by assumption) (fun _ _ => ?_)
    | with_reducible refine inv_check e ?_ (fun _ _ => ?_)
    | split_ifs

theorem execFFTr2c1d_inv (e : FFTPlan → FFTPlan) (be : Backend) (scale_factor : CFloat)
    (s : ExecState) (x : FFTPlan) (hs : e s.fft_plan = x) :
    e (execFFTr2c1d be scale_factor s).2.fft_plan = x := by
  unfold execFFTr2c1d
  (try simp only [])
  repeat' first
    | with_reducible exact inv_done e _ _ (by assumption)
    | with_reducible exact inv_issue e _ _ _ _ (by assumption)
    | with_reducible refine inv_call_unchecked e _ _ _ (by assumption) (fun _ _ => ?_)
    | with_reducible refine inv_call_cnnl e _ _ _ (by assumption) (fun _ _ => ?_)
    | with_reducible refine inv_check e ?_ (fun _ _ => ?_)
    | split_ifs

theorem scaleOutput_inv (e : FFTPlan → FFTPlan) (be : Backend) (scale_factor : CFloat) (dims : List Int)
    (s : ExecState) (x : FFTPlan) (hs : e s.fft_plan = x) :
    e (scaleOutput be scale_factor dims s).2.fft_plan = x := by
  unfold scaleOutput
  (try simp only [])
  repeat' first
    | with_reducible exact inv_done e _ _ (by assumption)
    | with_reducible exact inv_issue e _ _ _ _ (by assumption)
    | with_reducible refine inv_call_unchecked e _ _ _ (by assumption) (fun _ _ => ?_)
    | with_reducible refine inv_call_cnnl e _ _ _ (by assumption) (fun _ _ => ?_)
    | with_reducible refine inv_check e ?_ (fun _ _ => ?_)
    | split_ifs

theorem makeRFFT2dContiguousInput_inv (e : FFTPlan → FFTPlan) (be : Backend) (input : Addr)
    (s : ExecState) (x : FFTPlan) (hs : e s.fft_plan = x) :
    e (makeRFFT2dContiguousInput be input s).2.fft_plan = x := by
  unfold makeRFFT2dContiguousInput
  (try simp only [])
  repeat' first
    | with_reducible exact inv_done e _ _ (by assumption)
    | with_reducible exact inv_issue e _ _ _ _ (by assumption)
    | with_reducible refine inv_call_unchecked e _ _ _ (by assumption) (fun _ _ => ?_)
    | with_reducible refine inv_call_cnnl e _ _ _ (by assumption) (fun _ _ => ?_)
    | with_reducible refine inv_check e ?_ (fun _ _ => ?_)
    | split_ifs

theorem makeRFFT2dContiguousOutput_inv (e : FFTPlan → FFTPlan) (be : Backend) (output : Addr)
    (s : ExecState) (x : FFTPlan) (hs : e s.fft_plan = x) :
    e (makeRFFT2dContiguousOutput be output s).2.fft_plan = x := by
  unfold makeRFFT2dContiguousOutput
  (try simp only [])
  repeat' first
    | with_reducible exact inv_done e _ _ (by assumption)
    | with_reducible exact inv_issue e _ _ _ _ (by assumption)
    | with_reducible refine inv_call_unchecked e _ _ _ (by assumption) (fun _ _ => ?_)
    | with_reducible refine inv_call_cnnl e _ _ _ (by assumption) (fun _ _ => ?_)
    | with_reducible refine inv_check e ?_ (fun _ _ => ?_)
    | split_ifs

theorem computeFFT2dMatMulColumnR2C_inv (e : FFTPlan → FFTPlan) (be : Backend) (scale_factor : CFloat)
    (s : ExecState) (x : FFTPlan) (hs : e s.fft_plan = x) :
    e (computeFFT2dMatMulColumnR2C be scale_factor s).2.fft_plan = x := by
  unfold computeFFT2dMatMulColumnR2C
  (try simp only [])
  repeat' first
    | with_reducible exact inv_done e _ _ (by assumption)
    | with_reducible exact inv_issue e _ _ _ _ (by assumption)
    | with_reducible refine inv_call_unchecked e _ _ _ (by assumption) (fun _ _ => ?_)
    | with_reducible refine inv_call_cnnl e _ _ _ (by assumption) (fun _ _ => ?_)
    | with_reducible refine inv_check e ?_ (fun _ _ => ?_)
    | split_ifs

theorem computeFFT2dMatMulRowR2C_inv (e : FFTPlan → FFTPlan) (be : Backend) (scale_factor : CFloat)
    (s : ExecState) (x : FFTPlan) (hs : e s.fft_plan = x) :
    e (computeFFT2dMatMulRowR2C be scale_factor s).2.fft_plan = x := by
  unfold computeFFT2dMatMulRowR2C
  (try simp only [])
  repeat' first
    | with_reducible exact inv_done e _ _ (by assumption)
    | with_reducible exact inv_issue e _ _ _ _ (by assumption)
    | with_reducible refine inv_call_unchecked e _ _ _ (by assumption) (fun _ _ => ?_)
    | with_reducible refine inv_call_cnnl e _ _ _ (by assumption) (fun _ _ => ?_)
    | with_reducible refine inv_check e ?_ (fun _ _ => ?_)
    | split_ifs

theorem padDegenerate2d_inv (e : FFTPlan → FFTPlan) (be : Backend) (dims padded_dims paddings : List Int)
    (s : ExecState) (x : FFTPlan) (hs : e s.fft_plan = x) :
    e (padDegenerate2d be dims padded_dims paddings s).2.fft_plan = x := by
  unfold padDegenerate2d
  (try simp only [])
  repeat' first
    | with_reducible exact inv_done e _ _ (by assumption)
    | with_reducible exact inv_issue e _ _ _ _ (by assumption)
    | with_reducible refine inv_call_unchecked e _ _ _ (by assumption) (fun _ _ => ?_)
    | with_reducible refine inv_call_cnnl e _ _ _ (by assumption) (fun _ _ => ?_)
    | with_reducible refine inv_check e ?_ (fun _ _ => ?_)
    | split_ifs

theorem launchRFFT2dButterflyRow_inv (e : FFTPlan → FFTPlan) (be : Backend)
    (s : ExecState) (x : FFTPlan) (hs : e s.fft_plan = x) :
    e (launchRFFT2dButterflyRow be s).2.fft_plan = x := by
  unfold launchRFFT2dButterflyRow
  (try simp only [])
  repeat' first
    | with_reducible exact inv_done e _ _ (by assumption)
    | with_reducible exact inv_issue e _ _ _ _ (by assumption)
    | with_reducible refine inv_call_unchecked e _ _ _ (by assumption) (fun _ _ => ?_)
    | with_reducible refine inv_call_cnnl e _ _ _ (by assumption) (fun _ _ => ?_)
    | with_reducible refine inv_check e ?_ (fun _ _ => ?_)
    | split_ifs

theorem launchRFFT2dButterflyColumn_inv (e : FFTPlan → FFTPlan) (be : Backend)
    (s : ExecState) (x : FFTPlan) (hs : e s.fft_plan = x) :
    e (launchRFFT2dButterflyColumn be s).2.fft_plan = x := by
  unfold launchRFFT2dButterflyColumn
  (try simp only [])
  repeat' first
    | with_reducible exact inv_done e _ _ (by assumption)
    | with_reducible exact inv_issue e _ _ _ _ (by assumption)
    | with_reducible refine inv_call_unchecked e _ _ _ (by assumption) (fun _ _ => ?_)
    | with_reducible refine inv_call_cnnl e _ _ _ (by assumption) (fun _ _ => ?_)
    | with_reducible refine inv_check e ?_ (fun _ _ => ?_)
    | split_ifs

/-! ## Lemmas: the allocators overwrite what a previous call left -/

theorem eraseAssignedRFFT1d_prime (q : FFTPlan) : (eraseAssignedRFFT1d q).prime = q.prime := by
  unfold eraseAssignedRFFT1d
  split_ifs <;> rfl

/-- The allocators of execRFFT1d read none of the roles they assign. -/
theorem configuredRFFT1d_erase (env : Env) (q : FFTPlan) (input workspace output : Addr) :
    configuredRFFT1d env (eraseAssignedRFFT1d q) input workspace output =
      configuredRFFT1d env q input workspace output := by
  unfold configuredRFFT1d
  rw [eraseAssignedRFFT1d_prime]
  cases hp : q.prime
  · simp only [Bool.false_eq_true, ↓reduceIte, eraseAssignedRFFT1d, hp,
      configureRFFT1dWorkspaceAddrs]
    by_cases hn : q.n0 > q.inembed0 <;> simp [hn]
  · simp only [↓reduceIte, eraseAssignedRFFT1d, hp, configureRFFT1dMatmulWorkspaceAddrs,
      configureRFFT1dMatmulWorkspaceAddrsAux]

/-- The allocators of execRFFT1d change nothing but the roles they assign. -/
theorem eraseAssignedRFFT1d_configured (env : Env) (q : FFTPlan)
    (input workspace output : Addr) :
    eraseAssignedRFFT1d (configuredRFFT1d env q input workspace output) =
      eraseAssignedRFFT1d q := by
  unfold configuredRFFT1d
  cases hp : q.prime
  · simp only [Bool.false_eq_true, ↓reduceIte, eraseAssignedRFFT1d, hp,
      configureRFFT1dWorkspaceAddrs]
    by_cases hn : q.n0 > q.inembed0 <;> simp [hn]
  · simp only [↓reduceIte, eraseAssignedRFFT1d, hp, configureRFFT1dMatmulWorkspaceAddrs,
      configureRFFT1dMatmulWorkspaceAddrsAux]

/-- Two plans that agree up to the assigned roles get the same address table. -/
theorem configuredRFFT1d_congr (env : Env) (p q : FFTPlan) (input workspace output : Addr)
    (h : eraseAssignedRFFT1d q = eraseAssignedRFFT1d p) :
    configuredRFFT1d env q input workspace output =
      configuredRFFT1d env p input workspace output := by
  rw [← configuredRFFT1d_erase env q, h, configuredRFFT1d_erase]

/-- The run of execRFFT1d from the plan the allocator leaves. -/
theorem execRFFT1d_eq_configured (env : Env) (be : Backend) (p : FFTPlan) (input : Addr)
    (scale_factor : CFloat) (workspace output : Addr) (trace : List Call) :
    execRFFT1d env be p input scale_factor workspace output trace =
      runStages (execRFFT1dStages be p.prime input output scale_factor)
        ⟨configuredRFFT1d env p input workspace output, trace⟩ := by
  rw [execRFFT1d_eq_runStages]
  rfl

/-- Two plans that agree up to the assigned roles run alike. -/
theorem execRFFT1d_congr (env : Env) (be : Backend) (p q : FFTPlan) (input : Addr)
    (scale_factor : CFloat) (workspace output : Addr) (trace : List Call)
    (h : eraseAssignedRFFT1d q = eraseAssignedRFFT1d p) :
    execRFFT1d env be q input scale_factor workspace output trace =
      execRFFT1d env be p input scale_factor workspace output trace := by
  have hp : q.prime = p.prime := by
    rw [← eraseAssignedRFFT1d_prime q, h, eraseAssignedRFFT1d_prime]
  rw [execRFFT1d_eq_configured, execRFFT1d_eq_configured, hp,
    configuredRFFT1d_congr env p q input workspace output h]

theorem eraseAssignedRFFT1d_redirect (q : FFTPlan) (hp : q.prime = false) :
    eraseAssignedRFFT1d
        { q with mlu_addrs := { q.mlu_addrs with input := q.mlu_addrs.input_pad_addr } } =
      eraseAssignedRFFT1d q := by
  simp [eraseAssignedRFFT1d, hp]

theorem execRFFT1d_padBlock_inv (be : Backend) (s : ExecState) (x : FFTPlan)
    (hx : x.prime = false) (hs : eraseAssignedRFFT1d s.fft_plan = x) :
    eraseAssignedRFFT1d (execRFFT1d_padBlock be s).2.fft_plan = x := by
  unfold execRFFT1d_padBlock
  split_ifs
  · refine inv_check _ (padRFFT1dContiguousInput_inv _ be s x hs) (fun s1 h1 => ?_)
    have hp1 : s1.fft_plan.prime = false := by
      rw [← eraseAssignedRFFT1d_prime, h1, hx]
    simp only []
    rw [eraseAssignedRFFT1d_redirect _ hp1]
    exact h1
  · exact hs

/-- Whatever a call of execRFFT1d returns, it leaves the plan as it found it
up to the roles its allocator assigns. -/
theorem execRFFT1d_inv (env : Env) (be : Backend) (p : FFTPlan) (input : Addr)
    (scale_factor : CFloat) (workspace output : Addr) (trace : List Call) :
    eraseAssignedRFFT1d
        (execRFFT1d env be p input scale_factor workspace output trace).2.fft_plan =
      eraseAssignedRFFT1d p := by
  have hc := eraseAssignedRFFT1d_configured env p input workspace output
  unfold configuredRFFT1d at hc
  unfold execRFFT1d
  cases hp : p.prime
  · simp only [hp, Bool.false_eq_true, ↓reduceIte] at hc ⊢
    refine inv_check _ (makeRFFT1dContiguousInput_inv _ be input _ _ hc) (fun s1 h1 => ?_)
    refine inv_check _ (execRFFT1d_padBlock_inv be s1 _
      (by rw [eraseAssignedRFFT1d_prime, hp]) h1) (fun s2 h2 => ?_)
    refine inv_check _ (execFFTr2c1d_inv _ be _ s2 _ h2) (fun s3 h3 => ?_)
    refine inv_check _ (scaleOutput_inv _ be _ _ s3 _ h3) (fun s4 h4 => ?_)
    refine inv_check _ (makeRFFT1dContiguousOutput_inv _ be _ s4 _ h4) (fun s5 h5 => ?_)
    exact h5
  · simp only [hp, ↓reduceIte] at hc ⊢
    refine inv_check _ (makeRFFT1dContiguousInput_inv _ be input _ _ hc) (fun s1 h1 => ?_)
    refine inv_check _ (padRFFT1dContiguousInput_inv _ be s1 _ h1) (fun s2 h2 => ?_)
    refine inv_check _ (transposeRFFT1dPaddedInput_inv _ be s2 _ h2) (fun s3 h3 => ?_)
    refine inv_check _ (computeRFFT1dMatmulResult_inv _ be _ s3 _ h3) (fun s4 h4 => ?_)
    refine inv_check _ (mergeRFFT1dOutput_inv _ be _ s4 _ h4) (fun s5 h5 => ?_)
    refine inv_check _ (makeRFFT1dContiguousOutput_inv _ be _ s5 _ h5) (fun s6 h6 => ?_)
    exact h6

theorem eraseAssignedRFFT2d_strategy (q : FFTPlan) :
    (eraseAssignedRFFT2d q).fft_strategy = q.fft_strategy := rfl

/-- The allocator of execRFFT2d reads none of the roles it assigns. -/
theorem configureRFFT2dWorkspaceAddrs_erase (env : Env) (q : FFTPlan)
    (input workspace output : Addr) :
    configureRFFT2dWorkspaceAddrs env (eraseAssignedRFFT2d q) input workspace output =
      configureRFFT2dWorkspaceAddrs env q input workspace output := by
  unfold configureRFFT2dWorkspaceAddrs eraseAssignedRFFT2d
  by_cases hpad : q.n0 > q.inembed0 ∨ q.n1 > q.inembed1 <;>
  by_cases hm : q.fft_strategy = CNFFT_FUNC_MANY_DIST1_2D <;>
  by_cases ht : q.fft_strategy = CNFFT_FUNC_TWO_LEVEL_STOCKHAM <;>
  simp [hpad, hm, ht]

/-- The allocator of execRFFT2d changes nothing but the roles it assigns. -/
theorem eraseAssignedRFFT2d_configure (env : Env) (q : FFTPlan)
    (input workspace output : Addr) :
    eraseAssignedRFFT2d (configureRFFT2dWorkspaceAddrs env q input workspace output) =
      eraseAssignedRFFT2d q := by
  unfold configureRFFT2dWorkspaceAddrs eraseAssignedRFFT2d
  by_cases hpad : q.n0 > q.inembed0 ∨ q.n1 > q.inembed1 <;>
  by_cases hm : q.fft_strategy = CNFFT_FUNC_MANY_DIST1_2D <;>
  by_cases ht : q.fft_strategy = CNFFT_FUNC_TWO_LEVEL_STOCKHAM <;>
  simp [hpad, hm, ht]

theorem configureRFFT2dWorkspaceAddrs_congr (env : Env) (p q : FFTPlan)
    (input workspace output : Addr) (h : eraseAssignedRFFT2d q = eraseAssignedRFFT2d p) :
    configureRFFT2dWorkspaceAddrs env q input workspace output =
      configureRFFT2dWorkspaceAddrs env p input workspace output := by
  rw [← configureRFFT2dWorkspaceAddrs_erase env q, h, configureRFFT2dWorkspaceAddrs_erase]

/-- Two plans that agree up to the assigned roles run alike. -/
theorem execRFFT2d_congr (env : Env) (be : Backend) (p q : FFTPlan) (input : Addr)
    (scale_factor : CFloat) (workspace output : Addr) (trace : List Call)
    (h : eraseAssignedRFFT2d q = eraseAssignedRFFT2d p) :
    execRFFT2d env be q input scale_factor workspace output trace =
      execRFFT2d env be p input scale_factor workspace output trace := by
  unfold execRFFT2d
  rw [configureRFFT2dWorkspaceAddrs_congr env p q input workspace output h]

theorem eraseAssignedRFFT2d_advance (idist odist : Nat) (q : FFTPlan)
    (hs : q.fft_strategy = CNFFT_FUNC_TWO_LEVEL_STOCKHAM) :
    eraseAssignedRFFT2d (advanceBatch idist odist ⟨q, []⟩).fft_plan = eraseAssignedRFFT2d q := by
  simp [eraseAssignedRFFT2d, advanceBatch, hs]

theorem eraseAssignedRFFT2d_rewind (idist odist : Nat) (q : FFTPlan)
    (hs : q.fft_strategy = CNFFT_FUNC_TWO_LEVEL_STOCKHAM) :
    eraseAssignedRFFT2d (rewindBatch idist odist ⟨q, []⟩).fft_plan = eraseAssignedRFFT2d q := by
  simp [eraseAssignedRFFT2d, rewindBatch, hs]

theorem strategy_of_erased {q x : FFTPlan} (h : eraseAssignedRFFT2d q = x)
    (hx : x.fft_strategy = CNFFT_FUNC_TWO_LEVEL_STOCKHAM) :
    q.fft_strategy = CNFFT_FUNC_TWO_LEVEL_STOCKHAM := by
  rw [← eraseAssignedRFFT2d_strategy q, h, hx]

theorem batchLoop_inv {body : Stage} (x : FFTPlan)
    (hx : x.fft_strategy = CNFFT_FUNC_TWO_LEVEL_STOCKHAM)
    (hb : ∀ s, eraseAssignedRFFT2d s.fft_plan = x → eraseAssignedRFFT2d (body s).2.fft_plan = x)
    (idist odist count : Nat) (s : ExecState) (hs : eraseAssignedRFFT2d s.fft_plan = x) :
    eraseAssignedRFFT2d (batchLoop body idist odist count s).2.fft_plan = x := by
  induction count generalizing s with
  | zero => exact hs
  | succ k ih =>
    simp only [batchLoop]
    refine inv_check _ (hb s hs) (fun s1 h1 => ih _ ?_)
    have := eraseAssignedRFFT2d_advance idist odist s1.fft_plan (strategy_of_erased h1 hx)
    exact this.trans h1

theorem rewind_inv (x : FFTPlan) (hx : x.fft_strategy = CNFFT_FUNC_TWO_LEVEL_STOCKHAM)
    (idist odist : Nat) (s : ExecState) (hs : eraseAssignedRFFT2d s.fft_plan = x) :
    eraseAssignedRFFT2d (MLUOP_STATUS_SUCCESS, rewindBatch idist odist s).2.fft_plan = x :=
  (eraseAssignedRFFT2d_rewind idist odist s.fft_plan (strategy_of_erased hs hx)).trans hs

theorem execRFFT2d_TWO_LEVEL_STOCKHAM_inv (env : Env) (be : Backend) (input : Addr)
    (s : ExecState) (x : FFTPlan) (hx : x.fft_strategy = CNFFT_FUNC_TWO_LEVEL_STOCKHAM)
    (hs : eraseAssignedRFFT2d s.fft_plan = x) :
    eraseAssignedRFFT2d (execRFFT2d_TWO_LEVEL_STOCKHAM env be input s).2.fft_plan = x := by
  unfold execRFFT2d_TWO_LEVEL_STOCKHAM
  simp only []
  refine inv_check _ (makeRFFT2dContiguousInput_inv _ be input s x hs) (fun s1 h1 => ?_)
  split_ifs
  · refine inv_check _ (padDegenerate2d_inv _ be _ _ _ s1 x h1) (fun s2 h2 => ?_)
    refine inv_check _ (batchLoop_inv x hx
      (fun s h => launchRFFT2dButterflyColumn_inv _ be s x h) _ _ _ s2 h2) (fun s3 h3 => ?_)
    exact rewind_inv x hx _ _ s3 h3
  · refine inv_check _ (batchLoop_inv x hx
      (fun s h => launchRFFT2dButterflyRow_inv _ be s x h) _ _ _ s1 h1) (fun s3 h3 => ?_)
    exact rewind_inv x hx _ _ s3 h3
  · exact padDegenerate2d_inv _ be _ _ _ s1 x h1
  · refine inv_check _ (batchLoop_inv x hx
      (fun s h => inv_check _ (launchRFFT2dButterflyRow_inv _ be s x h)
        (fun s' h' => launchRFFT2dButterflyColumn_inv _ be s' x h')) _ _ _ s1 h1)
      (fun s3 h3 => ?_)
    exact rewind_inv x hx _ _ s3 h3

/-- Whatever a call of execRFFT2d returns, it leaves the plan as it found it
up to the roles its allocator assigns. -/
theorem execRFFT2d_inv (env : Env) (be : Backend) (p : FFTPlan) (input : Addr)
    (scale_factor : CFloat) (workspace output : Addr) (trace : List Call) :
    eraseAssignedRFFT2d
        (execRFFT2d env be p input scale_factor workspace output trace).2.fft_plan =
      eraseAssignedRFFT2d p := by
  have hc := eraseAssignedRFFT2d_configure env p input workspace output
  unfold execRFFT2d
  simp only []
  have hblock : ∀ s : ExecState, eraseAssignedRFFT2d s.fft_plan = eraseAssignedRFFT2d p →
      eraseAssignedRFFT2d (execRFFT2d_strategyBlock env be input scale_factor s).2.fft_plan =
        eraseAssignedRFFT2d p := by
    intro s hs
    unfold execRFFT2d_strategyBlock
    split_ifs with h1 h2
    · exact execRFFT2d_TWO_LEVEL_STOCKHAM_inv env be input s _
        (by rw [← hs]; exact h1) hs
    · refine inv_check _ (computeFFT2dMatMulRowR2C_inv _ be _ s _ hs) (fun s1 h1 => ?_)
      refine inv_check _ (computeFFT2dMatMulColumnR2C_inv _ be _ s1 _ h1) (fun s2 h2 => ?_)
      exact h2
    · exact hs
  refine inv_check _ (hblock _ hc) (fun s1 h1 => ?_)
  refine inv_check _ (scaleOutput_inv _ be _ _ s1 _ h1) (fun s2 h2 => ?_)
  refine inv_check _ ?_ (fun s3 h3 => h3)
  unfold execRFFT2d_outputBlock
  split_ifs
  · exact makeRFFT2dContiguousOutput_inv _ be _ s2 _ h2
  · exact h2

/-! ## Claims, continued -/

/-- C11: the output role and the writeback copy.  For every plan run by
execRFFT1d (output role `output_contiguous_addr` on the matmul-family path,
`mlu_addrs.output` on the butterfly path) and for every two-level Stockham
plan run by execRFFT2d (output role `mlu_addrs.output`): with a contiguous
output the role is the caller's output pointer and no call of a run is a
writeback copy; with a strided output the role is an offset from the workspace
pointer, the writeback copies of a run are an initial segment of the single
copy from the role into the caller's output, and a successful run issues
exactly that copy, followed by nothing but releases of descriptors and
handles.  For a many-distance-1 plan the role is the caller's output pointer
and no call of a run is a writeback copy.  The offset of a strided role need
not lie inside the workspace: for the direct-matmul plan of length 4, batch 1,
with 4 output elements and a strided output, makeRFFT1dPolicy succeeds with a
workspace of 24 bytes (it counts `batch * (n/2+1) = 3` output elements), and
configureRFFT1dMatmulWorkspaceAddrs, carving `onum = 4` elements back from the
end, places the role 8 bytes before the workspace pointer. -/
theorem C11_output_role_and_writeback (env : Env) (be : Backend) (plan : FFTPlan)
    (input : Addr) (scale_factor : CFloat) (workspace output : Addr) :
    (plan.is_output_contiguous = true →
      outputRoleRFFT1d (configuredRFFT1d env plan input workspace output) = output ∧
      ∀ c ∈ (execRFFT1d env be plan input scale_factor workspace output []).2.trace,
        c.isOutputCopy = false) ∧
    (plan.is_output_contiguous = false →
      (outputRoleRFFT1d (configuredRFFT1d env plan input workspace output)).base =
        workspace.base ∧
      (execRFFT1d env be plan input scale_factor workspace output []).2.trace.filter
          Call.isOutputCopy <+:
        [writebackCallRFFT1d (configuredRFFT1d env plan input workspace output) output] ∧
      ((execRFFT1d env be plan input scale_factor workspace output []).1 =
          MLUOP_STATUS_SUCCESS →
        (execRFFT1d env be plan input scale_factor workspace output []).2.trace.filter
            Call.isOutputCopy =
          [writebackCallRFFT1d (configuredRFFT1d env plan input workspace output) output] ∧
        ∃ pre post,
          (execRFFT1d env be plan input scale_factor workspace output []).2.trace =
            pre ++ [writebackCallRFFT1d (configuredRFFT1d env plan input workspace output)
              output] ++ post ∧
          (∀ c ∈ pre, c.isOutputCopy = false) ∧ post.all Call.isRelease = true)) ∧
    (plan.fft_strategy = CNFFT_FUNC_TWO_LEVEL_STOCKHAM →
      (plan.is_output_contiguous = true →
        (configureRFFT2dWorkspaceAddrs env plan input workspace output).mlu_addrs.output =
          output ∧
        ∀ c ∈ (execRFFT2d env be plan input scale_factor workspace output []).2.trace,
          c.isOutputCopy = false) ∧
      (plan.is_output_contiguous = false →
        (configureRFFT2dWorkspaceAddrs env plan input workspace output).mlu_addrs.output.base =
          workspace.base ∧
        (execRFFT2d env be plan input scale_factor workspace output []).2.trace.filter
            Call.isOutputCopy <+:
          [writebackCallRFFT2d (configureRFFT2dWorkspaceAddrs env plan input workspace output)
            output] ∧
        ((execRFFT2d env be plan input scale_factor workspace output []).1 =
            MLUOP_STATUS_SUCCESS →
          (execRFFT2d env be plan input scale_factor workspace output []).2.trace.filter
              Call.isOutputCopy =
            [writebackCallRFFT2d
              (configureRFFT2dWorkspaceAddrs env plan input workspace output) output] ∧
          ∃ pre post,
            (execRFFT2d env be plan input scale_factor workspace output []).2.trace =
              pre ++ [writebackCallRFFT2d
                (configureRFFT2dWorkspaceAddrs env plan input workspace output) output] ++
                post ∧
            (∀ c ∈ pre, c.isOutputCopy = false) ∧ post.all Call.isRelease = true))) ∧
    (plan.fft_strategy = CNFFT_FUNC_MANY_DIST1_2D →
      (configureRFFT2dWorkspaceAddrs env plan input workspace output).mlu_addrs.output =
        output ∧
      ∀ c ∈ (execRFFT2d env be plan input scale_factor workspace output []).2.trace,
        c.isOutputCopy = false) ∧
    ((makeRFFT1dPolicy (exampleEnv CNFFT_FUNC_MATMUL) exampleHandle
        (examplePlan 4 1 4 4 true false)).1 = MLUOP_STATUS_SUCCESS ∧
      (makeRFFT1dPolicy (exampleEnv CNFFT_FUNC_MATMUL) exampleHandle
        (examplePlan 4 1 4 4 true false)).2.is_output_contiguous = false ∧
      (makeRFFT1dPolicy (exampleEnv CNFFT_FUNC_MATMUL) exampleHandle
        (examplePlan 4 1 4 4 true false)).2.workspace_size = 24 ∧
      exampleWorkspace = ⟨Base.workspace, 0⟩ ∧
      outputRoleRFFT1d (configuredRFFT1d (exampleEnv CNFFT_FUNC_MATMUL)
        (makeRFFT1dPolicy (exampleEnv CNFFT_FUNC_MATMUL) exampleHandle
          (examplePlan 4 1 4 4 true false)).2
        exampleInput exampleWorkspace exampleOutput) = ⟨Base.workspace, -8⟩) := by
  obtain ⟨_, heq1, _, hpre1⟩ := execRFFT1d_sim env be plan input scale_factor workspace output []
  obtain ⟨_, heq2, _, hpre2⟩ := execRFFT2d_sim env be plan input scale_factor workspace output []
  obtain ⟨A, Sc, cfg0, htr, hA, hSc, g1, g2, g3, g4, g5, g6, g7, g8, g9, g10, g11⟩ :=
    execRFFT1d_ok_split env be.heuristicWorkspaceSize plan input scale_factor workspace output
  obtain ⟨S, htr2, hS, -⟩ :=
    execRFFT2d_ok_split env be.heuristicWorkspaceSize plan input scale_factor workspace output
  have hcopy1 := writebackCallRFFT1d_congr
    (p := configuredRFFT1d env plan input workspace output) (q := cfg0) output
    (g1.trans (configuredRFFT1d_fields env plan input workspace output).1.symm)
    (by rw [g3]; unfold configuredRFFT1d; split_ifs <;> rfl)
    (by rw [g4]; unfold configuredRFFT1d; split_ifs <;> rfl)
    (by rw [g5]; unfold configuredRFFT1d; split_ifs <;> rfl)
    (by rw [g6]; unfold configuredRFFT1d; split_ifs <;> rfl)
    (by rw [g8]; unfold configuredRFFT1d; split_ifs <;> rfl)
    (by rw [g9]; unfold configuredRFFT1d; split_ifs <;> rfl) g10 g11
  have hASc : (A ++ Sc).all (Call.kindIn [CallKind.housekeeping, CallKind.inputCopy,
      CallKind.pad, CallKind.transpose, CallKind.matmul, CallKind.kernel, CallKind.scale])
      = true := by
    refine all_kinds_append hA (b := [CallKind.housekeeping, CallKind.scale]) ?_
      (by decide) (by decide)
    rw [hSc]
    split_ifs
    · rfl
    · exact execRFFT1d_scaleBlock_kinds _ _ _
  have hSSc : (S ++ callsOf (execRFFT2d_scaleBlock (Backend.allSucceed be.heuristicWorkspaceSize)
      scale_factor) (configureRFFT2dWorkspaceAddrs env plan input workspace output)).all
      (Call.kindIn [CallKind.housekeeping, CallKind.inputCopy, CallKind.pad, CallKind.matmul,
        CallKind.alloc, CallKind.kernel, CallKind.scale]) = true :=
    all_kinds_append hS (execRFFT2d_scaleBlock_kinds _ _ _) (by decide) (by decide)
  rw [← List.append_assoc] at htr htr2
  have hsh1 := makeRFFT1dContiguousOutput_shape be.heuristicWorkspaceSize output cfg0
  have hsh2 := makeRFFT2dContiguousOutput_shape be.heuristicWorkspaceSize output
    (configureRFFT2dWorkspaceAddrs env plan input workspace output)
  refine ⟨fun hc => ⟨?_, fun c hm => ?_⟩, fun hc => ⟨?_, ?_⟩, fun hs => ⟨fun hc =>
    ⟨?_, fun c hm => ?_⟩, fun hc => ⟨?_, ?_⟩⟩, fun hs => ⟨?_, fun c hm => ?_⟩, by decide⟩
  · unfold outputRoleRFFT1d configuredRFFT1d
    cases hp : plan.prime <;>
      simp [configureRFFT1dWorkspaceAddrs, configureRFFT1dMatmulWorkspaceAddrs,
        configureRFFT1dMatmulWorkspaceAddrsAux, hp, hc]
  · have hm0 := hpre1.subset hm
    rw [htr, hsh1.1 (g2.trans hc), List.append_nil] at hm0
    exact no_output_copy_of_kinds hASc (by decide) c hm0
  · unfold outputRoleRFFT1d configuredRFFT1d
    cases hp : plan.prime <;>
      simp [configureRFFT1dWorkspaceAddrs, configureRFFT1dMatmulWorkspaceAddrs,
        configureRFFT1dMatmulWorkspaceAddrsAux, hp, hc, Addr.add, Addr.sub]
  · obtain ⟨pre, post, hO, hpr, hpo⟩ := hsh1.2 (g2.trans hc)
    rw [hcopy1] at hO
    obtain ⟨hdec, hfil⟩ := writeback_last hASc (by decide) hO hpr hpo
    rw [← htr] at hdec hfil
    refine ⟨filter_prefix_singleton hpre1 (hfil rfl), fun hr => ?_⟩
    rw [heq1 hr]
    exact ⟨hfil rfl, hdec⟩
  · simp [configureRFFT2dWorkspaceAddrs, hs, hc]
  · have hm0 := hpre2.subset hm
    rw [htr2, if_pos hs, hsh2.1 (Or.inl hc), List.append_nil] at hm0
    exact no_output_copy_of_kinds hSSc (by decide) c hm0
  · simp [configureRFFT2dWorkspaceAddrs, hs, hc]
    (try split_ifs) <;> simp [Addr.add]
  · obtain ⟨pre, post, hO, hpr, hpo⟩ := hsh2.2 hc
      (by rw [(configureRFFT2dWorkspaceAddrs_fields env plan input workspace output).1, hs]
          decide)
    rw [if_pos hs] at htr2
    obtain ⟨hdec, hfil⟩ := writeback_last hSSc (by decide) hO hpr hpo
    rw [← htr2] at hdec hfil
    refine ⟨filter_prefix_singleton hpre2 (hfil rfl), fun hr => ?_⟩
    rw [heq2 hr]
    exact ⟨hfil rfl, hdec⟩
  · simp [configureRFFT2dWorkspaceAddrs, hs]
  · have hm0 := hpre2.subset hm
    rw [htr2, if_neg (by rw [hs]; decide), List.append_nil] at hm0
    exact no_output_copy_of_kinds hSSc (by decide) c hm0

/-- C12: the scale block.  On the butterfly path of execRFFT1d
(`prime = false`) and for every plan of execRFFT2d: a scale call occurs in a
run only if `scale_factor != 1.0`, and it is then the in-place transform on
`mlu_addrs.output` with `alpha = (scale_factor, 0)` and `beta = (0, 0)` over
`[batch, n/2+1]` (1D) or `[batch, n0, n1/2+1]` (2D); a successful run with
`scale_factor != 1.0` consists of calls that are neither a scale nor a
writeback copy, that scale call, and then housekeeping and the writeback copy
only; with `scale_factor = 1.0` the executor is the run of its stage list with
the scale block erased.  Under the many-distance-1 strategy every matrix
multiply of a run has `alpha = 1`, and a successful run issues two of them. -/
theorem C12_scale_applied_once_after_the_transform (env : Env) (be : Backend) (plan : FFTPlan)
    (input : Addr) (scale_factor : CFloat) (workspace output : Addr) :
    (plan.prime = false →
      (∀ c ∈ (execRFFT1d env be plan input scale_factor workspace output []).2.trace,
        c.isScale = true →
          scale_factor ≠ CFloat.one ∧
          c = scaleCall scale_factor [plan.batch, ((plan.n0 / 2 + 1 : Nat) : Int)]
            (configuredRFFT1d env plan input workspace output)) ∧
      ((execRFFT1d env be plan input scale_factor workspace output []).1 =
          MLUOP_STATUS_SUCCESS → scale_factor ≠ CFloat.one →
        ∃ pre post,
          (execRFFT1d env be plan input scale_factor workspace output []).2.trace =
            pre ++ [scaleCall scale_factor [plan.batch, ((plan.n0 / 2 + 1 : Nat) : Int)]
              (configuredRFFT1d env plan input workspace output)] ++ post ∧
          pre.all (Call.kindIn [CallKind.housekeeping, CallKind.inputCopy, CallKind.pad,
            CallKind.transpose, CallKind.matmul, CallKind.alloc, CallKind.kernel]) = true ∧
          post.all (Call.kindIn [CallKind.housekeeping, CallKind.outputCopy]) = true) ∧
      (scale_factor = CFloat.one →
        execRFFT1d env be plan input scale_factor workspace output [] =
          runStages ((execRFFT1dStages be false input output scale_factor).eraseIdx 3)
            ⟨configuredRFFT1d env plan input workspace output, []⟩)) ∧
    ((∀ c ∈ (execRFFT2d env be plan input scale_factor workspace output []).2.trace,
        c.isScale = true →
          scale_factor ≠ CFloat.one ∧
          c = scaleCall scale_factor [plan.batch, plan.n0, ((plan.n1 / 2 + 1 : Nat) : Int)]
            (configureRFFT2dWorkspaceAddrs env plan input workspace output)) ∧
      ((execRFFT2d env be plan input scale_factor workspace output []).1 =
          MLUOP_STATUS_SUCCESS → scale_factor ≠ CFloat.one →
        ∃ pre post,
          (execRFFT2d env be plan input scale_factor workspace output []).2.trace =
            pre ++ [scaleCall scale_factor
              [plan.batch, plan.n0, ((plan.n1 / 2 + 1 : Nat) : Int)]
              (configureRFFT2dWorkspaceAddrs env plan input workspace output)] ++ post ∧
          pre.all (Call.kindIn [CallKind.housekeeping, CallKind.inputCopy, CallKind.pad,
            CallKind.transpose, CallKind.matmul, CallKind.alloc, CallKind.kernel]) = true ∧
          post.all (Call.kindIn [CallKind.housekeeping, CallKind.outputCopy]) = true) ∧
      (scale_factor = CFloat.one →
        execRFFT2d env be plan input scale_factor workspace output [] =
          runStages
            ((execRFFT2dStages env be
                (configureRFFT2dWorkspaceAddrs env plan input workspace output)
                input output scale_factor).eraseIdx
              ((execRFFT2dStages env be
                (configureRFFT2dWorkspaceAddrs env plan input workspace output)
                input output scale_factor).length - 2))
            ⟨configureRFFT2dWorkspaceAddrs env plan input workspace output, []⟩)) ∧
    (plan.fft_strategy = CNFFT_FUNC_MANY_DIST1_2D →
      (∀ c ∈ (execRFFT2d env be plan input scale_factor workspace output []).2.trace,
        ∀ a, c.matmulAlpha = some a → a = CFloat.one) ∧
      ((execRFFT2d env be plan input scale_factor workspace output []).1 =
          MLUOP_STATUS_SUCCESS →
        ((execRFFT2d env be plan input scale_factor workspace output []).2.trace.filter
          Call.isMatmul).map Call.matmulAlpha = [some CFloat.one, some CFloat.one])) := by
  obtain ⟨_, heq1, _, hpre1⟩ := execRFFT1d_sim env be plan input scale_factor workspace output []
  obtain ⟨_, heq2, _, hpre2⟩ := execRFFT2d_sim env be plan input scale_factor workspace output []
  obtain ⟨A, Sc, cfg0, htr, hA, hSc, g1, g2, g3, g4, g5, g6, g7, g8, g9, g10, g11⟩ :=
    execRFFT1d_ok_split env be.heuristicWorkspaceSize plan input scale_factor workspace output
  obtain ⟨S, htr2, hS, hSmany⟩ :=
    execRFFT2d_ok_split env be.heuristicWorkspaceSize plan input scale_factor workspace output
  have hO1 := makeRFFT1dContiguousOutput_kinds be.heuristicWorkspaceSize output cfg0
  have hO2 : (if plan.fft_strategy = CNFFT_FUNC_TWO_LEVEL_STOCKHAM then
      callsOf (makeRFFT2dContiguousOutput (Backend.allSucceed be.heuristicWorkspaceSize) output)
        (configureRFFT2dWorkspaceAddrs env plan input workspace output)
      else []).all (Call.kindIn [CallKind.housekeeping, CallKind.outputCopy]) = true := by
    split_ifs
    · exact makeRFFT2dContiguousOutput_kinds _ _ _
    · rfl
  have hcall1 : scaleCall scale_factor [(cfg0.batch : Int), ((cfg0.n0 / 2 + 1 : Nat) : Int)] cfg0 =
      scaleCall scale_factor [plan.batch, ((plan.n0 / 2 + 1 : Nat) : Int)]
        (configuredRFFT1d env plan input workspace output) :=
    scaleCall_congr scale_factor (by rw [g3, g4])
      (by rw [g6]; unfold configuredRFFT1d; split_ifs <;> rfl)
      (by rw [g7]; unfold configuredRFFT1d; split_ifs <;> rfl) g11
  rw [execRFFT2d_scaleBlock_calls] at htr2
  refine ⟨fun hp => ?_, ⟨fun c hc hs => ?_, fun hr h1 => ?_, fun h1 => ?_⟩, fun hs => ⟨?_, ?_⟩⟩
  · rw [hp] at hSc
    simp only [Bool.false_eq_true, ↓reduceIte] at hSc
    rw [execRFFT1d_scaleBlock_calls] at hSc
    refine ⟨fun c hc hs => ?_, fun hr h1 => ?_, fun h1 => ?_⟩
    · have hc0 := hpre1.subset hc
      rw [htr] at hc0
      have hin := scale_mem_block hA (by decide) hO1 hc0 hs
      rw [hSc] at hin
      have := scale_of_block _ _ _ _ c hin hs
      rw [hcall1] at this
      exact this
    · obtain ⟨pre, post, he, hpr, hpo⟩ :=
        (scaleOutput_shape be.heuristicWorkspaceSize scale_factor
          [(cfg0.batch : Int), ((cfg0.n0 / 2 + 1 : Nat) : Int)] cfg0).2 h1
      rw [hcall1] at he
      rw [heq1 hr, htr]
      exact scale_between hA (by decide) hO1 (hSc.trans he) hpr hpo
    · subst h1
      exact execRFFT1d_unscaled env be plan input workspace output [] hp
  · have hc0 := hpre2.subset hc
    rw [htr2] at hc0
    have hin := scale_mem_block hS (by decide) hO2 hc0 hs
    exact scale_of_block _ _ _ _ c hin hs
  · obtain ⟨pre, post, he, hpr, hpo⟩ :=
      (scaleOutput_shape be.heuristicWorkspaceSize scale_factor
        [((configureRFFT2dWorkspaceAddrs env plan input workspace output).batch : Int),
          (configureRFFT2dWorkspaceAddrs env plan input workspace output).n0,
          (((configureRFFT2dWorkspaceAddrs env plan input workspace output).n1 / 2 + 1 : Nat)
            : Int)]
        (configureRFFT2dWorkspaceAddrs env plan input workspace output)).2 h1
    rw [heq2 hr, htr2]
    exact scale_between hS (by decide) hO2 he hpr hpo
  · subst h1
    exact execRFFT2d_unscaled env be plan input workspace output []
  · have hS2 := hSmany hs
    have hfil : ((execRFFT2d env (Backend.allSucceed be.heuristicWorkspaceSize) plan input
        scale_factor workspace output []).2.trace.filter Call.isMatmul).map Call.matmulAlpha =
        List.replicate 2 (some CFloat.one) := by
      rw [htr2, hS2, if_neg (by rw [hs]; decide), List.append_nil]
      have hsc : (callsOf (scaleOutput (Backend.allSucceed be.heuristicWorkspaceSize)
          scale_factor
          [((configureRFFT2dWorkspaceAddrs env plan input workspace output).batch : Int),
            (configureRFFT2dWorkspaceAddrs env plan input workspace output).n0,
            (((configureRFFT2dWorkspaceAddrs env plan input workspace output).n1 / 2 + 1 : Nat)
              : Int)])
          (configureRFFT2dWorkspaceAddrs env plan input workspace output)).filter
          Call.isMatmul = [] :=
        filter_kind_nil (scaleOutput_kinds _ _ _ _) Call.isMatmul
          (fun c hc hk => by
            rw [(isMatmul_iff_kind c).1 hc] at hk
            exact absurd hk (by decide))
      rw [List.filter_append, List.filter_append, hsc, List.append_nil, List.map_append,
        computeFFT2dMatMulRowR2C_alpha, computeFFT2dMatMulColumnR2C_alpha]
      rfl
    intro c hc a ha
    exact alpha_of_filter hfil (hpre2.subset hc) a ha
  · intro hr
    have hS2 := hSmany hs
    rw [heq2 hr, htr2, hS2, if_neg (by rw [hs]; decide), List.append_nil]
    have hsc : (callsOf (scaleOutput (Backend.allSucceed be.heuristicWorkspaceSize)
        scale_factor
        [((configureRFFT2dWorkspaceAddrs env plan input workspace output).batch : Int),
          (configureRFFT2dWorkspaceAddrs env plan input workspace output).n0,
          (((configureRFFT2dWorkspaceAddrs env plan input workspace output).n1 / 2 + 1 : Nat)
            : Int)])
        (configureRFFT2dWorkspaceAddrs env plan input workspace output)).filter
        Call.isMatmul = [] :=
      filter_kind_nil (scaleOutput_kinds _ _ _ _) Call.isMatmul
        (fun c hc hk => by
          rw [(isMatmul_iff_kind c).1 hc] at hk
          exact absurd hk (by decide))
    rw [List.filter_append, List.filter_append, hsc, List.append_nil, List.map_append,
      computeFFT2dMatMulRowR2C_alpha, computeFFT2dMatMulColumnR2C_alpha]
    rfl

/-- C13 (code bug): execRFFT2d never calls padRFFT2dContiguousInput.  For a
two-level Stockham plan with both lengths different from 1, whatever its
embedding: no call of a run is a pad; every row or column kernel is launched
with a plan whose `mlu_addrs.input` is the normalised-input role advanced by
whole batch strides and whose `input_pad_addr` is the one the allocator set;
for a contiguous input whose embedding does not exceed the lengths the
normalised-input role is the caller's input pointer, while the
`input_pad_addr` that the allocator sets aside when a length exceeds its
embedding lies in the workspace; and a successful run with a non-empty batch
launches the row kernel on the allocator's plan. -/
theorem C13_two_level_stockham_issues_no_pad (env : Env) (be : Backend) (plan : FFTPlan)
    (input : Addr) (scale_factor : CFloat) (workspace output : Addr)
    (hs : plan.fft_strategy = CNFFT_FUNC_TWO_LEVEL_STOCKHAM)
    (hn0 : plan.n0 ≠ 1) (hn1 : plan.n1 ≠ 1) :
    (∀ c ∈ (execRFFT2d env be plan input scale_factor workspace output []).2.trace,
      c.isPad = false ∧
      ∀ q, c.butterfly2dPlan = some q →
        ∃ i, i < plan.batch ∧
          q.mlu_addrs.input =
            (configureRFFT2dWorkspaceAddrs env plan input workspace output).mlu_addrs.input.add
              ((i * (env.mluOpDataTypeBytes plan.input_dtype * plan.n0 * plan.n1) : Nat) : Int) ∧
          q.mlu_addrs.input_pad_addr =
            (configureRFFT2dWorkspaceAddrs env plan input workspace
              output).mlu_addrs.input_pad_addr) ∧
    (plan.is_input_contiguous = true → plan.inembed0 ≤ plan.n0 → plan.inembed1 ≤ plan.n1 →
      (configureRFFT2dWorkspaceAddrs env plan input workspace output).mlu_addrs.input = input) ∧
    (plan.n0 > plan.inembed0 ∨ plan.n1 > plan.inembed1 →
      (configureRFFT2dWorkspaceAddrs env plan input workspace output).mlu_addrs.input_pad_addr.base
        = workspace.base) ∧
    ((execRFFT2d env be plan input scale_factor workspace output []).1 = MLUOP_STATUS_SUCCESS →
      0 < plan.batch →
      Call.kernelRFFT2dButterflyRow
          (configureRFFT2dWorkspaceAddrs env plan input workspace output) FFTType.RFFT ∈
        (execRFFT2d env be plan input scale_factor workspace output []).2.trace) := by
  obtain ⟨_, heq, _, hpre⟩ := execRFFT2d_sim env be plan input scale_factor workspace output []
  have hcalls := execRFFT2d_ok_stockham_calls env be.heuristicWorkspaceSize plan input
    scale_factor workspace output hs hn0 hn1
  refine ⟨fun c hc => ?_, ?_, ?_, ?_⟩
  · have hc0 := hpre.subset hc
    rw [hcalls] at hc0
    simp only [List.mem_append] at hc0
    rcases hc0 with hc0 | hc0 | hc0 | hc0
    · have hk := makeRFFT2dContiguousInput_kinds be.heuristicWorkspaceSize input
        (configureRFFT2dWorkspaceAddrs env plan input workspace output)
      refine ⟨?_, fun q hq => ?_⟩
      · exact Bool.eq_false_iff.2 fun hp =>
          kind_ne_of_all hk (by decide) hc0 ((isPad_iff_kind c).1 hp)
      · exact absurd (butterfly2dPlan_kind c q hq) (kind_ne_of_all hk (by decide) hc0)
    · obtain ⟨i, hi, hm⟩ := batchLoop_mem (rowColumn_runsTo be.heuristicWorkspaceSize) _ _ _ _ _ hc0
      rw [rowColumn_calls, advancePlan_iterate] at hm
      simp only [List.mem_cons, List.mem_singleton, List.not_mem_nil, or_false] at hm
      rcases hm with hm | hm
      · subst hm
        refine ⟨rfl, fun q hq => ⟨i, hi, ?_⟩⟩
        simp only [Call.butterfly2dPlan, Option.some.injEq] at hq
        subst hq
        exact ⟨rfl, rfl⟩
      · subst hm
        refine ⟨rfl, fun q hq => ⟨i, hi, ?_⟩⟩
        simp only [Call.butterfly2dPlan, Option.some.injEq] at hq
        subst hq
        exact ⟨rfl, rfl⟩
    · have hk := scaleOutput_kinds be.heuristicWorkspaceSize scale_factor
        [(configureRFFT2dWorkspaceAddrs env plan input workspace output).batch,
          (configureRFFT2dWorkspaceAddrs env plan input workspace output).n0,
          (((configureRFFT2dWorkspaceAddrs env plan input workspace output).n1 / 2 + 1 : Nat)
            : Int)]
        (configureRFFT2dWorkspaceAddrs env plan input workspace output)
      refine ⟨?_, fun q hq => ?_⟩
      · exact Bool.eq_false_iff.2 fun hp =>
          kind_ne_of_all hk (by decide) hc0 ((isPad_iff_kind c).1 hp)
      · exact absurd (butterfly2dPlan_kind c q hq) (kind_ne_of_all hk (by decide) hc0)
    · have hk := makeRFFT2dContiguousOutput_kinds be.heuristicWorkspaceSize output
        (configureRFFT2dWorkspaceAddrs env plan input workspace output)
      refine ⟨?_, fun q hq => ?_⟩
      · exact Bool.eq_false_iff.2 fun hp =>
          kind_ne_of_all hk (by decide) hc0 ((isPad_iff_kind c).1 hp)
      · exact absurd (butterfly2dPlan_kind c q hq) (kind_ne_of_all hk (by decide) hc0)
  · intro hc h0 h1
    simp [configureRFFT2dWorkspaceAddrs, hs, hc, h0, h1]
  · intro hpad
    simp [configureRFFT2dWorkspaceAddrs, hs, hpad, Addr.add]
  · intro hr hb
    rw [heq hr, hcalls]
    simp only [List.mem_append]
    right; left
    obtain ⟨k, hk⟩ := Nat.exists_eq_succ_of_ne_zero (Nat.pos_iff_ne_zero.1 hb)
    rw [hk, (runsTo_batchLoop (rowColumn_runsTo be.heuristicWorkspaceSize) _ _ k).2,
      rowColumn_calls]
    simp

/-- C13, failing input: a contiguous two-level Stockham plan of `4 x 4` points
embedded in `2 x 4` elements (`n[0] > inembed[0]`), batch 1.  The run succeeds
and consists of the row and the column kernel launch alone, on a plan whose
input is the caller's unpadded buffer and whose `input_pad_addr` is workspace
offset 256; padRFFT2dContiguousInput on that plan would pad `[1, 2, 4]` to
`[1, 4, 4]` from the caller's input into `input_pad_addr`; no call of the run
is a pad. -/
theorem C13_two_level_stockham_issues_no_pad_witness :
    (examplePlan2d 4 4 1 2 4 true true CNFFT_FUNC_TWO_LEVEL_STOCKHAM).n0 >
        (examplePlan2d 4 4 1 2 4 true true CNFFT_FUNC_TWO_LEVEL_STOCKHAM).inembed0 ∧
      (execRFFT2d (exampleEnv CNFFT_FUNC_TWO_LEVEL_STOCKHAM) exampleBackend
        (examplePlan2d 4 4 1 2 4 true true CNFFT_FUNC_TWO_LEVEL_STOCKHAM) exampleInput
        CFloat.one exampleWorkspace exampleOutput []).1 = MLUOP_STATUS_SUCCESS ∧
      (execRFFT2d (exampleEnv CNFFT_FUNC_TWO_LEVEL_STOCKHAM) exampleBackend
        (examplePlan2d 4 4 1 2 4 true true CNFFT_FUNC_TWO_LEVEL_STOCKHAM) exampleInput
        CFloat.one exampleWorkspace exampleOutput []).2.trace =
        [Call.kernelRFFT2dButterflyRow
            (configureRFFT2dWorkspaceAddrs (exampleEnv CNFFT_FUNC_TWO_LEVEL_STOCKHAM)
              (examplePlan2d 4 4 1 2 4 true true CNFFT_FUNC_TWO_LEVEL_STOCKHAM) exampleInput
              exampleWorkspace exampleOutput) FFTType.RFFT,
          Call.kernelRFFT2dButterflyColumn
            (configureRFFT2dWorkspaceAddrs (exampleEnv CNFFT_FUNC_TWO_LEVEL_STOCKHAM)
              (examplePlan2d 4 4 1 2 4 true true CNFFT_FUNC_TWO_LEVEL_STOCKHAM) exampleInput
              exampleWorkspace exampleOutput) FFTType.FFT_IFFT] ∧
      (configureRFFT2dWorkspaceAddrs (exampleEnv CNFFT_FUNC_TWO_LEVEL_STOCKHAM)
        (examplePlan2d 4 4 1 2 4 true true CNFFT_FUNC_TWO_LEVEL_STOCKHAM) exampleInput
        exampleWorkspace exampleOutput).mlu_addrs.input = exampleInput ∧
      (configureRFFT2dWorkspaceAddrs (exampleEnv CNFFT_FUNC_TWO_LEVEL_STOCKHAM)
        (examplePlan2d 4 4 1 2 4 true true CNFFT_FUNC_TWO_LEVEL_STOCKHAM) exampleInput
        exampleWorkspace exampleOutput).mlu_addrs.input_pad_addr = ⟨Base.workspace, 256⟩ ∧
      (callsOf (padRFFT2dContiguousInput exampleBackend)
        (configureRFFT2dWorkspaceAddrs (exampleEnv CNFFT_FUNC_TWO_LEVEL_STOCKHAM)
          (examplePlan2d 4 4 1 2 4 true true CNFFT_FUNC_TWO_LEVEL_STOCKHAM) exampleInput
          exampleWorkspace exampleOutput)).filter Call.isPad =
        [Call.cnnlPad ⟨MLUOP_DTYPE_FLOAT, [1, 2, 4], none, none⟩ exampleInput
          [0, 0, 0, 2, 0, 0] 0 ⟨MLUOP_DTYPE_FLOAT, [1, 4, 4], none, none⟩
          ⟨Base.workspace, 256⟩] ∧
      ∀ c ∈ (execRFFT2d (exampleEnv CNFFT_FUNC_TWO_LEVEL_STOCKHAM) exampleBackend
          (examplePlan2d 4 4 1 2 4 true true CNFFT_FUNC_TWO_LEVEL_STOCKHAM) exampleInput
          CFloat.one exampleWorkspace exampleOutput []).2.trace, c.isPad = false :=
  ⟨by decide, by decide, by decide, by decide, by decide, by decide,
    fun c hc => ((C13_two_level_stockham_issues_no_pad (exampleEnv CNFFT_FUNC_TWO_LEVEL_STOCKHAM)
      exampleBackend (examplePlan2d 4 4 1 2 4 true true CNFFT_FUNC_TWO_LEVEL_STOCKHAM)
      exampleInput CFloat.one exampleWorkspace exampleOutput rfl (by decide) (by decide)).1
      c hc).1⟩

/-- C14, counterexample: the planned Stockham plan of length `12 = 3 * 2^2`,
batch 2, runs successfully without a single transpose. -/
theorem C14_counterexample :
    (makeRFFT1dPolicy (exampleEnv CNFFT_FUNC_STOCKHAM) exampleHandle
        (examplePlan 12 2 12 14 true true)).1 = MLUOP_STATUS_SUCCESS ∧
    (makeRFFT1dPolicy (exampleEnv CNFFT_FUNC_STOCKHAM) exampleHandle
        (examplePlan 12 2 12 14 true true)).2.fft_strategy = CNFFT_FUNC_STOCKHAM ∧
    (execRFFT1d (exampleEnv CNFFT_FUNC_STOCKHAM) exampleBackend
        (makeRFFT1dPolicy (exampleEnv CNFFT_FUNC_STOCKHAM) exampleHandle
          (examplePlan 12 2 12 14 true true)).2
        exampleInput CFloat.one exampleWorkspace exampleOutput []).1 = MLUOP_STATUS_SUCCESS ∧
    ((execRFFT1d (exampleEnv CNFFT_FUNC_STOCKHAM) exampleBackend
        (makeRFFT1dPolicy (exampleEnv CNFFT_FUNC_STOCKHAM) exampleHandle
          (examplePlan 12 2 12 14 true true)).2
        exampleInput CFloat.one exampleWorkspace exampleOutput []).2.trace.any
      Call.isTranspose) = false := by
  decide

/-- C14 (amended): on the matmul-family path of execRFFT1d the transpose is
issued under Cooley-Tukey only.  Every transpose of a run permutes
`[batch, L, 2^m]` to `[batch, 2^m, L]` with permutation `(0, 2, 1)`, reads
`input_pad_addr`, writes `input_transed_addr` and is given the internal scratch
address with the planned `internal_workspace_size`, and the strategy is then
Cooley-Tukey; under DirectMatmul and under Stockham no call of a run is a
transpose; a successful Cooley-Tukey run issues the transpose exactly once. -/
theorem C14_transpose_under_cooley_tukey_only (env : Env) (be : Backend) (plan : FFTPlan)
    (input : Addr) (scale_factor : CFloat) (workspace output : Addr)
    (hp : plan.prime = true) :
    let cfg := configuredRFFT1d env plan input workspace output
    let r := execRFFT1d env be plan input scale_factor workspace output []
    let transposeCall :=
      Call.fftTranspose 3 [plan.batch, plan.L, ((2 ^ plan.m : Nat) : Int)]
        [plan.batch, ((2 ^ plan.m : Nat) : Int), plan.L] [0, 2, 1]
        cfg.matmul_addrs.input_pad_addr cfg.matmul_addrs.input_transed_addr plan.input_dtype
        cfg.matmul_addrs.internal_workspace_addr plan.matmul_addrs.internal_workspace_size
    (∀ c ∈ r.2.trace, c.isTranspose = true →
      plan.fft_strategy = CNFFT_FUNC_COOLEY_TUKEY ∧ c = transposeCall) ∧
    (plan.fft_strategy = CNFFT_FUNC_MATMUL ∨ plan.fft_strategy = CNFFT_FUNC_STOCKHAM →
      ∀ c ∈ r.2.trace, c.isTranspose = false) ∧
    (plan.fft_strategy = CNFFT_FUNC_COOLEY_TUKEY → r.1 = MLUOP_STATUS_SUCCESS →
      r.2.trace.filter Call.isTranspose = [transposeCall]) := by
  intro cfg r transposeCall
  obtain ⟨_, heq, _, hpre⟩ := execRFFT1d_sim env be plan input scale_factor workspace output []
  obtain ⟨ma, mu, hcfg, hi, _, _, _⟩ := configuredRFFT1d_sizing env plan input workspace output
  have hok := execRFFT1d_ok_transposes env be.heuristicWorkspaceSize plan input scale_factor
    workspace output hp
  rw [transposeRFFT1dPaddedInput_calls] at hok
  have hcall : (if (configuredRFFT1d env plan input workspace output).fft_strategy =
        CNFFT_FUNC_COOLEY_TUKEY then
      [Call.fftTranspose 3
        [((configuredRFFT1d env plan input workspace output).batch : Int),
          (configuredRFFT1d env plan input workspace output).L,
          ((2 ^ (configuredRFFT1d env plan input workspace output).m : Nat) : Int)]
        [((configuredRFFT1d env plan input workspace output).batch : Int),
          ((2 ^ (configuredRFFT1d env plan input workspace output).m : Nat) : Int),
          (configuredRFFT1d env plan input workspace output).L] [0, 2, 1]
        (configuredRFFT1d env plan input workspace output).matmul_addrs.input_pad_addr
        (configuredRFFT1d env plan input workspace output).matmul_addrs.input_transed_addr
        (configuredRFFT1d env plan input workspace output).input_dtype
        (configuredRFFT1d env plan input workspace output).matmul_addrs.internal_workspace_addr
        (configuredRFFT1d env plan input workspace
          output).matmul_addrs.internal_workspace_size]
      else []) =
      if plan.fft_strategy = CNFFT_FUNC_COOLEY_TUKEY then [transposeCall] else [] := by
    simp only [transposeCall, cfg]
    rw [hcfg]
    simp only [hi]
  rw [hcall] at hok
  have hmem : ∀ c ∈ r.2.trace, c.isTranspose = true →
      c ∈ (if plan.fft_strategy = CNFFT_FUNC_COOLEY_TUKEY then [transposeCall] else []) := by
    intro c hc ht
    rw [← hok]
    exact List.mem_filter.mpr ⟨hpre.subset hc, ht⟩
  refine ⟨fun c hc ht => ?_, fun hs c hc => ?_, fun hs hr => ?_⟩
  · have hm := hmem c hc ht
    by_cases hs : plan.fft_strategy = CNFFT_FUNC_COOLEY_TUKEY
    · rw [if_pos hs] at hm
      exact ⟨hs, List.mem_singleton.mp hm⟩
    · rw [if_neg hs] at hm
      simp at hm
  · cases ht : c.isTranspose
    · rfl
    · have hm := hmem c hc ht
      have hne : ¬ plan.fft_strategy = CNFFT_FUNC_COOLEY_TUKEY := by
        rcases hs with h | h <;> simp [h]
      rw [if_neg hne] at hm
      simp at hm
  · have e : r.2 = _ := heq hr
    rw [e, hok, if_pos hs]

/-- C14, witness: the run of the planned Cooley-Tukey plan of length 12 with a
strided input and output has exactly one transpose. -/
theorem C14_transpose_under_cooley_tukey_only_witness :
    ((execRFFT1d (exampleEnv CNFFT_FUNC_COOLEY_TUKEY) exampleBackend
        (makeRFFT1dPolicy (exampleEnv CNFFT_FUNC_COOLEY_TUKEY) exampleHandle
          (examplePlan 12 2 10 14 false false)).2
        exampleInput CFloat.one exampleWorkspace exampleOutput []).2.trace.filter
      Call.isTranspose).length = 1 :=
  congrArg List.length
    ((C14_transpose_under_cooley_tukey_only (exampleEnv CNFFT_FUNC_COOLEY_TUKEY) exampleBackend
      (makeRFFT1dPolicy (exampleEnv CNFFT_FUNC_COOLEY_TUKEY) exampleHandle
        (examplePlan 12 2 10 14 false false)).2
      exampleInput CFloat.one exampleWorkspace exampleOutput rfl).2.2 (by decide) (by decide))

/-- C15: every stage of the matmul-family path of execRFFT1d reads what the
stage before it wrote.  For a plan with `prime` set and one of the three
strategies of the family: the input copy moves the caller's input to
`input_contiguous_addr`, which is the caller's input when the input is
contiguous; the pad moves `input_contiguous_addr` to `input_pad_addr`, which
is `input_contiguous_addr` when `inembed[0] = n[0]`; the transpose moves
`input_pad_addr` to `input_transed_addr`; in a successful run the moves form a
chain from the caller's input to the buffer written last (`input_transed_addr`
under Cooley-Tukey, `input_pad_addr` otherwise) and a spectral matmul reads
that buffer; every spectral matmul of a run reads it; under DirectMatmul the
matmul writes `output_contiguous_addr`, and a successful run has such a
matmul; under the composite strategies every spectral matmul writes one of the
two matmul results, the merge kernels are launched with the allocator's plan,
read its two matmul results and write its `output_contiguous_addr`, and a
successful run launches such a merge; and every writeback copy reads
`output_contiguous_addr` and writes the caller's output.  What a merge kernel
reads and writes is taken from the description of mergeRFFT1dOutput, the
kernels being outside the host file. -/
theorem C15_stage_reads_what_predecessor_wrote (env : Env) (be : Backend) (plan : FFTPlan)
    (input : Addr) (scale_factor : CFloat) (workspace output : Addr)
    (hp : plan.prime = true)
    (hs : plan.fft_strategy = CNFFT_FUNC_MATMUL ∨ plan.fft_strategy = CNFFT_FUNC_COOLEY_TUKEY ∨
      plan.fft_strategy = CNFFT_FUNC_STOCKHAM) :
    let cfg := configuredRFFT1d env plan input workspace output
    let a := cfg.matmul_addrs
    let r := execRFFT1d env be plan input scale_factor workspace output []
    let lastWritten :=
      if plan.fft_strategy = CNFFT_FUNC_COOLEY_TUKEY then a.input_transed_addr
      else a.input_pad_addr
    (∀ c ∈ r.2.trace, c.isInputCopy = true → c.moves = some (input, a.input_contiguous_addr)) ∧
    (plan.is_input_contiguous = true → a.input_contiguous_addr = input) ∧
    (∀ c ∈ r.2.trace, c.isPad = true →
      c.moves = some (a.input_contiguous_addr, a.input_pad_addr)) ∧
    (plan.inembed0 = plan.n0 → a.input_pad_addr = a.input_contiguous_addr) ∧
    (∀ c ∈ r.2.trace, c.isTranspose = true →
      c.moves = some (a.input_pad_addr, a.input_transed_addr)) ∧
    (r.1 = MLUOP_STATUS_SUCCESS →
      followMoves input (r.2.trace.filterMap Call.moves) = some lastWritten ∧
      ∃ c ∈ r.2.trace, c.spectralOperand = some lastWritten) ∧
    (∀ c ∈ r.2.trace, ∀ x, c.spectralOperand = some x → x = lastWritten) ∧
    (plan.fft_strategy = CNFFT_FUNC_MATMUL →
      ∀ c ∈ r.2.trace, ∀ x, c.spectralResult = some x → x = a.output_contiguous_addr) ∧
    (∀ c ∈ r.2.trace, ∀ q, c.mergePlan = some q → q = cfg) ∧
    (plan.fft_strategy ≠ CNFFT_FUNC_MATMUL →
      ∀ c ∈ r.2.trace, ∀ x, c.spectralResult = some x →
        x = a.matmul_re_mul_re_addr ∨ x = a.matmul_re_mul_im_addr) ∧
    (∀ c ∈ r.2.trace, ∀ x, c.mergeSources = some x →
      x = (a.matmul_re_mul_re_addr, a.matmul_re_mul_im_addr)) ∧
    (∀ c ∈ r.2.trace, ∀ x, c.mergeDestination = some x → x = a.output_contiguous_addr) ∧
    (r.1 = MLUOP_STATUS_SUCCESS → plan.fft_strategy = CNFFT_FUNC_MATMUL →
      ∃ c ∈ r.2.trace, c.spectralResult = some a.output_contiguous_addr) ∧
    (r.1 = MLUOP_STATUS_SUCCESS → plan.fft_strategy ≠ CNFFT_FUNC_MATMUL →
      ∃ c ∈ r.2.trace, c.mergeSources =
          some (a.matmul_re_mul_re_addr, a.matmul_re_mul_im_addr) ∧
        c.mergeDestination = some a.output_contiguous_addr) ∧
    (∀ c ∈ r.2.trace, c.isOutputCopy = true →
      ∃ src_desc dst_desc, c = Call.cnnlCopy_v2 src_desc a.output_contiguous_addr dst_desc output)
    := by
  intro cfg a r lastWritten
  obtain ⟨_, heq, _, hpre⟩ := execRFFT1d_sim env be plan input scale_factor workspace output []
  obtain ⟨ma, mu, hcfg, _⟩ := configuredRFFT1d_sizing env plan input workspace output
  have hst : (configuredRFFT1d env plan input workspace output).fft_strategy =
      plan.fft_strategy := by rw [hcfg]
  have hpr : (configuredRFFT1d env plan input workspace output).prime = true := by
    rw [hcfg]; exact hp
  obtain ⟨al1, al2, _, _⟩ := configuredRFFT1d_prime_aliases env plan input workspace output hp
  have hmem := fun c (hc : c ∈ r.2.trace) =>
    execRFFT1d_ok_prime_mem env be.heuristicWorkspaceSize plan input scale_factor workspace
      output hp c (hpre.subset hc)
  have hmoves := execRFFT1d_ok_prime_moves env be.heuristicWorkspaceSize plan input scale_factor
    workspace output hp
  have hM := computeRFFT1dMatmulResult_calls be.heuristicWorkspaceSize scale_factor
    (configuredRFFT1d env plan input workspace output)
  have hspec : ∀ c ∈ r.2.trace, ∀ x, c.spectralOperand = some x → x = lastWritten := by
    intro c hc x hx
    have hm := (hmem c hc).2.2.2.1 (spectralOperand_kind c x hx)
    rw [hM, hst] at hm
    rcases hs with h | h | h
    · simp only [h, ↓reduceIte, List.mem_singleton] at hm
      subst hm
      simp only [Call.spectralOperand, Option.some.injEq] at hx
      simp [lastWritten, h, ← hx, a]
    · simp only [h, ↓reduceIte, reduceCtorEq, List.mem_cons, List.mem_singleton,
        List.not_mem_nil, or_false] at hm
      rcases hm with hm | hm <;> subst hm <;>
        simp only [Call.spectralOperand, Option.some.injEq] at hx <;>
        simp [lastWritten, h, ← hx, a]
    · simp only [h, ↓reduceIte, reduceCtorEq, List.mem_singleton] at hm
      subst hm
      simp only [Call.spectralOperand, Option.some.injEq] at hx
      simp [lastWritten, h, ← hx, a]
  have hmerge : ∀ c ∈ r.2.trace, ∀ q, c.mergePlan = some q → q = cfg := by
    intro c hc q hq
    have hm := (hmem c hc).2.2.2.2.1 (mergePlan_kind c q hq)
    rw [mergeRFFT1dOutput_calls] at hm
    split_ifs at hm
    · rw [List.mem_singleton.mp hm] at hq
      simp only [Call.mergePlan, Option.some.injEq] at hq
      exact hq.symm
    · rw [List.mem_singleton.mp hm] at hq
      simp only [Call.mergePlan, Option.some.injEq] at hq
      exact hq.symm
    · simp at hm
  have hMg := mergeRFFT1dOutput_calls be.heuristicWorkspaceSize scale_factor
    (configuredRFFT1d env plan input workspace output)
  refine ⟨fun c hc hk => ?_, al1, fun c hc hk => ?_, al2, fun c hc hk => ?_, fun hr => ?_,
    hspec, fun hd c hc x hx => ?_, hmerge, fun hd c hc x hx => ?_, fun c hc x hx => ?_,
    fun c hc x hx => ?_, fun hr hd => ?_, fun hr hd => ?_, fun c hc hk => ?_⟩
  rotate_left 5
  · have hm := (hmem c hc).2.2.2.1 (spectralResult_kind c x hx)
    rw [hM, hst] at hm
    rcases hs with h | h | h
    · exact (hd h).elim
    · simp only [h, ↓reduceIte, reduceCtorEq, List.mem_cons, List.mem_singleton,
        List.not_mem_nil, or_false] at hm
      rcases hm with hm | hm <;> subst hm <;>
        simp only [Call.spectralResult, Option.some.injEq] at hx <;>
        simp [← hx, a, cfg]
    · simp only [h, ↓reduceIte, reduceCtorEq, List.mem_singleton] at hm
      subst hm
      simp only [Call.spectralResult, Option.some.injEq] at hx
      simp [← hx, a, cfg]
  · simp only [Call.mergeSources, Option.map_eq_some'] at hx
    obtain ⟨q, hq, e⟩ := hx
    rw [← e, hmerge c hc q hq]
  · simp only [Call.mergeDestination, Option.map_eq_some'] at hx
    obtain ⟨q, hq, e⟩ := hx
    rw [← e, hmerge c hc q hq]
  · have e : r.2 = _ := heq hr
    rw [e]
    have hfirst : ∃ c ∈ callsOf (computeRFFT1dMatmulResult
        (Backend.allSucceed be.heuristicWorkspaceSize) scale_factor)
          (configuredRFFT1d env plan input workspace output),
        c.spectralResult = some a.output_contiguous_addr := by
      rw [hM, hst]
      simp [hd, Call.spectralResult, a, cfg]
    obtain ⟨c, hc, hx⟩ := hfirst
    refine ⟨c, ?_, hx⟩
    rw [execRFFT1d_ok_prime env _ plan input scale_factor workspace output hp]
    simp only [List.mem_append]
    exact Or.inr (Or.inr (Or.inr (Or.inl hc)))
  · have e : r.2 = _ := heq hr
    rw [e]
    have hfirst : ∃ c ∈ callsOf (mergeRFFT1dOutput
        (Backend.allSucceed be.heuristicWorkspaceSize) scale_factor)
          (configuredRFFT1d env plan input workspace output),
        c.mergeSources = some (a.matmul_re_mul_re_addr, a.matmul_re_mul_im_addr) ∧
          c.mergeDestination = some a.output_contiguous_addr := by
      rw [hMg, hst]
      rcases hs with h | h | h
      · exact (hd h).elim
      · simp [h, Call.mergeSources, Call.mergeDestination, Call.mergePlan, a, cfg]
      · simp [h, Call.mergeSources, Call.mergeDestination, Call.mergePlan, a, cfg]
    obtain ⟨c, hc, hx⟩ := hfirst
    refine ⟨c, ?_, hx⟩
    rw [execRFFT1d_ok_prime env _ plan input scale_factor workspace output hp]
    simp only [List.mem_append]
    exact Or.inr (Or.inr (Or.inr (Or.inr (Or.inl hc))))
  rotate_left 1
  · have hm := (hmem c hc).1 ((isInputCopy_iff_kind c).mp hk)
    obtain ⟨_, e⟩ := makeRFFT1dContiguousInput_copy_calls _ input _ c hm hk
    rw [e]
    simp only [Call.moves, hpr, ↓reduceIte]
  · have hm := (hmem c hc).2.1 ((isPad_iff_kind c).mp hk)
    obtain ⟨_, e⟩ := padRFFT1dContiguousInput_pad_calls _ _ c hm hk
    rw [e]
    simp only [padCallRFFT1d, Call.moves, hpr, ↓reduceIte]
  · have hm := (hmem c hc).2.2.1 ((isTranspose_iff_kind c).mp hk)
    rw [transposeRFFT1dPaddedInput_calls] at hm
    split_ifs at hm
    · rw [List.mem_singleton.mp hm]
      rfl
    · simp at hm
  · have e : r.2 = _ := heq hr
    constructor
    · rw [e, hmoves]
      simp only [lastWritten, a, cfg]
      by_cases hc : plan.is_input_contiguous = true <;>
        by_cases hn : plan.inembed0 = plan.n0 <;>
        by_cases ht : plan.fft_strategy = CNFFT_FUNC_COOLEY_TUKEY <;>
        simp [hc, hn, ht, followMoves, al1, al2]
    · rw [e]
      have hfirst : ∃ c ∈ callsOf (computeRFFT1dMatmulResult
          (Backend.allSucceed be.heuristicWorkspaceSize) scale_factor)
            (configuredRFFT1d env plan input workspace output),
          c.spectralOperand = some lastWritten := by
        rw [hM, hst]
        rcases hs with h | h | h <;>
          simp [h, Call.spectralOperand, lastWritten, a]
      obtain ⟨c, hc, hx⟩ := hfirst
      refine ⟨c, ?_, hx⟩
      rw [execRFFT1d_ok_prime env _ plan input scale_factor workspace output hp]
      simp only [List.mem_append]
      exact Or.inr (Or.inr (Or.inr (Or.inl hc)))
  · have hm := (hmem c hc).2.2.2.1 (spectralResult_kind c x hx)
    rw [hM, hst] at hm
    simp only [hd, ↓reduceIte, List.mem_singleton] at hm
    subst hm
    simp only [Call.spectralResult, Option.some.injEq] at hx
    rw [← hx]
  · have hm := (hmem c hc).2.2.2.2.2.1 ((isOutputCopy_iff_kind c).mp hk)
    rw [makeRFFT1dContiguousOutput_calls] at hm
    split_ifs at hm
    · simp at hm
    · simp only [List.mem_cons, List.mem_singleton, List.not_mem_nil, or_false] at hm
      rcases hm with hm | hm | hm | hm | hm | hm | hm | hm | hm | hm | hm | hm | hm <;>
        first
        | (rw [hm] at hk; simp [Call.isOutputCopy] at hk; done)
        | (rw [hm]; (try simp only [hpr, ↓reduceIte]); exact ⟨_, _, rfl⟩)

/-- C15, witness: for the planned Cooley-Tukey plan of length 12 with a strided
input embedded in 10 elements, the copy, pad and transpose of the run chain
from the caller's input to `input_transed_addr` at workspace offset 176. -/
theorem C15_stage_reads_what_predecessor_wrote_witness :
    followMoves exampleInput
      ((execRFFT1d (exampleEnv CNFFT_FUNC_COOLEY_TUKEY) exampleBackend
        (makeRFFT1dPolicy (exampleEnv CNFFT_FUNC_COOLEY_TUKEY) exampleHandle
          (examplePlan 12 2 10 14 false false)).2
        exampleInput CFloat.one exampleWorkspace exampleOutput []).2.trace.filterMap
        Call.moves) = some ⟨Base.workspace, 176⟩ :=
  ((C15_stage_reads_what_predecessor_wrote (exampleEnv CNFFT_FUNC_COOLEY_TUKEY) exampleBackend
    (makeRFFT1dPolicy (exampleEnv CNFFT_FUNC_COOLEY_TUKEY) exampleHandle
      (examplePlan 12 2 10 14 false false)).2
    exampleInput CFloat.one exampleWorkspace exampleOutput rfl
    (Or.inr (Or.inl rfl))).2.2.2.2.2.1 (by decide)).1

/-- C16: makeRFFT1dPolicy counts the backend scratch as a maximum.  After a
successful policy call: under DirectMatmul `internal_workspace_size` is the
matmul scratch requirement; under Cooley-Tukey it is the maximum of the
transpose requirement, the matmul requirement and the byte count of the two
matmul results as the function computes it, with `batch * n` taken in 32-bit
`int` and the bytes in `size_t`, which is `2 * bytes(input_dtype) * batch * n`
when `batch * n < 2^31` and the byte count is below 2^64; `workspace_size` is
the sum modulo 2^64 of the staging terms and `internal_workspace_size`, and is
the exact sum of the staging buffers plus `internal_workspace_size` when the
element counts are below 2^31 and that sum is below 2^64; and under these two
strategies every scratch-using primitive of a run of execRFFT1d on the planned
plan requires at most `internal_workspace_size` bytes and is handed the
internal scratch address with exactly that size.  For the contiguous
Cooley-Tukey plan of length 4096 with 2^20 batch rows, where
`2 * bytes(input_dtype) * batch * n` is 2^35, the `int` product
`batch * n = 2^32` wraps around to 0: `internal_workspace_size` and
`workspace_size` are both 64, the transpose requirement. -/
theorem C16_scratch_counted_as_maximum (env : Env) (handle : Handle) (plan : FFTPlan)
    (hok : (makeRFFT1dPolicy env handle plan).1 = MLUOP_STATUS_SUCCESS) :
    let p := (makeRFFT1dPolicy env handle plan).2
    let internal := p.matmul_addrs.internal_workspace_size
    let matmul_direct :=
      (env.fftGetMatMulWorkspaceSize p.batch p.n0 ((p.n0 / 2 + 1) * 2) false true
        p.execution_dtype p.execution_dtype p.input_dtype).2
    let transpose :=
      (env.fftGetTransposeWorkspaceSize 3 [p.batch, p.L, 2 ^ p.m] [0, 2, 1] p.input_dtype).2
    let matmul_composite :=
      (env.fftGetMatMulWorkspaceSize (p.batch * 2 ^ p.m) p.L p.L false true
        p.execution_dtype p.execution_dtype p.input_dtype).2
    let merge :=
      size_t (size_t (2 * env.mluOpDataTypeBytes p.input_dtype) *
        sizeOfInt (int32 ((p.batch * p.n0 : Nat) : Int)))
    (p.fft_strategy = CNFFT_FUNC_MATMUL → internal = matmul_direct) ∧
    (p.fft_strategy = CNFFT_FUNC_COOLEY_TUKEY →
      internal = max (max transpose matmul_composite) merge) ∧
    (p.batch * p.n0 < 2 ^ 31 →
      2 * env.mluOpDataTypeBytes p.input_dtype * (p.batch * p.n0) < 2 ^ 64 →
      merge = 2 * env.mluOpDataTypeBytes p.input_dtype * (p.batch * p.n0)) ∧
    p.workspace_size = size_t (stagingBytes env p + internal) ∧
    (p.batch * p.n0 < 2 ^ 31 →
      (p.fft_strategy = CNFFT_FUNC_MATMUL → p.batch * FFT_HALF p.n0 < 2 ^ 31) →
      stagingBytesExact env p + internal < 2 ^ 64 →
      p.workspace_size = stagingBytesExact env p + internal) ∧
    (p.fft_strategy = CNFFT_FUNC_MATMUL ∨ p.fft_strategy = CNFFT_FUNC_COOLEY_TUKEY →
      p.prime = true →
      ∀ (be : Backend) (input : Addr) (scale_factor : CFloat) (workspace output : Addr),
      ∀ c ∈ (execRFFT1d env be p input scale_factor workspace output []).2.trace,
        c.usesScratch = true →
        scratchRequired env c ≤ internal ∧
        scratchGiven c =
          some ((configuredRFFT1d env p input workspace output).matmul_addrs.internal_workspace_addr,
            internal)) ∧
    ((makeRFFT1dPolicy (exampleEnv CNFFT_FUNC_COOLEY_TUKEY) exampleHandle
        (batchedPlan 1 12 (2 ^ 20) 4096)).1 = MLUOP_STATUS_SUCCESS ∧
      (makeRFFT1dPolicy (exampleEnv CNFFT_FUNC_COOLEY_TUKEY) exampleHandle
        (batchedPlan 1 12 (2 ^ 20) 4096)).2.fft_strategy = CNFFT_FUNC_COOLEY_TUKEY ∧
      2 * exampleBytes (batchedPlan 1 12 (2 ^ 20) 4096).input_dtype *
        ((batchedPlan 1 12 (2 ^ 20) 4096).batch * (batchedPlan 1 12 (2 ^ 20) 4096).n0) =
          2 ^ 35 ∧
      (makeRFFT1dPolicy (exampleEnv CNFFT_FUNC_COOLEY_TUKEY) exampleHandle
        (batchedPlan 1 12 (2 ^ 20) 4096)).2.matmul_addrs.internal_workspace_size = 64 ∧
      (makeRFFT1dPolicy (exampleEnv CNFFT_FUNC_COOLEY_TUKEY) exampleHandle
        (batchedPlan 1 12 (2 ^ 20) 4096)).2.workspace_size = 64) := by
  intro p internal matmul_direct transpose matmul_composite merge
  have hsel := policy_success_sel env handle plan hok
  have h1 : p.fft_strategy = CNFFT_FUNC_MATMUL → internal = matmul_direct := by
    intro hs
    simp only [p, policy_strategy] at hs
    have heq := policy_eq_matmul env handle plan hsel hs
    simp only [internal, matmul_direct, p]
    rw [heq] at hok ⊢
    generalize (if handle.arch > env.MLUOP_MLU370 then env.FFT_L_LIMIT_MATMUL_500
        else env.FFT_L_LIMIT_MATMUL_300) = lim at hok ⊢
    by_cases hn : (selectRFFT1dStrategy env handle plan).2.n0 > lim
    · simp [makeRFFT1dPolicy_MATMUL, hn] at hok
    · simp [makeRFFT1dPolicy_MATMUL, hn, FFT_HALF, COMPLEX]
  have h2 : p.fft_strategy = CNFFT_FUNC_COOLEY_TUKEY →
      internal = max (max transpose matmul_composite) merge := by
    intro hs
    simp only [p, policy_strategy] at hs
    have heq := policy_eq_composite env handle plan hsel (Or.inl hs)
    simp only [internal, transpose, matmul_composite, merge, p]
    rw [heq] at hok ⊢
    have hL := composite_success_L env _ hok
    have hL' : ¬ (selectRFFT1dStrategy env handle plan).2.L > FFT_L_LIMIT := by omega
    simp [makeRFFT1dPolicy_COMPOSITE, hL', hs, COMPLEX]
  have h3 : p.workspace_size = size_t (stagingBytes env p + internal) := by
    rcases policy_success_strategy env handle plan hok with hs | hs
    · have heq := policy_eq_matmul env handle plan hsel hs
      simp only [internal, p]
      rw [heq] at hok ⊢
      generalize (if handle.arch > env.MLUOP_MLU370 then env.FFT_L_LIMIT_MATMUL_500
          else env.FFT_L_LIMIT_MATMUL_300) = lim at hok ⊢
      by_cases hn : (selectRFFT1dStrategy env handle plan).2.n0 > lim
      · simp [makeRFFT1dPolicy_MATMUL, hn] at hok
      · simp only [makeRFFT1dPolicy_MATMUL, hn, ↓reduceIte, stagingBytes, hs, countedBytes,
          size_t_add_left, Nat.zero_add, Nat.zero_max]
    · have heq := policy_eq_composite env handle plan hsel hs
      simp only [internal, p]
      rw [heq] at hok ⊢
      have hL := composite_success_L env _ hok
      have hL' : ¬ (selectRFFT1dStrategy env handle plan).2.L > FFT_L_LIMIT := by omega
      have hne : (selectRFFT1dStrategy env handle plan).2.fft_strategy ≠ CNFFT_FUNC_MATMUL := by
        rcases hs with h | h <;> simp [h]
      simp only [makeRFFT1dPolicy_COMPOSITE, hL', ↓reduceIte, stagingBytes, hne, COMPLEX,
        countedBytes]
      generalize (if (selectRFFT1dStrategy env handle plan).2.fft_strategy =
        CNFFT_FUNC_COOLEY_TUKEY then _ else _ : mluOpStatus_t × Nat).2 = Q
      simp only [size_t_add_left, Nat.zero_add]
      refine congrArg size_t ?_
      split_ifs <;> omega
  have h4 : p.batch * p.n0 < 2 ^ 31 →
      (p.fft_strategy = CNFFT_FUNC_MATMUL → p.batch * FFT_HALF p.n0 < 2 ^ 31) →
      stagingBytesExact env p + internal < 2 ^ 64 →
      p.workspace_size = stagingBytesExact env p + internal := by
    intro hint hhalf hfit
    rcases policy_success_strategy env handle plan hok with hs | hs
    · have hhalf := hhalf (by simp only [p, policy_strategy]; exact hs)
      have heq := policy_eq_matmul env handle plan hsel hs
      simp only [internal, p] at hint hhalf hfit ⊢
      rw [heq] at hok hint hhalf hfit ⊢
      have hn := matmul_success_n env _ _ hok
      obtain ⟨c1, c2, c3⟩ := matmul_counts env
        (if handle.arch > env.MLUOP_MLU370 then env.FFT_L_LIMIT_MATMUL_500
          else env.FFT_L_LIMIT_MATMUL_300) (selectRFFT1dStrategy env handle plan).2
      rw [c1, c2] at hint hhalf
      rw [c3] at hfit ⊢
      exact matmul_workspace_exact env _ _ hs hn hint hhalf hfit
    · have heq := policy_eq_composite env handle plan hsel hs
      simp only [internal, p] at hint hfit ⊢
      rw [heq] at hok hint hfit ⊢
      obtain ⟨c1, c2, c3⟩ := composite_counts env (selectRFFT1dStrategy env handle plan).2
      rw [c1, c2] at hint
      rw [c3] at hfit ⊢
      exact composite_workspace_exact env _ hs (composite_success_L env _ hok) hint hfit
  have h5 : p.batch * p.n0 < 2 ^ 31 →
      2 * env.mluOpDataTypeBytes p.input_dtype * (p.batch * p.n0) < 2 ^ 64 →
      merge = 2 * env.mluOpDataTypeBytes p.input_dtype * (p.batch * p.n0) := by
    intro hint hf
    simp only [merge]
    rw [sizeOfInt_int32 _ hint, doubledBytes_of_lt _ _ (by rw [Nat.mul_assoc] at hf; exact hf),
      Nat.mul_assoc]
  refine ⟨h1, h2, h5, h3, h4, ?_, by decide⟩
  intro hs hp be input scale_factor workspace output c hc hsc
  obtain ⟨_, _, _, hpre⟩ := execRFFT1d_sim env be p input scale_factor workspace output []
  have hc0 := hpre.subset hc
  obtain ⟨ma, mu, hcfg, hi, _, _, _⟩ := configuredRFFT1d_sizing env p input workspace output
  have hcases := execRFFT1d_ok_scratch_calls env be.heuristicWorkspaceSize p input scale_factor
    workspace output hp c hc0 hsc
  rw [transposeRFFT1dPaddedInput_calls, computeRFFT1dMatmulResult_calls] at hcases
  rw [hcfg] at hcases ⊢
  simp only [hi] at hcases ⊢
  rcases hs with hs | hs
  · have e1 := h1 hs
    simp only [hs, ↓reduceIte, List.not_mem_nil, List.mem_singleton, false_or,
      reduceCtorEq] at hcases
    subst hcases
    simp only [scratchRequired, scratchGiven, FFT_HALF, COMPLEX]
    exact ⟨by rw [e1], trivial⟩
  · have e2 := h2 hs
    simp only [hs, ↓reduceIte, List.mem_singleton, reduceCtorEq, List.mem_cons,
      List.not_mem_nil, or_false] at hcases
    rcases hcases with hcases | hcases | hcases <;> subst hcases <;>
      simp only [scratchRequired, scratchGiven, List.map, Int.toNat_ofNat] <;>
      refine ⟨?_, trivial⟩ <;> rw [e2] <;> simp [transpose, matmul_composite]

/-- C16, witness: for the planned Cooley-Tukey plan of length 12, batch 2, the
transpose asks for 64 bytes, the matmul for none and the merge buffer is
`2 * 4 * 24 = 192` bytes, so `internal_workspace_size = 192` and
`workspace_size` is the staging total plus 192. -/
theorem C16_scratch_counted_as_maximum_witness :
    let env := exampleEnv CNFFT_FUNC_COOLEY_TUKEY
    let p := (makeRFFT1dPolicy env exampleHandle (examplePlan 12 2 10 14 false false)).2
    p.matmul_addrs.internal_workspace_size = 192 ∧
    p.workspace_size = stagingBytesExact env p + 192 :=
  ⟨(C16_scratch_counted_as_maximum (exampleEnv CNFFT_FUNC_COOLEY_TUKEY) exampleHandle
      (examplePlan 12 2 10 14 false false) (by decide)).2.1 rfl,
   (C16_scratch_counted_as_maximum (exampleEnv CNFFT_FUNC_COOLEY_TUKEY) exampleHandle
      (examplePlan 12 2 10 14 false false) (by decide)).2.2.2.2.1 (by decide)
      (by decide) (by decide)⟩

/-- C17, counterexample: under DirectMatmul the plans of length 3 and 4 with
rows embedded in 4 elements differ in `n[0]` only, yet the shorter one needs
the larger workspace (12 bytes against 0: its pad buffer); under Cooley-Tukey
the length `12 = 3 * 2^2` needs a larger reserved area than the length
`16 = 1 * 2^4` (72 bytes against 8); and under DirectMatmul on the newer
device generation the plans of length 4096 with rows embedded in 4095 elements
and 2^18 and 2^20 batch rows differ in `batch`, `inum` and `onum` only, yet the
smaller batch needs the larger workspace (2^32 bytes against 0): at 2^20 rows
the `int` product `batch * n = 2^32` wraps around to 0.  The scratch queries
of both example environments are non-decreasing. -/
theorem C17_counterexample :
    ({ examplePlan 3 1 4 3 true true with n0 := 4 } = examplePlan 4 1 4 3 true true ∧
      ¬ ((makeRFFT1dPolicy (exampleEnv CNFFT_FUNC_MATMUL) exampleHandle
            (examplePlan 3 1 4 3 true true)).2.workspace_size ≤
          (makeRFFT1dPolicy (exampleEnv CNFFT_FUNC_MATMUL) exampleHandle
            (examplePlan 4 1 4 3 true true)).2.workspace_size)) ∧
    ((examplePlan 12 1 12 7 true true).n0 =
        (examplePlan 12 1 12 7 true true).L * 2 ^ (examplePlan 12 1 12 7 true true).m ∧
      { examplePlan 12 1 12 7 true true with n0 := 1 * 2 ^ 4, L := 1, m := 4 } =
        { examplePlan 16 1 12 7 true true with L := 1, m := 4 } ∧
      ¬ ((makeRFFT1dPolicy (exampleEnv CNFFT_FUNC_COOLEY_TUKEY) exampleHandle
            (examplePlan 12 1 12 7 true true)).2.reservespace_size ≤
          (makeRFFT1dPolicy (exampleEnv CNFFT_FUNC_COOLEY_TUKEY) exampleHandle
            { examplePlan 16 1 12 7 true true with L := 1, m := 4 }).2.reservespace_size)) ∧
    ({ batchedPlan 1 12 (2 ^ 18) 4095 with
          batch := 2 ^ 20, inum := 2 ^ 20 * 4095, onum := 2 ^ 20 * 2049 } =
        batchedPlan 1 12 (2 ^ 20) 4095 ∧
      (makeRFFT1dPolicy (exampleEnv CNFFT_FUNC_MATMUL) newerHandle
        (batchedPlan 1 12 (2 ^ 18) 4095)).1 = MLUOP_STATUS_SUCCESS ∧
      (makeRFFT1dPolicy (exampleEnv CNFFT_FUNC_MATMUL) newerHandle
        (batchedPlan 1 12 (2 ^ 20) 4095)).1 = MLUOP_STATUS_SUCCESS ∧
      (makeRFFT1dPolicy (exampleEnv CNFFT_FUNC_MATMUL) newerHandle
        (batchedPlan 1 12 (2 ^ 18) 4095)).2.workspace_size = 2 ^ 32 ∧
      (makeRFFT1dPolicy (exampleEnv CNFFT_FUNC_MATMUL) newerHandle
        (batchedPlan 1 12 (2 ^ 20) 4095)).2.workspace_size = 0) ∧
    (exampleEnv CNFFT_FUNC_MATMUL).monotoneQueries ∧
    (exampleEnv CNFFT_FUNC_COOLEY_TUKEY).monotoneQueries := by
  refine ⟨by decide, by decide, by decide, ?_, ?_⟩ <;>
    exact ⟨fun _ _ _ _ _ _ _ _ _ _ _ _ _ _ => le_refl _,
      fun _ _ _ _ _ _ _ _ _ _ _ _ => le_refl _,
      fun _ _ _ _ _ _ _ _ _ _ _ _ _ _ _ _ _ _ _ _ _ _ _ h => h⟩

/-- C17 (amended): with non-decreasing scratch queries, two successful policy
calls of the same strategy on plans that differ in `n[0]`, `batch`, `L`, `m`,
`inum` and `onum` only, none of which decreases: `reservespace_size` does not
decrease, and `workspace_size` does not decrease provided the larger length
does not turn padding off (the larger length equals `inembed[0]` only if the
smaller one does), the element counts `batch * n` and, under DirectMatmul,
`batch * (n/2+1)` of the larger plan are below 2^31, and the exact byte count
of the larger plan is below 2^64. -/
theorem C17_sizes_monotone (env : Env) (handle : Handle) (plan plan' : FFTPlan)
    (n' batch' L' m' inum' onum' : Nat)
    (hmono : env.monotoneQueries)
    (hok : (makeRFFT1dPolicy env handle plan).1 = MLUOP_STATUS_SUCCESS)
    (hok' : (makeRFFT1dPolicy env handle plan').1 = MLUOP_STATUS_SUCCESS)
    (hfix : (selectRFFT1dStrategy env handle plan').2 =
      { (selectRFFT1dStrategy env handle plan).2 with
        n0 := n', batch := batch', L := L', m := m', inum := inum', onum := onum' })
    (hn : (selectRFFT1dStrategy env handle plan).2.n0 ≤ n')
    (hb : (selectRFFT1dStrategy env handle plan).2.batch ≤ batch')
    (hL : (selectRFFT1dStrategy env handle plan).2.L ≤ L')
    (hm : (selectRFFT1dStrategy env handle plan).2.m ≤ m')
    (hi : (selectRFFT1dStrategy env handle plan).2.inum ≤ inum')
    (ho : (selectRFFT1dStrategy env handle plan).2.onum ≤ onum') :
    (makeRFFT1dPolicy env handle plan).2.reservespace_size ≤
      (makeRFFT1dPolicy env handle plan').2.reservespace_size ∧
    (((selectRFFT1dStrategy env handle plan).2.inembed0 = n' →
        (selectRFFT1dStrategy env handle plan).2.inembed0 =
          (selectRFFT1dStrategy env handle plan).2.n0) →
      batch' * n' < 2 ^ 31 →
      ((selectRFFT1dStrategy env handle plan).2.fft_strategy = CNFFT_FUNC_MATMUL →
        batch' * FFT_HALF n' < 2 ^ 31) →
      stagingBytesExact env (makeRFFT1dPolicy env handle plan').2 +
        (makeRFFT1dPolicy env handle plan').2.matmul_addrs.internal_workspace_size < 2 ^ 64 →
      (makeRFFT1dPolicy env handle plan).2.workspace_size ≤
        (makeRFFT1dPolicy env handle plan').2.workspace_size) := by
  have hsel := policy_success_sel env handle plan hok
  have hsel' := policy_success_sel env handle plan' hok'
  have hst : (selectRFFT1dStrategy env handle plan').2.fft_strategy =
      (selectRFFT1dStrategy env handle plan).2.fft_strategy := by rw [hfix]
  rcases policy_success_strategy env handle plan hok with hs | hs
  · have heq := policy_eq_matmul env handle plan hsel hs
    have heq' := policy_eq_matmul env handle plan' hsel' (hst.trans hs)
    rw [heq'] at hok'
    rw [heq, heq']
    have hlim := matmul_success_n env _ _ hok'
    have c3 := (matmul_counts env
      (if handle.arch > env.MLUOP_MLU370 then env.FFT_L_LIMIT_MATMUL_500
        else env.FFT_L_LIMIT_MATMUL_300) (selectRFFT1dStrategy env handle plan').2).2.2
    rw [c3]
    rw [hfix] at hlim ⊢
    obtain ⟨m1, m2⟩ := matmul_sizes_mono env _ _ n' batch' L' m' inum' onum' hmono hs hn hb hi
      hlim
    exact ⟨m1, fun hflip hint hhalf hfit => m2 hflip hint (hhalf hs) hfit⟩
  · have hs' : (selectRFFT1dStrategy env handle plan').2.fft_strategy = CNFFT_FUNC_COOLEY_TUKEY ∨
        (selectRFFT1dStrategy env handle plan').2.fft_strategy = CNFFT_FUNC_STOCKHAM := by
      rw [hst]; exact hs
    have heq := policy_eq_composite env handle plan hsel hs
    have heq' := policy_eq_composite env handle plan' hsel' hs'
    rw [heq'] at hok'
    rw [heq, heq']
    have hlim := composite_success_L env _ hok'
    have c3 := (composite_counts env (selectRFFT1dStrategy env handle plan').2).2.2
    rw [c3]
    rw [hfix] at hlim ⊢
    obtain ⟨m1, m2⟩ := composite_sizes_mono env _ n' batch' L' m' inum' onum' hmono hs hn hb hL
      hm hi ho hlim
    exact ⟨m1, fun hflip hint _ hfit => m2 hflip hint hfit⟩

/-- C17, witness: from the Cooley-Tukey plan of length `12 = 3 * 2^2`, batch 2,
to the one of length `40 = 5 * 2^3`, batch 3, both sizes grow. -/
theorem C17_sizes_monotone_witness :
    (makeRFFT1dPolicy (exampleEnv CNFFT_FUNC_COOLEY_TUKEY) exampleHandle
        (examplePlan 12 2 12 14 false false)).2.reservespace_size ≤
      (makeRFFT1dPolicy (exampleEnv CNFFT_FUNC_COOLEY_TUKEY) exampleHandle
        { examplePlan 12 2 12 14 false false with
          n0 := 40, batch := 3, L := 5, m := 3, inum := 36, onum := 63 }).2.reservespace_size ∧
    (makeRFFT1dPolicy (exampleEnv CNFFT_FUNC_COOLEY_TUKEY) exampleHandle
        (examplePlan 12 2 12 14 false false)).2.workspace_size ≤
      (makeRFFT1dPolicy (exampleEnv CNFFT_FUNC_COOLEY_TUKEY) exampleHandle
        { examplePlan 12 2 12 14 false false with
          n0 := 40, batch := 3, L := 5, m := 3, inum := 36, onum := 63 }).2.workspace_size :=
  ⟨(C17_sizes_monotone (exampleEnv CNFFT_FUNC_COOLEY_TUKEY) exampleHandle
      (examplePlan 12 2 12 14 false false)
      { examplePlan 12 2 12 14 false false with
        n0 := 40, batch := 3, L := 5, m := 3, inum := 36, onum := 63 }
      40 3 5 3 36 63
      ⟨fun _ _ _ _ _ _ _ _ _ _ _ _ _ _ => le_refl _,
        fun _ _ _ _ _ _ _ _ _ _ _ _ => le_refl _,
        fun _ _ _ _ _ _ _ _ _ _ _ _ _ _ _ _ _ _ _ _ _ _ _ h => h⟩
      (by decide) (by decide) rfl (by decide) (by decide) (by decide) (by decide) (by decide)
      (by decide)).1,
   (C17_sizes_monotone (exampleEnv CNFFT_FUNC_COOLEY_TUKEY) exampleHandle
      (examplePlan 12 2 12 14 false false)
      { examplePlan 12 2 12 14 false false with
        n0 := 40, batch := 3, L := 5, m := 3, inum := 36, onum := 63 }
      40 3 5 3 36 63
      ⟨fun _ _ _ _ _ _ _ _ _ _ _ _ _ _ => le_refl _,
        fun _ _ _ _ _ _ _ _ _ _ _ _ => le_refl _,
        fun _ _ _ _ _ _ _ _ _ _ _ _ _ _ _ _ _ _ _ _ _ _ _ h => h⟩
      (by decide) (by decide) rfl (by decide) (by decide) (by decide) (by decide) (by decide)
      (by decide)).2 (by decide) (by decide) (by decide) (by decide)⟩

/-- C18: the address table is recomputed on every call.  The plan left by any
earlier call of execRFFT1d (any environment, backend, pointers, scale factor
and outcome) runs exactly like the plan that call started from: same status,
same final state, same calls with the same arguments; likewise for
execRFFT2d.  More generally a plan that agrees with `plan` on every field
except the roles the allocator assigns gets the same address table from the
allocator and runs alike: the executors read none of these roles before the
allocator of the same call has written them. -/
theorem C18_address_table_recomputed (env env0 : Env) (be be0 : Backend) (plan : FFTPlan)
    (input input0 workspace workspace0 output output0 : Addr)
    (scale_factor scale_factor0 : CFloat) (trace0 : List Call) :
    execRFFT1d env be
        (execRFFT1d env0 be0 plan input0 scale_factor0 workspace0 output0 trace0).2.fft_plan
        input scale_factor workspace output [] =
      execRFFT1d env be plan input scale_factor workspace output [] ∧
    execRFFT2d env be
        (execRFFT2d env0 be0 plan input0 scale_factor0 workspace0 output0 trace0).2.fft_plan
        input scale_factor workspace output [] =
      execRFFT2d env be plan input scale_factor workspace output [] ∧
    (∀ q, eraseAssignedRFFT1d q = eraseAssignedRFFT1d plan →
      configuredRFFT1d env q input workspace output =
        configuredRFFT1d env plan input workspace output ∧
      execRFFT1d env be q input scale_factor workspace output [] =
        execRFFT1d env be plan input scale_factor workspace output []) ∧
    (∀ q, eraseAssignedRFFT2d q = eraseAssignedRFFT2d plan →
      configureRFFT2dWorkspaceAddrs env q input workspace output =
        configureRFFT2dWorkspaceAddrs env plan input workspace output ∧
      execRFFT2d env be q input scale_factor workspace output [] =
        execRFFT2d env be plan input scale_factor workspace output []) :=
  ⟨execRFFT1d_congr env be plan _ input scale_factor workspace output []
      (execRFFT1d_inv env0 be0 plan input0 scale_factor0 workspace0 output0 trace0),
    execRFFT2d_congr env be plan _ input scale_factor workspace output []
      (execRFFT2d_inv env0 be0 plan input0 scale_factor0 workspace0 output0 trace0),
    fun q h => ⟨configuredRFFT1d_congr env plan q input workspace output h,
      execRFFT1d_congr env be plan q input scale_factor workspace output [] h⟩,
    fun q h => ⟨configureRFFT2dWorkspaceAddrs_congr env plan q input workspace output h,
      execRFFT2d_congr env be plan q input scale_factor workspace output [] h⟩⟩

/-- C18, witness: a call of execRFFT1d on a DirectMatmul plan with a strided
input, input pointer offset 64 and workspace offset 128 leaves a plan that
differs from the one it started from (`input_contiguous_addr` is workspace
offset 128); the next call, with other pointers, reassigns that role and runs
exactly as it does on the original plan. -/
theorem C18_address_table_recomputed_witness :
    (execRFFT1d (exampleEnv CNFFT_FUNC_MATMUL) exampleBackend (examplePlan 4 1 4 3 false false)
        ⟨Base.input, 64⟩ CFloat.one ⟨Base.workspace, 128⟩ ⟨Base.output, 32⟩ []).2.fft_plan ≠
      examplePlan 4 1 4 3 false false ∧
    (execRFFT1d (exampleEnv CNFFT_FUNC_MATMUL) exampleBackend (examplePlan 4 1 4 3 false false)
        ⟨Base.input, 64⟩ CFloat.one ⟨Base.workspace, 128⟩ ⟨Base.output, 32⟩
        []).2.fft_plan.matmul_addrs.input_contiguous_addr = ⟨Base.workspace, 128⟩ ∧
    (configuredRFFT1d (exampleEnv CNFFT_FUNC_MATMUL)
      (execRFFT1d (exampleEnv CNFFT_FUNC_MATMUL) exampleBackend
        (examplePlan 4 1 4 3 false false) ⟨Base.input, 64⟩ CFloat.one ⟨Base.workspace, 128⟩
        ⟨Base.output, 32⟩ []).2.fft_plan
      exampleInput exampleWorkspace exampleOutput).matmul_addrs.input_contiguous_addr =
        exampleWorkspace ∧
    execRFFT1d (exampleEnv CNFFT_FUNC_MATMUL) exampleBackend
        (execRFFT1d (exampleEnv CNFFT_FUNC_MATMUL) exampleBackend
          (examplePlan 4 1 4 3 false false) ⟨Base.input, 64⟩ CFloat.one ⟨Base.workspace, 128⟩
          ⟨Base.output, 32⟩ []).2.fft_plan
        exampleInput CFloat.one exampleWorkspace exampleOutput [] =
      execRFFT1d (exampleEnv CNFFT_FUNC_MATMUL) exampleBackend (examplePlan 4 1 4 3 false false)
        exampleInput CFloat.one exampleWorkspace exampleOutput [] :=
  ⟨by decide, by decide, by decide,
    (C18_address_table_recomputed (exampleEnv CNFFT_FUNC_MATMUL)
      (exampleEnv CNFFT_FUNC_MATMUL) exampleBackend exampleBackend
      (examplePlan 4 1 4 3 false false) exampleInput ⟨Base.input, 64⟩ exampleWorkspace
      ⟨Base.workspace, 128⟩ exampleOutput ⟨Base.output, 32⟩ CFloat.one CFloat.one []).1⟩

/-- C19: the reserved area of the composite strategies.  After a successful
policy call that chose Cooley-Tukey or Stockham, with the reserved pointer set
to `reservespace`: `reservespace_size = 2 * L * L * bytes(input_dtype)`;
configureRFFT1dMatmulReserveAddrs puts the real matrix at `reservespace` and
the imaginary matrix `L * L * bytes(input_dtype)` bytes after it; the two
regions of that size are disjoint, lie inside the reserved area and together
fill it; and the size the builder computes is `reservespace_size`. -/
theorem C19_reserved_matrices_back_to_back (env : Env) (handle : Handle) (plan : FFTPlan)
    (reservespace : Addr)
    (hok : (makeRFFT1dPolicy env handle plan).1 = MLUOP_STATUS_SUCCESS)
    (hs : (makeRFFT1dPolicy env handle plan).2.fft_strategy = CNFFT_FUNC_COOLEY_TUKEY ∨
          (makeRFFT1dPolicy env handle plan).2.fft_strategy = CNFFT_FUNC_STOCKHAM) :
    let planned := { (makeRFFT1dPolicy env handle plan).2 with reservespace_addr := reservespace }
    let built := configureRFFT1dMatmulReserveAddrs env planned
    let size := planned.L * planned.L * env.mluOpDataTypeBytes planned.input_dtype
    let re : Region := ⟨built.matmul_addrs.dft_re_matrix_addr, size⟩
    let im : Region := ⟨built.matmul_addrs.dft_im_matrix_addr, size⟩
    planned.reservespace_size =
      2 * planned.L * planned.L * env.mluOpDataTypeBytes planned.input_dtype ∧
    re.addr = reservespace ∧
    im.addr = reservespace.add size ∧
    re.disjoint im ∧
    re.within reservespace planned.reservespace_size ∧
    im.within reservespace planned.reservespace_size ∧
    re.size + im.size = planned.reservespace_size ∧
    (configureRFFT1dMatmulReserveAddrsAux env planned).2 = planned.reservespace_size := by
  intro planned built size re im
  have h5 := composite_reserved_size env handle plan hok hs
  exact ⟨h5, reserved_regions_composite env planned hs h5⟩

/-- C19, witness: for the planned Cooley-Tukey plan of length `12 = 3 * 2^2`
with float input the reserved area has 72 bytes, the real matrix is at offset
0 and the imaginary matrix at offset 36. -/
theorem C19_reserved_matrices_back_to_back_witness :
    let planned := (makeRFFT1dPolicy (exampleEnv CNFFT_FUNC_COOLEY_TUKEY) exampleHandle
      (examplePlan 12 2 10 14 false false)).2
    let built := configureRFFT1dMatmulReserveAddrs (exampleEnv CNFFT_FUNC_COOLEY_TUKEY)
      { planned with reservespace_addr := ⟨Base.reservespace, 0⟩ }
    planned.reservespace_size = 72 ∧
    built.matmul_addrs.dft_re_matrix_addr = ⟨Base.reservespace, 0⟩ ∧
    built.matmul_addrs.dft_im_matrix_addr = ⟨Base.reservespace, 36⟩ :=
  ⟨(C19_reserved_matrices_back_to_back (exampleEnv CNFFT_FUNC_COOLEY_TUKEY) exampleHandle
      (examplePlan 12 2 10 14 false false) ⟨Base.reservespace, 0⟩ (by decide) (by decide)).1,
   (C19_reserved_matrices_back_to_back (exampleEnv CNFFT_FUNC_COOLEY_TUKEY) exampleHandle
      (examplePlan 12 2 10 14 false false) ⟨Base.reservespace, 0⟩ (by decide) (by decide)).2.1,
   (C19_reserved_matrices_back_to_back (exampleEnv CNFFT_FUNC_COOLEY_TUKEY) exampleHandle
      (examplePlan 12 2 10 14 false false) ⟨Base.reservespace, 0⟩ (by decide) (by decide)).2.2.1⟩

/-! ## Lemmas: the statuses of the scratch-size queries -/

/-- The composite block returns the status of its second query. -/
theorem composite_status_is_last_query (env : Env) (p : FFTPlan) (hL : p.L ≤ FFT_L_LIMIT) :
    ∃ st_t st_m : mluOpStatus_t,
      makeRFFT1dPolicy_COMPOSITE_queries env p = [st_t, st_m] ∧
      st_t = (env.fftGetTransposeWorkspaceSize 3 [p.batch, p.L, 2 ^ p.m] [0, 2, 1]
        p.input_dtype).1 ∧
      (makeRFFT1dPolicy_COMPOSITE env p).1 = st_m := by
  have hL' : ¬ p.L > FFT_L_LIMIT := by omega
  refine ⟨_, (makeRFFT1dPolicy_COMPOSITE env p).1, ?_, rfl, rfl⟩
  simp only [makeRFFT1dPolicy_COMPOSITE_queries, makeRFFT1dPolicy_COMPOSITE, hL', ↓reduceIte]
  split_ifs <;> simp

/-- The direct-matmul block returns the status of its only query. -/
theorem matmul_status_is_query (env : Env) (lim : Nat) (p : FFTPlan)
    (hok : (makeRFFT1dPolicy_MATMUL env lim p).1 = MLUOP_STATUS_SUCCESS) :
    ∀ st ∈ makeRFFT1dPolicy_MATMUL_queries env lim p, st = MLUOP_STATUS_SUCCESS := by
  intro st hst
  by_cases hn : p.n0 > lim
  · simp [makeRFFT1dPolicy_MATMUL, hn] at hok
  · simp only [makeRFFT1dPolicy_MATMUL_queries, hn, ↓reduceIte, List.mem_singleton] at hst
    simp only [makeRFFT1dPolicy_MATMUL, hn, ↓reduceIte] at hok
    rw [hst]
    exact hok

/-- The queries of a policy call are those of the block of the selected
strategy. -/
theorem queries_eq_composite (env : Env) (handle : Handle) (plan : FFTPlan)
    (hsel : (selectRFFT1dStrategy env handle plan).1 = MLUOP_STATUS_SUCCESS)
    (hs : (selectRFFT1dStrategy env handle plan).2.fft_strategy = CNFFT_FUNC_COOLEY_TUKEY ∨
      (selectRFFT1dStrategy env handle plan).2.fft_strategy = CNFFT_FUNC_STOCKHAM) :
    makeRFFT1dPolicy_queries env handle plan =
      makeRFFT1dPolicy_COMPOSITE_queries env (selectRFFT1dStrategy env handle plan).2 := by
  unfold makeRFFT1dPolicy_queries
  simp only [hsel, ne_eq, not_true_eq_false, ↓reduceIte]
  rcases hs with h | h <;> simp [h]

theorem queries_eq_matmul (env : Env) (handle : Handle) (plan : FFTPlan)
    (hsel : (selectRFFT1dStrategy env handle plan).1 = MLUOP_STATUS_SUCCESS)
    (hs : (selectRFFT1dStrategy env handle plan).2.fft_strategy = CNFFT_FUNC_MATMUL) :
    makeRFFT1dPolicy_queries env handle plan =
      makeRFFT1dPolicy_MATMUL_queries env
        (if handle.arch > env.MLUOP_MLU370 then env.FFT_L_LIMIT_MATMUL_500
          else env.FFT_L_LIMIT_MATMUL_300)
        (selectRFFT1dStrategy env handle plan).2 := by
  unfold makeRFFT1dPolicy_queries
  simp only [hsel, ne_eq, not_true_eq_false, ↓reduceIte]
  simp [hs]

/-! ## Lemmas: the stages that take the scale factor -/

theorem scaleArgument_kind (c : Call) (a : CFloat) (h : c.scaleArgument = some a) :
    c.kind = CallKind.matmul ∨ c.kind = CallKind.kernel := by
  cases c <;> simp_all [Call.scaleArgument, Call.kind]

theorem scaledStages_append (a b : List Call) :
    scaledStages (a ++ b) = scaledStages a ++ scaledStages b := by
  simp [scaledStages, List.filterMap_append]

/-- A list without matrix multiplies and kernel launches has no scaled stage. -/
theorem scaledStages_nil_of_kinds {l : List Call} {kinds : List CallKind}
    (h : l.all (Call.kindIn kinds) = true) (hm : CallKind.matmul ∉ kinds)
    (hk : CallKind.kernel ∉ kinds) : scaledStages l = [] := by
  unfold scaledStages
  rw [List.filterMap_eq_nil_iff]
  intro c hc
  cases hsa : c.scaleArgument with
  | none => rfl
  | some a =>
    exfalso
    have hkind := kind_mem_of_all h hc
    rcases scaleArgument_kind c a hsa with e | e
    · exact hm (e ▸ hkind)
    · exact hk (e ▸ hkind)

/-- The scaled stages of the all-succeeding run of the matmul-family path are
those of the spectral stage followed by those of the merge stage. -/
theorem execRFFT1d_ok_scaledStages (env : Env) (h : TensorDesc → TensorDesc → TensorDesc → Nat)
    (plan : FFTPlan) (input : Addr) (scale_factor : CFloat) (workspace output : Addr)
    (hp : plan.prime = true) :
    scaledStages (execRFFT1d env (Backend.allSucceed h) plan input scale_factor workspace
        output []).2.trace =
      scaledStages (callsOf (computeRFFT1dMatmulResult (Backend.allSucceed h) scale_factor)
          (configuredRFFT1d env plan input workspace output)) ++
        scaledStages (callsOf (mergeRFFT1dOutput (Backend.allSucceed h) scale_factor)
          (configuredRFFT1d env plan input workspace output)) := by
  rw [execRFFT1d_ok_prime env h plan input scale_factor workspace output hp]
  simp only [scaledStages_append,
    scaledStages_nil_of_kinds (makeRFFT1dContiguousInput_kinds h input _)
      (by decide) (by decide),
    scaledStages_nil_of_kinds (padRFFT1dContiguousInput_kinds h _) (by decide) (by decide),
    scaledStages_nil_of_kinds (transposeRFFT1dPaddedInput_kinds h _) (by decide) (by decide),
    scaledStages_nil_of_kinds (makeRFFT1dContiguousOutput_kinds h output _)
      (by decide) (by decide),
    List.nil_append, List.append_nil]

/-- The scaled stages of the spectral stage and of the merge stage, by strategy. -/
theorem scaledStages_by_strategy (h : TensorDesc → TensorDesc → TensorDesc → Nat)
    (scale_factor : CFloat) (p : FFTPlan) :
    scaledStages (callsOf (computeRFFT1dMatmulResult (Backend.allSucceed h) scale_factor) p) ++
        scaledStages (callsOf (mergeRFFT1dOutput (Backend.allSucceed h) scale_factor) p) =
      if p.fft_strategy = CNFFT_FUNC_MATMUL then [(CallKind.matmul, scale_factor)]
      else if p.fft_strategy = CNFFT_FUNC_COOLEY_TUKEY then
        [(CallKind.matmul, scale_factor), (CallKind.matmul, scale_factor)]
      else if p.fft_strategy = CNFFT_FUNC_STOCKHAM then
        [(CallKind.matmul, scale_factor), (CallKind.kernel, scale_factor)]
      else [] := by
  rw [computeRFFT1dMatmulResult_calls, mergeRFFT1dOutput_calls]
  by_cases h1 : p.fft_strategy = CNFFT_FUNC_MATMUL
  · simp [h1, scaledStages, Call.scaleArgument, Call.kind]
  · by_cases h2 : p.fft_strategy = CNFFT_FUNC_COOLEY_TUKEY
    · simp [h2, scaledStages, Call.scaleArgument, Call.kind]
    · by_cases h3 : p.fft_strategy = CNFFT_FUNC_STOCKHAM
      · simp [h3, scaledStages, Call.scaleArgument, Call.kind]
      · simp [h1, h2, h3, scaledStages]

theorem scaledStages_mem {l : List Call} {c : Call} {a : CFloat} (hc : c ∈ l)
    (ha : c.scaleArgument = some a) : (c.kind, a) ∈ scaledStages l := by
  unfold scaledStages
  rw [List.mem_filterMap]
  exact ⟨c, hc, by simp [ha]⟩

theorem configuredRFFT1d_strategy (env : Env) (plan : FFTPlan) (input workspace output : Addr) :
    (configuredRFFT1d env plan input workspace output).fft_strategy = plan.fft_strategy := by
  obtain ⟨ma, mu, hcfg, -⟩ := configuredRFFT1d_sizing env plan input workspace output
  rw [hcfg]

/-! ## Lemmas: the operands of the many-distance-1 matrix multiplies -/

theorem matmulOperands_kind (c : Call)
    (x : (TensorDesc × Addr) × (TensorDesc × Addr) × (TensorDesc × Addr))
    (h : c.matmulOperands = some x) : c.kind = CallKind.matmul := by
  cases c <;> simp_all [Call.matmulOperands, Call.kind]

/-- A list without matrix multiplies has no matmul operands. -/
theorem matmulOperands_nil_of_kinds {l : List Call} {kinds : List CallKind}
    (h : l.all (Call.kindIn kinds) = true) (hm : CallKind.matmul ∉ kinds) :
    l.filterMap Call.matmulOperands = [] := by
  rw [List.filterMap_eq_nil_iff]
  intro c hc
  cases hsa : c.matmulOperands with
  | none => rfl
  | some a => exact absurd (matmulOperands_kind c a hsa) (kind_ne_of_all h hm hc)

/-- The row stage issues one matrix multiply: the half DFT matrix
`[(n1/2+1)*2, n1]` times the input `[n0, n1, batch]` into `buffer_in`. -/
theorem computeFFT2dMatMulRowR2C_operands (h : TensorDesc → TensorDesc → TensorDesc → Nat)
    (scale_factor : CFloat) (p : FFTPlan) :
    (callsOf (computeFFT2dMatMulRowR2C (Backend.allSucceed h) scale_factor) p).filterMap
      Call.matmulOperands =
      [((⟨p.execution_dtype, [(((p.n1 / 2 + 1) * 2 : Nat) : Int), p.n1], none,
            some p.execution_dtype⟩, p.mlu_addrs.dft_matrix),
        (⟨p.execution_dtype, [(p.n0 : Int), p.n1, p.batch], none, some p.execution_dtype⟩,
          p.mlu_addrs.input),
        (⟨p.execution_dtype, [(p.n0 : Int), (((p.n1 / 2 + 1) * 2 : Nat) : Int), p.batch], none,
            some p.execution_dtype⟩, p.mlu_addrs.buffer_in))] := by
  unfold callsOf computeFFT2dMatMulRowR2C
  simp only [issue_allSucceed, CHECK_RETURN_success, CALL_CNNL_allSucceed,
    CALL_UNCHECKED_allSucceed, allSucceed_heuristicWorkspaceSize]
  simp only [List.nil_append, List.cons_append, List.filterMap_cons, Call.matmulOperands,
    List.filterMap_nil]

/-- The column stage issues one matrix multiply: the DFT matrix `[2*n0, n0]`
times `buffer_in` read as `[n0, n]` into `buffer_out`, `n` being the `int`
product `(n1/2+1)*2*batch`. -/
theorem computeFFT2dMatMulColumnR2C_operands (h : TensorDesc → TensorDesc → TensorDesc → Nat)
    (scale_factor : CFloat) (p : FFTPlan) :
    (callsOf (computeFFT2dMatMulColumnR2C (Backend.allSucceed h) scale_factor) p).filterMap
      Call.matmulOperands =
      [((⟨p.execution_dtype, [((p.n0 * 2 : Nat) : Int), p.n0], none, some p.execution_dtype⟩,
          p.mlu_addrs.dft_matrix_2d),
        (⟨p.execution_dtype,
            [(p.n0 : Int), int32 (((p.n1 / 2 + 1) * 2 * p.batch : Nat) : Int)], none,
            some p.execution_dtype⟩, p.mlu_addrs.buffer_in),
        (⟨p.execution_dtype,
            [((p.n0 * 2 : Nat) : Int), int32 (((p.n1 / 2 + 1) * 2 * p.batch : Nat) : Int)], none,
            some p.execution_dtype⟩, p.mlu_addrs.buffer_out))] := by
  unfold callsOf computeFFT2dMatMulColumnR2C
  simp only [issue_allSucceed, CHECK_RETURN_success, CALL_CNNL_allSucceed,
    CALL_UNCHECKED_allSucceed, allSucceed_heuristicWorkspaceSize]
  split_ifs <;>
  simp only [List.nil_append, List.cons_append, List.filterMap_cons, Call.matmulOperands,
    List.filterMap_nil]

/-- The matmul operands of the all-succeeding run of execRFFT2d under the
many-distance-1 strategy: those of the row stage, then those of the column
stage. -/
theorem execRFFT2d_ok_many_operands (env : Env) (h : TensorDesc → TensorDesc → TensorDesc → Nat)
    (plan : FFTPlan) (input : Addr) (scale_factor : CFloat) (workspace output : Addr)
    (hs : plan.fft_strategy = CNFFT_FUNC_MANY_DIST1_2D) :
    (execRFFT2d env (Backend.allSucceed h) plan input scale_factor workspace output
        []).2.trace.filterMap Call.matmulOperands =
      (callsOf (computeFFT2dMatMulRowR2C (Backend.allSucceed h) scale_factor)
          (configureRFFT2dWorkspaceAddrs env plan input workspace output)).filterMap
        Call.matmulOperands ++
      (callsOf (computeFFT2dMatMulColumnR2C (Backend.allSucceed h) scale_factor)
          (configureRFFT2dWorkspaceAddrs env plan input workspace output)).filterMap
        Call.matmulOperands := by
  obtain ⟨S, htr, -, hS⟩ := execRFFT2d_ok_split env h plan input scale_factor workspace output
  have hne : plan.fft_strategy ≠ CNFFT_FUNC_TWO_LEVEL_STOCKHAM := by rw [hs]; decide
  rw [htr, hS hs]
  simp only [hne, ↓reduceIte, List.append_nil, List.filterMap_append,
    matmulOperands_nil_of_kinds (execRFFT2d_scaleBlock_kinds h scale_factor _) (by decide)]

/-- The addresses the allocator of execRFFT2d assigns under the many-distance-1
strategy. -/
theorem configureRFFT2dWorkspaceAddrs_many (env : Env) (plan : FFTPlan)
    (input workspace output : Addr) (hs : plan.fft_strategy = CNFFT_FUNC_MANY_DIST1_2D) :
    (configureRFFT2dWorkspaceAddrs env plan input workspace output).mlu_addrs.input = input ∧
    (configureRFFT2dWorkspaceAddrs env plan input workspace output).mlu_addrs.output = output ∧
    (configureRFFT2dWorkspaceAddrs env plan input workspace output).mlu_addrs.buffer_in =
      workspace.add 0 ∧
    (configureRFFT2dWorkspaceAddrs env plan input workspace output).mlu_addrs.buffer_out =
      workspace.add ((plan.batch * env.mluOpDataTypeBytes plan.output_dtype * plan.n0 *
        plan.n1 * 2 : Nat) : Int) ∧
    (configureRFFT2dWorkspaceAddrs env plan input workspace output).mlu_addrs.dft_matrix =
      plan.mlu_addrs.dft_matrix ∧
    (configureRFFT2dWorkspaceAddrs env plan input workspace output).mlu_addrs.dft_matrix_2d =
      plan.mlu_addrs.dft_matrix_2d := by
  simp [configureRFFT2dWorkspaceAddrs, hs]

/-! ## Lemmas: the result regions of the many-distance-1 matrix multiplies -/

theorem filterMap_matmulResultRegion (env : Env) (l : List Call) :
    l.filterMap (Call.matmulResultRegion env) =
      (l.filterMap Call.matmulOperands).map fun x =>
        (⟨x.2.2.2, env.mluOpDataTypeBytes x.2.2.1.dtype * x.2.2.1.elements.toNat⟩ : Region) := by
  induction l with
  | nil => rfl
  | cons c l ih =>
    cases hc : c.matmulOperands with
    | none => simp [List.filterMap_cons, Call.matmulResultRegion, hc, ih]
    | some x => simp [List.filterMap_cons, Call.matmulResultRegion, hc, ih]

theorem elements_three (d : mluOpDataType_t) (a b c : Nat) (s : Option (List Int))
    (o : Option mluOpDataType_t) :
    (TensorDesc.elements ⟨d, [(a : Int), (b : Int), (c : Int)], s, o⟩).toNat = a * b * c := by
  simp only [TensorDesc.elements, List.prod_cons, List.prod_nil, mul_one]
  have : ((a : Int) * ((b : Int) * (c : Int))) = ((a * b * c : Nat) : Int) := by
    push_cast
    ring
  rw [this, Int.toNat_natCast]

/-- An `int` product is at most the exact product. -/
theorem int32_le (n : Nat) : int32 (n : Int) ≤ n := by
  unfold int32
  omega

/-- The product of a count and an `int` product, cut off at zero, is at most
the exact product. -/
theorem toNat_mul_int32_le (a b : Nat) : ((a : Int) * int32 (b : Int)).toNat ≤ a * b := by
  have h1 : (a : Int) * int32 (b : Int) ≤ (a : Int) * (b : Int) :=
    mul_le_mul_of_nonneg_left (int32_le b) (Int.natCast_nonneg a)
  have h2 : ((a * b : Nat) : Int) = (a : Int) * (b : Int) := Int.natCast_mul a b
  rw [← h2] at h1
  generalize (a : Int) * int32 (b : Int) = z at h1 ⊢
  generalize a * b = w at h1 ⊢
  omega

/-- The element count of a two-dimensional tensor whose second extent is an
`int` product. -/
theorem elements_two_int32 (d : mluOpDataType_t) (a b : Nat) (s : Option (List Int))
    (o : Option mluOpDataType_t) :
    TensorDesc.elements ⟨d, [(a : Int), int32 (b : Int)], s, o⟩ =
      (a : Int) * int32 (b : Int) := by
  show ([(a : Int), int32 (b : Int)] : List Int).prod = _
  rw [List.prod_cons, List.prod_cons, List.prod_nil, mul_one]

theorem elements_two (d : mluOpDataType_t) (a b : Nat) (s : Option (List Int))
    (o : Option mluOpDataType_t) :
    (TensorDesc.elements ⟨d, [(a : Int), (b : Int)], s, o⟩).toNat = a * b := by
  simp only [TensorDesc.elements, List.prod_cons, List.prod_nil, mul_one]
  have : ((a : Int) * (b : Int)) = ((a * b : Nat) : Int) := by
    push_cast
    ring
  rw [this, Int.toNat_natCast]

/-! ## Lemmas: device allocations of the many-distance-1 stages -/

theorem isDeviceAlloc_iff_kind (c : Call) : c.isDeviceAlloc = true ↔ c.kind = CallKind.alloc := by
  cases c <;> simp [Call.isDeviceAlloc, Call.kind]

/-- What the row stage issues from its device allocation on, when no call
fails: the allocation, the batched matrix multiply, and the release of the
descriptors and of the handle.  The function returns after these. -/
theorem computeFFT2dMatMulRowR2C_after_alloc (h : TensorDesc → TensorDesc → TensorDesc → Nat)
    (scale_factor : CFloat) (p : FFTPlan) :
    ∃ (size : Nat) (bmm : Call), bmm.isMatmul = true ∧
      (callsOf (computeFFT2dMatMulRowR2C (Backend.allSucceed h) scale_factor) p).dropWhile
          (fun c => !c.isDeviceAlloc) =
        [Call.cnrtMalloc size, bmm,
          Call.mluOpDestroyTensorDescriptor, Call.mluOpDestroyTensorDescriptor,
          Call.mluOpDestroyTensorDescriptor, Call.cnnlDestroyMatMulDescriptor,
          Call.cnnlDestroyMatMulAlgo, Call.cnnlDestroyMatMulHeuristicResult,
          Call.DESTROY_CNNL_TENSOR_DESCRIPTOR, Call.DESTROY_CNNL_TENSOR_DESCRIPTOR,
          Call.DESTROY_CNNL_TENSOR_DESCRIPTOR, Call.DESTROY_CNNL_HANDLE] := by
  unfold callsOf computeFFT2dMatMulRowR2C
  simp only [issue_allSucceed, CHECK_RETURN_success, CALL_CNNL_allSucceed,
    CALL_UNCHECKED_allSucceed, allSucceed_heuristicWorkspaceSize]
  simp only [List.nil_append, List.cons_append, List.dropWhile_cons, Call.isDeviceAlloc,
    Bool.not_false, Bool.not_true, ↓reduceIte, Bool.false_eq_true]
  refine ⟨_, _, ?_, rfl⟩
  rfl

/-- The row stage allocates once. -/
theorem computeFFT2dMatMulRowR2C_allocs (h : TensorDesc → TensorDesc → TensorDesc → Nat)
    (scale_factor : CFloat) (p : FFTPlan) :
    (callsOf (computeFFT2dMatMulRowR2C (Backend.allSucceed h) scale_factor) p).countP
      Call.isDeviceAlloc = 1 := by
  unfold callsOf computeFFT2dMatMulRowR2C
  simp only [issue_allSucceed, CHECK_RETURN_success, CALL_CNNL_allSucceed,
    CALL_UNCHECKED_allSucceed, allSucceed_heuristicWorkspaceSize]
  simp only [List.nil_append, List.cons_append, List.countP_cons, List.countP_nil,
    Call.isDeviceAlloc, Bool.false_eq_true, ↓reduceIte]

/-- The column stage allocates once when its heuristic asks for scratch and
not at all otherwise. -/
theorem computeFFT2dMatMulColumnR2C_allocs (h : TensorDesc → TensorDesc → TensorDesc → Nat)
    (scale_factor : CFloat) (p : FFTPlan) :
    (callsOf (computeFFT2dMatMulColumnR2C (Backend.allSucceed h) scale_factor) p).countP
      Call.isDeviceAlloc ≤ 1 := by
  unfold callsOf computeFFT2dMatMulColumnR2C
  simp only [issue_allSucceed, CHECK_RETURN_success, CALL_CNNL_allSucceed,
    CALL_UNCHECKED_allSucceed, allSucceed_heuristicWorkspaceSize]
  split_ifs <;>
  simp only [List.nil_append, List.cons_append, List.countP_cons, List.countP_nil,
    Call.isDeviceAlloc, Bool.false_eq_true, ↓reduceIte] <;> omega

/-- The device allocations of the all-succeeding run of execRFFT2d under the
many-distance-1 strategy are those of the row stage and of the column stage. -/
theorem execRFFT2d_ok_many_allocs (env : Env) (h : TensorDesc → TensorDesc → TensorDesc → Nat)
    (plan : FFTPlan) (input : Addr) (scale_factor : CFloat) (workspace output : Addr)
    (hs : plan.fft_strategy = CNFFT_FUNC_MANY_DIST1_2D) :
    (execRFFT2d env (Backend.allSucceed h) plan input scale_factor workspace output
        []).2.trace.countP Call.isDeviceAlloc =
      1 + (callsOf (computeFFT2dMatMulColumnR2C (Backend.allSucceed h) scale_factor)
          (configureRFFT2dWorkspaceAddrs env plan input workspace output)).countP
        Call.isDeviceAlloc := by
  obtain ⟨S, htr, -, hS⟩ := execRFFT2d_ok_split env h plan input scale_factor workspace output
  have hne : plan.fft_strategy ≠ CNFFT_FUNC_TWO_LEVEL_STOCKHAM := by rw [hs]; decide
  have hsc : (callsOf (execRFFT2d_scaleBlock (Backend.allSucceed h) scale_factor)
      (configureRFFT2dWorkspaceAddrs env plan input workspace output)).countP
      Call.isDeviceAlloc = 0 := by
    rw [List.countP_eq_zero]
    intro c hc hal
    exact kind_ne_of_all (execRFFT2d_scaleBlock_kinds h scale_factor _) (by decide) hc
      ((isDeviceAlloc_iff_kind c).mp hal)
  rw [htr, hS hs]
  simp only [hne, ↓reduceIte, List.append_nil, List.countP_append, hsc,
    computeFFT2dMatMulRowR2C_allocs, Nat.add_zero]

/-! ## Lemmas: the batch loops of the two-level Stockham strategy -/

/-- After `k` pointer bumps the plan is the `k`-th batch plan. -/
theorem advancePlan_iterate_batchPlan (idist odist k : Nat) (p : FFTPlan) :
    (advancePlan idist odist)^[k] p = batchPlan idist odist p k :=
  advancePlan_iterate idist odist k p

/-- The calls of a batch loop whose body cannot fail: those of the body on the
batch plans `0, 1, ..., count - 1`, in this order. -/
theorem batchLoop_calls {body : Stage} (hb : Stage.runsTo body id) (idist odist count : Nat)
    (p : FFTPlan) :
    callsOf (batchLoop body idist odist count) p =
      ((List.range count).map fun k => callsOf body (batchPlan idist odist p k)).flatten := by
  induction count generalizing p with
  | zero => simp [callsOf, batchLoop]
  | succ k ih =>
    rw [(runsTo_batchLoop hb idist odist k).2 p, ih, List.range_succ_eq_map, List.map_cons,
      List.flatten_cons, List.map_map]
    congr 1
    · have := advancePlan_iterate_batchPlan idist odist 0 p
      simp only [Function.iterate_zero, id_eq] at this
      rw [← this]
    · congr 1
      apply List.map_congr_left
      intro i _
      simp only [Function.comp_apply]
      rw [← advancePlan_iterate_batchPlan, ← advancePlan_iterate_batchPlan,
        Function.iterate_succ_apply]

theorem launchRFFT2dButterflyRow_calls (h : TensorDesc → TensorDesc → TensorDesc → Nat)
    (p : FFTPlan) :
    callsOf (launchRFFT2dButterflyRow (Backend.allSucceed h)) p =
      [Call.kernelRFFT2dButterflyRow p FFTType.RFFT] := by
  simp [callsOf, launchRFFT2dButterflyRow, issue_allSucceed]

theorem launchRFFT2dButterflyColumn_calls (h : TensorDesc → TensorDesc → TensorDesc → Nat)
    (p : FFTPlan) :
    callsOf (launchRFFT2dButterflyColumn (Backend.allSucceed h)) p =
      [Call.kernelRFFT2dButterflyColumn p FFTType.FFT_IFFT] := by
  simp [callsOf, launchRFFT2dButterflyColumn, issue_allSucceed]

theorem flatten_map_singleton {α β : Type} (f : α → β) (l : List α) :
    (l.map fun a => [f a]).flatten = l.map f := by
  induction l with
  | nil => rfl
  | cons a l ih => simp [ih]

/-- The pad block of the degenerate shapes issues one pad, from
`mlu_addrs.input` to `mlu_addrs.output`. -/
theorem padDegenerate2d_pads (h : TensorDesc → TensorDesc → TensorDesc → Nat)
    (dims padded_dims paddings : List Int) (p : FFTPlan) :
    (callsOf (padDegenerate2d (Backend.allSucceed h) dims padded_dims paddings) p).filter
        (fun c => c.isPad || c.isKernelLaunch) =
      [Call.cnnlPad ⟨MLUOP_DTYPE_FLOAT, dims, none, none⟩ p.mlu_addrs.input paddings 0
        ⟨MLUOP_DTYPE_FLOAT, padded_dims, none, none⟩ p.mlu_addrs.output] := by
  unfold callsOf padDegenerate2d
  simp only [issue_allSucceed, CHECK_RETURN_success, CALL_CNNL_allSucceed,
    CALL_UNCHECKED_allSucceed, allSucceed_heuristicWorkspaceSize]
  simp only [List.nil_append, List.cons_append, List.filter_cons, Call.isPad,
    Call.isKernelLaunch, Bool.or_self, Bool.or_false, Bool.false_eq_true, ↓reduceIte,
    List.filter_nil]

theorem padOrLaunch_kind (c : Call) (hc : (c.isPad || c.isKernelLaunch) = true) :
    c.kind = CallKind.pad ∨ c.kind = CallKind.kernel := by
  cases c <;> simp_all [Call.isPad, Call.isKernelLaunch, Call.kind]

theorem filter_padOrLaunch_nil {l : List Call} {kinds : List CallKind}
    (h : l.all (Call.kindIn kinds) = true) (hp : CallKind.pad ∉ kinds)
    (hk : CallKind.kernel ∉ kinds) :
    l.filter (fun c => c.isPad || c.isKernelLaunch) = [] := by
  rw [List.filter_eq_nil_iff]
  intro c hc hq
  rcases padOrLaunch_kind c hq with e | e
  · exact kind_ne_of_all h hp hc e
  · exact kind_ne_of_all h hk hc e

theorem filter_padOrLaunch_launches (env : Env) (p : FFTPlan) :
    (launchesRFFT2d env p).filter (fun c => c.isPad || c.isKernelLaunch) =
      launchesRFFT2d env p := by
  rw [List.filter_eq_self]
  intro c hc
  unfold launchesRFFT2d at hc
  simp only [] at hc
  split_ifs at hc
  · obtain ⟨k, -, rfl⟩ := List.mem_map.1 hc
    rfl
  · obtain ⟨k, -, rfl⟩ := List.mem_map.1 hc
    rfl
  · simp at hc
  · rw [List.mem_flatten] at hc
    obtain ⟨l, hl, hcl⟩ := hc
    obtain ⟨k, -, rfl⟩ := List.mem_map.1 hl
    simp only [List.mem_cons, List.mem_singleton, List.not_mem_nil, or_false] at hcl
    rcases hcl with rfl | rfl <;> rfl

/-- The pads and kernel launches of the all-succeeding run of execRFFT2d on a
two-level Stockham plan: one pad for the shapes `N x 1` and `1 x 1` and none
otherwise, followed by the launches of the batch loop. -/
theorem execRFFT2d_ok_stockham_pads_launches (env : Env)
    (h : TensorDesc → TensorDesc → TensorDesc → Nat)
    (plan : FFTPlan) (input : Addr) (scale_factor : CFloat) (workspace output : Addr)
    (hs : plan.fft_strategy = CNFFT_FUNC_TWO_LEVEL_STOCKHAM) :
    (execRFFT2d env (Backend.allSucceed h) plan input scale_factor workspace output
        []).2.trace.filter (fun c => c.isPad || c.isKernelLaunch) =
      (if plan.n0 ≠ 1 ∧ plan.n1 = 1 then
        [Call.cnnlPad ⟨MLUOP_DTYPE_FLOAT, [plan.batch, plan.n0, plan.n1], none, none⟩
          (configureRFFT2dWorkspaceAddrs env plan input workspace output).mlu_addrs.input
          [0, 0, 0, 0, 0, 1] 0
          ⟨MLUOP_DTYPE_FLOAT, [plan.batch, plan.n0, ((plan.n1 * 2 : Nat) : Int)], none, none⟩
          (configureRFFT2dWorkspaceAddrs env plan input workspace output).mlu_addrs.output]
      else if plan.n0 = 1 ∧ plan.n1 = 1 then
        [Call.cnnlPad ⟨MLUOP_DTYPE_FLOAT, [plan.batch, ((plan.n0 * plan.n1 : Nat) : Int)],
            none, none⟩
          (configureRFFT2dWorkspaceAddrs env plan input workspace output).mlu_addrs.input
          [0, 0, 0, 1] 0
          ⟨MLUOP_DTYPE_FLOAT, [plan.batch, ((plan.n0 * plan.n1 * 2 : Nat) : Int)], none, none⟩
          (configureRFFT2dWorkspaceAddrs env plan input workspace output).mlu_addrs.output]
      else []) ++
      launchesRFFT2d env (configureRFFT2dWorkspaceAddrs env plan input workspace output) := by
  rw [execRFFT2d_ok]
  obtain ⟨f1, f2, f3, f4, -, f6, f7, -⟩ :=
    configureRFFT2dWorkspaceAddrs_fields env plan input workspace output
  have e1 : callsOf (execRFFT2d_strategyBlock env (Backend.allSucceed h) input scale_factor)
      (configureRFFT2dWorkspaceAddrs env plan input workspace output) =
      callsOf (execRFFT2d_TWO_LEVEL_STOCKHAM env (Backend.allSucceed h) input)
        (configureRFFT2dWorkspaceAddrs env plan input workspace output) := by
    simp [callsOf, execRFFT2d_strategyBlock, f1, hs]
  have e2 : callsOf (execRFFT2d_outputBlock (Backend.allSucceed h) output)
      (configureRFFT2dWorkspaceAddrs env plan input workspace output) =
      callsOf (makeRFFT2dContiguousOutput (Backend.allSucceed h) output)
        (configureRFFT2dWorkspaceAddrs env plan input workspace output) := by
    simp [callsOf, execRFFT2d_outputBlock, f1, hs]
  rw [e1, e2]
  simp only [List.filter_append,
    filter_padOrLaunch_nil (execRFFT2d_scaleBlock_kinds h scale_factor _) (by decide) (by decide),
    filter_padOrLaunch_nil (makeRFFT2dContiguousOutput_kinds h output _) (by decide) (by decide),
    List.append_nil]
  simp only [callsOf]
  rw [execRFFT2d_TWO_LEVEL_STOCKHAM_ok]
  simp only [List.nil_append, List.filter_append]
  have hI := filter_padOrLaunch_nil (makeRFFT2dContiguousInput_kinds h input
    (configureRFFT2dWorkspaceAddrs env plan input workspace output)) (by decide) (by decide)
  rw [hI, List.nil_append]
  have hL := filter_padOrLaunch_launches env
    (configureRFFT2dWorkspaceAddrs env plan input workspace output)
  have hrow := fun i o c q => batchLoop_calls (launchRFFT2dButterflyRow_runsTo h) i o c q
  have hcol := fun i o c q => batchLoop_calls (launchRFFT2dButterflyColumn_runsTo h) i o c q
  have hrc := fun i o c q => batchLoop_calls (rowColumn_runsTo h) i o c q
  have hpad := fun d pd pp q => padDegenerate2d_pads h d pd pp q
  simp only [f2, f3, f4, f6, f7]
  by_cases hn0 : plan.n0 = 1 <;> by_cases hn1 : plan.n1 = 1
  · have hl : launchesRFFT2d env (configureRFFT2dWorkspaceAddrs env plan input workspace output)
        = [] := by
      simp [launchesRFFT2d, f2, f3, hn0, hn1]
    have c1 : plan.n0 = 1 ∨ plan.n1 = 1 := Or.inl hn0
    have c2 : ¬(plan.n0 ≠ 1 ∧ plan.n1 = 1) := fun x => x.1 hn0
    have c3 : ¬(plan.n0 = 1 ∧ plan.n1 ≠ 1) := fun x => x.2 hn1
    have c4 : plan.n0 = 1 ∧ plan.n1 = 1 := ⟨hn0, hn1⟩
    rw [if_pos c1, if_neg c2, if_neg c3, if_neg c2, if_pos c4, hpad, hl, List.append_nil]
  · have hl : callsOf (batchLoop (launchRFFT2dButterflyRow (Backend.allSucceed h))
          (env.mluOpDataTypeBytes plan.input_dtype * plan.n0 * plan.n1)
          (env.mluOpDataTypeBytes plan.output_dtype * plan.n0 * (plan.n1 / 2 + 1)) plan.batch)
          (configureRFFT2dWorkspaceAddrs env plan input workspace output) =
        launchesRFFT2d env (configureRFFT2dWorkspaceAddrs env plan input workspace output) := by
      rw [hrow]
      simp only [launchRFFT2dButterflyRow_calls, flatten_map_singleton]
      simp [launchesRFFT2d, idistRFFT2d, odistRFFT2d, f2, f3, f4, f6, f7, hn0, hn1]
    have c1 : plan.n0 = 1 ∨ plan.n1 = 1 := Or.inl hn0
    have c2 : ¬(plan.n0 ≠ 1 ∧ plan.n1 = 1) := fun x => x.1 hn0
    have c3 : plan.n0 = 1 ∧ plan.n1 ≠ 1 := ⟨hn0, hn1⟩
    have c4 : ¬(plan.n0 = 1 ∧ plan.n1 = 1) := fun x => hn1 x.2
    rw [if_pos c1, if_neg c2, if_pos c3, if_neg c2, if_neg c4, hl, hL, List.nil_append]
  · have hl : callsOf (batchLoop (launchRFFT2dButterflyColumn (Backend.allSucceed h))
          (env.mluOpDataTypeBytes plan.input_dtype * plan.n0 * plan.n1)
          (env.mluOpDataTypeBytes plan.output_dtype * plan.n0 * (plan.n1 / 2 + 1)) plan.batch)
          (configureRFFT2dWorkspaceAddrs env plan input workspace output) =
        launchesRFFT2d env (configureRFFT2dWorkspaceAddrs env plan input workspace output) := by
      rw [hcol]
      simp only [launchRFFT2dButterflyColumn_calls, flatten_map_singleton]
      simp [launchesRFFT2d, idistRFFT2d, odistRFFT2d, f2, f3, f4, f6, f7, hn0, hn1]
    have c1 : plan.n0 = 1 ∨ plan.n1 = 1 := Or.inr hn1
    have c2 : plan.n0 ≠ 1 ∧ plan.n1 = 1 := ⟨hn0, hn1⟩
    rw [if_pos c1, if_pos c2, if_pos c2, List.filter_append, hpad, hl, hL]
  · have hl : callsOf (batchLoop
          (fun s => CHECK_RETURN (launchRFFT2dButterflyRow (Backend.allSucceed h) s)
            (launchRFFT2dButterflyColumn (Backend.allSucceed h)))
          (env.mluOpDataTypeBytes plan.input_dtype * plan.n0 * plan.n1)
          (env.mluOpDataTypeBytes plan.output_dtype * plan.n0 * (plan.n1 / 2 + 1)) plan.batch)
          (configureRFFT2dWorkspaceAddrs env plan input workspace output) =
        launchesRFFT2d env (configureRFFT2dWorkspaceAddrs env plan input workspace output) := by
      rw [hrc]
      simp only [rowColumn_calls]
      simp [launchesRFFT2d, idistRFFT2d, odistRFFT2d, f2, f3, f4, f6, f7, hn0, hn1]
    have c1 : ¬(plan.n0 = 1 ∨ plan.n1 = 1) := fun x => x.elim hn0 hn1
    have c2 : ¬(plan.n0 ≠ 1 ∧ plan.n1 = 1) := fun x => hn1 x.2
    have c4 : ¬(plan.n0 = 1 ∧ plan.n1 = 1) := fun x => hn1 x.2
    rw [if_neg c1, if_neg c2, if_neg c4, hl, hL, List.nil_append]

/-- The launches of a configured plan, in terms of the plan the executor was
called with. -/
theorem launchesRFFT2d_configured (env : Env) (plan : FFTPlan) (input workspace output : Addr) :
    launchesRFFT2d env (configureRFFT2dWorkspaceAddrs env plan input workspace output) =
      (if plan.n0 = 1 ∨ plan.n1 = 1 then
        if plan.n0 ≠ 1 ∧ plan.n1 = 1 then
          (List.range plan.batch).map fun k =>
            Call.kernelRFFT2dButterflyColumn
              (batchPlan (idistRFFT2d env plan) (odistRFFT2d env plan)
                (configureRFFT2dWorkspaceAddrs env plan input workspace output) k) FFTType.FFT_IFFT
        else if plan.n0 = 1 ∧ plan.n1 ≠ 1 then
          (List.range plan.batch).map fun k =>
            Call.kernelRFFT2dButterflyRow
              (batchPlan (idistRFFT2d env plan) (odistRFFT2d env plan)
                (configureRFFT2dWorkspaceAddrs env plan input workspace output) k) FFTType.RFFT
        else []
      else
        ((List.range plan.batch).map fun k =>
          [Call.kernelRFFT2dButterflyRow
              (batchPlan (idistRFFT2d env plan) (odistRFFT2d env plan)
                (configureRFFT2dWorkspaceAddrs env plan input workspace output) k) FFTType.RFFT,
            Call.kernelRFFT2dButterflyColumn
              (batchPlan (idistRFFT2d env plan) (odistRFFT2d env plan)
                (configureRFFT2dWorkspaceAddrs env plan input workspace output) k)
              FFTType.FFT_IFFT]).flatten) := by
  obtain ⟨f1, f2, f3, f4, -, f6, f7, -⟩ :=
    configureRFFT2dWorkspaceAddrs_fields env plan input workspace output
  simp only [launchesRFFT2d, idistRFFT2d, odistRFFT2d, f2, f3, f4, f6, f7]

/-- Row launches and column launches among the launches of a plan. -/
theorem launchesRFFT2d_row_mem (env : Env) (p : FFTPlan) (c : Call)
    (hc : c ∈ launchesRFFT2d env p) (hr : c.isRowLaunch = true) : ¬(p.n0 ≠ 1 ∧ p.n1 = 1) := by
  intro hsh
  have hdeg : p.n0 = 1 ∨ p.n1 = 1 := Or.inr hsh.2
  simp only [launchesRFFT2d, if_pos hdeg, if_pos hsh] at hc
  obtain ⟨k, -, rfl⟩ := List.mem_map.1 hc
  simp [Call.isRowLaunch] at hr

theorem launchesRFFT2d_column_mem (env : Env) (p : FFTPlan) (c : Call)
    (hc : c ∈ launchesRFFT2d env p) (hr : c.isColumnLaunch = true) :
    ¬(p.n0 = 1 ∧ p.n1 ≠ 1) := by
  intro hsh
  have hdeg : p.n0 = 1 ∨ p.n1 = 1 := Or.inl hsh.1
  have hn : ¬(p.n0 ≠ 1 ∧ p.n1 = 1) := fun x => x.1 hsh.1
  simp only [launchesRFFT2d, if_pos hdeg, if_neg hn, if_pos hsh] at hc
  obtain ⟨k, -, rfl⟩ := List.mem_map.1 hc
  simp [Call.isColumnLaunch] at hr

theorem launchesRFFT2d_one_by_one (env : Env) (p : FFTPlan) (h0 : p.n0 = 1) (h1 : p.n1 = 1) :
    launchesRFFT2d env p = [] := by
  simp [launchesRFFT2d, h0, h1]

theorem isRowLaunch_padOrLaunch (c : Call) (h : c.isRowLaunch = true) :
    (c.isPad || c.isKernelLaunch) = true := by
  cases c <;> simp_all [Call.isRowLaunch, Call.isKernelLaunch]

theorem isColumnLaunch_padOrLaunch (c : Call) (h : c.isColumnLaunch = true) :
    (c.isPad || c.isKernelLaunch) = true := by
  cases c <;> simp_all [Call.isColumnLaunch, Call.isKernelLaunch]

theorem isPad_padOrLaunch (c : Call) (h : c.isPad = true) :
    (c.isPad || c.isKernelLaunch) = true := by
  simp [h]

/-! ## Lemmas: the batch pointers when every kernel launch succeeds -/

/-- A batch loop whose body succeeds and keeps the plan succeeds and leaves
the plan advanced `count` times. -/
theorem batchLoop_plan_of_body {body : Stage}
    (hb : ∀ s, (body s).1 = MLUOP_STATUS_SUCCESS ∧ (body s).2.fft_plan = s.fft_plan)
    (idist odist count : Nat) (s : ExecState) :
    (batchLoop body idist odist count s).1 = MLUOP_STATUS_SUCCESS ∧
      (batchLoop body idist odist count s).2.fft_plan =
        (advancePlan idist odist)^[count] s.fft_plan := by
  induction count generalizing s with
  | zero => exact ⟨rfl, rfl⟩
  | succ k ih =>
    simp only [batchLoop, CHECK_RETURN, if_pos (hb s).1]
    have := ih (advanceBatch idist odist (body s).2)
    rw [advanceBatch_eq, (hb s).2] at this
    simp only [advanceBatch_eq, (hb s).2, Function.iterate_succ_apply]
    exact this

theorem launchRFFT2dButterflyRow_of_kernels (be : Backend)
    (hk : ∀ t c, c.isKernelLaunch = true → be.status t c = MLUOP_STATUS_SUCCESS)
    (s : ExecState) :
    (launchRFFT2dButterflyRow be s).1 = MLUOP_STATUS_SUCCESS ∧
      (launchRFFT2dButterflyRow be s).2.fft_plan = s.fft_plan :=
  ⟨hk _ _ rfl, rfl⟩

theorem launchRFFT2dButterflyColumn_of_kernels (be : Backend)
    (hk : ∀ t c, c.isKernelLaunch = true → be.status t c = MLUOP_STATUS_SUCCESS)
    (s : ExecState) :
    (launchRFFT2dButterflyColumn be s).1 = MLUOP_STATUS_SUCCESS ∧
      (launchRFFT2dButterflyColumn be s).2.fft_plan = s.fft_plan :=
  ⟨hk _ _ rfl, rfl⟩

theorem rowColumn_of_kernels (be : Backend)
    (hk : ∀ t c, c.isKernelLaunch = true → be.status t c = MLUOP_STATUS_SUCCESS)
    (s : ExecState) :
    (CHECK_RETURN (launchRFFT2dButterflyRow be s) (launchRFFT2dButterflyColumn be)).1 =
        MLUOP_STATUS_SUCCESS ∧
      (CHECK_RETURN (launchRFFT2dButterflyRow be s)
        (launchRFFT2dButterflyColumn be)).2.fft_plan = s.fft_plan := by
  simp only [CHECK_RETURN, if_pos (launchRFFT2dButterflyRow_of_kernels be hk s).1]
  exact launchRFFT2dButterflyColumn_of_kernels be hk _

/-- A loop followed by the pointer restore leaves the plan it was entered
with, when its body succeeds and keeps the plan. -/
theorem loop_then_rewind {body : Stage}
    (hb : ∀ s, (body s).1 = MLUOP_STATUS_SUCCESS ∧ (body s).2.fft_plan = s.fft_plan)
    (idist odist : Nat) (x : FFTPlan) (s : ExecState) (hs : s.fft_plan = x) :
    (CHECK_RETURN (batchLoop body idist odist x.batch s)
      (fun s => (MLUOP_STATUS_SUCCESS, rewindBatch idist odist s))).2.fft_plan = x := by
  have hl := batchLoop_plan_of_body hb idist odist x.batch s
  simp only [CHECK_RETURN, if_pos hl.1, rewindBatch_eq, hl.2, hs]
  exact rewindPlan_advancePlan idist odist x

/-- The two-level Stockham block leaves the plan as it found it when every
kernel launch succeeds, whatever the other calls return. -/
theorem execRFFT2d_TWO_LEVEL_STOCKHAM_restores (env : Env) (be : Backend)
    (hk : ∀ t c, c.isKernelLaunch = true → be.status t c = MLUOP_STATUS_SUCCESS)
    (input : Addr) (s : ExecState) :
    (execRFFT2d_TWO_LEVEL_STOCKHAM env be input s).2.fft_plan = s.fft_plan := by
  unfold execRFFT2d_TWO_LEVEL_STOCKHAM
  simp only []
  refine inv_check id (makeRFFT2dContiguousInput_inv id be input s _ rfl) (fun s1 h1 => ?_)
  split_ifs
  · refine inv_check id (padDegenerate2d_inv id be _ _ _ s1 _ h1) (fun s2 h2 => ?_)
    exact loop_then_rewind (launchRFFT2dButterflyColumn_of_kernels be hk) _ _ _ s2 h2
  · exact loop_then_rewind (launchRFFT2dButterflyRow_of_kernels be hk) _ _ _ s1 h1
  · exact padDegenerate2d_inv id be _ _ _ s1 _ h1
  · exact loop_then_rewind (rowColumn_of_kernels be hk) _ _ _ s1 h1

/-- A run of execRFFT2d on a two-level Stockham plan leaves the plan as the
allocator made it when every kernel launch succeeds. -/
theorem execRFFT2d_restores (env : Env) (be : Backend)
    (hk : ∀ t c, c.isKernelLaunch = true → be.status t c = MLUOP_STATUS_SUCCESS)
    (plan : FFTPlan) (input : Addr) (scale_factor : CFloat) (workspace output : Addr)
    (hs : plan.fft_strategy = CNFFT_FUNC_TWO_LEVEL_STOCKHAM) :
    (execRFFT2d env be plan input scale_factor workspace output []).2.fft_plan =
      configureRFFT2dWorkspaceAddrs env plan input workspace output := by
  have f1 := (configureRFFT2dWorkspaceAddrs_fields env plan input workspace output).1
  unfold execRFFT2d
  simp only []
  refine inv_check id ?_ (fun s1 h1 => ?_)
  · unfold execRFFT2d_strategyBlock
    rw [if_pos (f1.trans hs)]
    exact execRFFT2d_TWO_LEVEL_STOCKHAM_restores env be hk input _
  refine inv_check id (scaleOutput_inv id be _ _ s1 _ h1) (fun s2 h2 => ?_)
  refine inv_check id ?_ (fun s3 h3 => h3)
  unfold execRFFT2d_outputBlock
  split_ifs
  · exact makeRFFT2dContiguousOutput_inv id be _ s2 _ h2
  · exact h2

/-! ## Lemmas: pointer arithmetic modulo 2^64 -/

/-- Moving a pointer forward in the embedding is the 64-bit addition on its
value. -/
theorem value_add (start : Base → Nat) (p : Addr) (d : Nat) :
    Addr.value start (p.add (d : Int)) = bumpU64 (Addr.value start p) d := by
  simp only [Addr.value, Addr.add, bumpU64]
  omega

/-- Moving a pointer back in the embedding is the 64-bit subtraction on its
value. -/
theorem value_sub (start : Base → Nat) (p : Addr) (batch d : Nat) :
    Addr.value start (p.sub ((batch * d : Nat) : Int)) =
      restoreU64 (Addr.value start p) batch d := by
  simp only [Addr.value, Addr.sub, restoreU64]
  generalize batch * d = t
  omega

theorem value_lt (start : Base → Nat) (p : Addr) : Addr.value start p < 2 ^ 64 := by
  simp only [Addr.value]
  omega

/-- Bumping `k` times by `d` adds `k * d` modulo 2^64. -/
theorem bumpU64_iterate (v d k : Nat) (hv : v < 2 ^ 64) :
    (fun p => bumpU64 p d)^[k] v = (v + k * d) % 2 ^ 64 := by
  induction k with
  | zero =>
    simp only [Function.iterate_zero, id_eq, Nat.zero_mul, Nat.add_zero]
    omega
  | succ k ih =>
    rw [Function.iterate_succ_apply', ih]
    have e : (k + 1) * d = k * d + d := by ring
    rw [e]
    generalize k * d = t
    simp only [bumpU64]
    omega

/-- Bumping `batch` times and subtracting `batch * d` restores the value. -/
theorem restoreU64_iterate (v d batch : Nat) (hv : v < 2 ^ 64) :
    restoreU64 ((fun p => bumpU64 p d)^[batch] v) batch d = v := by
  rw [bumpU64_iterate v d batch hv]
  simp only [restoreU64]
  generalize batch * d = t
  omega

/-- The 64-bit values of the batch pointers of the `k`-th batch plan: `k`
bumps from the values in `p`. -/
theorem batchPlan_value (start : Base → Nat) (idist odist : Nat) (p : FFTPlan) (k : Nat) :
    Addr.value start (batchPlan idist odist p k).mlu_addrs.input =
        (fun v => bumpU64 v idist)^[k] (Addr.value start p.mlu_addrs.input) ∧
      Addr.value start (batchPlan idist odist p k).mlu_addrs.output =
        (fun v => bumpU64 v odist)^[k] (Addr.value start p.mlu_addrs.output) := by
  simp only [batchPlan, value_add, bumpU64_iterate _ _ _ (value_lt start _)]
  simp only [bumpU64]
  have h1 := value_lt start p.mlu_addrs.input
  have h2 := value_lt start p.mlu_addrs.output
  generalize Addr.value start p.mlu_addrs.input = a at h1 ⊢
  generalize Addr.value start p.mlu_addrs.output = b at h2 ⊢
  trivial

theorem isKernelLaunch_padOrLaunch (c : Call) (h : c.isKernelLaunch = true) :
    (c.isPad || c.isKernelLaunch) = true := by
  simp [h]

/-- The kernel launches of the all-succeeding run of execRFFT2d on a two-level
Stockham plan are the launches of the batch loop. -/
theorem execRFFT2d_ok_stockham_launches (env : Env)
    (h : TensorDesc → TensorDesc → TensorDesc → Nat)
    (plan : FFTPlan) (input : Addr) (scale_factor : CFloat) (workspace output : Addr)
    (hs : plan.fft_strategy = CNFFT_FUNC_TWO_LEVEL_STOCKHAM) :
    (execRFFT2d env (Backend.allSucceed h) plan input scale_factor workspace output
        []).2.trace.filter Call.isKernelLaunch =
      launchesRFFT2d env (configureRFFT2dWorkspaceAddrs env plan input workspace output) := by
  have e : ∀ l : List Call, l.filter Call.isKernelLaunch =
      (l.filter (fun c => c.isPad || c.isKernelLaunch)).filter Call.isKernelLaunch := by
    intro l
    rw [List.filter_filter]
    congr 1
    funext c
    cases c.isKernelLaunch <;> simp
  rw [e, execRFFT2d_ok_stockham_pads_launches env h plan input scale_factor workspace output hs,
    List.filter_append]
  have hl : (launchesRFFT2d env
      (configureRFFT2dWorkspaceAddrs env plan input workspace output)).filter
      Call.isKernelLaunch =
      launchesRFFT2d env (configureRFFT2dWorkspaceAddrs env plan input workspace output) := by
    rw [List.filter_eq_self]
    intro c hc
    have := filter_padOrLaunch_launches env
      (configureRFFT2dWorkspaceAddrs env plan input workspace output)
    rw [List.filter_eq_self] at this
    have hpl := this c hc
    unfold launchesRFFT2d at hc
    simp only [] at hc
    split_ifs at hc
    · obtain ⟨k, -, rfl⟩ := List.mem_map.1 hc
      rfl
    · obtain ⟨k, -, rfl⟩ := List.mem_map.1 hc
      rfl
    · simp at hc
    · rw [List.mem_flatten] at hc
      obtain ⟨l, hl, hcl⟩ := hc
      obtain ⟨k, -, rfl⟩ := List.mem_map.1 hl
      simp only [List.mem_cons, List.mem_singleton, List.not_mem_nil, or_false] at hcl
      rcases hcl with rfl | rfl <;> rfl
  rw [hl]
  split_ifs <;> simp [Call.isKernelLaunch]

/-- A launch among the launches of a plan is on one of its batch plans. -/
theorem launchesRFFT2d_mem (env : Env) (p : FFTPlan) (c : Call)
    (hc : c ∈ launchesRFFT2d env p) :
    ∃ k, k < p.batch ∧
      c.butterfly2dPlan = some (batchPlan (idistRFFT2d env p) (odistRFFT2d env p) p k) := by
  unfold launchesRFFT2d at hc
  simp only [] at hc
  split_ifs at hc
  · obtain ⟨k, hk, rfl⟩ := List.mem_map.1 hc
    exact ⟨k, List.mem_range.1 hk, rfl⟩
  · obtain ⟨k, hk, rfl⟩ := List.mem_map.1 hc
    exact ⟨k, List.mem_range.1 hk, rfl⟩
  · simp at hc
  · rw [List.mem_flatten] at hc
    obtain ⟨l, hl, hcl⟩ := hc
    obtain ⟨k, hk, rfl⟩ := List.mem_map.1 hl
    simp only [List.mem_cons, List.mem_singleton, List.not_mem_nil, or_false] at hcl
    rcases hcl with rfl | rfl <;> exact ⟨k, List.mem_range.1 hk, rfl⟩

/-! ## Lemmas: the row count of the Stockham matrix -/

/-- Rounding up to a multiple of `y` adds less than `y`. -/
theorem PAD_UP_lt_add (x y : Nat) (hy : 0 < y) : PAD_UP x y < x + y := by
  unfold PAD_UP
  have h1 := Nat.div_add_mod x y
  have h2 := Nat.mod_lt x hy
  have e1 : (x / y + 1) * y = y * (x / y) + y := by ring
  have e0 : (x / y + 0) * y = y * (x / y) := by ring
  split_ifs with h
  · rw [e1]
    omega
  · rw [e0]
    omega

/-- A number that is at most `y` rounds up to at most `y`. -/
theorem PAD_UP_le_of_le (x y : Nat) (h : x ≤ y) : PAD_UP x y ≤ y := by
  unfold PAD_UP
  rcases Nat.eq_or_lt_of_le h with e | l
  · subst e
    rcases Nat.eq_zero_or_pos x with h0 | hpos
    · subst h0
      simp
    · simp [Nat.div_self hpos, Nat.mod_self]
  · rw [Nat.div_eq_of_lt l, Nat.mod_eq_of_lt l]
    split_ifs <;> simp

/-- The row count of the Stockham DFT matrix is at most `L`. -/
theorem stockham_row_le (L L_sub : Nat) (hs : 1 ≤ L_sub) :
    (if L ≤ L_sub then L else PAD_UP (L / 2) L_sub + 1) ≤ L := by
  split_ifs with h
  · exact le_refl _
  · by_cases h2 : L / 2 ≤ L_sub
    · have := PAD_UP_le_of_le (L / 2) L_sub h2
      omega
    · have := PAD_UP_lt_add (L / 2) L_sub (by omega)
      omega

theorem bcastShape_kind (c : Call) (x : Nat × Nat × Nat × Nat × Addr)
    (h : c.bcastShape = some x) : c.kind = CallKind.matmul := by
  cases c <;> simp_all [Call.bcastShape, Call.kind]

theorem bcastShape_nil_of_kinds {l : List Call} {kinds : List CallKind}
    (h : l.all (Call.kindIn kinds) = true) (hm : CallKind.matmul ∉ kinds) :
    l.filterMap Call.bcastShape = [] := by
  rw [List.filterMap_eq_nil_iff]
  intro c hc
  cases hsa : c.bcastShape with
  | none => rfl
  | some a => exact absurd (bcastShape_kind c a hsa) (kind_ne_of_all h hm hc)

/-- The broadcast matrix multiplies of the all-succeeding run of the
matmul-family path: one under Stockham, none otherwise. -/
theorem execRFFT1d_ok_bcast (env : Env) (h : TensorDesc → TensorDesc → TensorDesc → Nat)
    (plan : FFTPlan) (input : Addr) (scale_factor : CFloat) (workspace output : Addr)
    (hp : plan.prime = true) (hs : plan.fft_strategy = CNFFT_FUNC_STOCKHAM) :
    (execRFFT1d env (Backend.allSucceed h) plan input scale_factor workspace
        output []).2.trace.filterMap Call.bcastShape =
      [(if plan.L ≤ plan.L_sub then 2 * plan.L else 2 * (PAD_UP (plan.L / 2) plan.L_sub + 1),
        plan.L, 2 ^ plan.m, plan.batch,
        (configuredRFFT1d env plan input workspace output).matmul_addrs.matmul_re_mul_re_addr)]
    := by
  obtain ⟨ma, mu, hcfg, -⟩ := configuredRFFT1d_sizing env plan input workspace output
  rw [execRFFT1d_ok_prime env h plan input scale_factor workspace output hp]
  simp only [List.filterMap_append,
    bcastShape_nil_of_kinds (makeRFFT1dContiguousInput_kinds h input _) (by decide),
    bcastShape_nil_of_kinds (padRFFT1dContiguousInput_kinds h _) (by decide),
    bcastShape_nil_of_kinds (transposeRFFT1dPaddedInput_kinds h _) (by decide),
    bcastShape_nil_of_kinds (mergeRFFT1dOutput_kinds h scale_factor _) (by decide),
    bcastShape_nil_of_kinds (makeRFFT1dContiguousOutput_kinds h output _) (by decide),
    List.nil_append, List.append_nil]
  rw [computeRFFT1dMatmulResult_calls]
  have hs' : (configuredRFFT1d env plan input workspace output).fft_strategy =
      CNFFT_FUNC_STOCKHAM := by rw [configuredRFFT1d_strategy, hs]
  simp only [hs', reduceCtorEq, ↓reduceIte, List.filterMap_cons, Call.bcastShape,
    List.filterMap_nil]
  rw [hcfg]

/-- The two matmul result regions of a composite plan are adjacent, the
imaginary-part region starting where the real-part region ends, when the
element count `batch * n` stays below 2^31 and the bytes carved back from the
end of the workspace stay below 2^64. -/
theorem matmul_results_adjacent (env : Env) (plan : FFTPlan) (input workspace output : Addr)
    (hp : plan.prime = true)
    (hs : plan.fft_strategy = CNFFT_FUNC_COOLEY_TUKEY ∨ plan.fft_strategy = CNFFT_FUNC_STOCKHAM)
    (hint : plan.batch * plan.n0 < 2 ^ 31)
    (hfit : plan.matmul_addrs.internal_workspace_size +
      (if plan.is_output_contiguous then 0
        else env.mluOpDataTypeBytes plan.output_dtype * plan.onum) +
      2 * (env.mluOpDataTypeBytes plan.input_dtype * (plan.batch * plan.n0)) < 2 ^ 64) :
    (configuredRFFT1d env plan input workspace output).matmul_addrs.matmul_re_mul_im_addr =
      (configuredRFFT1d env plan input workspace output).matmul_addrs.matmul_re_mul_re_addr.add
        ((env.mluOpDataTypeBytes plan.input_dtype * (plan.batch * plan.n0) : Nat) : Int) := by
  have hcount := sizeOfInt_int32 _ hint
  simp only [configuredRFFT1d, hp, ↓reduceIte, configureRFFT1dMatmulWorkspaceAddrs,
    configureRFFT1dMatmulWorkspaceAddrsAux, hcount]
  generalize env.mluOpDataTypeBytes plan.input_dtype * (plan.batch * plan.n0) = P at hfit ⊢
  generalize env.mluOpDataTypeBytes plan.output_dtype * plan.onum = O at hfit ⊢
  generalize plan.matmul_addrs.internal_workspace_size = I at hfit ⊢
  revert hfit
  rcases hs with h | h <;> cases plan.is_output_contiguous <;> intro hfit <;>
    simp only [h, reduceCtorEq, decide_True, decide_False, Bool.or_true, Bool.true_or,
      Bool.or_false, ↓reduceIte, Addr.add, Addr.sub, Addr.mk.injEq, true_and, Bool.not_true,
      Bool.not_false, Bool.false_eq_true, Nat.zero_add, Nat.add_zero] at hfit ⊢ <;>
    simp (disch := omega) only [size_t_of_lt] <;>
    omega

/-! ## Lemmas: where the input copy and the pad write -/

/-- The input role of a 1D plan lies in the workspace exactly when the input
copy is needed, and is the caller's input otherwise. -/
theorem configuredRFFT1d_input_role (env : Env) (plan : FFTPlan)
    (input workspace output : Addr) :
    (inputCopyNeeded plan = true →
      ∃ off : Nat,
        (if plan.prime then
          (configuredRFFT1d env plan input workspace output).matmul_addrs.input_contiguous_addr
        else (configuredRFFT1d env plan input workspace output).mlu_addrs.input) =
          workspace.add off) ∧
    (inputCopyNeeded plan = false →
      (if plan.prime then
        (configuredRFFT1d env plan input workspace output).matmul_addrs.input_contiguous_addr
      else (configuredRFFT1d env plan input workspace output).mlu_addrs.input) = input) := by
  cases hp : plan.prime
  · simp only [configuredRFFT1d, hp, Bool.false_eq_true, ↓reduceIte,
      configureRFFT1dWorkspaceAddrs, inputCopyNeeded, Bool.not_false, Bool.true_and]
    constructor
    · intro h
      refine ⟨0 + plan.batch * env.mluOpDataTypeBytes plan.output_dtype * plan.n0 * 2, ?_⟩
      cases hc : plan.is_input_contiguous
      · simp
      · simp only [hc, Bool.not_true, Bool.false_or, decide_eq_true_eq] at h
        have : ¬ plan.inembed0 ≤ plan.n0 := by omega
        simp [this]
    · intro h
      cases hc : plan.is_input_contiguous
      · simp [hc] at h
      · simp only [hc, Bool.not_true, Bool.false_or, decide_eq_false_iff_not, not_lt] at h
        simp [h]
  · simp only [configuredRFFT1d, hp, ↓reduceIte, configureRFFT1dMatmulWorkspaceAddrs,
      configureRFFT1dMatmulWorkspaceAddrsAux, inputCopyNeeded, Bool.not_true, Bool.false_and,
      Bool.or_false]
    constructor
    · intro h
      exact ⟨0, by simp [h]⟩
    · intro h
      simp [h]

/-- The pad destination of a 1D plan lies in the workspace when the pad is
issued. -/
theorem configuredRFFT1d_pad_role (env : Env) (plan : FFTPlan)
    (input workspace output : Addr) (h : padIssued plan = true) :
    ∃ off : Nat,
      (if plan.prime then
        (configuredRFFT1d env plan input workspace output).matmul_addrs.input_pad_addr
      else (configuredRFFT1d env plan input workspace output).mlu_addrs.input_pad_addr) =
        workspace.add off := by
  cases hp : plan.prime
  · simp only [padIssued, hp, Bool.false_eq_true, ↓reduceIte, decide_eq_true_eq] at h
    simp only [configuredRFFT1d, hp, Bool.false_eq_true, ↓reduceIte,
      configureRFFT1dWorkspaceAddrs, h]
    exact ⟨_, rfl⟩
  · simp only [padIssued, hp, ↓reduceIte] at h
    simp only [configuredRFFT1d, hp, ↓reduceIte, configureRFFT1dMatmulWorkspaceAddrs,
      configureRFFT1dMatmulWorkspaceAddrsAux, h]
    exact ⟨_, rfl⟩

/-- The condition under which makeRFFT2dContiguousInput issues its copy under
the two-level Stockham strategy. -/
theorem makeRFFT2dContiguousInput_copy_filter (h : TensorDesc → TensorDesc → TensorDesc → Nat)
    (input : Addr) (p : FFTPlan) (hs : p.fft_strategy = CNFFT_FUNC_TWO_LEVEL_STOCKHAM) :
    ((callsOf (makeRFFT2dContiguousInput (Backend.allSucceed h) input) p).filter
        Call.isInputCopy).map Call.moves =
      if (!p.is_input_contiguous ||
          (decide (p.inembed0 > p.n0) || decide (p.inembed1 > p.n1))) = true then
        [some (input, p.mlu_addrs.input)]
      else [] := by
  unfold callsOf makeRFFT2dContiguousInput
  simp only [issue_allSucceed, CHECK_RETURN_success, hs]
  split_ifs <;> simp_all [List.filter, Call.isInputCopy, Call.moves]

/-- The input role and the output role of a two-level Stockham plan: the input
role lies in the workspace exactly when the input copy is needed, the output
role is the caller's output exactly when the output is contiguous. -/
theorem configureRFFT2dWorkspaceAddrs_roles (env : Env) (plan : FFTPlan)
    (input workspace output : Addr)
    (hs : plan.fft_strategy = CNFFT_FUNC_TWO_LEVEL_STOCKHAM) :
    ((!plan.is_input_contiguous ||
        (decide (plan.inembed0 > plan.n0) || decide (plan.inembed1 > plan.n1))) = true →
      ∃ off : Nat, (configureRFFT2dWorkspaceAddrs env plan input workspace output).mlu_addrs.input =
        workspace.add off) ∧
    ((!plan.is_input_contiguous ||
        (decide (plan.inembed0 > plan.n0) || decide (plan.inembed1 > plan.n1))) = false →
      (configureRFFT2dWorkspaceAddrs env plan input workspace output).mlu_addrs.input = input) ∧
    (plan.is_output_contiguous = true →
      (configureRFFT2dWorkspaceAddrs env plan input workspace output).mlu_addrs.output = output) ∧
    (plan.is_output_contiguous = false →
      ∃ off : Nat, (configureRFFT2dWorkspaceAddrs env plan input workspace output).mlu_addrs.output =
        workspace.add off) := by
  simp only [configureRFFT2dWorkspaceAddrs, hs]
  refine ⟨?_, ?_, ?_, ?_⟩
  · intro h
    refine ⟨0 + plan.batch * env.mluOpDataTypeBytes plan.output_dtype * plan.n0 * plan.n1 * 2, ?_⟩
    simp only [Bool.or_eq_true, Bool.not_eq_true', decide_eq_true_eq] at h
    have hk : (plan.is_input_contiguous && decide (plan.inembed0 ≤ plan.n0) &&
        decide (plan.inembed1 ≤ plan.n1)) = false := by
      rcases h with h | h | h
      · simp [h]
      · have : ¬ plan.inembed0 ≤ plan.n0 := by omega
        simp [this]
      · have : ¬ plan.inembed1 ≤ plan.n1 := by omega
        simp [this]
    simp [hk]
  · intro h
    simp only [Bool.or_eq_false_iff, Bool.not_eq_false', decide_eq_false_iff_not, not_lt] at h
    obtain ⟨h1, h2, h3⟩ := h
    simp [h1, h2, h3]
  · intro h
    simp [h]
  · intro h
    simp only [h]
    simp only [decide_True, Bool.false_eq_true, ↓reduceIte, Bool.not_false, Bool.and_true,
      Bool.true_and, decide_False]
    split_ifs <;> exact ⟨_, rfl⟩

/-- A launch of the batch loops of execRFFT2d is no pad and no copy. -/
theorem launchesRFFT2d_not_pad (env : Env) (p : FFTPlan) (c : Call)
    (hc : c ∈ launchesRFFT2d env p) : c.isPad = false ∧ c.isInputCopy = false := by
  unfold launchesRFFT2d at hc
  simp only [] at hc
  split_ifs at hc
  · obtain ⟨k, hk, rfl⟩ := List.mem_map.1 hc
    exact ⟨rfl, rfl⟩
  · obtain ⟨k, hk, rfl⟩ := List.mem_map.1 hc
    exact ⟨rfl, rfl⟩
  · simp at hc
  · rw [List.mem_flatten] at hc
    obtain ⟨l, hl, hcl⟩ := hc
    obtain ⟨k, hk, rfl⟩ := List.mem_map.1 hl
    simp only [List.mem_cons, List.mem_singleton, List.not_mem_nil, or_false] at hcl
    rcases hcl with rfl | rfl <;> exact ⟨rfl, rfl⟩

/-- Every pad of the all-succeeding run of execRFFT2d on a two-level Stockham
plan reads the input role and writes the output role. -/
theorem execRFFT2d_ok_stockham_pad_moves (env : Env)
    (h : TensorDesc → TensorDesc → TensorDesc → Nat)
    (plan : FFTPlan) (input : Addr) (scale_factor : CFloat) (workspace output : Addr)
    (hs : plan.fft_strategy = CNFFT_FUNC_TWO_LEVEL_STOCKHAM) (c : Call)
    (hc : c ∈ (execRFFT2d env (Backend.allSucceed h) plan input scale_factor workspace output
      []).2.trace)
    (hpad : c.isPad = true) :
    c.moves = some
      ((configureRFFT2dWorkspaceAddrs env plan input workspace output).mlu_addrs.input,
        (configureRFFT2dWorkspaceAddrs env plan input workspace output).mlu_addrs.output) := by
  have hm : c ∈ (execRFFT2d env (Backend.allSucceed h) plan input scale_factor workspace output
      []).2.trace.filter (fun c => c.isPad || c.isKernelLaunch) :=
    List.mem_filter.2 ⟨hc, isPad_padOrLaunch c hpad⟩
  rw [execRFFT2d_ok_stockham_pads_launches env h plan input scale_factor workspace output hs,
    List.mem_append] at hm
  rcases hm with hm | hm
  · split_ifs at hm
    · rw [List.mem_singleton.1 hm]; rfl
    · rw [List.mem_singleton.1 hm]; rfl
    · simp at hm
  · have := (launchesRFFT2d_not_pad env _ c hm).1
    rw [hpad] at this
    exact absurd this (by decide)

/-- The input copies of the all-succeeding run of execRFFT2d on a two-level
Stockham plan: one copy from the caller's input to the input role when the
input is strided or its embedding exceeds a length, none otherwise. -/
theorem execRFFT2d_ok_stockham_copies (env : Env)
    (h : TensorDesc → TensorDesc → TensorDesc → Nat)
    (plan : FFTPlan) (input : Addr) (scale_factor : CFloat) (workspace output : Addr)
    (hs : plan.fft_strategy = CNFFT_FUNC_TWO_LEVEL_STOCKHAM) :
    ((execRFFT2d env (Backend.allSucceed h) plan input scale_factor workspace output
        []).2.trace.filter Call.isInputCopy).map Call.moves =
      if (!plan.is_input_contiguous ||
          (decide (plan.inembed0 > plan.n0) || decide (plan.inembed1 > plan.n1))) = true then
        [some (input,
          (configureRFFT2dWorkspaceAddrs env plan input workspace output).mlu_addrs.input)]
      else [] := by
  rw [execRFFT2d_ok]
  obtain ⟨f1, f2, f3, f4, -, f6, f7, -⟩ :=
    configureRFFT2dWorkspaceAddrs_fields env plan input workspace output
  have e1 : callsOf (execRFFT2d_strategyBlock env (Backend.allSucceed h) input scale_factor)
      (configureRFFT2dWorkspaceAddrs env plan input workspace output) =
      callsOf (execRFFT2d_TWO_LEVEL_STOCKHAM env (Backend.allSucceed h) input)
        (configureRFFT2dWorkspaceAddrs env plan input workspace output) := by
    simp [callsOf, execRFFT2d_strategyBlock, f1, hs]
  have e2 : callsOf (execRFFT2d_outputBlock (Backend.allSucceed h) output)
      (configureRFFT2dWorkspaceAddrs env plan input workspace output) =
      callsOf (makeRFFT2dContiguousOutput (Backend.allSucceed h) output)
        (configureRFFT2dWorkspaceAddrs env plan input workspace output) := by
    simp [callsOf, execRFFT2d_outputBlock, f1, hs]
  have hP : ∀ c : Call, c.isInputCopy = true → c.kind = CallKind.inputCopy := by
    intro c hc
    cases c <;> simp_all [Call.isInputCopy, Call.kind]
  have hnil : ∀ {l : List Call} {kinds : List CallKind},
      l.all (Call.kindIn kinds) = true → CallKind.inputCopy ∉ kinds →
      l.filter Call.isInputCopy = [] := by
    intro l kinds hl hk
    exact filter_kind_nil hl _ (fun c hc => by rw [hP c hc]; exact hk)
  rw [e1, e2]
  simp only [List.filter_append,
    hnil (execRFFT2d_scaleBlock_kinds h scale_factor _) (by decide),
    hnil (makeRFFT2dContiguousOutput_kinds h output _) (by decide),
    List.append_nil]
  have hI := makeRFFT2dContiguousInput_copy_filter h input
    (configureRFFT2dWorkspaceAddrs env plan input workspace output) (by rw [f1]; exact hs)
  -- the calls after the input stage are pads and launches
  have hsplit : ∃ R : List Call,
      callsOf (execRFFT2d_TWO_LEVEL_STOCKHAM env (Backend.allSucceed h) input)
        (configureRFFT2dWorkspaceAddrs env plan input workspace output) =
      callsOf (makeRFFT2dContiguousInput (Backend.allSucceed h) input)
        (configureRFFT2dWorkspaceAddrs env plan input workspace output) ++ R ∧
      R.all (Call.kindIn [CallKind.housekeeping, CallKind.pad, CallKind.kernel]) = true := by
    simp only [callsOf]
    rw [execRFFT2d_TWO_LEVEL_STOCKHAM_ok env h input ⟨_, []⟩]
    simp only [List.nil_append]
    refine ⟨_, rfl, ?_⟩
    have hrow := fun i o c q => batchLoop_kinds (launchRFFT2dButterflyRow_runsTo h)
      [CallKind.kernel] (launchRFFT2dButterflyRow_kinds h) i o c q
    have hcol := fun i o c q => batchLoop_kinds (launchRFFT2dButterflyColumn_runsTo h)
      [CallKind.kernel] (launchRFFT2dButterflyColumn_kinds h) i o c q
    have hrc := fun i o c q => batchLoop_kinds (rowColumn_runsTo h)
      [CallKind.kernel] (rowColumn_kinds h) i o c q
    have hpad := fun d pd pp q => padDegenerate2d_kinds h d pd pp q
    split_ifs
    · rw [List.all_append, Bool.and_eq_true]
      exact ⟨kinds_mono (hpad _ _ _ _) (by decide), kinds_mono (hcol _ _ _ _) (by decide)⟩
    · exact kinds_mono (hrow _ _ _ _) (by decide)
    · exact kinds_mono (hpad _ _ _ _) (by decide)
    · exact kinds_mono (hrc _ _ _ _) (by decide)
  obtain ⟨R, hR, hRk⟩ := hsplit
  rw [hR, List.filter_append, hnil hRk (by decide), List.append_nil]
  exact hI

/-! ## Claims, concluded -/

/-- C21: the two matrix multiplies of the many-distance-1 strategy.  In every
run of execRFFT2d under that strategy the matrix multiplies issued are an
initial segment of, and in a successful run exactly, the row multiply followed
by the column multiply, where the row multiply takes A = `[(n1/2+1)*2, n1]` at
`dft_matrix` and B = `[n0, n1, batch]` at the caller's input into
C = `[n0, (n1/2+1)*2, batch]` at `buffer_in` (the start of the workspace), and
the column multiply takes A = `[2*n0, n0]` at `dft_matrix_2d` and
B = `[n0, n]` at `buffer_in` into C = `[2*n0, n]` at `buffer_out`, `n` being
the product `(n1/2+1)*2*batch` taken in 32-bit `int`.  The inner extents agree
in both products (`n1` and `n0`) and the column multiply reads the address the
row multiply wrote; when `(n1/2+1)*2*batch < 2^31` the extent `n` is that
product and the row result has as many elements as the column operand.  For
the `2 x 2` plan with 2^29 batch rows the product is 2^31 and wraps around:
on a backend on which every call succeeds the run issues the column multiply
with B = `[2, -2^31]` and C = `[4, -2^31]`, so that the row result has 2^32
elements and the column operand `-2^32`. -/
theorem C21_row_and_column_matmuls_chained (env : Env) (be : Backend) (plan : FFTPlan)
    (input : Addr) (scale_factor : CFloat) (workspace output : Addr)
    (hs : plan.fft_strategy = CNFFT_FUNC_MANY_DIST1_2D) :
    let r := execRFFT2d env be plan input scale_factor workspace output []
    let e := plan.execution_dtype
    let buffer_in := workspace.add 0
    let buffer_out := workspace.add
      ((plan.batch * env.mluOpDataTypeBytes plan.output_dtype * plan.n0 * plan.n1 * 2 : Nat) : Int)
    let n : Int := int32 (((plan.n1 / 2 + 1) * 2 * plan.batch : Nat) : Int)
    let rowA : TensorDesc := ⟨e, [(((plan.n1 / 2 + 1) * 2 : Nat) : Int), plan.n1], none, some e⟩
    let rowB : TensorDesc := ⟨e, [(plan.n0 : Int), plan.n1, plan.batch], none, some e⟩
    let rowC : TensorDesc :=
      ⟨e, [(plan.n0 : Int), (((plan.n1 / 2 + 1) * 2 : Nat) : Int), plan.batch], none, some e⟩
    let colA : TensorDesc := ⟨e, [((plan.n0 * 2 : Nat) : Int), plan.n0], none, some e⟩
    let colB : TensorDesc := ⟨e, [(plan.n0 : Int), n], none, some e⟩
    let colC : TensorDesc := ⟨e, [((plan.n0 * 2 : Nat) : Int), n], none, some e⟩
    let row := ((rowA, plan.mlu_addrs.dft_matrix), (rowB, input), (rowC, buffer_in))
    let col := ((colA, plan.mlu_addrs.dft_matrix_2d), (colB, buffer_in), (colC, buffer_out))
    let big := examplePlan2d 2 2 (2 ^ 29) 2 2 true true CNFFT_FUNC_MANY_DIST1_2D
    let bigRun := execRFFT2d (exampleEnv CNFFT_FUNC_MATMUL) exampleBackend big exampleInput
      CFloat.one exampleWorkspace exampleOutput []
    r.2.trace.filterMap Call.matmulOperands <+: [row, col] ∧
    (r.1 = MLUOP_STATUS_SUCCESS → r.2.trace.filterMap Call.matmulOperands = [row, col]) ∧
    (rowA.dims[1]? = rowB.dims[1]? ∧ colA.dims[1]? = colB.dims[0]?) ∧
    ((plan.n1 / 2 + 1) * 2 * plan.batch < 2 ^ 31 →
      n = (((plan.n1 / 2 + 1) * 2 * plan.batch : Nat) : Int) ∧
      rowC.elements = colB.elements) ∧
    (bigRun.1 = MLUOP_STATUS_SUCCESS ∧
      (big.n1 / 2 + 1) * 2 * big.batch = 2 ^ 31 ∧
      (bigRun.2.trace.filterMap Call.matmulOperands).map
          (fun x => (x.1.1.dims, x.2.1.1.dims, x.2.2.1.dims)) =
        [([4, 2], [2, 2, 536870912], [2, 4, 536870912]),
         ([4, 2], [2, -2147483648], [4, -2147483648])] ∧
      (bigRun.2.trace.filterMap Call.matmulOperands).map
          (fun x => (x.2.1.1.elements, x.2.2.1.elements)) =
        [(2147483648, 4294967296), (-4294967296, -8589934592)]) := by
  intro r e buffer_in buffer_out n rowA rowB rowC colA colB colC row col big bigRun
  obtain ⟨_, heq, _, hpre⟩ := execRFFT2d_sim env be plan input scale_factor workspace output []
  obtain ⟨a1, a2, a3, a4, a5, a6⟩ :=
    configureRFFT2dWorkspaceAddrs_many env plan input workspace output hs
  obtain ⟨-, f2, f3, f4, -, -, -, f8⟩ :=
    configureRFFT2dWorkspaceAddrs_fields env plan input workspace output
  have hok := execRFFT2d_ok_many_operands env be.heuristicWorkspaceSize plan input scale_factor
    workspace output hs
  rw [computeFFT2dMatMulRowR2C_operands, computeFFT2dMatMulColumnR2C_operands,
    a1, a3, a4, a5, a6, f2, f3, f4, f8] at hok
  refine ⟨?_, ?_, ⟨rfl, rfl⟩, fun hlt => ?_, by decide⟩
  · have := hpre.filterMap Call.matmulOperands
    rw [hok] at this
    exact this
  · intro hr
    have e1 : r.2.trace = (execRFFT2d env (Backend.allSucceed be.heuristicWorkspaceSize)
        plan input scale_factor workspace output []).2.trace := by rw [heq hr]
    rw [e1, hok]
    rfl
  · have hn : n = (((plan.n1 / 2 + 1) * 2 * plan.batch : Nat) : Int) := int32_of_lt _ hlt
    refine ⟨hn, ?_⟩
    show ([(plan.n0 : Int), (((plan.n1 / 2 + 1) * 2 : Nat) : Int), (plan.batch : Int)] :
        List Int).prod = ([(plan.n0 : Int), n] : List Int).prod
    rw [hn]
    simp only [List.prod_cons, List.prod_nil]
    push_cast
    ring

/-- C21, witness: for a 2 x 4 plan with batch 1 the successful run multiplies
`[6, 4]` by `[2, 4, 1]` into `[2, 6, 1]` at the start of the workspace, then
`[4, 2]` by `[2, 6]` read from there into `[4, 6]` at workspace offset 128. -/
theorem C21_row_and_column_matmuls_chained_witness :
    (examplePlan2d 2 4 1 2 4 true true CNFFT_FUNC_MANY_DIST1_2D).fft_strategy =
      CNFFT_FUNC_MANY_DIST1_2D ∧
    (execRFFT2d (exampleEnv CNFFT_FUNC_MATMUL) exampleBackend
      (examplePlan2d 2 4 1 2 4 true true CNFFT_FUNC_MANY_DIST1_2D)
      exampleInput CFloat.one exampleWorkspace exampleOutput []).2.trace.filterMap
        Call.matmulOperands =
      [((⟨MLUOP_DTYPE_FLOAT, [6, 4], none, some MLUOP_DTYPE_FLOAT⟩, Addr.nullptr),
        (⟨MLUOP_DTYPE_FLOAT, [2, 4, 1], none, some MLUOP_DTYPE_FLOAT⟩, exampleInput),
        (⟨MLUOP_DTYPE_FLOAT, [2, 6, 1], none, some MLUOP_DTYPE_FLOAT⟩, ⟨Base.workspace, 0⟩)),
       ((⟨MLUOP_DTYPE_FLOAT, [4, 2], none, some MLUOP_DTYPE_FLOAT⟩, Addr.nullptr),
        (⟨MLUOP_DTYPE_FLOAT, [2, 6], none, some MLUOP_DTYPE_FLOAT⟩, ⟨Base.workspace, 0⟩),
        (⟨MLUOP_DTYPE_FLOAT, [4, 6], none, some MLUOP_DTYPE_FLOAT⟩, ⟨Base.workspace, 128⟩))] :=
  ⟨rfl,
    (C21_row_and_column_matmuls_chained (exampleEnv CNFFT_FUNC_MATMUL) exampleBackend
      (examplePlan2d 2 4 1 2 4 true true CNFFT_FUNC_MANY_DIST1_2D)
      exampleInput CFloat.one exampleWorkspace exampleOutput rfl).2.1 (by decide)⟩

/-- C22, counterexample: a successful run on a two-level Stockham plan of
shape `1 x 4` with batch 2 issues no pad at all (and two row launches); a
successful run on a plan of shape `1 x 1` with batch 2 issues one pad and no
kernel launch. -/
theorem C22_counterexample :
    ((execRFFT2d (exampleEnv CNFFT_FUNC_MATMUL) exampleBackend
        (examplePlan2d 1 4 2 1 4 true true CNFFT_FUNC_TWO_LEVEL_STOCKHAM)
        exampleInput CFloat.one exampleWorkspace exampleOutput []).1 = MLUOP_STATUS_SUCCESS ∧
      (execRFFT2d (exampleEnv CNFFT_FUNC_MATMUL) exampleBackend
        (examplePlan2d 1 4 2 1 4 true true CNFFT_FUNC_TWO_LEVEL_STOCKHAM)
        exampleInput CFloat.one exampleWorkspace exampleOutput []).2.trace.countP
          Call.isPad = 0 ∧
      (execRFFT2d (exampleEnv CNFFT_FUNC_MATMUL) exampleBackend
        (examplePlan2d 1 4 2 1 4 true true CNFFT_FUNC_TWO_LEVEL_STOCKHAM)
        exampleInput CFloat.one exampleWorkspace exampleOutput []).2.trace.countP
          Call.isRowLaunch = 2) ∧
    ((execRFFT2d (exampleEnv CNFFT_FUNC_MATMUL) exampleBackend
        (examplePlan2d 1 1 2 1 1 true true CNFFT_FUNC_TWO_LEVEL_STOCKHAM)
        exampleInput CFloat.one exampleWorkspace exampleOutput []).1 = MLUOP_STATUS_SUCCESS ∧
      (execRFFT2d (exampleEnv CNFFT_FUNC_MATMUL) exampleBackend
        (examplePlan2d 1 1 2 1 1 true true CNFFT_FUNC_TWO_LEVEL_STOCKHAM)
        exampleInput CFloat.one exampleWorkspace exampleOutput []).2.trace.countP
          Call.isPad = 1 ∧
      (execRFFT2d (exampleEnv CNFFT_FUNC_MATMUL) exampleBackend
        (examplePlan2d 1 1 2 1 1 true true CNFFT_FUNC_TWO_LEVEL_STOCKHAM)
        exampleInput CFloat.one exampleWorkspace exampleOutput []).2.trace.countP
          Call.isKernelLaunch = 0) := by
  decide

/-- C22 (amended): the degenerate shapes of the two-level Stockham strategy.
For a plan with `n0 = 1` or `n1 = 1`, the pads and kernel launches of a run of
execRFFT2d are an initial segment of, and in a successful run exactly: for
`N x 1` one zero-pad (`[batch, n0, n1]` to `[batch, n0, 2 * n1]`, from
`mlu_addrs.input` to `mlu_addrs.output`) followed by `batch` launches of the
column kernel; for `1 x N` no pad and `batch` launches of the row kernel; for
`1 x 1` one zero-pad (`[batch, n0 * n1]` to `[batch, n0 * n1 * 2]`) and no
launch; the `k`-th launch is on the plan with the batch pointers `k` elements
further.  In every run at most one pad is issued, and the row kernel and the
column kernel are never both launched. -/
theorem C22_degenerate_shapes_short_circuit (env : Env) (be : Backend) (plan : FFTPlan)
    (input : Addr) (scale_factor : CFloat) (workspace output : Addr)
    (hs : plan.fft_strategy = CNFFT_FUNC_TWO_LEVEL_STOCKHAM)
    (hdeg : plan.n0 = 1 ∨ plan.n1 = 1) :
    let cfg := configureRFFT2dWorkspaceAddrs env plan input workspace output
    let r := execRFFT2d env be plan input scale_factor workspace output []
    let steps := r.2.trace.filter fun c => c.isPad || c.isKernelLaunch
    let plan_k := batchPlan (idistRFFT2d env plan) (odistRFFT2d env plan) cfg
    let padColumns : Call :=
      .cnnlPad ⟨MLUOP_DTYPE_FLOAT, [plan.batch, plan.n0, plan.n1], none, none⟩
        cfg.mlu_addrs.input [0, 0, 0, 0, 0, 1] 0
        ⟨MLUOP_DTYPE_FLOAT, [plan.batch, plan.n0, ((plan.n1 * 2 : Nat) : Int)], none, none⟩
        cfg.mlu_addrs.output
    let padPoint : Call :=
      .cnnlPad ⟨MLUOP_DTYPE_FLOAT, [plan.batch, ((plan.n0 * plan.n1 : Nat) : Int)], none, none⟩
        cfg.mlu_addrs.input [0, 0, 0, 1] 0
        ⟨MLUOP_DTYPE_FLOAT, [plan.batch, ((plan.n0 * plan.n1 * 2 : Nat) : Int)], none, none⟩
        cfg.mlu_addrs.output
    let expected : List Call :=
      if plan.n0 ≠ 1 ∧ plan.n1 = 1 then
        padColumns :: (List.range plan.batch).map fun k =>
          Call.kernelRFFT2dButterflyColumn (plan_k k) FFTType.FFT_IFFT
      else if plan.n0 = 1 ∧ plan.n1 ≠ 1 then
        (List.range plan.batch).map fun k => Call.kernelRFFT2dButterflyRow (plan_k k) FFTType.RFFT
      else [padPoint]
    steps <+: expected ∧
    (r.1 = MLUOP_STATUS_SUCCESS → steps = expected) ∧
    (r.1 = MLUOP_STATUS_SUCCESS →
      (plan.n0 ≠ 1 ∧ plan.n1 = 1 →
        r.2.trace.countP Call.isPad = 1 ∧ r.2.trace.countP Call.isColumnLaunch = plan.batch ∧
          r.2.trace.countP Call.isRowLaunch = 0) ∧
      (plan.n0 = 1 ∧ plan.n1 ≠ 1 →
        r.2.trace.countP Call.isPad = 0 ∧ r.2.trace.countP Call.isRowLaunch = plan.batch ∧
          r.2.trace.countP Call.isColumnLaunch = 0) ∧
      (plan.n0 = 1 ∧ plan.n1 = 1 →
        r.2.trace.countP Call.isPad = 1 ∧ r.2.trace.countP Call.isRowLaunch = 0 ∧
          r.2.trace.countP Call.isColumnLaunch = 0)) ∧
    r.2.trace.countP Call.isPad ≤ 1 ∧
    ¬((∃ c ∈ r.2.trace, c.isRowLaunch = true) ∧ (∃ c ∈ r.2.trace, c.isColumnLaunch = true)) := by
  intro cfg r steps plan_k padColumns padPoint expected
  obtain ⟨_, heq, _, hpre⟩ := execRFFT2d_sim env be plan input scale_factor workspace output []
  have hok := execRFFT2d_ok_stockham_pads_launches env be.heuristicWorkspaceSize plan input
    scale_factor workspace output hs
  rw [launchesRFFT2d_configured, if_pos hdeg] at hok
  have hexp : (execRFFT2d env (Backend.allSucceed be.heuristicWorkspaceSize) plan input
      scale_factor workspace output []).2.trace.filter (fun c => c.isPad || c.isKernelLaunch) =
      expected := by
    rw [hok]
    simp only [expected]
    by_cases h1 : plan.n0 ≠ 1 ∧ plan.n1 = 1
    · simp only [if_pos h1, List.singleton_append, padColumns, plan_k, cfg]
    · by_cases h2 : plan.n0 = 1 ∧ plan.n1 ≠ 1
      · have h3 : ¬(plan.n0 = 1 ∧ plan.n1 = 1) := fun x => h2.2 x.2
        simp only [if_neg h1, if_pos h2, if_neg h3, List.nil_append, plan_k, cfg]
      · have h3 : plan.n0 = 1 ∧ plan.n1 = 1 := by
          rcases hdeg with h | h
          · exact ⟨h, by_contra fun x => h2 ⟨h, x⟩⟩
          · exact ⟨by_contra fun x => h1 ⟨x, h⟩, h⟩
        simp only [if_neg h1, if_neg h2, if_pos h3, List.append_nil, padPoint, cfg]
  have hsteps : steps <+: expected := by
    have := hpre.filter (fun c => c.isPad || c.isKernelLaunch)
    rw [hexp] at this
    exact this
  have hstepsEq : r.1 = MLUOP_STATUS_SUCCESS → steps = expected := by
    intro hr
    have e1 : r.2.trace = (execRFFT2d env (Backend.allSucceed be.heuristicWorkspaceSize)
        plan input scale_factor workspace output []).2.trace := by rw [heq hr]
    simp only [steps]
    rw [e1, hexp]
  -- counting through the filtered list
  have hcount : ∀ P : Call → Bool, (∀ c, P c = true → (c.isPad || c.isKernelLaunch) = true) →
      r.2.trace.countP P = steps.countP P := by
    intro P hP
    simp only [steps, List.countP_filter]
    congr 1
    funext c
    cases hpc : P c
    · simp
    · simp [hP c hpc]
  have hpadc := hcount Call.isPad isPad_padOrLaunch
  have hrowc := hcount Call.isRowLaunch isRowLaunch_padOrLaunch
  have hcolc := hcount Call.isColumnLaunch isColumnLaunch_padOrLaunch
  have hmapcol : ∀ (n : Nat) (P : Call → Bool) (b : Bool),
      (∀ k, P (Call.kernelRFFT2dButterflyColumn (plan_k k) FFTType.FFT_IFFT) = b) →
      ((List.range n).map fun k =>
        Call.kernelRFFT2dButterflyColumn (plan_k k) FFTType.FFT_IFFT).countP P =
        if b then n else 0 := by
    intro n P b hb
    rw [List.countP_map]
    cases b
    · simp only [Bool.false_eq_true, ↓reduceIte, List.countP_eq_zero]
      intro k _
      simp [hb k]
    · simp only [↓reduceIte]
      rw [List.countP_eq_length.2]
      · simp
      · intro k _
        simp [hb k]
  have hmaprow : ∀ (n : Nat) (P : Call → Bool) (b : Bool),
      (∀ k, P (Call.kernelRFFT2dButterflyRow (plan_k k) FFTType.RFFT) = b) →
      ((List.range n).map fun k =>
        Call.kernelRFFT2dButterflyRow (plan_k k) FFTType.RFFT).countP P =
        if b then n else 0 := by
    intro n P b hb
    rw [List.countP_map]
    cases b
    · simp only [Bool.false_eq_true, ↓reduceIte, List.countP_eq_zero]
      intro k _
      simp [hb k]
    · simp only [↓reduceIte]
      rw [List.countP_eq_length.2]
      · simp
      · intro k _
        simp [hb k]
  refine ⟨hsteps, hstepsEq, ?_, ?_, ?_⟩
  · intro hr
    have hst := hstepsEq hr
    rw [hpadc, hrowc, hcolc, hst]
    refine ⟨fun h1 => ?_, fun h2 => ?_, fun h3 => ?_⟩
    · simp only [expected, if_pos h1, List.countP_cons]
      rw [hmapcol _ _ false (fun _ => rfl), hmapcol _ _ true (fun _ => rfl),
        hmapcol _ _ false (fun _ => rfl)]
      simp [padColumns, Call.isPad, Call.isColumnLaunch, Call.isRowLaunch]
    · have h1 : ¬(plan.n0 ≠ 1 ∧ plan.n1 = 1) := fun x => x.1 h2.1
      simp only [expected, if_neg h1, if_pos h2]
      rw [hmaprow _ _ false (fun _ => rfl), hmaprow _ _ true (fun _ => rfl),
        hmaprow _ _ false (fun _ => rfl)]
      simp
    · have h1 : ¬(plan.n0 ≠ 1 ∧ plan.n1 = 1) := fun x => x.1 h3.1
      have h2 : ¬(plan.n0 = 1 ∧ plan.n1 ≠ 1) := fun x => x.2 h3.2
      simp only [expected, if_neg h1, if_neg h2]
      simp [padPoint, Call.isPad, Call.isColumnLaunch, Call.isRowLaunch]
  · rw [hpadc]
    refine le_trans (hsteps.sublist.countP_le _) ?_
    simp only [expected]
    split_ifs
    · rw [List.countP_cons, hmapcol _ _ false (fun _ => rfl)]
      simp [padColumns, Call.isPad]
    · rw [hmaprow _ _ false (fun _ => rfl)]
      simp
    · simp [padPoint, Call.isPad]
  · rintro ⟨⟨c, hc, hcr⟩, ⟨d, hd, hdc⟩⟩
    have hc0 : c ∈ expected := hsteps.subset
      (List.mem_filter.2 ⟨hc, isRowLaunch_padOrLaunch c hcr⟩)
    have hd0 : d ∈ expected := hsteps.subset
      (List.mem_filter.2 ⟨hd, isColumnLaunch_padOrLaunch d hdc⟩)
    simp only [expected] at hc0 hd0
    split_ifs at hc0 hd0
    · rcases List.mem_cons.1 hc0 with rfl | h
      · simp [padColumns, Call.isRowLaunch] at hcr
      · obtain ⟨k, -, rfl⟩ := List.mem_map.1 h
        simp [Call.isRowLaunch] at hcr
    · obtain ⟨k, -, rfl⟩ := List.mem_map.1 hd0
      simp [Call.isColumnLaunch] at hdc
    · rw [List.mem_singleton] at hc0
      rw [hc0] at hcr
      simp [padPoint, Call.isRowLaunch] at hcr

/-- C22, witness: a successful run on a plan of shape `4 x 1` with batch 2
issues one pad and two launches of the column kernel, none of the row kernel. -/
theorem C22_degenerate_shapes_short_circuit_witness :
    (examplePlan2d 4 1 2 4 1 true true CNFFT_FUNC_TWO_LEVEL_STOCKHAM).fft_strategy =
      CNFFT_FUNC_TWO_LEVEL_STOCKHAM ∧
    ((examplePlan2d 4 1 2 4 1 true true CNFFT_FUNC_TWO_LEVEL_STOCKHAM).n0 = 1 ∨
      (examplePlan2d 4 1 2 4 1 true true CNFFT_FUNC_TWO_LEVEL_STOCKHAM).n1 = 1) ∧
    (execRFFT2d (exampleEnv CNFFT_FUNC_MATMUL) exampleBackend
        (examplePlan2d 4 1 2 4 1 true true CNFFT_FUNC_TWO_LEVEL_STOCKHAM)
        exampleInput CFloat.one exampleWorkspace exampleOutput []).2.trace.countP
          Call.isPad = 1 ∧
    (execRFFT2d (exampleEnv CNFFT_FUNC_MATMUL) exampleBackend
        (examplePlan2d 4 1 2 4 1 true true CNFFT_FUNC_TWO_LEVEL_STOCKHAM)
        exampleInput CFloat.one exampleWorkspace exampleOutput []).2.trace.countP
          Call.isColumnLaunch = 2 ∧
    (execRFFT2d (exampleEnv CNFFT_FUNC_MATMUL) exampleBackend
        (examplePlan2d 4 1 2 4 1 true true CNFFT_FUNC_TWO_LEVEL_STOCKHAM)
        exampleInput CFloat.one exampleWorkspace exampleOutput []).2.trace.countP
          Call.isRowLaunch = 0 :=
  ⟨rfl, Or.inr rfl,
    ((C22_degenerate_shapes_short_circuit (exampleEnv CNFFT_FUNC_MATMUL) exampleBackend
      (examplePlan2d 4 1 2 4 1 true true CNFFT_FUNC_TWO_LEVEL_STOCKHAM)
      exampleInput CFloat.one exampleWorkspace exampleOutput rfl (Or.inr rfl)).2.2.1
      (by decide)).1 ⟨by decide, rfl⟩⟩

/-- C23: the batch pointers of the two-level Stockham loop.  With
`idist = bytes(input_dtype) * n0 * n1`, `odist = bytes(output_dtype) * n0 *
(n1/2 + 1)` and `in0`, `out0` the values of `mlu_addrs.input` and
`mlu_addrs.output` assigned by the allocator: the kernel launches of a run of
execRFFT2d are an initial segment of, and in a successful run exactly, the
launches of iterations `0, ..., batch - 1` in order (row kernel then column
kernel for a non-degenerate shape), iteration `k` being launched on the plan
whose `mlu_addrs.input` is `in0 + k * idist` and whose `mlu_addrs.output` is
`out0 + k * odist`, every other field being as the allocator left it; every
launch of every run is on such a plan with `k < batch`.  When every kernel
launch succeeds the run leaves the plan as the allocator made it, whatever the
other calls return, so `mlu_addrs.input` and `mlu_addrs.output` are `in0` and
`out0` again; a successful run does so too.  On the 64-bit values of the
pointers the `k`-th plan is reached by `k` additions modulo 2^64, and `batch`
such additions followed by the subtraction of `batch * idist` modulo 2^64 give
back the value started from. -/
theorem C23_batch_pointers_advance_and_restore (env : Env) (be : Backend) (plan : FFTPlan)
    (input : Addr) (scale_factor : CFloat) (workspace output : Addr)
    (hs : plan.fft_strategy = CNFFT_FUNC_TWO_LEVEL_STOCKHAM) :
    let cfg := configureRFFT2dWorkspaceAddrs env plan input workspace output
    let r := execRFFT2d env be plan input scale_factor workspace output []
    let idist := env.mluOpDataTypeBytes plan.input_dtype * plan.n0 * plan.n1
    let odist := env.mluOpDataTypeBytes plan.output_dtype * plan.n0 * (plan.n1 / 2 + 1)
    let plan_k := fun k : Nat =>
      { cfg with mlu_addrs :=
        { cfg.mlu_addrs with
          input := cfg.mlu_addrs.input.add ((k * idist : Nat) : Int)
          output := cfg.mlu_addrs.output.add ((k * odist : Nat) : Int) } }
    r.2.trace.filter Call.isKernelLaunch <+: launchesRFFT2d env cfg ∧
    (r.1 = MLUOP_STATUS_SUCCESS → r.2.trace.filter Call.isKernelLaunch = launchesRFFT2d env cfg) ∧
    (plan.n0 ≠ 1 → plan.n1 ≠ 1 →
      launchesRFFT2d env cfg =
        ((List.range plan.batch).map fun k =>
          [Call.kernelRFFT2dButterflyRow (plan_k k) FFTType.RFFT,
            Call.kernelRFFT2dButterflyColumn (plan_k k) FFTType.FFT_IFFT]).flatten) ∧
    (∀ c ∈ r.2.trace, c.isKernelLaunch = true →
      ∃ k, k < plan.batch ∧ c.butterfly2dPlan = some (plan_k k)) ∧
    ((∀ t c, c.isKernelLaunch = true → be.status t c = MLUOP_STATUS_SUCCESS) →
      r.2.fft_plan = cfg) ∧
    (r.1 = MLUOP_STATUS_SUCCESS → r.2.fft_plan = cfg) ∧
    (∀ (start : Base → Nat) (k : Nat),
      Addr.value start (plan_k k).mlu_addrs.input =
          (fun v => bumpU64 v idist)^[k] (Addr.value start cfg.mlu_addrs.input) ∧
        Addr.value start (plan_k k).mlu_addrs.output =
          (fun v => bumpU64 v odist)^[k] (Addr.value start cfg.mlu_addrs.output)) ∧
    (∀ start : Base → Nat,
      restoreU64 ((fun v => bumpU64 v idist)^[plan.batch]
          (Addr.value start cfg.mlu_addrs.input)) plan.batch idist =
          Addr.value start cfg.mlu_addrs.input ∧
        restoreU64 ((fun v => bumpU64 v odist)^[plan.batch]
          (Addr.value start cfg.mlu_addrs.output)) plan.batch odist =
          Addr.value start cfg.mlu_addrs.output) := by
  intro cfg r idist odist plan_k
  obtain ⟨_, heq, _, hpre⟩ := execRFFT2d_sim env be plan input scale_factor workspace output []
  obtain ⟨f1, f2, f3, f4, -, f6, f7, -⟩ :=
    configureRFFT2dWorkspaceAddrs_fields env plan input workspace output
  have hok := execRFFT2d_ok_stockham_launches env be.heuristicWorkspaceSize plan input
    scale_factor workspace output hs
  have hpk : ∀ k, batchPlan (idistRFFT2d env cfg) (odistRFFT2d env cfg) cfg k = plan_k k := by
    intro k
    simp only [batchPlan, idistRFFT2d, odistRFFT2d, plan_k, idist, odist, cfg, f2, f3, f6, f7]
  have hpre2 : r.2.trace.filter Call.isKernelLaunch <+: launchesRFFT2d env cfg := by
    have := hpre.filter Call.isKernelLaunch
    rw [hok] at this
    exact this
  refine ⟨hpre2, ?_, ?_, ?_, ?_, ?_, ?_, ?_⟩
  · intro hr
    have e1 : r.2.trace = (execRFFT2d env (Backend.allSucceed be.heuristicWorkspaceSize)
        plan input scale_factor workspace output []).2.trace := by rw [heq hr]
    rw [e1, hok]
  · intro hn0 hn1
    have c1 : ¬(plan.n0 = 1 ∨ plan.n1 = 1) := fun x => x.elim hn0 hn1
    rw [launchesRFFT2d_configured, if_neg c1]
    rfl
  · intro c hc hkl
    have hm : c ∈ launchesRFFT2d env cfg := hpre2.subset (List.mem_filter.2 ⟨hc, hkl⟩)
    obtain ⟨k, hk, hq⟩ := launchesRFFT2d_mem env cfg c hm
    exact ⟨k, f4 ▸ hk, by rw [hq, hpk]⟩
  · intro hk
    exact execRFFT2d_restores env be hk plan input scale_factor workspace output hs
  · intro hr
    rw [heq hr, execRFFT2d_ok]
  · intro start k
    have := batchPlan_value start idist odist cfg k
    exact this
  · intro start
    exact ⟨restoreU64_iterate _ _ _ (value_lt start _), restoreU64_iterate _ _ _ (value_lt start _)⟩

/-- C23, witness: a successful run on a float 2 x 4 plan with batch 3 launches
the row and the column kernel three times, with the input pointer at offsets
0, 32, 64 and the output pointer at offsets 0, 48, 96 of the caller's
buffers, and leaves both pointers at offset 0. -/
theorem C23_batch_pointers_advance_and_restore_witness :
    (examplePlan2d 2 4 3 2 4 true true CNFFT_FUNC_TWO_LEVEL_STOCKHAM).fft_strategy =
      CNFFT_FUNC_TWO_LEVEL_STOCKHAM ∧
    (execRFFT2d (exampleEnv CNFFT_FUNC_MATMUL) exampleBackend
        (examplePlan2d 2 4 3 2 4 true true CNFFT_FUNC_TWO_LEVEL_STOCKHAM)
        exampleInput CFloat.one exampleWorkspace exampleOutput []).2.trace.filter
          Call.isKernelLaunch =
      launchesRFFT2d (exampleEnv CNFFT_FUNC_MATMUL)
        (configureRFFT2dWorkspaceAddrs (exampleEnv CNFFT_FUNC_MATMUL)
          (examplePlan2d 2 4 3 2 4 true true CNFFT_FUNC_TWO_LEVEL_STOCKHAM)
          exampleInput exampleWorkspace exampleOutput) ∧
    (launchesRFFT2d (exampleEnv CNFFT_FUNC_MATMUL)
        (configureRFFT2dWorkspaceAddrs (exampleEnv CNFFT_FUNC_MATMUL)
          (examplePlan2d 2 4 3 2 4 true true CNFFT_FUNC_TWO_LEVEL_STOCKHAM)
          exampleInput exampleWorkspace exampleOutput)).filterMap
        (fun c => c.butterfly2dPlan.map fun q => (q.mlu_addrs.input, q.mlu_addrs.output)) =
      [(⟨Base.input, 0⟩, ⟨Base.output, 0⟩), (⟨Base.input, 0⟩, ⟨Base.output, 0⟩),
        (⟨Base.input, 32⟩, ⟨Base.output, 48⟩), (⟨Base.input, 32⟩, ⟨Base.output, 48⟩),
        (⟨Base.input, 64⟩, ⟨Base.output, 96⟩), (⟨Base.input, 64⟩, ⟨Base.output, 96⟩)] ∧
    (execRFFT2d (exampleEnv CNFFT_FUNC_MATMUL) exampleBackend
        (examplePlan2d 2 4 3 2 4 true true CNFFT_FUNC_TWO_LEVEL_STOCKHAM)
        exampleInput CFloat.one exampleWorkspace exampleOutput []).2.fft_plan.mlu_addrs.input =
      ⟨Base.input, 0⟩ :=
  ⟨rfl,
    (C23_batch_pointers_advance_and_restore (exampleEnv CNFFT_FUNC_MATMUL) exampleBackend
      (examplePlan2d 2 4 3 2 4 true true CNFFT_FUNC_TWO_LEVEL_STOCKHAM)
      exampleInput CFloat.one exampleWorkspace exampleOutput rfl).2.1 (by decide),
    by decide, by decide⟩

/-- C24: the device scratch of the many-distance-1 stages is not released.
No call of a run of execRFFT2d under that strategy hands a buffer back to the
device allocator (the file has no such call).  A successful run has allocated
once or twice (the row stage always, the column stage when its heuristic asks
for scratch) and released nothing.  From its allocation on, the row stage
issues the allocation, the batched matrix multiply and the release of the
descriptors and of the handle, and returns.  When the batched matrix multiply
fails, the run ends with the failure right after the multiply: the allocation
is followed by the multiply and by nothing else. -/
theorem C24_device_scratch_never_released (env : Env) (be : Backend) (plan : FFTPlan)
    (input : Addr) (scale_factor : CFloat) (workspace output : Addr)
    (hs : plan.fft_strategy = CNFFT_FUNC_MANY_DIST1_2D) :
    let r := execRFFT2d env be plan input scale_factor workspace output []
    (∀ c ∈ r.2.trace, c.isDeviceFree = false) ∧
    (r.1 = MLUOP_STATUS_SUCCESS →
      1 ≤ r.2.trace.countP Call.isDeviceAlloc ∧ r.2.trace.countP Call.isDeviceAlloc ≤ 2 ∧
      r.2.trace.countP Call.isDeviceFree = 0) ∧
    (∃ (size : Nat) (bmm : Call), bmm.isMatmul = true ∧
      (callsOf (computeFFT2dMatMulRowR2C (Backend.allSucceed be.heuristicWorkspaceSize)
          scale_factor) (configureRFFT2dWorkspaceAddrs env plan input workspace output)).dropWhile
          (fun c => !c.isDeviceAlloc) =
        [Call.cnrtMalloc size, bmm,
          Call.mluOpDestroyTensorDescriptor, Call.mluOpDestroyTensorDescriptor,
          Call.mluOpDestroyTensorDescriptor, Call.cnnlDestroyMatMulDescriptor,
          Call.cnnlDestroyMatMulAlgo, Call.cnnlDestroyMatMulHeuristicResult,
          Call.DESTROY_CNNL_TENSOR_DESCRIPTOR, Call.DESTROY_CNNL_TENSOR_DESCRIPTOR,
          Call.DESTROY_CNNL_TENSOR_DESCRIPTOR, Call.DESTROY_CNNL_HANDLE]) ∧
    ((execRFFT2d (exampleEnv CNFFT_FUNC_MATMUL) batchMatMulFailingBackend
        (examplePlan2d 2 2 1 2 2 true true CNFFT_FUNC_MANY_DIST1_2D)
        exampleInput CFloat.one exampleWorkspace exampleOutput []).1 =
        MLUOP_STATUS_INTERNAL_ERROR ∧
      ((execRFFT2d (exampleEnv CNFFT_FUNC_MATMUL) batchMatMulFailingBackend
        (examplePlan2d 2 2 1 2 2 true true CNFFT_FUNC_MANY_DIST1_2D)
        exampleInput CFloat.one exampleWorkspace exampleOutput []).2.trace.dropWhile
          (fun c => !c.isDeviceAlloc)).map Call.kind = [CallKind.alloc, CallKind.matmul]) := by
  intro r
  obtain ⟨_, heq, _, hpre⟩ := execRFFT2d_sim env be plan input scale_factor workspace output []
  refine ⟨fun c _ => rfl, ?_, computeFFT2dMatMulRowR2C_after_alloc _ _ _, by decide, by decide⟩
  intro hr
  have e1 : r.2.trace = (execRFFT2d env (Backend.allSucceed be.heuristicWorkspaceSize)
      plan input scale_factor workspace output []).2.trace := by rw [heq hr]
  have hc := computeFFT2dMatMulColumnR2C_allocs be.heuristicWorkspaceSize scale_factor
    (configureRFFT2dWorkspaceAddrs env plan input workspace output)
  rw [e1, execRFFT2d_ok_many_allocs env _ plan input scale_factor workspace output hs]
  refine ⟨by omega, by omega, ?_⟩
  rw [List.countP_eq_zero]
  intro c _ hf
  simp [Call.isDeviceFree] at hf

/-- C24, witness: the successful run on a 2 x 2 plan with batch 1 allocates 16
bytes with cnrtMalloc and issues no release of device memory. -/
theorem C24_device_scratch_never_released_witness :
    (examplePlan2d 2 2 1 2 2 true true CNFFT_FUNC_MANY_DIST1_2D).fft_strategy =
      CNFFT_FUNC_MANY_DIST1_2D ∧
    (execRFFT2d (exampleEnv CNFFT_FUNC_MATMUL) exampleBackend
      (examplePlan2d 2 2 1 2 2 true true CNFFT_FUNC_MANY_DIST1_2D)
      exampleInput CFloat.one exampleWorkspace exampleOutput []).1 = MLUOP_STATUS_SUCCESS ∧
    (execRFFT2d (exampleEnv CNFFT_FUNC_MATMUL) exampleBackend
      (examplePlan2d 2 2 1 2 2 true true CNFFT_FUNC_MANY_DIST1_2D)
      exampleInput CFloat.one exampleWorkspace exampleOutput []).2.trace.filter
        Call.isDeviceAlloc = [Call.cnrtMalloc 16] ∧
    (execRFFT2d (exampleEnv CNFFT_FUNC_MATMUL) exampleBackend
      (examplePlan2d 2 2 1 2 2 true true CNFFT_FUNC_MANY_DIST1_2D)
      exampleInput CFloat.one exampleWorkspace exampleOutput []).2.trace.countP
        Call.isDeviceFree = 0 :=
  ⟨rfl, by decide, by decide,
    ((C24_device_scratch_never_released (exampleEnv CNFFT_FUNC_MATMUL) exampleBackend
      (examplePlan2d 2 2 1 2 2 true true CNFFT_FUNC_MANY_DIST1_2D)
      exampleInput CFloat.one exampleWorkspace exampleOutput rfl).2.1 (by decide)).2.2⟩

/-- C25: the row count of the Stockham DFT matrix.  For a Stockham plan of the
matmul-family path with `1 <= L_sub` and `n = L * 2^m`, let
`row = (L <= L_sub ? L : PAD_UP(L / 2, L_sub) + 1)`.  Then `row <= L`;
setRFFT1dReserveArea launches kernelGenerateRFFTFullDFTMatrix with the extents
`row` and `L`; a matrix of `2 * row * L` elements has at most `2 * L * L`
elements and fits the reserved size set by the size policy (`L` within the
limit); every broadcast matrix multiply of a run of execRFFT1d has
`m = 2 * row`, `k = L`, `n = 2^m`, the plan's batch count, and writes at
`matmul_re_mul_re_addr`; the result of `batch * 2 * row * 2^m` elements takes
at most the bytes of two regions of `batch * n` elements each; and the region
`matmul_re_mul_im_addr` starts `bytes(input_dtype) * batch * n` bytes after
`matmul_re_mul_re_addr` when `batch * n < 2^31` and the bytes carved back from
the end of the workspace stay below 2^64.  For the contiguous Stockham plan of
length 2048 (`L = 1`, `m = 11`, `L_sub = 1`) with 2^20 batch rows, sized by
makeRFFT1dPolicy, the `int` product `batch * n = 2^31` wraps around:
`matmul_re_mul_re_addr` lies 2^33 bytes and `matmul_re_mul_im_addr` 2^34 bytes
before the workspace pointer, so the second region starts 2^33 bytes before
the first instead of 2^33 bytes after it. -/
theorem C25_stockham_rows_fit (env : Env) (plan : FFTPlan)
    (hp : plan.prime = true) (hs : plan.fft_strategy = CNFFT_FUNC_STOCKHAM)
    (hLsub : 1 ≤ plan.L_sub) (hn : plan.n0 = plan.L * 2 ^ plan.m) :
    let row := if plan.L ≤ plan.L_sub then plan.L else PAD_UP (plan.L / 2) plan.L_sub + 1
    let b := env.mluOpDataTypeBytes plan.input_dtype
    row ≤ plan.L ∧
    setRFFT1dReserveArea_prime env plan =
      (MLUOP_STATUS_SUCCESS, configureRFFT1dMatmulReserveAddrs env plan,
        [GenerateCall.kernelGenerateRFFTFullDFTMatrix
          (configureRFFT1dMatmulReserveAddrs env plan) plan.input_dtype row plan.L]) ∧
    2 * row * plan.L ≤ 2 * plan.L * plan.L ∧
    (plan.L ≤ FFT_L_LIMIT →
      2 * row * plan.L * b ≤ (makeRFFT1dPolicy_COMPOSITE env plan).2.reservespace_size) ∧
    (∀ (be : Backend) (input : Addr) (scale_factor : CFloat) (workspace output : Addr),
      let cfg := configuredRFFT1d env plan input workspace output
      let r := execRFFT1d env be plan input scale_factor workspace output []
      (∀ c ∈ r.2.trace, ∀ x, c.bcastShape = some x →
        x = (2 * row, plan.L, 2 ^ plan.m, plan.batch,
          cfg.matmul_addrs.matmul_re_mul_re_addr)) ∧
      (r.1 = MLUOP_STATUS_SUCCESS →
        r.2.trace.filterMap Call.bcastShape =
          [(2 * row, plan.L, 2 ^ plan.m, plan.batch, cfg.matmul_addrs.matmul_re_mul_re_addr)]) ∧
      (plan.batch * plan.n0 < 2 ^ 31 →
        plan.matmul_addrs.internal_workspace_size +
          (if plan.is_output_contiguous then 0
            else env.mluOpDataTypeBytes plan.output_dtype * plan.onum) +
          2 * (b * (plan.batch * plan.n0)) < 2 ^ 64 →
        cfg.matmul_addrs.matmul_re_mul_im_addr =
          cfg.matmul_addrs.matmul_re_mul_re_addr.add
            ((b * (plan.batch * plan.n0) : Nat) : Int)) ∧
      Region.within ⟨cfg.matmul_addrs.matmul_re_mul_re_addr,
          b * (plan.batch * (2 * row) * 2 ^ plan.m)⟩
        cfg.matmul_addrs.matmul_re_mul_re_addr
        (b * (plan.batch * plan.n0) + b * (plan.batch * plan.n0))) ∧
    ((makeRFFT1dPolicy (exampleEnv CNFFT_FUNC_STOCKHAM) exampleHandle
        (stockhamPlan 1 11 1 (2 ^ 20))).1 = MLUOP_STATUS_SUCCESS ∧
      (stockhamPlan 1 11 1 (2 ^ 20)).n0 = 2048 ∧
      exampleBytes (stockhamPlan 1 11 1 (2 ^ 20)).input_dtype *
        ((stockhamPlan 1 11 1 (2 ^ 20)).batch * (stockhamPlan 1 11 1 (2 ^ 20)).n0) = 2 ^ 33 ∧
      (configuredRFFT1d (exampleEnv CNFFT_FUNC_STOCKHAM)
        (makeRFFT1dPolicy (exampleEnv CNFFT_FUNC_STOCKHAM) exampleHandle
          (stockhamPlan 1 11 1 (2 ^ 20))).2
        exampleInput exampleWorkspace exampleOutput).matmul_addrs.matmul_re_mul_re_addr =
          ⟨Base.workspace, -8589934592⟩ ∧
      (configuredRFFT1d (exampleEnv CNFFT_FUNC_STOCKHAM)
        (makeRFFT1dPolicy (exampleEnv CNFFT_FUNC_STOCKHAM) exampleHandle
          (stockhamPlan 1 11 1 (2 ^ 20))).2
        exampleInput exampleWorkspace exampleOutput).matmul_addrs.matmul_re_mul_im_addr =
          ⟨Base.workspace, -17179869184⟩) := by
  intro row b
  have hrow : row ≤ plan.L := stockham_row_le plan.L plan.L_sub hLsub
  have hm : (if plan.L ≤ plan.L_sub then 2 * plan.L
      else 2 * (PAD_UP (plan.L / 2) plan.L_sub + 1)) = 2 * row := by
    simp only [row]
    split_ifs <;> rfl
  refine ⟨hrow, ?_, ?_, ?_, ?_, by decide⟩
  · simp only [setRFFT1dReserveArea_prime, configureRFFT1dMatmulReserveAddrs,
      configureRFFT1dMatmulReserveAddrsAux, hs, row]
  · calc 2 * row * plan.L = 2 * (row * plan.L) := by ring
      _ ≤ 2 * (plan.L * plan.L) := Nat.mul_le_mul_left 2 (Nat.mul_le_mul_right _ hrow)
      _ = 2 * plan.L * plan.L := by ring
  · intro hlim
    have hL' : ¬ plan.L > FFT_L_LIMIT := by omega
    have e : (makeRFFT1dPolicy_COMPOSITE env plan).2.reservespace_size =
        2 * plan.L * plan.L * b := by
      simp [makeRFFT1dPolicy_COMPOSITE, hL', COMPLEX, b]
    rw [e]
    apply Nat.mul_le_mul_right
    calc 2 * row * plan.L = 2 * (row * plan.L) := by ring
      _ ≤ 2 * (plan.L * plan.L) := Nat.mul_le_mul_left 2 (Nat.mul_le_mul_right _ hrow)
      _ = 2 * plan.L * plan.L := by ring
  · intro be input scale_factor workspace output cfg r
    obtain ⟨_, heq, _, hpre⟩ :=
      execRFFT1d_sim env be plan input scale_factor workspace output []
    have hok := execRFFT1d_ok_bcast env be.heuristicWorkspaceSize plan input scale_factor
      workspace output hp hs
    rw [hm] at hok
    refine ⟨?_, ?_, fun hint hfit =>
      matmul_results_adjacent env plan input workspace output hp (Or.inr hs) hint hfit, ?_⟩
    · intro c hc x hx
      have hmem : x ∈ (execRFFT1d env (Backend.allSucceed be.heuristicWorkspaceSize) plan
          input scale_factor workspace output []).2.trace.filterMap Call.bcastShape :=
        List.mem_filterMap.2 ⟨c, hpre.subset hc, hx⟩
      rw [hok, List.mem_singleton] at hmem
      exact hmem
    · intro hr
      have e1 : r.2.trace = (execRFFT1d env (Backend.allSucceed be.heuristicWorkspaceSize)
          plan input scale_factor workspace output []).2.trace := by rw [heq hr]
      rw [e1, hok]
    · rw [hn]
      simp only [Region.within]
      refine ⟨trivial, le_refl _, ?_⟩
      have hle : b * (plan.batch * (2 * row) * 2 ^ plan.m) ≤
          b * (plan.batch * (plan.L * 2 ^ plan.m)) + b * (plan.batch * (plan.L * 2 ^ plan.m)) := by
        have e1 : b * (plan.batch * (2 * row) * 2 ^ plan.m) =
            (2 * (b * plan.batch * 2 ^ plan.m)) * row := by ring
        have e2 : b * (plan.batch * (plan.L * 2 ^ plan.m)) +
            b * (plan.batch * (plan.L * 2 ^ plan.m)) =
            (2 * (b * plan.batch * 2 ^ plan.m)) * plan.L := by ring
        rw [e1, e2]
        exact Nat.mul_le_mul_left _ hrow
      have := Int.ofNat_le.mpr hle
      push_cast at this ⊢
      linarith

/-- C25, witness: for `L = 6`, `L_sub = 2`, `m = 1` (length 12), batch 2, the
row count is `PAD_UP(3, 2) + 1 = 5`, the generation kernel is launched with
the extents 5 and 6, and the broadcast matmul of the successful run has
`m = 10`, `k = 6`, `n = 2`. -/
theorem C25_stockham_rows_fit_witness :
    (stockhamPlan 6 1 2 2).prime = true ∧
    (stockhamPlan 6 1 2 2).fft_strategy = CNFFT_FUNC_STOCKHAM ∧
    1 ≤ (stockhamPlan 6 1 2 2).L_sub ∧
    (stockhamPlan 6 1 2 2).n0 = (stockhamPlan 6 1 2 2).L * 2 ^ (stockhamPlan 6 1 2 2).m ∧
    (setRFFT1dReserveArea_prime (exampleEnv CNFFT_FUNC_STOCKHAM) (stockhamPlan 6 1 2 2)).2.2 =
      [GenerateCall.kernelGenerateRFFTFullDFTMatrix
        (configureRFFT1dMatmulReserveAddrs (exampleEnv CNFFT_FUNC_STOCKHAM) (stockhamPlan 6 1 2 2))
        MLUOP_DTYPE_FLOAT 5 6] ∧
    ((execRFFT1d (exampleEnv CNFFT_FUNC_STOCKHAM) exampleBackend (stockhamPlan 6 1 2 2)
        exampleInput CFloat.one exampleWorkspace exampleOutput []).2.trace.filterMap
        Call.bcastShape).map (fun x => (x.1, x.2.1, x.2.2.1, x.2.2.2.1)) = [(10, 6, 2, 2)] :=
  ⟨rfl, rfl, by decide, by decide,
    by
      have h := (C25_stockham_rows_fit (exampleEnv CNFFT_FUNC_STOCKHAM) (stockhamPlan 6 1 2 2)
        rfl rfl (by decide) (by decide)).2.1
      rw [h]
      decide,
    by decide⟩

/-- C26: the two staging buffers of the many-distance-1 strategy are disjoint
and large enough.  With `bytes(output_dtype) = 2 * bytes(execution_dtype)` and
`n1 >= 1`: configureRFFT2dWorkspaceAddrs puts `buffer_in` at the start of the
workspace and `buffer_out` exactly `buffer_size = batch * bytes(output_dtype) *
n0 * n1 * 2` bytes later, the two ranges of `buffer_size` bytes lie in the
first `2 * buffer_size` bytes of the workspace and share no byte;
`n1/2 + 1 <= n1`; a row result of `n0 * (n1/2+1) * 2 * batch` execution-dtype
elements and a column result of `2 * n0 * (n1/2+1) * 2 * batch` elements take
at most `buffer_size` bytes each; the results written by the matrix multiplies
of a run are an initial segment of, and in a successful run exactly, the row
result of `n0 * (n1/2+1) * 2 * batch` elements at `buffer_in` followed by the
column result at `buffer_out`, whose element count is `2 * n0` times the
`int` product `(n1/2+1)*2*batch` (nothing when that is negative), at most
`2 * n0 * (n1/2+1) * 2 * batch` and equal to it when the product is below
2^31; and each result lies within its buffer. -/
theorem C26_buffers_disjoint_and_large_enough (env : Env) (be : Backend) (plan : FFTPlan)
    (input : Addr) (scale_factor : CFloat) (workspace output : Addr)
    (hs : plan.fft_strategy = CNFFT_FUNC_MANY_DIST1_2D)
    (hb : env.mluOpDataTypeBytes plan.output_dtype =
      2 * env.mluOpDataTypeBytes plan.execution_dtype)
    (hn1 : 1 ≤ plan.n1) :
    let cfg := configureRFFT2dWorkspaceAddrs env plan input workspace output
    let r := execRFFT2d env be plan input scale_factor workspace output []
    let buffer_size := plan.batch * env.mluOpDataTypeBytes plan.output_dtype * plan.n0 * plan.n1 * 2
    let buffer_in : Region := ⟨cfg.mlu_addrs.buffer_in, buffer_size⟩
    let buffer_out : Region := ⟨cfg.mlu_addrs.buffer_out, buffer_size⟩
    let rowElements := plan.n0 * ((plan.n1 / 2 + 1) * 2) * plan.batch
    let columnElements := plan.n0 * 2 * ((plan.n1 / 2 + 1) * 2 * plan.batch)
    let columnWritten :=
      (((plan.n0 * 2 : Nat) : Int) *
        int32 (((plan.n1 / 2 + 1) * 2 * plan.batch : Nat) : Int)).toNat
    let rowResult : Region :=
      ⟨cfg.mlu_addrs.buffer_in, env.mluOpDataTypeBytes plan.execution_dtype * rowElements⟩
    let columnResult : Region :=
      ⟨cfg.mlu_addrs.buffer_out, env.mluOpDataTypeBytes plan.execution_dtype * columnWritten⟩
    cfg.mlu_addrs.buffer_in = workspace ∧
    cfg.mlu_addrs.buffer_out = cfg.mlu_addrs.buffer_in.add buffer_size ∧
    Region.within buffer_in workspace (2 * buffer_size) ∧
    Region.within buffer_out workspace (2 * buffer_size) ∧
    Region.disjoint buffer_in buffer_out ∧
    plan.n1 / 2 + 1 ≤ plan.n1 ∧
    env.mluOpDataTypeBytes plan.execution_dtype * rowElements ≤ buffer_size ∧
    env.mluOpDataTypeBytes plan.execution_dtype * columnElements ≤ buffer_size ∧
    r.2.trace.filterMap (Call.matmulResultRegion env) <+: [rowResult, columnResult] ∧
    (r.1 = MLUOP_STATUS_SUCCESS →
      r.2.trace.filterMap (Call.matmulResultRegion env) = [rowResult, columnResult]) ∧
    columnWritten ≤ columnElements ∧
    ((plan.n1 / 2 + 1) * 2 * plan.batch < 2 ^ 31 → columnWritten = columnElements) ∧
    Region.within rowResult buffer_in.addr buffer_in.size ∧
    Region.within columnResult buffer_out.addr buffer_out.size := by
  intro cfg r buffer_size buffer_in buffer_out rowElements columnElements columnWritten
    rowResult columnResult
  obtain ⟨_, heq, _, hpre⟩ := execRFFT2d_sim env be plan input scale_factor workspace output []
  obtain ⟨a1, a2, a3, a4, a5, a6⟩ :=
    configureRFFT2dWorkspaceAddrs_many env plan input workspace output hs
  obtain ⟨-, f2, f3, f4, -, -, -, f8⟩ :=
    configureRFFT2dWorkspaceAddrs_fields env plan input workspace output
  have hok := execRFFT2d_ok_many_operands env be.heuristicWorkspaceSize plan input scale_factor
    workspace output hs
  rw [computeFFT2dMatMulRowR2C_operands, computeFFT2dMatMulColumnR2C_operands,
    f2, f3, f4, f8] at hok
  have hreg : (execRFFT2d env (Backend.allSucceed be.heuristicWorkspaceSize) plan input
      scale_factor workspace output []).2.trace.filterMap (Call.matmulResultRegion env) =
      [rowResult, columnResult] := by
    rw [filterMap_matmulResultRegion, hok]
    simp only [List.nil_append, List.cons_append, List.map_cons, List.map_nil, elements_three,
      elements_two_int32]
  have hwritten : columnWritten ≤ columnElements := toNat_mul_int32_le _ _
  have hexact : (plan.n1 / 2 + 1) * 2 * plan.batch < 2 ^ 31 →
      columnWritten = columnElements := by
    intro hlt
    simp only [columnWritten, columnElements]
    rw [int32_of_lt _ hlt, ← Int.natCast_mul, Int.toNat_natCast]
  have hhalf : plan.n1 / 2 + 1 ≤ plan.n1 := by omega
  have hw0 : workspace.add 0 = workspace := by
    cases workspace
    simp [Addr.add]
  have hrow : env.mluOpDataTypeBytes plan.execution_dtype * rowElements ≤ buffer_size := by
    have e1 : env.mluOpDataTypeBytes plan.execution_dtype * rowElements =
        (env.mluOpDataTypeBytes plan.execution_dtype * plan.n0 * plan.batch) *
          ((plan.n1 / 2 + 1) * 2) := by
      simp only [rowElements]
      ring
    have e2 : buffer_size =
        (env.mluOpDataTypeBytes plan.execution_dtype * plan.n0 * plan.batch) *
          (plan.n1 * 4) := by
      simp only [buffer_size, hb]
      ring
    rw [e1, e2]
    exact Nat.mul_le_mul_left _ (by omega)
  have hcol : env.mluOpDataTypeBytes plan.execution_dtype * columnElements ≤ buffer_size := by
    have e1 : env.mluOpDataTypeBytes plan.execution_dtype * columnElements =
        (env.mluOpDataTypeBytes plan.execution_dtype * plan.n0 * plan.batch) *
          ((plan.n1 / 2 + 1) * 4) := by
      simp only [columnElements]
      ring
    have e2 : buffer_size =
        (env.mluOpDataTypeBytes plan.execution_dtype * plan.n0 * plan.batch) *
          (plan.n1 * 4) := by
      simp only [buffer_size, hb]
      ring
    rw [e1, e2]
    exact Nat.mul_le_mul_left _ (by omega)
  have hcolW : env.mluOpDataTypeBytes plan.execution_dtype * columnWritten ≤ buffer_size :=
    le_trans (Nat.mul_le_mul_left _ hwritten) hcol
  have a3' : cfg.mlu_addrs.buffer_in = workspace := a3.trans hw0
  have a4' : cfg.mlu_addrs.buffer_out = workspace.add (buffer_size : Nat) := a4
  have hrowZ : ((env.mluOpDataTypeBytes plan.execution_dtype * rowElements : Nat) : Int) ≤
      (buffer_size : Int) := Int.ofNat_le.mpr hrow
  have hcolZ : ((env.mluOpDataTypeBytes plan.execution_dtype * columnWritten : Nat) : Int) ≤
      (buffer_size : Int) := Int.ofNat_le.mpr hcolW
  have hB : (0 : Int) ≤ (buffer_size : Int) := Int.natCast_nonneg _
  clear_value buffer_size rowElements columnElements columnWritten
  refine ⟨a3', ?_, ?_, ?_, ?_, hhalf, hrow, hcol, ?_, ?_, hwritten, hexact, ?_, ?_⟩
  · rw [a4', a3']
  · simp only [Region.within, buffer_in, a3']
    refine ⟨trivial, le_refl _, ?_⟩
    push_cast
    linarith
  · simp only [Region.within, buffer_out, a4', Addr.add]
    refine ⟨trivial, ?_, ?_⟩
    · linarith
    · push_cast
      linarith
  · simp only [Region.disjoint, buffer_in, buffer_out, a3', a4', Addr.add]
    right
    left
    exact le_refl _
  · have := hpre.filterMap (Call.matmulResultRegion env)
    rw [hreg] at this
    exact this
  · intro hr
    have e1 : r.2.trace = (execRFFT2d env (Backend.allSucceed be.heuristicWorkspaceSize)
        plan input scale_factor workspace output []).2.trace := by rw [heq hr]
    rw [e1, hreg]
  · simp only [Region.within, rowResult, buffer_in]
    refine ⟨trivial, le_refl _, ?_⟩
    linarith
  · simp only [Region.within, columnResult, buffer_out]
    refine ⟨trivial, le_refl _, ?_⟩
    linarith

/-- C26, witness: for a float 2 x 4 plan with batch 1 (complex-float output,
8 = 2 * 4 bytes) the buffers have 128 bytes each; the row result takes 48
bytes at workspace offset 0 and the column result 96 bytes at offset 128. -/
theorem C26_buffers_disjoint_and_large_enough_witness :
    (examplePlan2d 2 4 1 2 4 true true CNFFT_FUNC_MANY_DIST1_2D).fft_strategy =
      CNFFT_FUNC_MANY_DIST1_2D ∧
    (exampleEnv CNFFT_FUNC_MATMUL).mluOpDataTypeBytes
        (examplePlan2d 2 4 1 2 4 true true CNFFT_FUNC_MANY_DIST1_2D).output_dtype =
      2 * (exampleEnv CNFFT_FUNC_MATMUL).mluOpDataTypeBytes
        (examplePlan2d 2 4 1 2 4 true true CNFFT_FUNC_MANY_DIST1_2D).execution_dtype ∧
    1 ≤ (examplePlan2d 2 4 1 2 4 true true CNFFT_FUNC_MANY_DIST1_2D).n1 ∧
    (execRFFT2d (exampleEnv CNFFT_FUNC_MATMUL) exampleBackend
      (examplePlan2d 2 4 1 2 4 true true CNFFT_FUNC_MANY_DIST1_2D)
      exampleInput CFloat.one exampleWorkspace exampleOutput []).2.trace.filterMap
        (Call.matmulResultRegion (exampleEnv CNFFT_FUNC_MATMUL)) =
      [⟨⟨Base.workspace, 0⟩, 48⟩, ⟨⟨Base.workspace, 128⟩, 96⟩] :=
  ⟨rfl, rfl, by decide,
    (C26_buffers_disjoint_and_large_enough (exampleEnv CNFFT_FUNC_MATMUL) exampleBackend
      (examplePlan2d 2 4 1 2 4 true true CNFFT_FUNC_MANY_DIST1_2D)
      exampleInput CFloat.one exampleWorkspace exampleOutput rfl rfl
      (by decide)).2.2.2.2.2.2.2.2.2.1 (by decide)⟩

/-- C27, counterexample: a successful run of execRFFT2d on a two-level Stockham
plan of shape `4 x 1` with batch 2, contiguous input and contiguous output,
issues one pad; the pad reads the caller's input and writes the caller's
output, which is no address of the workspace; and when the caller passes the
input pointer as the output pointer, the pad of the successful run writes the
caller's input. -/
theorem C27_counterexample :
    ((execRFFT2d (exampleEnv CNFFT_FUNC_MATMUL) exampleBackend
        (examplePlan2d 4 1 2 4 1 true true CNFFT_FUNC_TWO_LEVEL_STOCKHAM)
        exampleInput CFloat.one exampleWorkspace exampleOutput []).1 = MLUOP_STATUS_SUCCESS ∧
      ((execRFFT2d (exampleEnv CNFFT_FUNC_MATMUL) exampleBackend
        (examplePlan2d 4 1 2 4 1 true true CNFFT_FUNC_TWO_LEVEL_STOCKHAM)
        exampleInput CFloat.one exampleWorkspace exampleOutput []).2.trace.filter
          Call.isPad).map Call.moves = [some (exampleInput, exampleOutput)] ∧
      exampleOutput.base ≠ exampleWorkspace.base) ∧
    ((execRFFT2d (exampleEnv CNFFT_FUNC_MATMUL) exampleBackend
        (examplePlan2d 4 1 2 4 1 true true CNFFT_FUNC_TWO_LEVEL_STOCKHAM)
        exampleInput CFloat.one exampleWorkspace exampleInput []).1 = MLUOP_STATUS_SUCCESS ∧
      ((execRFFT2d (exampleEnv CNFFT_FUNC_MATMUL) exampleBackend
        (examplePlan2d 4 1 2 4 1 true true CNFFT_FUNC_TWO_LEVEL_STOCKHAM)
        exampleInput CFloat.one exampleWorkspace exampleInput []).2.trace.filter
          Call.isPad).map Call.moves = [some (exampleInput, exampleInput)] ∧
      exampleInput.base ≠ exampleWorkspace.base) := by
  decide

/-- C27 (amended): where the input copies and the pads write.  For a caller's
input that does not lie in the workspace:

* in execRFFT1d (matmul-family and butterfly paths) the destination role of
  the input copy (`matmul_addrs.input_contiguous_addr`, respectively
  `mlu_addrs.input`) is a workspace address when the copy is needed and the
  caller's input otherwise; every input copy of a run is issued with the copy
  needed and goes from the caller's input to that role; a successful run with
  the copy needed issues it; every pad of a run is the pad of the pad stage and
  goes from that role to a workspace address assigned by the allocator of the
  same call;
* no input copy and no pad of execRFFT1d writes to the caller's input;
* in execRFFT2d under the two-level Stockham strategy the same holds of the
  input copy and the role `mlu_addrs.input`, and no input copy writes to the
  caller's input; every pad of a run (the shapes `N x 1` and `1 x 1`) goes from
  `mlu_addrs.input` to `mlu_addrs.output`, which is the caller's output when
  the output is contiguous and a workspace address otherwise: a pad writes to
  the caller's input exactly when the output is contiguous and the caller's
  output pointer is the caller's input pointer. -/
theorem C27_input_is_never_a_write_destination (env : Env) (be : Backend) (plan : FFTPlan)
    (input : Addr) (scale_factor : CFloat) (workspace output : Addr)
    (hiw : input.base ≠ workspace.base) :
    let cfg1 := configuredRFFT1d env plan input workspace output
    let role1 :=
      if plan.prime then cfg1.matmul_addrs.input_contiguous_addr else cfg1.mlu_addrs.input
    let r1 := execRFFT1d env be plan input scale_factor workspace output []
    let cfg2 := configureRFFT2dWorkspaceAddrs env plan input workspace output
    let r2 := execRFFT2d env be plan input scale_factor workspace output []
    let copy2 : Bool :=
      !plan.is_input_contiguous ||
        (decide (plan.inembed0 > plan.n0) || decide (plan.inembed1 > plan.n1))
    ((inputCopyNeeded plan = true → ∃ off : Nat, role1 = workspace.add off) ∧
      (inputCopyNeeded plan = false → role1 = input) ∧
      (∀ c ∈ r1.2.trace, c.isInputCopy = true →
        inputCopyNeeded plan = true ∧ c.moves = some (input, role1)) ∧
      (r1.1 = MLUOP_STATUS_SUCCESS → inputCopyNeeded plan = true →
        ∃ c ∈ r1.2.trace, c.isInputCopy = true) ∧
      (∀ c ∈ r1.2.trace, c.isPad = true →
        c = padCallRFFT1d cfg1 ∧ ∃ off : Nat, c.moves = some (role1, workspace.add off)) ∧
      (∀ c ∈ r1.2.trace, c.isInputCopy = true ∨ c.isPad = true →
        ∀ m, c.moves = some m → m.2 ≠ input)) ∧
    (plan.fft_strategy = CNFFT_FUNC_TWO_LEVEL_STOCKHAM →
      (copy2 = true → ∃ off : Nat, cfg2.mlu_addrs.input = workspace.add off) ∧
      (copy2 = false → cfg2.mlu_addrs.input = input) ∧
      (∀ c ∈ r2.2.trace, c.isInputCopy = true →
        copy2 = true ∧ c.moves = some (input, cfg2.mlu_addrs.input)) ∧
      (r2.1 = MLUOP_STATUS_SUCCESS → copy2 = true → ∃ c ∈ r2.2.trace, c.isInputCopy = true) ∧
      (∀ c ∈ r2.2.trace, c.isPad = true →
        c.moves = some (cfg2.mlu_addrs.input, cfg2.mlu_addrs.output)) ∧
      (plan.is_output_contiguous = true → cfg2.mlu_addrs.output = output) ∧
      (plan.is_output_contiguous = false →
        ∃ off : Nat, cfg2.mlu_addrs.output = workspace.add off) ∧
      (∀ c ∈ r2.2.trace, c.isInputCopy = true → ∀ m, c.moves = some m → m.2 ≠ input) ∧
      (∀ c ∈ r2.2.trace, c.isPad = true → ∀ m, c.moves = some m →
        (m.2 = input ↔ plan.is_output_contiguous = true ∧ output = input))) := by
  intro cfg1 role1 r1 cfg2 r2 copy2
  obtain ⟨_, heq1, _, hpre1⟩ := execRFFT1d_sim env be plan input scale_factor workspace output []
  obtain ⟨_, heq2, _, hpre2⟩ := execRFFT2d_sim env be plan input scale_factor workspace output []
  have hne : ∀ off : Nat, workspace.add off ≠ input := by
    intro off e
    apply hiw
    rw [← e]
    rfl
  obtain ⟨hroleW, hroleI⟩ := configuredRFFT1d_input_role env plan input workspace output
  have hcfgp : (configuredRFFT1d env plan input workspace output).prime = plan.prime :=
    (configuredRFFT1d_fields env plan input workspace output).1
  have hcopy1 : ∀ c ∈ r1.2.trace, c.isInputCopy = true →
      inputCopyNeeded plan = true ∧ c.moves = some (input, role1) := by
    intro c hc hcopy
    have hm := execRFFT1d_ok_copy_calls env _ plan input scale_factor workspace output c
      (hpre1.subset hc) hcopy
    obtain ⟨hn, e⟩ := makeRFFT1dContiguousInput_copy_calls _ input _ c hm hcopy
    rw [inputCopyNeeded_configured] at hn
    refine ⟨hn, ?_⟩
    rw [e]
    simp only [Call.moves, hcfgp, role1, cfg1]
  have hpad1 : ∀ c ∈ r1.2.trace, c.isPad = true →
      c = padCallRFFT1d cfg1 ∧ ∃ off : Nat, c.moves = some (role1, workspace.add off) := by
    intro c hc hp
    obtain ⟨hn, e⟩ := execRFFT1d_ok_pad_calls env _ plan input scale_factor workspace output c
      (hpre1.subset hc) hp
    obtain ⟨off, ho⟩ := configuredRFFT1d_pad_role env plan input workspace output hn
    refine ⟨e, off, ?_⟩
    rw [e]
    simp only [padCallRFFT1d, Call.moves, hcfgp, role1, cfg1]
    rw [ho]
  refine ⟨⟨hroleW, hroleI, hcopy1, ?_, hpad1, ?_⟩, ?_⟩
  · intro hr hn
    have e : r1.2 = _ := heq1 hr
    have hn' : inputCopyNeeded cfg1 = true := by
      simp only [cfg1]
      rw [inputCopyNeeded_configured]
      exact hn
    refine ⟨_, ?_, (rfl : (Call.mluOpContiguous
      ⟨cfg1.input_dtype,
        [cfg1.batch,
          if cfg1.prime then (cfg1.inembed0 : Int) else min (cfg1.inembed0 : Int) cfg1.n0],
        some [cfg1.idist, cfg1.istride], none⟩
      input (if cfg1.prime then cfg1.matmul_addrs.input_contiguous_addr
        else cfg1.mlu_addrs.input)).isInputCopy = true)⟩
    rw [e]
    exact execRFFT1d_ok_makeInput_subset env _ plan input scale_factor workspace output _
      (makeRFFT1dContiguousInput_copy_mem _ input cfg1 hn')
  · intro c hc hcp m hm
    rcases hcp with hcp | hcp
    · obtain ⟨hn, e⟩ := hcopy1 c hc hcp
      obtain ⟨off, ho⟩ := hroleW hn
      rw [e] at hm
      cases hm
      simp only [role1, cfg1]
      rw [ho]
      exact hne off
    · obtain ⟨_, off, e⟩ := hpad1 c hc hcp
      rw [e] at hm
      cases hm
      exact hne off
  · intro hs
    obtain ⟨hW, hI, hOc, hOw⟩ := configureRFFT2dWorkspaceAddrs_roles env plan input workspace
      output hs
    have hcopies := execRFFT2d_ok_stockham_copies env be.heuristicWorkspaceSize plan input
      scale_factor workspace output hs
    have hcopy2 : ∀ c ∈ r2.2.trace, c.isInputCopy = true →
        copy2 = true ∧ c.moves = some (input, cfg2.mlu_addrs.input) := by
      intro c hc hcopy
      have hm : c.moves ∈ ((execRFFT2d env (Backend.allSucceed be.heuristicWorkspaceSize) plan
          input scale_factor workspace output []).2.trace.filter Call.isInputCopy).map
          Call.moves :=
        List.mem_map_of_mem _ (List.mem_filter.2 ⟨hpre2.subset hc, hcopy⟩)
      rw [hcopies] at hm
      by_cases hb : copy2 = true
      · rw [if_pos hb] at hm
        exact ⟨hb, List.mem_singleton.1 hm⟩
      · rw [if_neg hb] at hm
        simp at hm
    have hpad2 : ∀ c ∈ r2.2.trace, c.isPad = true →
        c.moves = some (cfg2.mlu_addrs.input, cfg2.mlu_addrs.output) := by
      intro c hc hp
      exact execRFFT2d_ok_stockham_pad_moves env _ plan input scale_factor workspace output hs c
        (hpre2.subset hc) hp
    have hout : cfg2.mlu_addrs.output = input ↔
        plan.is_output_contiguous = true ∧ output = input := by
      cases hoc : plan.is_output_contiguous
      · obtain ⟨off, ho⟩ := hOw hoc
        simp only [cfg2]
        rw [ho]
        constructor
        · intro e
          exact (hne off e).elim
        · intro e
          exact (Bool.false_ne_true e.1).elim
      · simp only [cfg2]
        rw [hOc hoc]
        constructor
        · intro e
          exact ⟨trivial, e⟩
        · intro e
          exact e.2
    refine ⟨hW, hI, hcopy2, ?_, hpad2, hOc, hOw, ?_, ?_⟩
    · intro hr hb
      have e : r2.2 = _ := heq2 hr
      rw [if_pos hb] at hcopies
      have hl : ((execRFFT2d env (Backend.allSucceed be.heuristicWorkspaceSize) plan
          input scale_factor workspace output []).2.trace.filter Call.isInputCopy) ≠ [] := by
        intro hnil
        rw [hnil] at hcopies
        simp at hcopies
      obtain ⟨c, hc⟩ := List.exists_mem_of_ne_nil _ hl
      obtain ⟨hc1, hc2⟩ := List.mem_filter.1 hc
      refine ⟨c, ?_, hc2⟩
      rw [e]
      exact hc1
    · intro c hc hcp m hm
      obtain ⟨hn, e⟩ := hcopy2 c hc hcp
      obtain ⟨off, ho⟩ := hW hn
      rw [e] at hm
      cases hm
      simp only [cfg2]
      rw [ho]
      exact hne off
    · intro c hc hcp m hm
      rw [hpad2 c hc hcp] at hm
      cases hm
      exact hout

/-- C27, witness: in a run on the degenerate `4 x 1` two-level Stockham plan the
pad does not write to the caller's input, the caller's output being another
buffer. -/
theorem C27_input_is_never_a_write_destination_witness :
    exampleInput.base ≠ exampleWorkspace.base ∧
    (∀ c ∈ (execRFFT2d (exampleEnv CNFFT_FUNC_MATMUL) exampleBackend
        (examplePlan2d 4 1 2 4 1 true true CNFFT_FUNC_TWO_LEVEL_STOCKHAM)
        exampleInput CFloat.one exampleWorkspace exampleOutput []).2.trace,
      c.isPad = true → ∀ m, c.moves = some m → m.2 ≠ exampleInput) :=
  ⟨by decide, fun c hc hp m hm e =>
    absurd
      (((((C27_input_is_never_a_write_destination (exampleEnv CNFFT_FUNC_MATMUL) exampleBackend
        (examplePlan2d 4 1 2 4 1 true true CNFFT_FUNC_TWO_LEVEL_STOCKHAM)
        exampleInput CFloat.one exampleWorkspace exampleOutput (by decide)).2
          rfl).2.2.2.2.2.2.2.2 c hc hp m hm).1 e).2)
      (by decide)⟩

/-- C28: makeRFFT1dPolicy does not return every failure of a scratch-size
query.  Under the direct-matmul strategy a successful return means that the
only query issued succeeded.  Under the composite strategies (with `L` within
the limit) two queries are issued, the transpose query first, and the status
returned is the status of the second query, whatever the transpose query
reported: on an environment whose transpose query reports
MLUOP_STATUS_INTERNAL_ERROR and whose matmul queries succeed, the policy
returns MLUOP_STATUS_SUCCESS, under Cooley-Tukey and under Stockham alike. -/
theorem C28_transpose_query_failure_is_dropped :
    (∀ (env : Env) (handle : Handle) (plan : FFTPlan),
      (selectRFFT1dStrategy env handle plan).1 = MLUOP_STATUS_SUCCESS →
      (selectRFFT1dStrategy env handle plan).2.fft_strategy = CNFFT_FUNC_MATMUL →
      (makeRFFT1dPolicy env handle plan).1 = MLUOP_STATUS_SUCCESS →
      ∀ st ∈ makeRFFT1dPolicy_queries env handle plan, st = MLUOP_STATUS_SUCCESS) ∧
    (∀ (env : Env) (handle : Handle) (plan : FFTPlan),
      (selectRFFT1dStrategy env handle plan).1 = MLUOP_STATUS_SUCCESS →
      ((selectRFFT1dStrategy env handle plan).2.fft_strategy = CNFFT_FUNC_COOLEY_TUKEY ∨
        (selectRFFT1dStrategy env handle plan).2.fft_strategy = CNFFT_FUNC_STOCKHAM) →
      (selectRFFT1dStrategy env handle plan).2.L ≤ FFT_L_LIMIT →
      ∃ st_t st_m : mluOpStatus_t,
        makeRFFT1dPolicy_queries env handle plan = [st_t, st_m] ∧
        st_t = (env.fftGetTransposeWorkspaceSize 3
          [(selectRFFT1dStrategy env handle plan).2.batch,
            (selectRFFT1dStrategy env handle plan).2.L,
            2 ^ (selectRFFT1dStrategy env handle plan).2.m] [0, 2, 1]
          (selectRFFT1dStrategy env handle plan).2.input_dtype).1 ∧
        (makeRFFT1dPolicy env handle plan).1 = st_m) ∧
    (makeRFFT1dPolicy_queries (transposeFailingEnv CNFFT_FUNC_COOLEY_TUKEY) exampleHandle
        (examplePlan 12 2 12 14 true true) =
        [MLUOP_STATUS_INTERNAL_ERROR, MLUOP_STATUS_SUCCESS] ∧
      (makeRFFT1dPolicy (transposeFailingEnv CNFFT_FUNC_COOLEY_TUKEY) exampleHandle
        (examplePlan 12 2 12 14 true true)).1 = MLUOP_STATUS_SUCCESS) ∧
    (makeRFFT1dPolicy_queries (transposeFailingEnv CNFFT_FUNC_STOCKHAM) exampleHandle
        (examplePlan 12 2 12 14 true true) =
        [MLUOP_STATUS_INTERNAL_ERROR, MLUOP_STATUS_SUCCESS] ∧
      (makeRFFT1dPolicy (transposeFailingEnv CNFFT_FUNC_STOCKHAM) exampleHandle
        (examplePlan 12 2 12 14 true true)).1 = MLUOP_STATUS_SUCCESS) := by
  refine ⟨?_, ?_, ⟨by decide, by decide⟩, ⟨by decide, by decide⟩⟩
  · intro env handle plan hsel hs hok
    rw [queries_eq_matmul env handle plan hsel hs]
    rw [policy_eq_matmul env handle plan hsel hs] at hok
    exact matmul_status_is_query env _ _ hok
  · intro env handle plan hsel hs hL
    rw [queries_eq_composite env handle plan hsel hs,
      policy_eq_composite env handle plan hsel hs]
    exact composite_status_is_last_query env _ hL

/-- C29: where the scale factor enters the 1D matmul-family path.  In every
run each scale argument handed to a stage is the caller's `scale_factor`, no
call is the elementwise scale primitive, and a kernel is handed a scale
argument under Stockham only.  In a successful run the stages that take the
scale factor are: the single matmul under DirectMatmul; the two matmuls under
Cooley-Tukey (the merge kernel takes none); and under Stockham both the
broadcast matmul (as `alpha`) and the merge kernel kernelFFTStockham (as its
`scale_factor` argument), so that the factor is handed to two stages of the
same pipeline. -/
theorem C29_scale_factor_in_matmul_and_in_stockham_kernel (env : Env) (be : Backend)
    (plan : FFTPlan) (input : Addr) (scale_factor : CFloat) (workspace output : Addr)
    (hp : plan.prime = true) :
    let r := execRFFT1d env be plan input scale_factor workspace output []
    (∀ c ∈ r.2.trace, ∀ a, c.scaleArgument = some a → a = scale_factor) ∧
    (∀ c ∈ r.2.trace, c.isScale = false) ∧
    (∀ c ∈ r.2.trace, ∀ a, c.scaleArgument = some a → c.kind = CallKind.kernel →
      plan.fft_strategy = CNFFT_FUNC_STOCKHAM) ∧
    (r.1 = MLUOP_STATUS_SUCCESS →
      (plan.fft_strategy = CNFFT_FUNC_MATMUL →
        scaledStages r.2.trace = [(CallKind.matmul, scale_factor)]) ∧
      (plan.fft_strategy = CNFFT_FUNC_COOLEY_TUKEY →
        scaledStages r.2.trace =
          [(CallKind.matmul, scale_factor), (CallKind.matmul, scale_factor)]) ∧
      (plan.fft_strategy = CNFFT_FUNC_STOCKHAM →
        scaledStages r.2.trace =
          [(CallKind.matmul, scale_factor), (CallKind.kernel, scale_factor)])) := by
  intro r
  obtain ⟨_, heq, _, hpre⟩ := execRFFT1d_sim env be plan input scale_factor workspace output []
  have hs := configuredRFFT1d_strategy env plan input workspace output
  have hok := execRFFT1d_ok_scaledStages env be.heuristicWorkspaceSize plan input scale_factor
    workspace output hp
  rw [scaledStages_by_strategy, hs] at hok
  have hmem : ∀ c ∈ r.2.trace, ∀ a, c.scaleArgument = some a →
      (c.kind, a) ∈ scaledStages (execRFFT1d env (Backend.allSucceed be.heuristicWorkspaceSize)
        plan input scale_factor workspace output []).2.trace :=
    fun c hc a ha => scaledStages_mem (hpre.subset hc) ha
  refine ⟨?_, ?_, ?_, ?_⟩
  · intro c hc a ha
    have := hmem c hc a ha
    rw [hok] at this
    split_ifs at this <;> simp at this <;> (try rcases this with h | h) <;> simp_all
  · intro c hc
    have hc0 := hpre.subset hc
    rw [execRFFT1d_ok_prime env _ plan input scale_factor workspace output hp] at hc0
    have hk : c.kind ≠ CallKind.scale := by
      simp only [List.mem_append] at hc0
      rcases hc0 with h | h | h | h | h | h
      · exact kind_ne_of_all (makeRFFT1dContiguousInput_kinds _ input _) (by decide) h
      · exact kind_ne_of_all (padRFFT1dContiguousInput_kinds _ _) (by decide) h
      · exact kind_ne_of_all (transposeRFFT1dPaddedInput_kinds _ _) (by decide) h
      · exact kind_ne_of_all (computeRFFT1dMatmulResult_kinds _ scale_factor _) (by decide) h
      · exact kind_ne_of_all (mergeRFFT1dOutput_kinds _ scale_factor _) (by decide) h
      · exact kind_ne_of_all (makeRFFT1dContiguousOutput_kinds _ output _) (by decide) h
    cases hsc : c.isScale
    · rfl
    · exact absurd ((isScale_iff_kind c).mp hsc) hk
  · intro c hc a ha hkern
    have := hmem c hc a ha
    rw [hok, hkern] at this
    split_ifs at this with h1 h2 h3 <;> simp at this
    exact h3
  · intro hr
    have e : r.2.trace = (execRFFT1d env (Backend.allSucceed be.heuristicWorkspaceSize)
        plan input scale_factor workspace output []).2.trace := by rw [heq hr]
    rw [e, hok]
    refine ⟨fun h => ?_, fun h => ?_, fun h => ?_⟩ <;> simp [h]

/-- C29, witness: the planned Stockham plan of length `12 = 3 * 2^2`, batch 2,
run with scale factor 2.0: the broadcast matmul and the merge kernel are both
handed 2.0. -/
theorem C29_scale_factor_in_matmul_and_in_stockham_kernel_witness :
    (makeRFFT1dPolicy (exampleEnv CNFFT_FUNC_STOCKHAM) exampleHandle
        (examplePlan 12 2 12 14 true true)).2.prime = true ∧
    (makeRFFT1dPolicy (exampleEnv CNFFT_FUNC_STOCKHAM) exampleHandle
        (examplePlan 12 2 12 14 true true)).2.fft_strategy = CNFFT_FUNC_STOCKHAM ∧
    (execRFFT1d (exampleEnv CNFFT_FUNC_STOCKHAM) exampleBackend
        (makeRFFT1dPolicy (exampleEnv CNFFT_FUNC_STOCKHAM) exampleHandle
          (examplePlan 12 2 12 14 true true)).2
        exampleInput CFloat.two exampleWorkspace exampleOutput []).1 = MLUOP_STATUS_SUCCESS ∧
    scaledStages (execRFFT1d (exampleEnv CNFFT_FUNC_STOCKHAM) exampleBackend
        (makeRFFT1dPolicy (exampleEnv CNFFT_FUNC_STOCKHAM) exampleHandle
          (examplePlan 12 2 12 14 true true)).2
        exampleInput CFloat.two exampleWorkspace exampleOutput []).2.trace =
      [(CallKind.matmul, CFloat.two), (CallKind.kernel, CFloat.two)] :=
  ⟨by decide, by decide, by decide,
    ((C29_scale_factor_in_matmul_and_in_stockham_kernel (exampleEnv CNFFT_FUNC_STOCKHAM)
      exampleBackend
      (makeRFFT1dPolicy (exampleEnv CNFFT_FUNC_STOCKHAM) exampleHandle
        (examplePlan 12 2 12 14 true true)).2
      exampleInput CFloat.two exampleWorkspace exampleOutput (by decide)).2.2.2
      (by decide)).2.2 (by decide)⟩

end RFFT

/-! # Claims about mluOpRoiPointPool3d -/

namespace RoiPointPool3d

open RFFT RFFT.mluOpStatus_t

/-- C20: the null-pointer checks of mluOpRoiPointPool3d, as its parameter tests
describe them.  With `workspace_size = 64` the call returns
MLUOP_STATUS_BAD_PARAM whenever the handle, one of the five tensor
descriptors, one of the five data pointers or the workspace pointer is null,
whatever the other arguments are; each of the twelve parameter tests of the
fixture, which leaves exactly one object uncreated, gets
MLUOP_STATUS_BAD_PARAM from `compute`; with every object created the null
checks pass. -/
theorem C20_null_pointer_is_bad_param (otherwise : mluOpStatus_t) :
    (∀ (handle points_desc points point_features_desc point_features boxes3d_desc boxes3d
        workspace pooled_features_desc pooled_features pooled_empty_flag_desc
        pooled_empty_flag : Ptr)
      (batch_size pts_num boxes_num feature_in_len sampled_pts_num : Int),
      (handle = Ptr.nullptr ∨ points_desc = Ptr.nullptr ∨ points = Ptr.nullptr ∨
        point_features_desc = Ptr.nullptr ∨ point_features = Ptr.nullptr ∨
        boxes3d_desc = Ptr.nullptr ∨ boxes3d = Ptr.nullptr ∨
        pooled_features_desc = Ptr.nullptr ∨ pooled_features = Ptr.nullptr ∨
        pooled_empty_flag_desc = Ptr.nullptr ∨ pooled_empty_flag = Ptr.nullptr ∨
        workspace = Ptr.nullptr) →
      mluOpRoiPointPool3d otherwise handle batch_size pts_num boxes_num feature_in_len
        sampled_pts_num points_desc points point_features_desc point_features boxes3d_desc
        boxes3d workspace 64 pooled_features_desc pooled_features pooled_empty_flag_desc
        pooled_empty_flag = MLUOP_STATUS_BAD_PARAM) ∧
    compute otherwise
        (setParam false true true true true true true true true true true true) =
      MLUOP_STATUS_BAD_PARAM ∧
    compute otherwise
        (setParam true false true true true true true true true true true true) =
      MLUOP_STATUS_BAD_PARAM ∧
    compute otherwise
        (setParam true true false true true true true true true true true true) =
      MLUOP_STATUS_BAD_PARAM ∧
    compute otherwise
        (setParam true true true false true true true true true true true true) =
      MLUOP_STATUS_BAD_PARAM ∧
    compute otherwise
        (setParam true true true true false true true true true true true true) =
      MLUOP_STATUS_BAD_PARAM ∧
    compute otherwise
        (setParam true true true true true false true true true true true true) =
      MLUOP_STATUS_BAD_PARAM ∧
    compute otherwise
        (setParam true true true true true true false true true true true true) =
      MLUOP_STATUS_BAD_PARAM ∧
    compute otherwise
        (setParam true true true true true true true false true true true true) =
      MLUOP_STATUS_BAD_PARAM ∧
    compute otherwise
        (setParam true true true true true true true true false true true true) =
      MLUOP_STATUS_BAD_PARAM ∧
    compute otherwise
        (setParam true true true true true true true true true false true true) =
      MLUOP_STATUS_BAD_PARAM ∧
    compute otherwise
        (setParam true true true true true true true true true true false true) =
      MLUOP_STATUS_BAD_PARAM ∧
    compute otherwise
        (setParam true true true true true true true true true true true false) =
      MLUOP_STATUS_BAD_PARAM ∧
    compute otherwise
        (setParam true true true true true true true true true true true true) = otherwise := by
  refine ⟨?_, rfl, rfl, rfl, rfl, rfl, rfl, rfl, rfl, rfl, rfl, rfl, rfl, rfl⟩
  intro handle points_desc points point_features_desc point_features boxes3d_desc boxes3d
    workspace pooled_features_desc pooled_features pooled_empty_flag_desc pooled_empty_flag
    batch_size pts_num boxes_num feature_in_len sampled_pts_num h
  unfold mluOpRoiPointPool3d
  rcases h with h | h | h | h | h | h | h | h | h | h | h | h <;> simp [h]

end RoiPointPool3d

/-! # Claims about the CPU reference of roi_align_rotated_forward -/

namespace RoiAlignRotatedForward

/-! ## Lemmas: the conversion to float -/

/-- An integer below 2^24 is a float. -/
theorem natToFloat_small (n : Nat) (h : n < 2 ^ 24) : natToFloat n = n := by
  have e : significandShift 64 n = 0 := by
    simp only [significandShift, h, ↓reduceIte]
  simp only [natToFloat, e, pow_zero, Nat.div_one, Nat.mod_one, Nat.mul_zero, Nat.mul_one]
  simp

theorem intToFloat_small (z : Int) (h0 : 0 ≤ z) (h : z < 2 ^ 24) : intToFloat z = z := by
  have hz : z.toNat < 2 ^ 24 := by omega
  simp only [intToFloat, h0, ↓reduceIte, natToFloat_small _ hz]
  omega

/-! ## Lemmas: the loop nest -/

/-- A property of the loop state that every iteration carries from the count
`k` to the count `k + d` holds after the loop with the count advanced by
`d` for every iteration. -/
theorem forLoop_inv {σ : Type} (P : Nat → σ → Prop) (d : Nat) (bound : Int)
    (body : Nat → σ → σ) (hb : ∀ i k s, P k s → P (k + d) (body i s)) (k : Nat) (s : σ)
    (h : P k s) : P (k + bound.toNat * d) (forLoop bound body s) := by
  unfold forLoop
  generalize bound.toNat = n
  induction n with
  | zero => simpa using h
  | succ n ih =>
    rw [List.range_succ, List.foldl_append]
    simp only [List.foldl_cons, List.foldl_nil]
    have := hb n _ _ ih
    rw [Nat.add_assoc, ← Nat.succ_mul] at this
    exact this

/-- The corner indices lie in the feature map. -/
theorem corners_bounds (height width : Int) (y x : ℚ) (hh : 1 ≤ height) (hw : 1 ≤ width) :
    0 ≤ (corners height width y x).y_low ∧
      (corners height width y x).y_low ≤ (corners height width y x).y_high ∧
      (corners height width y x).y_high ≤ height - 1 ∧
      0 ≤ (corners height width y x).x_low ∧
      (corners height width y x).x_low ≤ (corners height width y x).x_high ∧
      (corners height width y x).x_high ≤ width - 1 := by
  have hfloor : ∀ q : ℚ, 0 ≤ floatToInt (if q < 0 then 0 else q) := by
    intro q
    unfold floatToInt
    split_ifs with h1 h2 h3
    · simp
    · exact absurd (le_refl (0 : ℚ)) h2
    · exact Int.floor_nonneg.2 h3
    · exact absurd (not_lt.1 h1) h3
  have hy := hfloor y
  have hx := hfloor x
  simp only [corners, ge_iff_le, decide_eq_true_eq]
  generalize floatToInt (if y < 0 then 0 else y) = a at hy ⊢
  generalize floatToInt (if x < 0 then 0 else x) = b at hx ⊢
  refine ⟨?_, ?_, ?_, ?_, ?_, ?_⟩ <;> split_ifs <;> omega

/-- The offsets read for an element computed from corner indices inside the
feature map are offsets into the feature map. -/
theorem offset_bounds (height width channel y_idx x_idx c_idx : Int)
    (hy0 : 0 ≤ y_idx) (hy1 : y_idx ≤ height - 1) (hx0 : 0 ≤ x_idx) (hx1 : x_idx ≤ width - 1)
    (hc0 : 0 ≤ c_idx) (hc1 : c_idx < channel) :
    0 ≤ (y_idx * width + x_idx) * channel + c_idx ∧
      (y_idx * width + x_idx) * channel + c_idx < height * width * channel := by
  have hw : 0 ≤ width := by omega
  have hch : 0 ≤ channel := by omega
  have h1 : 0 ≤ y_idx * width := mul_nonneg hy0 hw
  have h2 : y_idx * width ≤ (height - 1) * width := mul_le_mul_of_nonneg_right hy1 hw
  have h3 : y_idx * width + x_idx ≤ height * width - 1 := by
    have : (height - 1) * width = height * width - width := by ring
    omega
  have h4 : 0 ≤ y_idx * width + x_idx := by omega
  have h5 : 0 ≤ (y_idx * width + x_idx) * channel := mul_nonneg h4 hch
  have h6 : (y_idx * width + x_idx) * channel ≤ (height * width - 1) * channel :=
    mul_le_mul_of_nonneg_right h3 hch
  have h7 : (height * width - 1) * channel = height * width * channel - channel := by ring
  constructor
  · omega
  · omega

/-- Every offset read for an element that preCalcForBilinearInterpolate stores
is an offset into the feature map. -/
theorem preCalcEntry_offsets (height width channel : Int) (y x : ℚ) (hh : 1 ≤ height)
    (hw : 1 ≤ width) (c_idx : Int) (hc0 : 0 ≤ c_idx) (hc1 : c_idx < channel) :
    ∀ o ∈ featureOffsets (preCalcEntry height width channel y x) c_idx,
      0 ≤ o ∧ o < height * width * channel := by
  obtain ⟨b1, b2, b3, b4, b5, b6⟩ := corners_bounds height width y x hh hw
  have hz : (0 : Int) ≤ 0 + c_idx ∧ 0 + c_idx < height * width * channel := by
    have := offset_bounds height width channel 0 0 c_idx le_rfl (by omega) le_rfl (by omega)
      hc0 hc1
    simpa using this
  intro o ho
  unfold preCalcEntry at ho
  split_ifs at ho
  · simp only [featureOffsets, PreCalc.zero, List.mem_cons, List.mem_singleton,
      List.not_mem_nil, or_false, or_self] at ho
    rw [ho]
    exact hz
  · simp only [featureOffsets, List.mem_cons, List.mem_singleton, List.not_mem_nil,
      or_false] at ho
    rcases ho with rfl | rfl | rfl | rfl
    · exact offset_bounds _ _ _ _ _ _ b1 (by omega) b4 (by omega) hc0 hc1
    · exact offset_bounds _ _ _ _ _ _ b1 (by omega) (by omega) b6 hc0 hc1
    · exact offset_bounds _ _ _ _ _ _ (by omega) b3 b4 (by omega) hc0 hc1
    · exact offset_bounds _ _ _ _ _ _ (by omega) b3 (by omega) b6 hc0 hc1

/-- The loop nest of preCalcForBilinearInterpolate: the number of elements
stored, the indices they go to, and where they come from. -/
theorem preCalcForBilinearInterpolate_writes (height width channel pooled_height pooled_width
    roi_bin_grid_h roi_bin_grid_w : Int) (sample : Nat → Nat → Nat → Nat → ℚ × ℚ) :
    (preCalcForBilinearInterpolate height width channel pooled_height pooled_width
        roi_bin_grid_h roi_bin_grid_w sample).pre_calc_idx =
      pooled_height.toNat * pooled_width.toNat * roi_bin_grid_h.toNat * roi_bin_grid_w.toNat ∧
    (preCalcForBilinearInterpolate height width channel pooled_height pooled_width
        roi_bin_grid_h roi_bin_grid_w sample).writes.map Prod.fst =
      List.range
        (pooled_height.toNat * pooled_width.toNat * roi_bin_grid_h.toNat *
          roi_bin_grid_w.toNat) ∧
    ∀ w ∈ (preCalcForBilinearInterpolate height width channel pooled_height pooled_width
        roi_bin_grid_h roi_bin_grid_w sample).writes,
      ∃ ph pw iy ix : Nat, w.2 = preCalcEntry height width channel (sample ph pw iy ix).1
        (sample ph pw iy ix).2 := by
  let P : Nat → PreCalcState → Prop := fun k s =>
    s.pre_calc_idx = k ∧ s.writes.map Prod.fst = List.range k ∧
      ∀ w ∈ s.writes, ∃ ph pw iy ix : Nat,
        w.2 = preCalcEntry height width channel (sample ph pw iy ix).1 (sample ph pw iy ix).2
  have h0 : P 0 { pre_calc_idx := 0, writes := [] } := by
    refine ⟨rfl, rfl, ?_⟩
    intro w hw
    simp at hw
  have hbody : ∀ ph pw iy ix k s, P k s →
      P (k + 1)
        { pre_calc_idx := s.pre_calc_idx + 1
          writes := s.writes ++ [(s.pre_calc_idx,
            preCalcEntry height width channel (sample ph pw iy ix).1
              (sample ph pw iy ix).2)] } := by
    intro ph pw iy ix k s hs
    obtain ⟨h1, h2, h3⟩ := hs
    refine ⟨by simp only [h1], ?_, ?_⟩
    · simp only [List.map_append, h2, List.map_cons, List.map_nil, h1, List.range_succ]
    · intro w hw
      rcases List.mem_append.1 hw with hw | hw
      · exact h3 w hw
      · rw [List.mem_singleton.1 hw]
        exact ⟨ph, pw, iy, ix, rfl⟩
  have hall := forLoop_inv P _ pooled_height
    (fun ph s => forLoop pooled_width (fun pw s =>
      forLoop roi_bin_grid_h (fun iy s =>
        forLoop roi_bin_grid_w (fun ix s =>
          { pre_calc_idx := s.pre_calc_idx + 1
            writes := s.writes ++ [(s.pre_calc_idx,
              preCalcEntry height width channel (sample ph pw iy ix).1
                (sample ph pw iy ix).2)] }) s) s) s)
    (fun ph k s hs => forLoop_inv P _ pooled_width _
      (fun pw k s hs => forLoop_inv P _ roi_bin_grid_h _
        (fun iy k s hs => forLoop_inv P 1 roi_bin_grid_w _
          (fun ix k s hs => hbody ph pw iy ix k s hs) k s hs) k s hs) k s hs) 0 _ h0
  have e : 0 + pooled_height.toNat * (pooled_width.toNat * (roi_bin_grid_h.toNat *
      (roi_bin_grid_w.toNat * 1))) =
      pooled_height.toNat * pooled_width.toNat * roi_bin_grid_h.toNat *
        roi_bin_grid_w.toNat := by
    ring
  rw [e] at hall
  exact hall

/-- An `int` value within the 32-bit range is kept by the reduction to that
range. -/
theorem int32_of_range (z : Int) (h0 : 0 ≤ z) (h1 : z < 2 ^ 31) : RFFT.int32 z = z := by
  unfold RFFT.int32
  omega

/-- The size of `pre_calc` when the number of elements is below 2^24: no
product wraps around and no conversion to float rounds. -/
theorem cpuCompute_pre_calc_size_exact (pooled_height pooled_width roi_bin_grid_h
    roi_bin_grid_w : Int) (hph : 0 ≤ pooled_height) (hpw : 0 ≤ pooled_width)
    (hgh : 0 ≤ roi_bin_grid_h) (hgw : 0 ≤ roi_bin_grid_w)
    (hsmall : pooled_height * pooled_width * max (roi_bin_grid_h * roi_bin_grid_w) 1 < 2 ^ 24) :
    (cpuCompute_pre_calc_size pooled_height pooled_width roi_bin_grid_h roi_bin_grid_w : Int) =
      pooled_height * pooled_width * max (roi_bin_grid_h * roi_bin_grid_w) 1 := by
  have hp : 0 ≤ pooled_height * pooled_width := mul_nonneg hph hpw
  have hg : 0 ≤ roi_bin_grid_h * roi_bin_grid_w := mul_nonneg hgh hgw
  have hm : 1 ≤ max (roi_bin_grid_h * roi_bin_grid_w) 1 := le_max_right _ _
  have hgm : roi_bin_grid_h * roi_bin_grid_w ≤ max (roi_bin_grid_h * roi_bin_grid_w) 1 :=
    le_max_left _ _
  unfold cpuCompute_pre_calc_size
  simp only []
  rcases eq_or_lt_of_le hp with h0 | hpos
  · rw [← h0]
    have z : intToFloat 0 = 0 := intToFloat_small 0 le_rfl (by norm_num)
    have z32 : RFFT.int32 0 = 0 := int32_of_range 0 le_rfl (by norm_num)
    rw [z32, z, Int.zero_mul, z]
    simp
  · generalize hG : roi_bin_grid_h * roi_bin_grid_w = g at hsmall hm hg hgm ⊢
    generalize hP : pooled_height * pooled_width = p at hsmall hp hpos ⊢
    have h1 : p * 1 ≤ p * max g 1 := mul_le_mul_of_nonneg_left hm hp
    have h2 : 1 * max g 1 ≤ p * max g 1 :=
      mul_le_mul_of_nonneg_right (by omega) (by omega)
    have hg32 : RFFT.int32 g = g := by
      apply int32_of_range g hg
      generalize p * max g 1 = q at hsmall h1 h2
      generalize max g 1 = m at hgm h2
      omega
    have hp32 : RFFT.int32 p = p := by
      apply int32_of_range p hp
      generalize p * max g 1 = q at hsmall h1 h2
      omega
    rw [hg32, hp32]
    generalize max g 1 = m at hsmall hm h1 h2 ⊢
    have h3 : 0 ≤ p * m := mul_nonneg hp (by omega)
    rw [intToFloat_small p hp (by omega), intToFloat_small m (by omega) (by omega),
      intToFloat_small (p * m) h3 hsmall]
    exact Int.toNat_of_nonneg h3

/-- The size of `pre_calc` for one output element and a 4097 x 4097 sampling
grid: the count 16785409 is rounded to the float 16785408. -/
theorem cpuCompute_pre_calc_size_4097 : cpuCompute_pre_calc_size 1 1 4097 4097 = 16785408 := by
  decide

/-! ## The claim -/

/-- C30: the elements preCalcForBilinearInterpolate stores and the size of
`pre_calc` in cpuCompute.  For `height >= 1`, `width >= 1` and any finite
sample coordinates:

* the loop nest stores `pooled_height * pooled_width * roi_bin_grid_h *
  roi_bin_grid_w` elements (each bound counted as 0 when it is negative), at
  the consecutive indices 0, 1, 2, ...; for non-negative bounds this number is
  at most `pooled_height * pooled_width * max(roi_bin_grid_h * roi_bin_grid_w, 1)`;
* every element stored is the one computed for a sample point: the all-zero
  element when the point is outside the feature map, and otherwise the element
  with the four offsets `(y * width + x) * channel` for corner indices with
  `0 <= y_low <= y_high <= height - 1` and `0 <= x_low <= x_high <= width - 1`;
* for every element stored and every `0 <= c_idx < channel` the four offsets
  `pos + c_idx` lie in `[0, height * width * channel)`;
* the size cpuCompute gives `pre_calc` is computed in `float`; it is
  `pooled_height * pooled_width * max(roi_bin_grid_h * roi_bin_grid_w, 1)` when
  this number is below 2^24, so that every element stored has its place; for
  `pooled_height = pooled_width = 1` and `roi_bin_grid_h = roi_bin_grid_w = 4097`
  the size is 16785408, one less than the number of elements stored. -/
theorem C30_pre_calc_writes_and_offsets (height width channel pooled_height pooled_width
    roi_bin_grid_h roi_bin_grid_w : Int) (sample : Nat → Nat → Nat → Nat → ℚ × ℚ)
    (hh : 1 ≤ height) (hw : 1 ≤ width) :
    (let s := preCalcForBilinearInterpolate height width channel pooled_height pooled_width
      roi_bin_grid_h roi_bin_grid_w sample;
    let total : Nat :=
      pooled_height.toNat * pooled_width.toNat * roi_bin_grid_h.toNat * roi_bin_grid_w.toNat;
    let size : Nat :=
      cpuCompute_pre_calc_size pooled_height pooled_width roi_bin_grid_h roi_bin_grid_w;
    (s.pre_calc_idx = total ∧ s.writes.map Prod.fst = List.range total) ∧
    (0 ≤ pooled_height → 0 ≤ pooled_width → 0 ≤ roi_bin_grid_h → 0 ≤ roi_bin_grid_w →
      (total : Int) = pooled_height * pooled_width * roi_bin_grid_h * roi_bin_grid_w ∧
      (total : Int) ≤
        pooled_height * pooled_width * max (roi_bin_grid_h * roi_bin_grid_w) 1) ∧
    (∀ w ∈ s.writes, ∃ ph pw iy ix : Nat,
      w.2 = preCalcEntry height width channel (sample ph pw iy ix).1 (sample ph pw iy ix).2) ∧
    (∀ y x : ℚ, outOfMap height width y x = true →
      preCalcEntry height width channel y x = PreCalc.zero) ∧
    (∀ y x : ℚ, outOfMap height width y x = false →
      (preCalcEntry height width channel y x).pos1 =
          ((corners height width y x).y_low * width + (corners height width y x).x_low) *
            channel ∧
        (preCalcEntry height width channel y x).pos2 =
          ((corners height width y x).y_low * width + (corners height width y x).x_high) *
            channel ∧
        (preCalcEntry height width channel y x).pos3 =
          ((corners height width y x).y_high * width + (corners height width y x).x_low) *
            channel ∧
        (preCalcEntry height width channel y x).pos4 =
          ((corners height width y x).y_high * width + (corners height width y x).x_high) *
            channel ∧
        0 ≤ (corners height width y x).y_low ∧
        (corners height width y x).y_low ≤ (corners height width y x).y_high ∧
        (corners height width y x).y_high ≤ height - 1 ∧
        0 ≤ (corners height width y x).x_low ∧
        (corners height width y x).x_low ≤ (corners height width y x).x_high ∧
        (corners height width y x).x_high ≤ width - 1) ∧
    (∀ w ∈ s.writes, ∀ c_idx : Int, 0 ≤ c_idx → c_idx < channel →
      ∀ o ∈ featureOffsets w.2 c_idx, 0 ≤ o ∧ o < height * width * channel) ∧
    (0 ≤ pooled_height → 0 ≤ pooled_width → 0 ≤ roi_bin_grid_h → 0 ≤ roi_bin_grid_w →
      pooled_height * pooled_width * max (roi_bin_grid_h * roi_bin_grid_w) 1 < 2 ^ 24 →
      (size : Int) = pooled_height * pooled_width * max (roi_bin_grid_h * roi_bin_grid_w) 1 ∧
        ∀ w ∈ s.writes, w.1 < size) ∧
    (pooled_height = 1 → pooled_width = 1 → roi_bin_grid_h = 4097 → roi_bin_grid_w = 4097 →
      size = 16785408 ∧ s.pre_calc_idx = 16785409 ∧
        16785408 ∈ s.writes.map Prod.fst)) := by
  intro s total size
  obtain ⟨hidx, hrange, hfrom⟩ := preCalcForBilinearInterpolate_writes height width channel
    pooled_height pooled_width roi_bin_grid_h roi_bin_grid_w sample
  have htotal : 0 ≤ pooled_height → 0 ≤ pooled_width → 0 ≤ roi_bin_grid_h →
      0 ≤ roi_bin_grid_w →
      (total : Int) = pooled_height * pooled_width * roi_bin_grid_h * roi_bin_grid_w ∧
      (total : Int) ≤
        pooled_height * pooled_width * max (roi_bin_grid_h * roi_bin_grid_w) 1 := by
    intro h1 h2 h3 h4
    have e : (total : Int) =
        pooled_height * pooled_width * roi_bin_grid_h * roi_bin_grid_w := by
      simp only [total, Nat.cast_mul, Int.toNat_of_nonneg h1, Int.toNat_of_nonneg h2,
        Int.toNat_of_nonneg h3, Int.toNat_of_nonneg h4]
    refine ⟨e, ?_⟩
    rw [e, mul_assoc (pooled_height * pooled_width)]
    exact mul_le_mul_of_nonneg_left (le_max_left _ _) (mul_nonneg h1 h2)
  refine ⟨⟨hidx, hrange⟩, htotal, hfrom, ?_, ?_, ?_, ?_, ?_⟩
  · intro y x ho
    simp only [preCalcEntry, ho, ↓reduceIte]
  · intro y x ho
    obtain ⟨b1, b2, b3, b4, b5, b6⟩ := corners_bounds height width y x hh hw
    simp only [preCalcEntry, ho, Bool.false_eq_true, ↓reduceIte]
    exact ⟨trivial, trivial, trivial, trivial, b1, b2, b3, b4, b5, b6⟩
  · intro w hmem c_idx hc0 hc1
    obtain ⟨ph, pw, iy, ix, e⟩ := hfrom w hmem
    rw [e]
    exact preCalcEntry_offsets height width channel _ _ hh hw c_idx hc0 hc1
  · intro h1 h2 h3 h4 hsmall
    have hsize := cpuCompute_pre_calc_size_exact pooled_height pooled_width roi_bin_grid_h
      roi_bin_grid_w h1 h2 h3 h4 hsmall
    refine ⟨hsize, ?_⟩
    intro w hmem
    have hw1 : w.1 ∈ s.writes.map Prod.fst := List.mem_map_of_mem _ hmem
    rw [hrange, List.mem_range] at hw1
    have hle := (htotal h1 h2 h3 h4).2
    have : (w.1 : Int) < (size : Int) := by
      rw [hsize]
      omega
    exact_mod_cast this
  · intro e1 e2 e3 e4
    have hsz : size = 16785408 := by
      simp only [size, e1, e2, e3, e4]
      exact cpuCompute_pre_calc_size_4097
    have ht : pooled_height.toNat * pooled_width.toNat * roi_bin_grid_h.toNat *
        roi_bin_grid_w.toNat = 16785409 := by
      rw [e1, e2, e3, e4]
      decide
    refine ⟨hsz, by rw [hidx, ht], ?_⟩
    rw [hrange, ht, List.mem_range]
    decide

/-- C30, witness: one output element of a 1 x 1 feature map with a
4097 x 4097 sampling grid; the loop nest stores 16785409 elements, the last
one at the index 16785408, the size of `pre_calc`. -/
theorem C30_pre_calc_writes_and_offsets_witness :
    (1 : Int) ≤ 1 ∧
    cpuCompute_pre_calc_size 1 1 4097 4097 = 16785408 ∧
    (preCalcForBilinearInterpolate 1 1 1 1 1 4097 4097
      (fun _ _ _ _ => (0, 0))).pre_calc_idx = 16785409 ∧
    16785408 ∈ (preCalcForBilinearInterpolate 1 1 1 1 1 4097 4097
      (fun _ _ _ _ => (0, 0))).writes.map Prod.fst :=
  ⟨le_refl 1,
    (C30_pre_calc_writes_and_offsets 1 1 1 1 1 4097 4097 (fun _ _ _ _ => (0, 0)) (le_refl 1)
      (le_refl 1)).2.2.2.2.2.2.2 rfl rfl rfl rfl⟩

end RoiAlignRotatedForward
